import Mathlib

/-!
# Khawasu core: logical protocol, dispatcher, subscriptions, packet pool

A shallow embedding of `logical_proto.h`, `overlay_proto.h`, `pool_memory_allocator.h`,
`logical_device.cpp` and `logical_device_manager.cpp`.

Conventions of the embedding.

* Memory is a list of byte values (`List Nat`); a pointer into a packet is an offset.
  A read past the end of the list yields `0`.
* Machine integers are natural numbers; a reduction `% 2 ^ w` is written wherever the
  source narrows or may wrap.  A signed 32-bit product that overflows wraps and is
  sign-extended.
* `net_load`, `net_store` and `net_memcpy` live in `net_utils.h`, which is not among the
  sources; they follow the specification (network byte order).  A plain assignment to a
  packet field uses the byte order of the host, a parameter of the node.
* Virtual device hooks are recorded in a trace of `Event`s.  The two hooks whose result
  steers the dispatcher (`on_general_packet_accept`, `on_action_set`) are functions
  stored in the device; every other hook is the base-class no-op.
* The mutual recursion `dispatch_packet -> handle_packet -> finish_ptr -> dispatch_packet`
  is tied with a fuel counter; a run that does not return within the fuel is `stuck`
  and keeps the trace of what happened before.  Replies are never answered, so fuel 2
  is enough for `dispatch_packet` unless `PoolMemoryAllocator::free` is reached with a
  heap pointer, where the source recurses without end.
-/

namespace Khawasu

/-! ## Bytes and byte order -/

/-- Byte at offset `i` of a memory region. -/
def load8 (m : List Nat) (i : Nat) : Nat := m.getD i 0

/-- Modelled from the spec: `net_load` of `net_utils.h` (not among the sources) on a
16-bit field; the spec fixes network byte order, most significant byte first. -/
def net_load16 (m : List Nat) (i : Nat) : Nat := load8 m i * 256 + load8 m (i + 1)

/-- Modelled from the spec: `net_load` of `net_utils.h` (not among the sources) on a
32-bit field, most significant byte first. -/
def net_load32 (m : List Nat) (i : Nat) : Nat :=
  ((load8 m i * 256 + load8 m (i + 1)) * 256 + load8 m (i + 2)) * 256 + load8 m (i + 3)

/-- Modelled from the spec: `net_memcpy` of `net_utils.h` (not among the sources), a
byte-wise copy of `src` to offset `pos` of `buf`. -/
def net_memcpy : List Nat → Nat → List Nat → List Nat
  | buf, _, [] => buf
  | buf, pos, b :: bs => net_memcpy (buf.set pos b) (pos + 1) bs

/-- Modelled from the spec: `net_store` of `net_utils.h` (not among the sources) on a
one-byte field. -/
def net_store8 (buf : List Nat) (pos v : Nat) : List Nat := buf.set pos (v % 256)

/-- Modelled from the spec: `net_store` of `net_utils.h` (not among the sources) on a
16-bit field, network byte order. -/
def net_store16 (buf : List Nat) (pos v : Nat) : List Nat :=
  net_memcpy buf pos [v / 256 % 256, v % 256]

/-- Modelled from the spec: `net_store` of `net_utils.h` (not among the sources) on a
32-bit field, network byte order. -/
def net_store32 (buf : List Nat) (pos v : Nat) : List Nat :=
  net_memcpy buf pos [v / 16777216 % 256, v / 65536 % 256, v / 256 % 256, v % 256]

/-- A plain C++ assignment to a 16-bit field: the bytes land in the byte order of the
host (`little = true` on ESP32 and x86). -/
def host_store16 (little : Bool) (buf : List Nat) (pos v : Nat) : List Nat :=
  if little then net_memcpy buf pos [v % 256, v / 256 % 256]
  else net_memcpy buf pos [v / 256 % 256, v % 256]

/-! ## `logical_proto.h` -/

/-- The constant `LogicalProto::BROADCAST_PORT`. -/
def BROADCAST_PORT : Nat := 65535

/-- The enumeration `LogicalProto::LogicalPacketType`. -/
inductive LogicalPacketType
  | UNKNOWN
  | HELLO_WORLD
  | HELLO_WORLD_RESPONSE
  | FIELD_DICTIONARY_REQUEST
  | FIELD_DICTIONARY_RESPONSE
  | GROUPS_LIST_REQUEST
  | GROUPS_LIST_RESPONSE
  | GROUPS_ADD
  | GROUPS_EDIT
  | GROUPS_REMOVE
  | GROUPS_FIND_USERS_REQUEST
  | GROUPS_FIND_USERS_RESPONSE
  | ACTION_EXECUTE
  | ACTION_EXECUTE_RESULT
  | ACTION_FETCH
  | ACTION_RESPONSE
  | SUBSCRIPTION_START
  | SUBSCRIPTION_DONE
  | SUBSCRIPTION_CALLBACK
  | SUBSCRIPTION_STOP
  deriving DecidableEq, Repr

/-- Numeric value of an opcode (enumerators count up from `UNKNOWN = 0`). -/
def LogicalPacketType.toNat : LogicalPacketType → Nat
  | .UNKNOWN => 0
  | .HELLO_WORLD => 1
  | .HELLO_WORLD_RESPONSE => 2
  | .FIELD_DICTIONARY_REQUEST => 3
  | .FIELD_DICTIONARY_RESPONSE => 4
  | .GROUPS_LIST_REQUEST => 5
  | .GROUPS_LIST_RESPONSE => 6
  | .GROUPS_ADD => 7
  | .GROUPS_EDIT => 8
  | .GROUPS_REMOVE => 9
  | .GROUPS_FIND_USERS_REQUEST => 10
  | .GROUPS_FIND_USERS_RESPONSE => 11
  | .ACTION_EXECUTE => 12
  | .ACTION_EXECUTE_RESULT => 13
  | .ACTION_FETCH => 14
  | .ACTION_RESPONSE => 15
  | .SUBSCRIPTION_START => 16
  | .SUBSCRIPTION_DONE => 17
  | .SUBSCRIPTION_CALLBACK => 18
  | .SUBSCRIPTION_STOP => 19

/-- The enumerator a type byte denotes, if any (a `switch` on any other value takes
the `default` label). -/
def LogicalPacketType.ofNat? (n : Nat) : Option LogicalPacketType :=
  if n = 0 then some .UNKNOWN
  else if n = 1 then some .HELLO_WORLD
  else if n = 2 then some .HELLO_WORLD_RESPONSE
  else if n = 3 then some .FIELD_DICTIONARY_REQUEST
  else if n = 4 then some .FIELD_DICTIONARY_RESPONSE
  else if n = 5 then some .GROUPS_LIST_REQUEST
  else if n = 6 then some .GROUPS_LIST_RESPONSE
  else if n = 7 then some .GROUPS_ADD
  else if n = 8 then some .GROUPS_EDIT
  else if n = 9 then some .GROUPS_REMOVE
  else if n = 10 then some .GROUPS_FIND_USERS_REQUEST
  else if n = 11 then some .GROUPS_FIND_USERS_RESPONSE
  else if n = 12 then some .ACTION_EXECUTE
  else if n = 13 then some .ACTION_EXECUTE_RESULT
  else if n = 14 then some .ACTION_FETCH
  else if n = 15 then some .ACTION_RESPONSE
  else if n = 16 then some .SUBSCRIPTION_START
  else if n = 17 then some .SUBSCRIPTION_DONE
  else if n = 18 then some .SUBSCRIPTION_CALLBACK
  else if n = 19 then some .SUBSCRIPTION_STOP
  else none

/-- The value `LogicalProto::ActionExecuteFlags::REQUIRE_STATUS_RESPONSE` (`1 << 0`). -/
def REQUIRE_STATUS_RESPONSE : Nat := 1

/-- The macro `LOG_PACKET_SIZE(dst_addr)`: end offset of the `dst_addr` field in the
packed `LogicalPacket` (`type` 1 byte, `src_addr` 2, `dst_addr` 2). -/
def LOG_PACKET_SIZE_dst_addr : Nat := 5

/-- The function `LogicalPacket::get_header_size`: offset of the union. -/
def get_header_size : Nat := 5

/-- The function `LogicalPacket::get_packet_size`: `LOG_PACKET_SIZE(member)` is the
union offset 5 plus `sizeof` of the member under `#pragma pack(1)`.  A struct whose only
members are zero-length arrays adds nothing; a struct with no member at all has
`sizeof == 1` in C++. -/
def get_packet_size : LogicalPacketType → Nat
  | .UNKNOWN => 0
  | .HELLO_WORLD => 12
  | .HELLO_WORLD_RESPONSE => 12
  | .FIELD_DICTIONARY_REQUEST => 6
  | .FIELD_DICTIONARY_RESPONSE => 7
  | .GROUPS_LIST_REQUEST => 6
  | .GROUPS_LIST_RESPONSE => 6
  | .GROUPS_ADD => 6
  | .GROUPS_EDIT => 6
  | .GROUPS_REMOVE => 6
  | .GROUPS_FIND_USERS_REQUEST => 6
  | .GROUPS_FIND_USERS_RESPONSE => 6
  | .ACTION_EXECUTE => 9
  | .ACTION_EXECUTE_RESULT => 9
  | .ACTION_FETCH => 8
  | .ACTION_RESPONSE => 9
  | .SUBSCRIPTION_START => 17
  | .SUBSCRIPTION_DONE => 13
  | .SUBSCRIPTION_CALLBACK => 9
  | .SUBSCRIPTION_STOP => 9

/-- The header size `get_packet_size` assigns to a raw type byte (`return 0` after the
`switch` for a byte that is no enumerator). -/
def header_size_of_byte (t : Nat) : Nat :=
  match LogicalPacketType.ofNat? t with
  | some ty => get_packet_size ty
  | none => 0

/-! ## `overlay_proto.h` -/

/-- The enumeration `OverlayProto::OverlayProtoType`. -/
inductive OverlayProtoType
  | UNKNOWN
  | RELIABLE
  | UNRELIABLE
  deriving DecidableEq, Repr

/-- Numeric value of an overlay type. -/
def OverlayProtoType.toNat : OverlayProtoType → Nat
  | .UNKNOWN => 0
  | .RELIABLE => 1
  | .UNRELIABLE => 2

/-- The function `OverlayPacket::get_packet_size`. -/
def OverlayPacket.get_packet_size : OverlayProtoType → Nat
  | .UNKNOWN => 0
  | .RELIABLE => 3
  | .UNRELIABLE => 1

/-! ## `pool_memory_allocator.h` -/

/-- What `alloc` hands out: the start of pool slot `index`, or a block from `malloc`. -/
inductive Ptr
  | slot (index : Nat)
  | heap
  deriving DecidableEq, Repr

/-- The class `PoolMemoryAllocator<piece_size, count>`; `count` is the length of
`used_bits`.  The two template arguments come from macros that are not among the
sources, so they are parameters here. -/
structure PoolMemoryAllocator where
  piece_size : Nat
  packets : List (List Nat)
  used_bits : List Bool

/-- The scan `for (i = 0; i < count; ++i) if (!used_bits[i])`: first clear bit. -/
def first_clear : List Bool → Option Nat
  | [] => none
  | b :: bs => if !b then some 0 else (first_clear bs).map (fun i => i + 1)

/-- The method `PoolMemoryAllocator::alloc`. -/
def PoolMemoryAllocator.alloc (a : PoolMemoryAllocator) (size : Nat) :
    PoolMemoryAllocator × Ptr :=
  if size > a.piece_size then (a, Ptr.heap)
  else if a.used_bits.all (fun b => b) then (a, Ptr.heap)
  else
    match first_clear a.used_bits with
    | some i => ({ a with used_bits := a.used_bits.set i true }, Ptr.slot i)
    | none => (a, Ptr.heap)

/-- The method `PoolMemoryAllocator::free`.  For a pointer outside the slot range the
body is the call `free(ptr)`, which inside the class names this very method: it calls
itself with the same pointer, so no amount of fuel yields a result. -/
def PoolMemoryAllocator.free : Nat → PoolMemoryAllocator → Ptr → Option PoolMemoryAllocator
  | 0, _, _ => none
  | _ + 1, a, Ptr.slot index => some { a with used_bits := a.used_bits.set index false }
  | fuel + 1, a, Ptr.heap => PoolMemoryAllocator.free fuel a Ptr.heap

/-! ## `logical_device.h`: static device data -/

/-- The struct `LogicalAddress`. -/
structure LogicalAddress where
  phy : Nat
  log : Nat
  deriving DecidableEq, Repr

/-- The constant `LogicalAddress::NULL_ADDR`. -/
def LogicalAddress.NULL_ADDR : Nat := 0

/-- The default constructor `LogicalAddress()`: `phy(0), log(0)`. -/
def LogicalAddress.default_constructed : LogicalAddress := { phy := 0, log := 0 }

/-- The method `LogicalAddress::is_valid`: `return phy == NULL_ADDR;`. -/
def LogicalAddress.is_valid (a : LogicalAddress) : Bool :=
  decide (a.phy = LogicalAddress.NULL_ADDR)

/-- The struct `DeviceAttrib`; the constructor narrows both lengths to `ubyte`. -/
structure DeviceAttrib where
  name : List Nat
  value : List Nat
  deriving DecidableEq, Repr

/-- The member `DeviceAttrib::name_len`. -/
def DeviceAttrib.name_len (a : DeviceAttrib) : Nat := a.name.length % 256

/-- The member `DeviceAttrib::value_len`. -/
def DeviceAttrib.value_len (a : DeviceAttrib) : Nat := a.value.length % 256

/-- The struct `DeviceApiField`; the constructor narrows the length to `ubyte`. -/
structure DeviceApiField where
  string : List Nat
  deriving DecidableEq, Repr

/-- The member `DeviceApiField::length`. -/
def DeviceApiField.length (f : DeviceApiField) : Nat := f.string.length % 256

/-- The struct `DeviceApiAction`; `type` is an `ActionType` value. -/
structure DeviceApiAction where
  name : List Nat
  type : Nat
  deriving DecidableEq, Repr

/-- The member `DeviceApiAction::length`. -/
def DeviceApiAction.length (a : DeviceApiAction) : Nat := a.name.length % 256

/-! ## `SubscriptionManager` -/

/-- The struct `SubscriptionManager::Subscriber`. -/
structure Subscriber where
  addr : LogicalAddress
  end_time : Nat
  next_periodic_update_time : Nat
  period : Nat
  subscription_id : Nat
  action_id : Nat
  deriving DecidableEq, Repr

/-- The data members of `SubscriptionManager` (the back pointer `device` is the port
under which events are recorded). -/
structure SubscriptionManager where
  subscribers : List Subscriber
  self_update_period : Nat
  self_update_next : Nat
  deriving DecidableEq, Repr

/-- The value `0ull - 1`. -/
def U64_MAX : Nat := 2 ^ 64 - 1

/-- The constructor `SubscriptionManager::SubscriptionManager`.  The member
`self_update_period` has no initialiser; `period0` stands for its indeterminate
value. -/
def SubscriptionManager.init (period0 : Nat) : SubscriptionManager :=
  { subscribers := [], self_update_period := period0, self_update_next := U64_MAX }

/-- Every observable call: the device hooks, `finish_ptr`, the mesh write of
`OverlayPacketBuilder::send`, and the entry of `dispatch_packet`.  The first argument
of a hook event is the port under which the called device is registered; a packet
argument is the `size` bytes the pointer designates. -/
inductive Event
  | on_general_packet_accept (port : Nat) (packet : List Nat) (size src_phy : Nat)
  | on_device_discover (port : Nat) (packet : List Nat) (size src_phy : Nat)
  | on_device_field_dictionary (port : Nat) (fields : List Nat) (count src_phy : Nat)
  | on_subscription_data (port : Nat) (data : List Nat) (size : Nat) (addr : LogicalAddress)
      (sub_id : Nat)
  | on_subscription_timer_update (port : Nat) (addr : LogicalAddress) (sub_id act_id : Nat)
  | on_timer_update (port : Nat)
  | on_action_set (port action_id : Nat) (data : List Nat) (size : Nat) (addr : LogicalAddress)
  | on_action_get (port action_id : Nat) (data : List Nat) (size : Nat) (addr : LogicalAddress)
      (request_id : Nat)
  | on_action_get_response (port action_id : Nat) (data : List Nat) (size : Nat)
      (addr : LogicalAddress) (request_id : Nat)
  | finish_ptr (packet : List Nat) (size : Nat) (ovl_dst_phy : Option Nat)
  | mesh_write (dst_phy : Nat) (bytes : List Nat)
  | dispatch_packet (packet : List Nat) (size src_phy : Nat)
  deriving DecidableEq, Repr

/-- The product `net_load(packet->duration) * 1'000'000`: `ushort` times `int` is a
32-bit `int`; the result wraps to 32 bits and is sign-extended when it is added to the
64-bit clock value. -/
def duration_us (duration : Nat) : Nat :=
  let prod := duration * 1000000 % 2 ^ 32
  if prod < 2 ^ 31 then prod else 2 ^ 64 - 2 ^ 32 + prod

/-- The first loop of `add_subscriber`: the first subscriber with the same id and
address gets the new end time, and the method returns. -/
def refresh_subscriber (id : Nat) (addr : LogicalAddress) (end_time : Nat) :
    List Subscriber → Option (List Subscriber)
  | [] => none
  | sub :: rest =>
    if sub.subscription_id = id ∧ sub.addr = addr then
      some ({ sub with end_time := end_time } :: rest)
    else (refresh_subscriber id addr end_time rest).map (fun r => sub :: r)

/-- The row `add_subscriber` hands to `emplace_back`; `packet` is the memory at
`&packet->subscription_start` (`id` at 0, `action_id` at 4, `duration` at 6, `period`
at 8).  The product `packet_period * 1'000` is an unsigned 32-bit product; the
surrounding sum is 64-bit. -/
def new_subscriber (packet : List Nat) (addr : LogicalAddress) (time : Nat) : Subscriber :=
  let packet_period := net_load32 packet 8
  { addr := addr
    end_time := (time + duration_us (net_load16 packet 6)) % 2 ^ 64
    next_periodic_update_time :=
      if packet_period ≠ 0 then (time + packet_period * 1000 % 2 ^ 32 + 2 ^ 64 - 1) % 2 ^ 64
      else U64_MAX
    period := packet_period
    subscription_id := net_load32 packet 0
    action_id := net_load16 packet 4 }

/-- The method `SubscriptionManager::add_subscriber`; `time` is the value of
`get_microseconds()`. -/
def SubscriptionManager.add_subscriber (m : SubscriptionManager) (packet : List Nat)
    (_size : Nat) (addr : LogicalAddress) (time : Nat) : SubscriptionManager :=
  match refresh_subscriber (net_load32 packet 0) addr
      ((time + duration_us (net_load16 packet 6)) % 2 ^ 64) m.subscribers with
  | some subs => { m with subscribers := subs }
  | none => { m with subscribers := m.subscribers ++ [new_subscriber packet addr time] }

/-- The method `SubscriptionManager::set_self_update_period`. -/
def SubscriptionManager.set_self_update_period (m : SubscriptionManager) (us_period time : Nat) :
    SubscriptionManager :=
  { m with self_update_period := us_period, self_update_next := (time + us_period) % 2 ^ 64 }

/-- The method `SubscriptionManager::stop_self_update`. -/
def SubscriptionManager.stop_self_update (m : SubscriptionManager) : SubscriptionManager :=
  { m with self_update_next := U64_MAX }

/-- The method `SubscriptionManager::stop_subscription`; `packet` is the memory at
`&packet->subscription_stop` (`id` at 0). -/
def SubscriptionManager.stop_subscription (m : SubscriptionManager) (packet : List Nat)
    (addr : LogicalAddress) : SubscriptionManager :=
  let keep := fun (sub : Subscriber) =>
    !(decide (sub.subscription_id = net_load32 packet 0 ∧ sub.addr = addr))
  { m with subscribers := m.subscribers.filter keep }

/-- The `while` loop of `update_periodic` over the subscriber list: the surviving
subscribers and the `on_subscription_timer_update` calls, in list order. -/
def update_periodic_walk (port time : Nat) : List Subscriber → List Subscriber × List Event
  | [] => ([], [])
  | sub :: rest =>
    if time ≥ sub.end_time then update_periodic_walk port time rest
    else if sub.next_periodic_update_time ≤ time then
      ({ sub with next_periodic_update_time :=
            (sub.next_periodic_update_time + sub.period * 1000 % 2 ^ 32) % 2 ^ 64 }
          :: (update_periodic_walk port time rest).1,
        Event.on_subscription_timer_update port sub.addr sub.subscription_id sub.action_id
          :: (update_periodic_walk port time rest).2)
    else (sub :: (update_periodic_walk port time rest).1, (update_periodic_walk port time rest).2)

/-- The method `SubscriptionManager::update_periodic` at clock value `time`, for the
device registered under `port`: the new manager and the hook calls made. -/
def SubscriptionManager.update_periodic (m : SubscriptionManager) (port time : Nat) :
    SubscriptionManager × List Event :=
  let fired := decide (time > m.self_update_next)
  let next := if fired then (m.self_update_next + m.self_update_period) % 2 ^ 64
              else m.self_update_next
  let walk := update_periodic_walk port time m.subscribers
  ({ m with self_update_next := next, subscribers := walk.1 },
   (if fired then [Event.on_timer_update port] else []) ++ walk.2)

/-- A sequence of `update_periodic` calls at the given clock values, one after the
other: the final manager and all hook calls in order. -/
def SubscriptionManager.run_ticks (port : Nat) :
    List Nat → SubscriptionManager → SubscriptionManager × List Event
  | [], m => (m, [])
  | time :: rest, m =>
    ((SubscriptionManager.run_ticks port rest (m.update_periodic port time).1).1,
     (m.update_periodic port time).2 ++
       (SubscriptionManager.run_ticks port rest (m.update_periodic port time).1).2)

/-- Number of `on_subscription_timer_update` calls in an event list for the
subscriber identified by address and subscription id. -/
def timer_updates_for (addr : LogicalAddress) (sub_id : Nat) (evs : List Event) : Nat :=
  evs.countP (fun e =>
    match e with
    | Event.on_subscription_timer_update _ a i _ => decide (a = addr ∧ i = sub_id)
    | _ => false)

/-! ## Devices and the node state -/

/-- The class `LogicalDevice`: its data members, what the `get_*` methods return, and
the two hooks whose result the dispatcher uses. -/
structure Device where
  self_port : Nat
  name : List Nat
  device_class : Nat
  attribs : List DeviceAttrib
  api_fields : List DeviceApiField
  api_actions : List DeviceApiAction
  on_general_packet_accept : List Nat → Nat → Nat → Bool
  on_action_set : Nat → List Nat → Nat → LogicalAddress → Nat
  subscriptions : SubscriptionManager

/-- The node: the mesh constants `g_fresh_mesh->self_addr` and
`MeshProto::BROADCAST_FAR_ADDR`, the byte order of the host, the clock, the contents
`malloc` returns (byte `i` of a fresh block is `heap i`), the map
`LogicalDeviceManager::devices`, the packet pool, and the trace. -/
structure State where
  self_addr : Nat
  BROADCAST_FAR_ADDR : Nat
  host_little_endian : Bool
  clock : Nat
  heap : Nat → Nat
  devices : List (Nat × Device)
  pool : PoolMemoryAllocator
  trace : List Event
  stuck : Bool

/-- Append one event to the trace. -/
def State.log (s : State) (e : Event) : State := { s with trace := s.trace ++ [e] }

/-- The method `LogicalDeviceManager::lookup_device`. -/
def lookup_device (s : State) (port : Nat) : Option Device := s.devices.lookup port

/-- Replace the device stored under `port` (a write through the device pointer). -/
def set_device (s : State) (port : Nat) (d : Device) : State :=
  { s with devices := s.devices.map (fun e => if e.1 = port then (e.1, d) else e) }

/-- The assignment `devices[key] = device` on the map. -/
def map_assign (key : Nat) (d : Device) : List (Nat × Device) → List (Nat × Device)
  | [] => [(key, d)]
  | e :: rest => if e.1 = key then (key, d) :: rest else e :: map_assign key d rest

/-- The class `OverlayPacketBuilder`: destination and size of its mesh stream. -/
structure OverlayPacketBuilder where
  dst_phy : Nat
  stream_size : Nat
  deriving DecidableEq, Repr

/-- The class `LogicalPacketPtr`, with the memory it points into: `mem` is the whole
allocation `block`, `ptr` the offset of the logical packet in it. -/
structure LogicalPacketPtr where
  mem : List Nat
  block : Ptr
  ptr : Nat
  ovl : Option OverlayPacketBuilder
  size : Nat
  deriving DecidableEq, Repr

/-- Contents of a block just returned by `alloc`: the `piece_size` bytes the slot held
before, or the `size` bytes `malloc` returned. -/
def block_memory (s : State) (block : Ptr) (size : Nat) : List Nat :=
  match block with
  | Ptr.slot i => (List.range s.pool.piece_size).map (load8 (s.pool.packets.getD i []))
  | Ptr.heap => (List.range size).map s.heap

/-- The offset `OverlayPacketBuilder` stores in `*user_write_addr_p`: `reliable.data`
or `unreliable.data`; the `default` branch leaves it unset (`0` here). -/
def overlay_data_offset : OverlayProtoType → Nat
  | .RELIABLE => 3
  | .UNRELIABLE => 1
  | .UNKNOWN => 0

/-- The method `LogicalDeviceManager::alloc_raw_logical_ptr`, with the constructor of
`OverlayPacketBuilder` inlined in the second branch. -/
def alloc_raw_logical_ptr (s : State) (dst_phy log_size : Nat) (ovl_type : OverlayProtoType) :
    State × LogicalPacketPtr :=
  if s.self_addr = dst_phy then
    let r := s.pool.alloc log_size
    ({ s with pool := r.1 },
     { mem := block_memory s r.2 log_size, block := r.2, ptr := 0, ovl := none,
       size := log_size })
  else
    let total := log_size + OverlayPacket.get_packet_size ovl_type
    let r := s.pool.alloc total
    ({ s with pool := r.1 },
     { mem := net_store8 (block_memory s r.2 total) 0 ovl_type.toNat, block := r.2,
       ptr := overlay_data_offset ovl_type,
       ovl := some { dst_phy := dst_phy, stream_size := total }, size := log_size })

/-- The method `LogicalDeviceManager::alloc_logical_packet_ptr`. -/
def alloc_logical_packet_ptr (s : State) (dst_addr : LogicalAddress) (src_port size : Nat)
    (ovl_type : OverlayProtoType) (log_type : LogicalPacketType) : State × LogicalPacketPtr :=
  let r := alloc_raw_logical_ptr s dst_addr.phy (size + get_packet_size log_type) ovl_type
  let m1 := net_store8 r.2.mem r.2.ptr log_type.toNat
  let m2 := net_store16 m1 (r.2.ptr + 1) src_port
  let m3 := net_store16 m2 (r.2.ptr + 3) dst_addr.log
  (r.1, { r.2 with mem := m3 })

/-- Return the block of a packet to the pool (`log_ovl_packet_alloc->free`); the slot
keeps the bytes written into it. -/
def release (fuel : Nat) (p : LogicalPacketPtr) (s : State) : State :=
  match s.pool.free fuel p.block with
  | none => { s with stuck := true }
  | some pool =>
    match p.block with
    | Ptr.slot i => { s with pool := { pool with packets := pool.packets.set i p.mem } }
    | Ptr.heap => { s with pool := pool }

/-- The method `LogicalDeviceManager::finish_ptr`; `dispatch` is `dispatch_packet`. -/
def finish_ptr (fuel : Nat) (dispatch : List Nat → Nat → Nat → State → State)
    (p : LogicalPacketPtr) (s : State) : State :=
  let raw := p.mem.drop p.ptr
  let s0 := s.log (Event.finish_ptr (raw.take p.size) p.size (p.ovl.map (fun o => o.dst_phy)))
  match p.ovl with
  | some ovl =>
    let s1 := s0.log (Event.mesh_write ovl.dst_phy (p.mem.take ovl.stream_size))
    let s2 := if net_load16 raw 3 = BROADCAST_PORT then
                dispatch raw (p.size % 65536) s1.self_addr s1
              else s1
    if s2.stuck then s2 else release fuel p s2
  | none =>
    let s1 := dispatch raw (p.size % 65536) s0.self_addr s0
    if s1.stuck then s1 else release fuel p s1

/-- The attribute loop of `send_hello_world`: memory and write offset after it. -/
def write_attribs : List Nat → Nat → List DeviceAttrib → List Nat × Nat
  | m, off, [] => (m, off)
  | m, off, a :: rest =>
    let m1 := net_store8 m off a.name_len
    let m2 := net_store8 m1 (off + 1) a.value_len
    let m3 := net_memcpy m2 (off + 2) (a.name.take a.name_len)
    let m4 := net_memcpy m3 (off + 2 + a.name_len) (a.value.take a.value_len)
    write_attribs m4 (off + 2 + a.name_len + a.value_len) rest

/-- The action loop of `send_hello_world`. -/
def write_actions : List Nat → Nat → List DeviceApiAction → List Nat × Nat
  | m, off, [] => (m, off)
  | m, off, a :: rest =>
    let m1 := net_store8 m off a.type
    let m2 := net_store8 m1 (off + 1) a.length
    let m3 := net_memcpy m2 (off + 2) (a.name.take a.length)
    write_actions m3 (off + 2 + a.length) rest

/-- The method `LogicalDevice::send_hello_world`. -/
def send_hello_world (fuel : Nat) (dispatch : List Nat → Nat → Nat → State → State)
    (device : Device) (type : LogicalPacketType) (dst_phy dst_port : Nat) (s : State) : State :=
  let name_len := device.name.length
  let attrib_cnt := device.attribs.length % 256
  let action_cnt := device.api_actions.length % 256
  let attribs := device.attribs.take attrib_cnt
  let actions := device.api_actions.take action_cnt
  let additional_size := name_len + 2 * attrib_cnt + 2 * action_cnt
    + (attribs.map (fun a => a.name_len + a.value_len)).sum
    + (actions.map (fun a => a.length)).sum
  let r := alloc_logical_packet_ptr s { phy := dst_phy, log := dst_port } device.self_port
    additional_size OverlayProtoType.UNRELIABLE type
  let base := r.2.ptr
  let m1 := net_store8 r.2.mem (base + 9) name_len
  let m2 := net_store8 m1 (base + 10) attrib_cnt
  let m3 := net_store32 m2 (base + 5) device.device_class
  let m4 := net_store8 m3 (base + 11) action_cnt
  let m5 := net_memcpy m4 (base + 12) device.name
  let w1 := write_attribs m5 (base + 12 + name_len) attribs
  let w2 := write_actions w1.1 w1.2 actions
  finish_ptr fuel dispatch { r.2 with mem := w2.1 } r.1

/-- The field loop of `send_field_dictionary`. -/
def write_fields : List Nat → Nat → List DeviceApiField → List Nat
  | m, _, [] => m
  | m, off, f :: rest =>
    let m1 := net_store8 m off f.length
    let m2 := net_memcpy m1 (off + 1) (f.string.take f.length)
    write_fields m2 (off + 1 + f.length) rest

/-- The method `LogicalDevice::send_field_dictionary`; `field_count` is written by a
plain assignment, every other field through `net_store`. -/
def send_field_dictionary (fuel : Nat) (dispatch : List Nat → Nat → Nat → State → State)
    (device : Device) (dst_addr : LogicalAddress) (s : State) : State :=
  let field_cnt := device.api_fields.length % 256
  let fields := device.api_fields.take field_cnt
  let additional_size := field_cnt * 1 + (fields.map (fun f => f.length)).sum
  let r := alloc_logical_packet_ptr s dst_addr device.self_port additional_size
    OverlayProtoType.UNRELIABLE LogicalPacketType.FIELD_DICTIONARY_RESPONSE
  let m1 := host_store16 s.host_little_endian r.2.mem (r.2.ptr + 5) field_cnt
  let m2 := write_fields m1 (r.2.ptr + 7) fields
  finish_ptr fuel dispatch { r.2 with mem := m2 } r.1

/-- The validation loop of the `FIELD_DICTIONARY_RESPONSE` branch: `n` iterations are
left, `curr` is the offset `curr_ptr` and `end_ptr` the offset `packet + size`. -/
def field_walk (packet : List Nat) (end_ptr : Nat) : Nat → Nat → Nat
  | 0, curr => curr
  | n + 1, curr =>
    if curr ≥ end_ptr then curr
    else field_walk packet end_ptr n (curr + 1 + load8 packet curr)

/-! ## `LogicalDeviceManager`: the dispatcher -/

/-- The method `LogicalDeviceManager::handle_packet` for the device registered under
`port`; `dispatch` is `dispatch_packet`. -/
def handle_packet (fuel : Nat) (dispatch : List Nat → Nat → Nat → State → State)
    (port : Nat) (packet : List Nat) (size src_phy : Nat) (s : State) : State :=
  match lookup_device s port with
  | none => s
  | some device =>
    let s0 := s.log (Event.on_general_packet_accept port (packet.take size) size src_phy)
    if !device.on_general_packet_accept packet size src_phy then s0
    else
      let src_port := net_load16 packet 1
      let src : LogicalAddress := { phy := src_phy, log := src_port }
      match LogicalPacketType.ofNat? (load8 packet 0) with
      | some .HELLO_WORLD =>
        if src_port = device.self_port ∧ src_phy = s0.self_addr then s0
        else
          let s1 := send_hello_world fuel dispatch device LogicalPacketType.HELLO_WORLD_RESPONSE
            src_phy src_port s0
          if s1.stuck then s1
          else s1.log (Event.on_device_discover port (packet.take size) size src_phy)
      | some .HELLO_WORLD_RESPONSE =>
        s0.log (Event.on_device_discover port (packet.take size) size src_phy)
      | some .FIELD_DICTIONARY_REQUEST => send_field_dictionary fuel dispatch device src s0
      | some .FIELD_DICTIONARY_RESPONSE =>
        if 7 > size then s0
        else
          let field_count := net_load16 packet 5
          let curr_ptr := field_walk packet size field_count 7
          if curr_ptr > size then s0
          else s0.log (Event.on_device_field_dictionary port ((packet.take size).drop 7)
            (field_count % 256) src_phy)
      | some .ACTION_RESPONSE =>
        if 9 > size then s0
        else s0.log (Event.on_action_get_response port (net_load16 packet 6)
          ((packet.drop 9).take (size - 9)) (size - 9) src (load8 packet 8))
      | some .ACTION_FETCH =>
        if 8 > size then s0
        else s0.log (Event.on_action_get port (net_load16 packet 5)
          ((packet.drop 8).take (size - 8)) (size - 8) src (load8 packet 7))
      | some .ACTION_EXECUTE =>
        if 9 > size then s0
        else
          let action_id := net_load16 packet 5
          let data := (packet.drop 9).take (size - 9)
          let status := device.on_action_set action_id data (size - 9) src
          let s1 := s0.log (Event.on_action_set port action_id data (size - 9) src)
          if load8 packet 8 &&& REQUIRE_STATUS_RESPONSE ≠ 0 then
            let r := alloc_logical_packet_ptr s1 src device.self_port 0
              OverlayProtoType.UNRELIABLE LogicalPacketType.ACTION_EXECUTE_RESULT
            let m1 := net_store8 r.2.mem (r.2.ptr + 8) status
            let m2 := net_store8 m1 (r.2.ptr + 7) (load8 packet 7)
            finish_ptr fuel dispatch { r.2 with mem := m2 } r.1
          else s1
      | some .SUBSCRIPTION_START =>
        if 17 > size then s0
        else
          let subs := SubscriptionManager.add_subscriber device.subscriptions (packet.drop 5)
            (size - 17) src s0.clock
          set_device s0 port { device with subscriptions := subs }
      | some .SUBSCRIPTION_CALLBACK =>
        if 9 > size then s0
        else s0.log (Event.on_subscription_data port ((packet.drop 9).take (size - 9))
          (size - 9) src (net_load32 packet 5))
      | some .SUBSCRIPTION_STOP =>
        if 9 > size then s0
        else
          let subs := SubscriptionManager.stop_subscription device.subscriptions (packet.drop 5)
            src
          set_device s0 port { device with subscriptions := subs }
      | _ => s0

/-- The body of `LogicalDeviceManager::dispatch_packet`; the broadcast loop visits the
devices of the map in list order. -/
def dispatch_packet_body (fuel : Nat) (dispatch : List Nat → Nat → Nat → State → State)
    (packet : List Nat) (size src_phy : Nat) (s : State) : State :=
  let s0 := s.log (Event.dispatch_packet (packet.take size) size src_phy)
  if LOG_PACKET_SIZE_dst_addr > size then s0
  else
    let dst_addr := net_load16 packet 3
    if dst_addr = BROADCAST_PORT then
      s0.devices.foldl
        (fun st e => if st.stuck then st else handle_packet fuel dispatch e.1 packet size src_phy st)
        s0
    else
      match lookup_device s0 dst_addr with
      | none => s0
      | some _ => handle_packet fuel dispatch dst_addr packet size src_phy s0

/-- The method `LogicalDeviceManager::dispatch_packet`, with the recursion through
`finish_ptr` bounded by `fuel`. -/
def dispatch_packet : Nat → List Nat → Nat → Nat → State → State
  | 0 => fun _ _ _ s => { s with stuck := true }
  | fuel + 1 => dispatch_packet_body fuel (dispatch_packet fuel)

/-- The method `LogicalDeviceManager::add_device`: the map assignment, then
`post_init`, which sends the `HELLO_WORLD` broadcast. -/
def add_device (fuel : Nat) (device : Device) (s : State) : State :=
  let s1 := { s with devices := map_assign device.self_port device s.devices }
  send_hello_world fuel (dispatch_packet fuel) device LogicalPacketType.HELLO_WORLD
    s1.BROADCAST_FAR_ADDR BROADCAST_PORT s1

/-- The method `LogicalDeviceManager::remove_device`. -/
def remove_device (device : Device) (s : State) : State :=
  { s with devices := s.devices.filter (fun e => !(decide (e.1 = device.self_port))) }

/-- The method `SubscriptionManager::update_periodic` of the device registered under
`port`, at the clock value of the state. -/
def update_periodic (port : Nat) (s : State) : State :=
  match lookup_device s port with
  | none => s
  | some device =>
    let r := device.subscriptions.update_periodic port s.clock
    let s1 := set_device s port { device with subscriptions := r.1 }
    { s1 with trace := s1.trace ++ r.2 }

/-- The method `SubscriptionManager::send_immediate_callback_data` of the device
registered under `port`. -/
def send_immediate_callback_data (fuel : Nat) (port action_id : Nat) (data : List Nat)
    (size : Nat) (s : State) : State :=
  match lookup_device s port with
  | none => s
  | some device =>
    device.subscriptions.subscribers.foldl
      (fun st sub =>
        if st.stuck then st
        else if sub.action_id ≠ action_id then st
        else
          let r := alloc_logical_packet_ptr st sub.addr device.self_port size
            OverlayProtoType.UNRELIABLE LogicalPacketType.SUBSCRIPTION_CALLBACK
          let m1 := net_store32 r.2.mem (r.2.ptr + 5) sub.subscription_id
          let m2 := net_memcpy m1 (r.2.ptr + 9) (data.take size)
          finish_ptr fuel (dispatch_packet fuel) { r.2 with mem := m2 } r.1)
      s

/-! ## Predicates used in the statements -/

/-- Events that handing a packet to the mesh or to the local devices causes by itself:
the mesh write, the entry of `dispatch_packet`, and the acceptance question. -/
def Event.is_delivery : Event → Bool
  | .mesh_write _ _ => true
  | .dispatch_packet _ _ _ => true
  | .on_general_packet_accept _ _ _ _ => true
  | _ => false

/-- The event is the emission of a `HELLO_WORLD_RESPONSE` whose source port is `port`. -/
def Event.is_hello_response_from (port : Nat) : Event → Prop
  | .finish_ptr packet _ _ =>
    load8 packet 0 = LogicalPacketType.HELLO_WORLD_RESPONSE.toNat ∧ net_load16 packet 1 = port
  | _ => False

/-- The event is a hook call or a dispatch entry, not an emission. -/
def Event.is_passive : Event → Bool
  | .finish_ptr _ _ _ => false
  | .mesh_write _ _ => false
  | _ => true

/-- State `t` comes from `s` by appending events that all satisfy `P`, with the same
node address and the same device map. -/
def TraceStep (P : Event → Prop) (s t : State) : Prop :=
  t.self_addr = s.self_addr ∧ t.devices = s.devices
    ∧ ∃ evs, t.trace = s.trace ++ evs ∧ ∀ e ∈ evs, P e

/-- The type bytes whose branch of `handle_packet` can build a packet: `HELLO_WORLD`,
`FIELD_DICTIONARY_REQUEST` and `ACTION_EXECUTE`. -/
def builds_reply (t : Nat) : Bool :=
  decide (t = LogicalPacketType.HELLO_WORLD.toNat
    ∨ t = LogicalPacketType.FIELD_DICTIONARY_REQUEST.toNat
    ∨ t = LogicalPacketType.ACTION_EXECUTE.toNat)

/-- The event is a call of a device hook other than the acceptance question. -/
def Event.is_hook_call : Event → Bool
  | .on_general_packet_accept _ _ _ _ => false
  | .finish_ptr _ _ _ => false
  | .mesh_write _ _ => false
  | .dispatch_packet _ _ _ => false
  | _ => true

/-- The event is neither a mesh write nor the hand-over (entry of `dispatch_packet` or
acceptance question) of a packet whose type byte is `t`. -/
def Event.is_aftermath (t : Nat) : Event → Bool
  | .mesh_write _ _ => false
  | .dispatch_packet packet _ _ => decide (load8 packet 0 ≠ t)
  | .on_general_packet_accept _ packet _ _ => decide (load8 packet 0 ≠ t)
  | _ => true

/-- State `t` comes from `s` by a handler that built no packet: the trace grew by the
event `first` and then by hook calls only; node address, ports of the device map, pool
and stuck flag are those of `s`. -/
def QuietStep (first : Event) (s t : State) : Prop :=
  t.self_addr = s.self_addr ∧ t.devices.map Prod.fst = s.devices.map Prod.fst
    ∧ t.pool = s.pool ∧ t.stuck = s.stuck
    ∧ ∃ rest, t.trace = s.trace ++ first :: rest ∧ ∀ e ∈ rest, e.is_hook_call = true

/-- State `t` comes from `s` by appending events that all satisfy `P`, with the same
node address and the same ports in the device map. -/
def PortStep (P : Event → Prop) (s t : State) : Prop :=
  t.self_addr = s.self_addr ∧ t.devices.map Prod.fst = s.devices.map Prod.fst
    ∧ ∃ evs, t.trace = s.trace ++ evs ∧ ∀ e ∈ evs, P e

/-- State `t` comes from `s` by handing a packet of type byte `t0` to one device: the
trace grew by the event `first` and then by events that are no mesh write and no
hand-over of a packet of that type; node address and ports of the device map are
those of `s`. -/
def HandledStep (t0 : Nat) (first : Event) (s t : State) : Prop :=
  t.self_addr = s.self_addr ∧ t.devices.map Prod.fst = s.devices.map Prod.fst
    ∧ ∃ rest, t.trace = s.trace ++ first :: rest ∧ ∀ e ∈ rest, e.is_aftermath t0 = true

/-- The event is a call of the mesh send. -/
def Event.is_mesh_write : Event → Bool
  | .mesh_write _ _ => true
  | _ => false

/-- The number of bytes `send_hello_world` asks for when it builds a
`HELLO_WORLD_RESPONSE`: the `additional_size` of its counting loops and the fixed part
of the packet. -/
def hello_world_size (device : Device) : Nat :=
  device.name.length + 2 * (device.attribs.length % 256) + 2 * (device.api_actions.length % 256)
    + ((device.attribs.take (device.attribs.length % 256)).map
        (fun a => a.name_len + a.value_len)).sum
    + ((device.api_actions.take (device.api_actions.length % 256)).map (fun a => a.length)).sum
    + get_packet_size LogicalPacketType.HELLO_WORLD_RESPONSE

/-- The number of bytes `send_field_dictionary` asks for. -/
def field_dictionary_size (device : Device) : Nat :=
  device.api_fields.length % 256 * 1
    + ((device.api_fields.take (device.api_fields.length % 256)).map (fun f => f.length)).sum
    + get_packet_size LogicalPacketType.FIELD_DICTIONARY_RESPONSE

/-- The number of bytes of the reply a device builds for a request of type byte `t`;
`0` for a type whose branch builds none. -/
def reply_size (t : Nat) (device : Device) : Nat :=
  if t = LogicalPacketType.HELLO_WORLD.toNat then hello_world_size device
  else if t = LogicalPacketType.FIELD_DICTIONARY_REQUEST.toNat then field_dictionary_size device
  else if t = LogicalPacketType.ACTION_EXECUTE.toNat then
    0 + get_packet_size LogicalPacketType.ACTION_EXECUTE_RESULT
  else 0

/-- The event is a call of `on_timer_update`. -/
def Event.is_timer_update : Event → Bool
  | .on_timer_update _ => true
  | _ => false

/-- The event hands a packet whose type byte is `t` to the dispatcher or to a device: an
entry of `dispatch_packet` or an acceptance question. -/
def Event.is_handover (t : Nat) : Event → Bool
  | .dispatch_packet packet _ _ => decide (load8 packet 0 = t)
  | .on_general_packet_accept _ packet _ _ => decide (load8 packet 0 = t)
  | _ => false

/-- The type bytes of the packets `handle_packet` builds (`HELLO_WORLD_RESPONSE`,
`FIELD_DICTIONARY_RESPONSE`, `ACTION_EXECUTE_RESULT`), and `0`, the type byte read from
an empty packet. -/
def is_reply_type (t : Nat) : Bool :=
  decide (t = 0 ∨ t = LogicalPacketType.HELLO_WORLD_RESPONSE.toNat
    ∨ t = LogicalPacketType.FIELD_DICTIONARY_RESPONSE.toNat
    ∨ t = LogicalPacketType.ACTION_EXECUTE_RESULT.toNat)

/-- What a statement about replies asks of a predicate on events: it holds of every
emission, mesh write and hook call other than the acceptance question, and of the
hand-over of every reply packet. -/
def ReplyClosed (P : Event → Prop) : Prop :=
  (∀ pk sz o, P (Event.finish_ptr pk sz o))
  ∧ (∀ d b, P (Event.mesh_write d b))
  ∧ (∀ e, e.is_hook_call = true → P e)
  ∧ (∀ pk sz src, is_reply_type (load8 pk 0) = true → P (Event.dispatch_packet pk sz src))
  ∧ (∀ key pk sz src, is_reply_type (load8 pk 0) = true →
      P (Event.on_general_packet_accept key pk sz src))

/-- States the node reaches from an empty port map by the operations of the dispatcher
and its devices: registering and unregistering devices, receiving packets, the clock
advancing, ticking the subscription timers and sending subscription callbacks. -/
inductive Reachable : State → Prop
  | init (s : State) (h : s.devices = []) : Reachable s
  | add_device (fuel : Nat) (d : Device) (s : State) :
      Reachable s → Reachable (add_device fuel d s)
  | remove_device (d : Device) (s : State) : Reachable s → Reachable (remove_device d s)
  | dispatch_packet (fuel : Nat) (packet : List Nat) (size src_phy : Nat) (s : State) :
      Reachable s → Reachable (dispatch_packet fuel packet size src_phy s)
  | clock (time : Nat) (s : State) : Reachable s → Reachable { s with clock := time }
  | update_periodic (port : Nat) (s : State) : Reachable s → Reachable (update_periodic port s)
  | send_immediate_callback_data (fuel port action_id : Nat) (data : List Nat) (size : Nat)
      (s : State) :
      Reachable s → Reachable (send_immediate_callback_data fuel port action_id data size s)

/-- The `HELLO_WORLD` encoding of a device in the words of the specification: type 1,
source port, destination port `0xFFFF`, the class as `u32`, `name_len`, `attrib_count`,
`action_count`, the name, then for each attribute `key_len, value_len, key, value`, then
for each action `type, name_len, name`.  Fields of more than one byte are written most
significant byte first; a one-byte field holds the value narrowed to a byte. -/
def hello_world_encoding (d : Device) : List Nat :=
  [1, d.self_port / 256 % 256, d.self_port % 256, 255, 255,
    d.device_class / 16777216 % 256, d.device_class / 65536 % 256, d.device_class / 256 % 256,
    d.device_class % 256,
    d.name.length % 256, d.attribs.length % 256, d.api_actions.length % 256]
  ++ d.name
  ++ (d.attribs.map (fun a =>
        [a.name_len, a.value_len] ++ a.name.take a.name_len ++ a.value.take a.value_len)).flatten
  ++ (d.api_actions.map (fun a => [a.type % 256, a.length] ++ a.name.take a.length)).flatten

/-- The fixed payload prefix of an opcode in the words of section 4.1 of the
specification: the widths of the fields in front of the variable part (`u8` 1, `u16` 2,
`u32` 4).  `FIELD_DICTIONARY_REQUEST` is empty; `UNKNOWN` and the `GROUPS_*` opcodes have
no payload contract. -/
def payload_prefix_size : LogicalPacketType → Nat
  | .HELLO_WORLD => 4 + 1 + 1 + 1
  | .HELLO_WORLD_RESPONSE => 4 + 1 + 1 + 1
  | .FIELD_DICTIONARY_REQUEST => 0
  | .FIELD_DICTIONARY_RESPONSE => 2
  | .ACTION_EXECUTE => 2 + 1 + 1
  | .ACTION_EXECUTE_RESULT => 2 + 1 + 1
  | .ACTION_FETCH => 2 + 1
  | .ACTION_RESPONSE => 1 + 2 + 1
  | .SUBSCRIPTION_START => 4 + 2 + 2 + 4
  | .SUBSCRIPTION_DONE => 4 + 4
  | .SUBSCRIPTION_CALLBACK => 4
  | .SUBSCRIPTION_STOP => 4
  | _ => 0

/-- What identifies a subscription in `add_subscriber` and `stop_subscription`: the
subscription id and the address of the subscriber. -/
def Subscriber.key (sub : Subscriber) : Nat × LogicalAddress := (sub.subscription_id, sub.addr)

/-- The managers reached from an empty subscriber list by the methods of
`SubscriptionManager`. -/
inductive ReachableManager : SubscriptionManager → Prop
  | empty (m : SubscriptionManager) (h : m.subscribers = []) : ReachableManager m
  | add_subscriber (m : SubscriptionManager) (packet : List Nat) (size : Nat)
      (addr : LogicalAddress) (time : Nat) :
      ReachableManager m → ReachableManager (m.add_subscriber packet size addr time)
  | stop_subscription (m : SubscriptionManager) (packet : List Nat) (addr : LogicalAddress) :
      ReachableManager m → ReachableManager (m.stop_subscription packet addr)
  | update_periodic (m : SubscriptionManager) (port time : Nat) :
      ReachableManager m → ReachableManager (m.update_periodic port time).1
  | set_self_update_period (m : SubscriptionManager) (us_period time : Nat) :
      ReachableManager m → ReachableManager (m.set_self_update_period us_period time)
  | stop_self_update (m : SubscriptionManager) :
      ReachableManager m → ReachableManager m.stop_self_update

/-- The broadcast loop of `dispatch_packet` on a node whose device hooks call back into
the manager.  The hooks are virtual and the manager is reachable from a device through
`dev_manager`; `callback port` is what the overriding hooks of the device registered
under `port` do to the manager while that device handles the packet (the hooks of the
base class do nothing).  The loop is a range-`for` over the map itself: a device that a
callback erases before the loop reaches it is not visited. -/
def broadcast_loop_calling_back (fuel : Nat) (callback : Nat → State → State)
    (packet : List Nat) (size src_phy : Nat) (s0 : State) : State :=
  s0.devices.foldl
    (fun st e =>
      if st.stuck then st
      else
        match lookup_device st e.1 with
        | none => st
        | some _ =>
          callback e.1 (handle_packet fuel (dispatch_packet fuel) e.1 packet size src_phy st))
    s0

/-! ## Sample data used in concrete runs -/

/-- The payload of the `SUBSCRIPTION_START` of scenario S3: id 9, action 7, duration
2 s, period 500 ms. -/
def sample_start : List Nat := [0, 0, 0, 9, 0, 7, 0, 2, 0, 0, 1, 244]

/-- The subscriber of scenario S3 after its callbacks at 1_499_999, 1_999_999 and
2_499_999: expiry at 3_000_000, next update due at 2_999_999. -/
def sample_subscriber : Subscriber :=
  { addr := { phy := 2, log := 200 }
    end_time := 3000000
    next_periodic_update_time := 2999999
    period := 500
    subscription_id := 9
    action_id := 7 }

/-- The payload of scenario S3 with period 0 (no periodic update). -/
def sample_start_no_period : List Nat := [0, 0, 0, 9, 0, 7, 0, 2, 0, 0, 0, 0]

/-- The payload of scenario S3 with duration 3000 s (`0x0BB8`). -/
def sample_start_long : List Nat := [0, 0, 0, 9, 0, 7, 11, 184, 0, 0, 1, 244]

/-- A manager holding the given subscribers, with the self-update timer off. -/
def sample_manager (subs : List Subscriber) : SubscriptionManager :=
  { subscribers := subs, self_update_period := 0, self_update_next := U64_MAX }

/-- A device with the base-class hooks: every packet accepted, `on_action_set`
answering `status`. -/
def sample_device (port : Nat) (name : List Nat) (cls : Nat) (fields : List (List Nat))
    (status : Nat) : Device :=
  { self_port := port
    name := name
    device_class := cls
    attribs := []
    api_fields := fields.map (fun f => { string := f })
    api_actions := []
    on_general_packet_accept := fun _ _ _ => true
    on_action_set := fun _ _ _ _ => status
    subscriptions := SubscriptionManager.init 0 }

/-- A node with address `1` on a host of the given byte order, a fresh pool of two
zero-filled slots of 32 bytes, and the given devices registered under their ports. -/
def sample_node (little : Bool) (devs : List Device) : State :=
  { self_addr := 1
    BROADCAST_FAR_ADDR := 4294967295
    host_little_endian := little
    clock := 0
    heap := fun _ => 0
    devices := devs.map (fun d => (d.self_port, d))
    pool := { piece_size := 32
              packets := [List.replicate 32 0, List.replicate 32 0]
              used_bits := [false, false] }
    trace := []
    stuck := false }

/-- The button of scenario S1 and S6: port 100, name "btn", class BUTTON, fields "on",
"off", "state"; `on_action_set` answers SUCCESS. -/
def sample_button : Device :=
  sample_device 100 [98, 116, 110] 1 [[111, 110], [111, 102, 102], [115, 116, 97, 116, 101]] 1

/-- A second device on port 200, name "c", class RELAY, no fields. -/
def sample_peer : Device := sample_device 200 [99] 2 [] 0

/-- The `ACTION_EXECUTE` of scenario S2, from port 200 to port 100: action 7, request
42, flags 1, payload `AB`. -/
def sample_execute : List Nat := [12, 0, 200, 0, 100, 0, 7, 42, 1, 171]

/-- The `HELLO_WORLD` broadcast of the button (scenario S1). -/
def sample_hello : List Nat := [1, 0, 100, 255, 255, 0, 0, 0, 1, 3, 0, 0, 98, 116, 110]

/-- The payload of a `SUBSCRIPTION_START` with id 9, action 7, duration 2000 s and
period 5_000_000 ms (`0x004C4B40`). -/
def sample_start_long_period : List Nat := [0, 0, 0, 9, 0, 7, 7, 208, 0, 76, 75, 64]

/-- The `FIELD_DICTIONARY_REQUEST` that port 200 sends to port 100. -/
def sample_dictionary_request : List Nat := [3, 0, 200, 0, 100, 0]

/-- A pool of 32-byte slots, zero-filled, with the given bits. -/
def sample_pool (bits : List Bool) : PoolMemoryAllocator :=
  { piece_size := 32
    packets := bits.map (fun _ => List.replicate 32 0)
    used_bits := bits }

/-- The 32-byte block of the `HELLO_WORLD` broadcast of the button on the overlay path:
the overlay type byte `UNRELIABLE`, the packet, and the untouched rest of the slot. -/
def sample_hello_block : List Nat := 2 :: sample_hello ++ List.replicate 16 0

/-- A device that turns every packet down: port 50, name "m", class RELAY, no fields. -/
def sample_mute : Device :=
  { sample_device 50 [109] 2 [] 0 with on_general_packet_accept := fun _ _ _ => false }

/-- A `HELLO_WORLD_RESPONSE` from port 300 of node 2 for the broadcast port: class BUTTON,
name "x". -/
def sample_response : List Nat := [2, 1, 44, 255, 255, 0, 0, 0, 1, 1, 0, 0, 120]

/-- A device whose name has 20 bytes: port 100, class BUTTON, no fields. Its
`HELLO_WORLD_RESPONSE` has 32 bytes, 33 with the overlay type byte. -/
def sample_long_name : Device := sample_device 100 (List.replicate 20 97) 1 [] 0

/-- The `HELLO_WORLD` broadcast of port 200 of another node: class RELAY, name "c". -/
def sample_foreign_hello : List Nat := [1, 0, 200, 255, 255, 0, 0, 0, 2, 1, 0, 0, 99]

/-- The button with three subscribers, in list order: the subscriber of scenario S3
(node 2 port 200, id 9, action 7), one for action 8 (node 2 port 201, id 11) and one
for action 7 again (node 3 port 300, id 10). -/
def sample_feed : Device :=
  { sample_button with
    subscriptions := sample_manager
      [sample_subscriber,
       { sample_subscriber with addr := { phy := 2, log := 201 }, subscription_id := 11,
                                action_id := 8 },
       { sample_subscriber with addr := { phy := 3, log := 300 }, subscription_id := 10 }] }

/-- A lamp: port 101, name "lamp", class RELAY, the attribute "v" = "1" and the action
"on" of type TOGGLE. -/
def sample_lamp : Device :=
  { sample_device 101 [108, 97, 109, 112] 2 [] 0 with
    attribs := [{ name := [118], value := [49] }]
    api_actions := [{ name := [111, 110], type := 2 }] }

/-- A manager after three `SUBSCRIPTION_START` packets of scenario S3: from port 200 of
node 2 at 1_000_000 and again at 1_200_000, and from port 300 of node 3 at 1_300_000. -/
def sample_three_starts : SubscriptionManager :=
  SubscriptionManager.add_subscriber
    (SubscriptionManager.add_subscriber
      (SubscriptionManager.add_subscriber (SubscriptionManager.init 0) sample_start 12
        { phy := 2, log := 200 } 1000000)
      sample_start 12 { phy := 2, log := 200 } 1200000)
    sample_start 12 { phy := 3, log := 300 } 1300000

/-- Hooks by which the device on port 100 unregisters the device on port 200 and the
device on port 200 unregisters the device on port 100, when they handle a packet. -/
def sample_unregister_other (port : Nat) (st : State) : State :=
  if port = 100 then remove_device sample_peer st
  else if port = 200 then remove_device sample_button st
  else st

/-! ## Subscription manager: lemmas -/

theorem update_periodic_walk_append (port time : Nat) (a b : List Subscriber) :
    update_periodic_walk port time (a ++ b) =
      ((update_periodic_walk port time a).1 ++ (update_periodic_walk port time b).1,
       (update_periodic_walk port time a).2 ++ (update_periodic_walk port time b).2) := by
  induction a with
  | nil => simp [update_periodic_walk]
  | cons s rest ih =>
    simp only [List.cons_append, update_periodic_walk]
    split_ifs <;> simp [ih]

theorem update_periodic_walk_alive (port time : Nat) (l : List Subscriber) :
    ∀ r ∈ (update_periodic_walk port time l).1, time < r.end_time := by
  induction l with
  | nil => simp [update_periodic_walk]
  | cons s rest ih =>
    simp only [update_periodic_walk]
    split_ifs with h1 h2
    · exact ih
    · intro r hr
      simp only [List.mem_cons] at hr
      rcases hr with rfl | hr
      · simpa using h1
      · exact ih r hr
    · intro r hr
      simp only [List.mem_cons] at hr
      rcases hr with rfl | hr
      · simpa using h1
      · exact ih r hr

theorem refresh_subscriber_none (id : Nat) (addr : LogicalAddress) (e : Nat) (l : List Subscriber)
    (h : ∀ r ∈ l, ¬ (r.subscription_id = id ∧ r.addr = addr)) :
    refresh_subscriber id addr e l = none := by
  induction l with
  | nil => rfl
  | cons s rest ih =>
    have hs := h s (List.mem_cons_self _ _)
    have hr := ih (fun r hr => h r (List.mem_cons_of_mem _ hr))
    simp [refresh_subscriber, hs, hr]

/-- Rows that do not belong to `(sub_id, addr)` stay such rows and cause no call for it. -/
theorem update_periodic_walk_foreign (port time sub_id : Nat) (addr : LogicalAddress)
    (l : List Subscriber) (h : ∀ r ∈ l, ¬ (r.subscription_id = sub_id ∧ r.addr = addr)) :
    (∀ r ∈ (update_periodic_walk port time l).1, ¬ (r.subscription_id = sub_id ∧ r.addr = addr))
    ∧ timer_updates_for addr sub_id (update_periodic_walk port time l).2 = 0 := by
  induction l with
  | nil => simp [update_periodic_walk, timer_updates_for]
  | cons s rest ih =>
    have hs := h s (List.mem_cons_self _ _)
    have hr := ih (fun r hr => h r (List.mem_cons_of_mem _ hr))
    simp only [update_periodic_walk]
    split_ifs with h1 h2
    · exact hr
    · refine ⟨?_, ?_⟩
      · intro r hmem
        simp only [List.mem_cons] at hmem
        rcases hmem with rfl | hmem
        · exact hs
        · exact hr.1 r hmem
      · have h0 := hr.2
        simp only [timer_updates_for] at h0 ⊢
        rw [List.countP_cons, h0]
        have : ¬ (s.addr = addr ∧ s.subscription_id = sub_id) := fun hh => hs ⟨hh.2, hh.1⟩
        simp [this]
    · refine ⟨?_, hr.2⟩
      intro r hmem
      simp only [List.mem_cons] at hmem
      rcases hmem with rfl | hmem
      · exact hs
      · exact hr.1 r hmem

theorem timer_updates_for_append (addr : LogicalAddress) (sub_id : Nat) (a b : List Event) :
    timer_updates_for addr sub_id (a ++ b) =
      timer_updates_for addr sub_id a + timer_updates_for addr sub_id b := by
  simp [timer_updates_for, List.countP_append]

/-- One tick over `rows ++ tail`, where `tail` is the row `new` or nothing, `rows` hold
no row of `(sub_id, addr)`, and `new` is not due: no call for `(sub_id, addr)`, and the
list keeps its shape. -/
theorem update_periodic_not_due (port sub_id : Nat) (addr : LogicalAddress) (new : Subscriber)
    (time : Nat) (hdue : time < new.next_periodic_update_time)
    (m : SubscriptionManager) (rows tail : List Subscriber)
    (htail : tail = [new] ∨ tail = []) (hm : m.subscribers = rows ++ tail)
    (hrows : ∀ r ∈ rows, ¬ (r.subscription_id = sub_id ∧ r.addr = addr)) :
    ∃ rows2 tail2, (tail2 = [new] ∨ tail2 = [])
      ∧ ((time < new.end_time → tail2 = tail) ∧ (new.end_time ≤ time → tail2 = []))
      ∧ (m.update_periodic port time).1.subscribers = rows2 ++ tail2
      ∧ (∀ r ∈ rows2, ¬ (r.subscription_id = sub_id ∧ r.addr = addr))
      ∧ timer_updates_for addr sub_id (m.update_periodic port time).2 = 0 := by
  have hf := update_periodic_walk_foreign port time sub_id addr rows hrows
  have hcount : timer_updates_for addr sub_id
      (if decide (time > m.self_update_next) = true then [Event.on_timer_update port] else []) = 0 := by
    split_ifs <;> simp [timer_updates_for]
  rcases htail with rfl | rfl
  · by_cases hend : time < new.end_time
    · refine ⟨(update_periodic_walk port time rows).1, [new], Or.inl rfl,
        ⟨fun _ => rfl, fun h => absurd hend (by omega)⟩, ?_, hf.1, ?_⟩
      · have hnd : ¬ new.next_periodic_update_time ≤ time := by omega
        have hne : ¬ time ≥ new.end_time := by omega
        simp [SubscriptionManager.update_periodic, hm, update_periodic_walk_append,
          update_periodic_walk, hnd, hne]
      · have hnd : ¬ new.next_periodic_update_time ≤ time := by omega
        have hne : ¬ time ≥ new.end_time := by omega
        simp only [SubscriptionManager.update_periodic, hm, update_periodic_walk_append,
          update_periodic_walk, hnd, hne, if_false, List.append_nil, timer_updates_for_append, hf.2,
          hcount]
    · refine ⟨(update_periodic_walk port time rows).1, [], Or.inr rfl,
        ⟨fun h => absurd h hend, fun _ => rfl⟩, ?_, hf.1, ?_⟩
      · have hne : time ≥ new.end_time := by omega
        simp [SubscriptionManager.update_periodic, hm, update_periodic_walk_append,
          update_periodic_walk, hne]
      · have hne : time ≥ new.end_time := by omega
        simp only [SubscriptionManager.update_periodic, hm, update_periodic_walk_append,
          update_periodic_walk, hne, if_true, List.append_nil, timer_updates_for_append, hf.2,
          hcount]
  · refine ⟨(update_periodic_walk port time rows).1, [], Or.inr rfl,
      ⟨fun _ => rfl, fun _ => rfl⟩, ?_, hf.1, ?_⟩
    · simp [SubscriptionManager.update_periodic, hm]
    · simp only [SubscriptionManager.update_periodic, hm, List.append_nil,
        timer_updates_for_append, hf.2, hcount]

/-- A sequence of ticks at none of which `new` is due: the same as `update_periodic_not_due`,
over the whole sequence. -/
theorem run_ticks_not_due (port sub_id : Nat) (addr : LogicalAddress) (new : Subscriber)
    (ticks : List Nat) (hdue : ∀ t ∈ ticks, t < new.next_periodic_update_time) :
    ∀ (m : SubscriptionManager) (rows tail : List Subscriber),
      (tail = [new] ∨ tail = []) → m.subscribers = rows ++ tail →
      (∀ r ∈ rows, ¬ (r.subscription_id = sub_id ∧ r.addr = addr)) →
      ∃ rows2 tail2, (tail2 = [new] ∨ tail2 = [])
        ∧ ((∀ t ∈ ticks, t < new.end_time) → tail2 = tail)
        ∧ (SubscriptionManager.run_ticks port ticks m).1.subscribers = rows2 ++ tail2
        ∧ (∀ r ∈ rows2, ¬ (r.subscription_id = sub_id ∧ r.addr = addr))
        ∧ timer_updates_for addr sub_id (SubscriptionManager.run_ticks port ticks m).2 = 0 := by
  induction ticks with
  | nil =>
    intro m rows tail htail hm hrows
    exact ⟨rows, tail, htail, fun _ => rfl, by simpa [SubscriptionManager.run_ticks] using hm,
      hrows, by simp [SubscriptionManager.run_ticks, timer_updates_for]⟩
  | cons t rest ih =>
    intro m rows tail htail hm hrows
    obtain ⟨rows1, tail1, ht1, hkeep1, hs1, hr1, hc1⟩ :=
      update_periodic_not_due port sub_id addr new t (hdue t (List.mem_cons_self _ _)) m rows tail
        htail hm hrows
    obtain ⟨rows2, tail2, ht2, hkeep2, hs2, hr2, hc2⟩ :=
      ih (fun u hu => hdue u (List.mem_cons_of_mem _ hu)) _ rows1 tail1 ht1 hs1 hr1
    refine ⟨rows2, tail2, ht2, ?_, ?_, hr2, ?_⟩
    · intro hall
      rw [hkeep2 (fun u hu => hall u (List.mem_cons_of_mem _ hu)),
        hkeep1.1 (hall t (List.mem_cons_self _ _))]
    · simpa [SubscriptionManager.run_ticks] using hs2
    · simp only [SubscriptionManager.run_ticks, timer_updates_for_append, hc1, hc2]

theorem add_subscriber_new (m : SubscriptionManager) (packet : List Nat) (size : Nat)
    (addr : LogicalAddress) (time : Nat)
    (hnew : ∀ r ∈ m.subscribers, ¬ (r.subscription_id = net_load32 packet 0 ∧ r.addr = addr)) :
    (m.add_subscriber packet size addr time).subscribers =
      m.subscribers ++ [new_subscriber packet addr time] := by
  simp [SubscriptionManager.add_subscriber, refresh_subscriber_none _ _ _ _ hnew]

theorem refresh_subscriber_hit (id : Nat) (addr : LogicalAddress) (e : Nat)
    (front back : List Subscriber) (sub : Subscriber)
    (hfront : ∀ r ∈ front, ¬ (r.subscription_id = id ∧ r.addr = addr))
    (hsub : sub.subscription_id = id ∧ sub.addr = addr) :
    refresh_subscriber id addr e (front ++ sub :: back)
      = some (front ++ { sub with end_time := e } :: back) := by
  induction front with
  | nil => simp [refresh_subscriber, hsub]
  | cons s rest ih =>
    have hs := hfront s (List.mem_cons_self _ _)
    have hr := ih (fun r hr => hfront r (List.mem_cons_of_mem _ hr))
    simp [refresh_subscriber, hs, hr]

theorem duration_us_small (duration : Nat) (h : duration ≤ 2147) :
    duration_us duration = duration * 1000000 := by
  unfold duration_us
  have h1 : duration * 1000000 % 2 ^ 32 = duration * 1000000 :=
    Nat.mod_eq_of_lt (by norm_num; omega)
  simp only [h1]
  rw [if_pos (by norm_num; omega)]

/-- A `SUBSCRIPTION_START` for an id and address that already have a row rewrites the
`end_time` of the first such row and nothing else; for durations up to 2147 s the new
value is `time + duration * 10 ^ 6` (modulo `2 ^ 64`). -/
theorem add_subscriber_refresh (m : SubscriptionManager) (packet : List Nat) (size : Nat)
    (addr : LogicalAddress) (time : Nat) (front back : List Subscriber) (sub : Subscriber)
    (hm : m.subscribers = front ++ sub :: back)
    (hfront : ∀ r ∈ front, ¬ (r.subscription_id = net_load32 packet 0 ∧ r.addr = addr))
    (hsub : sub.subscription_id = net_load32 packet 0 ∧ sub.addr = addr)
    (hdur : net_load16 packet 6 ≤ 2147) :
    (m.add_subscriber packet size addr time).subscribers
      = front ++ { sub with end_time := (time + net_load16 packet 6 * 1000000) % 2 ^ 64 } :: back := by
  simp [SubscriptionManager.add_subscriber, hm,
    refresh_subscriber_hit _ _ _ front back sub hfront hsub, duration_us_small _ hdur]

/-! ## Subscription manager: claims -/

/-- C5 (as stated, refuted): the subscriber of scenario S3 (start at 1_000_000 with
period 500 ms) already gets its callback at the tick 1_499_999, which is earlier than
`t0 + p * 1000`. -/
theorem C5_counterexample_fires_one_microsecond_early :
    1499999 < 1000000 + 500 * 1000 ∧
    timer_updates_for { phy := 2, log := 200 } 9
      (((SubscriptionManager.init 0).add_subscriber sample_start 0
          { phy := 2, log := 200 } 1000000).update_periodic 100 1499999).2 = 1 := by
  decide

/-- C5 (amended): a subscriber created by `add_subscriber` at `t0` with period `p > 0`
(with `p * 1000` below `2 ^ 32`) gets no `on_subscription_timer_update` during any ticks
before `t0 + p * 1000 - 1`, and exactly one at the first tick at or after
`t0 + p * 1000 - 1`, as long as it has not expired. -/
theorem C5_first_callback_at_period_minus_one (m : SubscriptionManager) (port : Nat)
    (packet : List Nat) (size : Nat) (addr : LogicalAddress) (t0 : Nat) (early : List Nat)
    (now : Nat)
    (hnew : ∀ r ∈ m.subscribers, ¬ (r.subscription_id = net_load32 packet 0 ∧ r.addr = addr))
    (hp : 0 < net_load32 packet 8) (hp32 : net_load32 packet 8 * 1000 < 2 ^ 32)
    (hclock : t0 + net_load32 packet 8 * 1000 ≤ 2 ^ 64)
    (hearly : ∀ t ∈ early, t < t0 + net_load32 packet 8 * 1000 - 1
      ∧ t < (new_subscriber packet addr t0).end_time)
    (hnow : t0 + net_load32 packet 8 * 1000 - 1 ≤ now)
    (hlive : now < (new_subscriber packet addr t0).end_time) :
    timer_updates_for addr (net_load32 packet 0)
        (SubscriptionManager.run_ticks port early (m.add_subscriber packet size addr t0)).2 = 0
    ∧ timer_updates_for addr (net_load32 packet 0)
        (((SubscriptionManager.run_ticks port early
            (m.add_subscriber packet size addr t0)).1).update_periodic port now).2 = 1 := by
  have hnext : (new_subscriber packet addr t0).next_periodic_update_time
      = t0 + net_load32 packet 8 * 1000 - 1 := by
    have hne : net_load32 packet 8 ≠ 0 := by omega
    simp only [new_subscriber, hne, ne_eq, not_false_eq_true, if_true]
    rw [Nat.mod_eq_of_lt hp32]
    generalize (2 : Nat) ^ 64 = N at hclock ⊢
    have e : t0 + net_load32 packet 8 * 1000 + N - 1 = (t0 + net_load32 packet 8 * 1000 - 1) + N := by
      omega
    rw [e, Nat.add_mod_right, Nat.mod_eq_of_lt (by omega)]
  obtain ⟨rows2, tail2, _, hkeep, hs2, hr2, hc2⟩ :=
    run_ticks_not_due port (net_load32 packet 0) addr (new_subscriber packet addr t0) early
      (fun t ht => by rw [hnext]; exact (hearly t ht).1)
      (m.add_subscriber packet size addr t0) m.subscribers [new_subscriber packet addr t0]
      (Or.inl rfl) (add_subscriber_new m packet size addr t0 hnew) hnew
  have htail := hkeep (fun t ht => (hearly t ht).2)
  subst htail
  refine ⟨hc2, ?_⟩
  have hf := update_periodic_walk_foreign port now (net_load32 packet 0) addr rows2 hr2
  have hcount : timer_updates_for addr (net_load32 packet 0)
      (if decide (now > (SubscriptionManager.run_ticks port early
          (m.add_subscriber packet size addr t0)).1.self_update_next) = true
        then [Event.on_timer_update port] else []) = 0 := by
    split_ifs <;> simp [timer_updates_for]
  have hdue : (new_subscriber packet addr t0).next_periodic_update_time ≤ now := by
    rw [hnext]; exact hnow
  have hne : ¬ now ≥ (new_subscriber packet addr t0).end_time := by omega
  simp only [SubscriptionManager.update_periodic, hs2, update_periodic_walk_append,
    update_periodic_walk, hdue, hne, if_true, if_false, timer_updates_for_append, hf.2, hcount]
  have haddr : (new_subscriber packet addr t0).addr = addr := rfl
  have hid : (new_subscriber packet addr t0).subscription_id = net_load32 packet 0 := rfl
  simp [timer_updates_for, haddr, hid]

/-- C5 (amended), at scenario S3: ticks at 1_499_997 and 1_499_998 give no callback, the
tick at 1_499_999 gives exactly one, and a later tick at 2_000_000 gives one again. -/
theorem C5_first_callback_at_period_minus_one_witness :
    (timer_updates_for { phy := 2, log := 200 } (net_load32 sample_start 0)
        (SubscriptionManager.run_ticks 100 [1499997, 1499998]
          ((SubscriptionManager.init 0).add_subscriber sample_start 0
            { phy := 2, log := 200 } 1000000)).2 = 0
      ∧ timer_updates_for { phy := 2, log := 200 } (net_load32 sample_start 0)
          (((SubscriptionManager.run_ticks 100 [1499997, 1499998]
              ((SubscriptionManager.init 0).add_subscriber sample_start 0
                { phy := 2, log := 200 } 1000000)).1).update_periodic 100 1499999).2 = 1)
    ∧ timer_updates_for { phy := 2, log := 200 } 9
        (((SubscriptionManager.run_ticks 100 [1499997, 1499998, 1499999]
            ((SubscriptionManager.init 0).add_subscriber sample_start 0
              { phy := 2, log := 200 } 1000000)).1).update_periodic 100 2000000).2 = 1 :=
  ⟨C5_first_callback_at_period_minus_one (SubscriptionManager.init 0) 100
    sample_start 0 { phy := 2, log := 200 } 1000000
    [1499997, 1499998] 1499999 (by decide) (by decide) (by decide) (by decide) (by decide)
    (by decide) (by decide), by decide⟩

/-- C6: a subscriber whose `end_time` has been reached at a tick contributes nothing to
that tick: `update_periodic` gives the same manager and the same calls as on the list
without it, no surviving row has `end_time <= now`, and the subscriber is not among the
survivors; this holds also when its periodic update is due. -/
theorem C6_expired_subscriber_removed_without_callback (m : SubscriptionManager)
    (port now : Nat) (front back : List Subscriber) (sub : Subscriber)
    (hm : m.subscribers = front ++ sub :: back) (hexp : now ≥ sub.end_time) :
    m.update_periodic port now
        = ({ m with subscribers := front ++ back } : SubscriptionManager).update_periodic port now
    ∧ (∀ r ∈ (m.update_periodic port now).1.subscribers, now < r.end_time)
    ∧ sub ∉ (m.update_periodic port now).1.subscribers := by
  have halive : ∀ r ∈ (m.update_periodic port now).1.subscribers, now < r.end_time := by
    intro r hr
    exact update_periodic_walk_alive port now m.subscribers r
      (by simpa [SubscriptionManager.update_periodic] using hr)
  refine ⟨?_, halive, ?_⟩
  · simp [SubscriptionManager.update_periodic, hm, update_periodic_walk_append,
      update_periodic_walk, hexp]
  · intro hmem
    have := halive sub hmem
    omega

/-- C6 at scenario S3: at 3_000_001 the subscriber (expiry 3_000_000, update due since
2_999_999) is dropped and no call is made. -/
theorem C6_expired_subscriber_removed_without_callback_witness :
    (3000001 ≥ sample_subscriber.end_time
      ∧ sample_subscriber.next_periodic_update_time ≤ 3000001)
    ∧ ((sample_manager [sample_subscriber]).update_periodic 100 3000001
        = ({ sample_manager [sample_subscriber] with subscribers := [] ++ [] }
            : SubscriptionManager).update_periodic 100 3000001
      ∧ (∀ r ∈ ((sample_manager [sample_subscriber]).update_periodic 100 3000001).1.subscribers,
          3000001 < r.end_time)
      ∧ sample_subscriber ∉
          ((sample_manager [sample_subscriber]).update_periodic 100 3000001).1.subscribers) :=
  ⟨by decide, C6_expired_subscriber_removed_without_callback (sample_manager [sample_subscriber])
    100 3000001 [] [] sample_subscriber rfl (by decide)⟩

/-- C7 (code evaluated at the failing input): the subscriber of scenario S3 is refreshed
at 1_800_000 by a second `SUBSCRIPTION_START` with duration 3000 s.  There is still one
row, with period, next update time and action id as before, but the stored `end_time` is
not `now + 3000 * 10 ^ 6`: the 32-bit product has wrapped to a negative value. -/
theorem C7_refresh_with_long_duration_wraps :
    (((sample_manager []).add_subscriber sample_start 0 { phy := 2, log := 200 } 1000000
        ).add_subscriber sample_start_long 0 { phy := 2, log := 200 } 1800000
      ).subscribers
      = [{ sample_subscriber with
            end_time := 18446744072416384320, next_periodic_update_time := 1499999 }]
    ∧ net_load16 sample_start_long 6 = 3000
    ∧ 18446744072416384320 ≠ 1800000 + 3000 * 1000000 := by
  decide

/-- C8: a subscriber created with period 0 has `next_periodic_update_time = 2 ^ 64 - 1`;
no sequence of ticks at clock values below `2 ^ 64 - 1` produces an
`on_subscription_timer_update` for it; it is still in the list after any ticks before
its `end_time`, and no row of its id and address is left after the first tick at or
after `end_time`. -/
theorem C8_zero_period_never_fires (m : SubscriptionManager) (port : Nat) (packet : List Nat)
    (size : Nat) (addr : LogicalAddress) (t0 : Nat) (ticks early : List Nat) (now : Nat)
    (hnew : ∀ r ∈ m.subscribers, ¬ (r.subscription_id = net_load32 packet 0 ∧ r.addr = addr))
    (hp : net_load32 packet 8 = 0)
    (hticks : ∀ t ∈ ticks, t < 2 ^ 64 - 1)
    (hearly : ∀ t ∈ early, t < 2 ^ 64 - 1 ∧ t < (new_subscriber packet addr t0).end_time)
    (hnow : (new_subscriber packet addr t0).end_time ≤ now) (hnow64 : now < 2 ^ 64 - 1) :
    ((m.add_subscriber packet size addr t0).subscribers
        = m.subscribers ++ [new_subscriber packet addr t0]
      ∧ (new_subscriber packet addr t0).next_periodic_update_time = 2 ^ 64 - 1)
    ∧ timer_updates_for addr (net_load32 packet 0)
        (SubscriptionManager.run_ticks port ticks (m.add_subscriber packet size addr t0)).2 = 0
    ∧ new_subscriber packet addr t0 ∈
        (SubscriptionManager.run_ticks port early (m.add_subscriber packet size addr t0)).1.subscribers
    ∧ (∀ r ∈ (((SubscriptionManager.run_ticks port early
          (m.add_subscriber packet size addr t0)).1).update_periodic port now).1.subscribers,
        ¬ (r.subscription_id = net_load32 packet 0 ∧ r.addr = addr)) := by
  have hnext : (new_subscriber packet addr t0).next_periodic_update_time = 2 ^ 64 - 1 := by
    simp only [new_subscriber, hp, ne_eq, not_true_eq_false, if_false, U64_MAX]
  have hsubs := add_subscriber_new m packet size addr t0 hnew
  refine ⟨⟨hsubs, hnext⟩, ?_, ?_, ?_⟩
  · obtain ⟨_, _, _, _, _, _, hc⟩ :=
      run_ticks_not_due port (net_load32 packet 0) addr (new_subscriber packet addr t0) ticks
        (fun t ht => by rw [hnext]; exact hticks t ht)
        (m.add_subscriber packet size addr t0) m.subscribers [new_subscriber packet addr t0]
        (Or.inl rfl) hsubs hnew
    exact hc
  · obtain ⟨rows2, tail2, _, hkeep, hs2, _, _⟩ :=
      run_ticks_not_due port (net_load32 packet 0) addr (new_subscriber packet addr t0) early
        (fun t ht => by rw [hnext]; exact (hearly t ht).1)
        (m.add_subscriber packet size addr t0) m.subscribers [new_subscriber packet addr t0]
        (Or.inl rfl) hsubs hnew
    rw [hs2, hkeep (fun t ht => (hearly t ht).2)]
    simp
  · obtain ⟨rows2, tail2, ht2, _, hs2, hr2, _⟩ :=
      run_ticks_not_due port (net_load32 packet 0) addr (new_subscriber packet addr t0) early
        (fun t ht => by rw [hnext]; exact (hearly t ht).1)
        (m.add_subscriber packet size addr t0) m.subscribers [new_subscriber packet addr t0]
        (Or.inl rfl) hsubs hnew
    obtain ⟨rows3, tail3, _, hgone, hs3, hr3, _⟩ :=
      update_periodic_not_due port (net_load32 packet 0) addr (new_subscriber packet addr t0)
        now (by rw [hnext]; exact hnow64) _ rows2 tail2 ht2 hs2 hr2
    rw [hs3, hgone.2 hnow]
    simpa using hr3

/-- C8 at scenario S3 with period 0: start at 1_000_000, expiry at 3_000_000. -/
theorem C8_zero_period_never_fires_witness :
    (((sample_manager []).add_subscriber sample_start_no_period 0 { phy := 2, log := 200 }
          1000000).subscribers
        = (sample_manager []).subscribers
            ++ [new_subscriber sample_start_no_period { phy := 2, log := 200 } 1000000]
      ∧ (new_subscriber sample_start_no_period { phy := 2, log := 200 }
          1000000).next_periodic_update_time = 2 ^ 64 - 1)
    ∧ timer_updates_for { phy := 2, log := 200 } (net_load32 sample_start_no_period 0)
        (SubscriptionManager.run_ticks 100 [1500000, 2999999, 3000000, 5000000]
          ((sample_manager []).add_subscriber sample_start_no_period 0 { phy := 2, log := 200 }
            1000000)).2 = 0
    ∧ new_subscriber sample_start_no_period { phy := 2, log := 200 } 1000000 ∈
        (SubscriptionManager.run_ticks 100 [1500000, 2999999]
          ((sample_manager []).add_subscriber sample_start_no_period 0 { phy := 2, log := 200 }
            1000000)).1.subscribers
    ∧ (∀ r ∈ (((SubscriptionManager.run_ticks 100 [1500000, 2999999]
          ((sample_manager []).add_subscriber sample_start_no_period 0 { phy := 2, log := 200 }
            1000000)).1).update_periodic 100 3000000).1.subscribers,
        ¬ (r.subscription_id = net_load32 sample_start_no_period 0
          ∧ r.addr = { phy := 2, log := 200 })) :=
  C8_zero_period_never_fires (sample_manager []) 100 sample_start_no_period 0
    { phy := 2, log := 200 } 1000000 [1500000, 2999999, 3000000, 5000000] [1500000, 2999999]
    3000000 (by decide) (by decide) (by decide) (by decide) (by decide) (by decide)

/-! ## Dispatcher: runs at concrete inputs -/

/-- C1 (code evaluated at the failing input): a 5-byte `HELLO_WORLD` from node 2, port
200 to the button on port 100 is shorter than its header size 12, yet the device emits a
`HELLO_WORLD_RESPONSE` and its `on_device_discover` hook is called. -/
theorem C1_short_hello_world_is_handled :
    [1, 0, 200, 0, 100].length < header_size_of_byte (load8 [1, 0, 200, 0, 100] 0)
    ∧ (dispatch_packet 2 [1, 0, 200, 0, 100] 5 2 (sample_node true [sample_button])).trace =
      [Event.dispatch_packet [1, 0, 200, 0, 100] 5 2,
       Event.on_general_packet_accept 100 [1, 0, 200, 0, 100] 5 2,
       Event.finish_ptr [2, 0, 100, 0, 200, 0, 0, 0, 1, 3, 0, 0, 98, 116, 110] 15 (some 2),
       Event.mesh_write 2 [2, 2, 0, 100, 0, 200, 0, 0, 0, 1, 3, 0, 0, 98, 116, 110],
       Event.on_device_discover 100 [1, 0, 200, 0, 100] 5 2] := by
  decide

/-- C2 (code evaluated at the failing input): scenario S2 on a node whose pool is fresh.
The emitted `ACTION_EXECUTE_RESULT` carries request id 42 and status 1, but its
`action_id` bytes are the two bytes the pool slot held before (here 0), not 7. -/
theorem C2_result_action_id_not_written :
    (dispatch_packet 2 [12, 0, 200, 0, 100, 0, 7, 42, 1, 171] 10 2
        (sample_node true [sample_button])).trace =
      [Event.dispatch_packet [12, 0, 200, 0, 100, 0, 7, 42, 1, 171] 10 2,
       Event.on_general_packet_accept 100 [12, 0, 200, 0, 100, 0, 7, 42, 1, 171] 10 2,
       Event.on_action_set 100 7 [171] 1 { phy := 2, log := 200 },
       Event.finish_ptr [13, 0, 100, 0, 200, 0, 0, 42, 1] 9 (some 2),
       Event.mesh_write 2 [2, 13, 0, 100, 0, 200, 0, 0, 42, 1]]
    ∧ net_load16 [13, 0, 100, 0, 200, 0, 0, 42, 1] 5 = 0
    ∧ net_load16 [12, 0, 200, 0, 100, 0, 7, 42, 1, 171] 5 = 7 := by
  decide

/-- C9 (code evaluated at the failing input): scenario S6 on a little-endian host.  The
peer on port 200 of the same node asks the button for its dictionary; the reply carries
`field_count` as the bytes `03 00`, the dispatcher reads 768, and the peer's
`on_device_field_dictionary` is called with count `768 % 256 = 0` instead of 3.  On a
big-endian host the same run ends with count 3. -/
theorem C9_field_count_in_host_order :
    (dispatch_packet 3 [3, 0, 200, 0, 100, 0] 6 1
        (sample_node true [sample_button, sample_peer])).trace =
      [Event.dispatch_packet [3, 0, 200, 0, 100, 0] 6 1,
       Event.on_general_packet_accept 100 [3, 0, 200, 0, 100, 0] 6 1,
       Event.finish_ptr
         [4, 0, 100, 0, 200, 3, 0, 2, 111, 110, 3, 111, 102, 102, 5, 115, 116, 97, 116, 101]
         20 none,
       Event.dispatch_packet
         [4, 0, 100, 0, 200, 3, 0, 2, 111, 110, 3, 111, 102, 102, 5, 115, 116, 97, 116, 101]
         20 1,
       Event.on_general_packet_accept 200
         [4, 0, 100, 0, 200, 3, 0, 2, 111, 110, 3, 111, 102, 102, 5, 115, 116, 97, 116, 101]
         20 1,
       Event.on_device_field_dictionary 200
         [2, 111, 110, 3, 111, 102, 102, 5, 115, 116, 97, 116, 101] 0 1]
    ∧ sample_button.api_fields.length = 3
    ∧ (dispatch_packet 3 [3, 0, 200, 0, 100, 0] 6 1
        (sample_node false [sample_button, sample_peer])).trace.getLast? =
      some (Event.on_device_field_dictionary 200
        [2, 111, 110, 3, 111, 102, 102, 5, 115, 116, 97, 116, 101] 3 1) := by
  decide

/-- C10 (code evaluated at the failing input): a 7-byte `FIELD_DICTIONARY_RESPONSE` that
declares 257 fields and contains none.  The validation loop stops at the end of the
packet without rejecting, and `on_device_field_dictionary` is called with an empty
record area and count `257 % 256 = 1`.  A packet whose only record is cut short (length
byte 5, one byte present) is dropped. -/
theorem C10_missing_records_accepted :
    (dispatch_packet 2 [4, 1, 1, 0, 200, 1, 1] 7 2 (sample_node true [sample_peer])).trace =
      [Event.dispatch_packet [4, 1, 1, 0, 200, 1, 1] 7 2,
       Event.on_general_packet_accept 200 [4, 1, 1, 0, 200, 1, 1] 7 2,
       Event.on_device_field_dictionary 200 [] 1 2]
    ∧ net_load16 [4, 1, 1, 0, 200, 1, 1] 5 = 257
    ∧ (dispatch_packet 2 [4, 1, 1, 0, 200, 0, 1, 5, 111] 9 2
        (sample_node true [sample_peer])).trace =
      [Event.dispatch_packet [4, 1, 1, 0, 200, 0, 1, 5, 111] 9 2,
       Event.on_general_packet_accept 200 [4, 1, 1, 0, 200, 0, 1, 5, 111] 9 2] := by
  decide

/-! ## Memory lemmas -/

theorem load8_set (m : List Nat) (i j v : Nat) :
    load8 (m.set i v) j = if i = j ∧ j < m.length then v else load8 m j := by
  unfold load8
  simp only [List.getD_eq_getElem?_getD, List.getElem?_set]
  by_cases h : i = j
  · subst h
    by_cases hl : i < m.length
    · simp [hl]
    · simp [hl, List.getElem?_eq_none (Nat.le_of_not_lt hl)]
  · simp [h]

theorem load8_drop (m : List Nat) (p k : Nat) : load8 (m.drop p) k = load8 m (p + k) := by
  unfold load8
  simp [List.getD_eq_getElem?_getD, List.getElem?_drop]

theorem load8_take (m : List Nat) (n k : Nat) (h : k < n) : load8 (m.take n) k = load8 m k := by
  unfold load8
  simp [List.getD_eq_getElem?_getD, List.getElem?_take, h]

theorem length_net_memcpy (bs : List Nat) : ∀ (m : List Nat) (pos : Nat),
    (net_memcpy m pos bs).length = m.length := by
  induction bs with
  | nil => intro m pos; rfl
  | cons b rest ih => intro m pos; simp [net_memcpy, ih]

theorem load8_net_memcpy_below (bs : List Nat) : ∀ (m : List Nat) (pos j : Nat), j < pos →
    load8 (net_memcpy m pos bs) j = load8 m j := by
  induction bs with
  | nil => intro m pos j _; rfl
  | cons b rest ih =>
    intro m pos j hj
    simp only [net_memcpy]
    rw [ih _ _ _ (by omega), load8_set]
    have : ¬ (pos = j ∧ j < m.length) := by omega
    simp [this]

theorem length_net_store8 (m : List Nat) (pos v : Nat) : (net_store8 m pos v).length = m.length := by
  simp [net_store8]

theorem length_net_store16 (m : List Nat) (pos v : Nat) :
    (net_store16 m pos v).length = m.length := by
  simp [net_store16, length_net_memcpy]

theorem length_net_store32 (m : List Nat) (pos v : Nat) :
    (net_store32 m pos v).length = m.length := by
  simp [net_store32, length_net_memcpy]

theorem load8_net_store8 (m : List Nat) (pos v j : Nat) :
    load8 (net_store8 m pos v) j = if pos = j ∧ j < m.length then v % 256 else load8 m j := by
  simp [net_store8, load8_set]

theorem load8_net_store16_hi (m : List Nat) (pos v : Nat) (h : pos + 2 ≤ m.length) :
    load8 (net_store16 m pos v) pos = v / 256 % 256 := by
  simp only [net_store16, net_memcpy]
  rw [load8_set, if_neg (by omega), load8_set, if_pos ⟨rfl, by omega⟩]

theorem load8_net_store16_lo (m : List Nat) (pos v : Nat) (h : pos + 2 ≤ m.length) :
    load8 (net_store16 m pos v) (pos + 1) = v % 256 := by
  simp only [net_store16, net_memcpy]
  rw [load8_set, if_pos ⟨rfl, by rw [List.length_set]; omega⟩]

theorem net_load16_net_store16 (m : List Nat) (pos v : Nat) (h : pos + 2 ≤ m.length) :
    net_load16 (net_store16 m pos v) pos = v % 65536 := by
  simp only [net_load16, load8_net_store16_hi m pos v h, load8_net_store16_lo m pos v h]
  omega

theorem load8_net_store16_other (m : List Nat) (pos v j : Nat) (h : j < pos ∨ pos + 2 ≤ j) :
    load8 (net_store16 m pos v) j = load8 m j := by
  simp only [net_store16, net_memcpy]
  rw [load8_set, if_neg (by omega), load8_set, if_neg (by omega)]

theorem net_load16_congr (m m2 : List Nat) (pos : Nat) (h0 : load8 m2 pos = load8 m pos)
    (h1 : load8 m2 (pos + 1) = load8 m (pos + 1)) : net_load16 m2 pos = net_load16 m pos := by
  simp [net_load16, h0, h1]

theorem net_load16_drop (m : List Nat) (p k : Nat) :
    net_load16 (m.drop p) k = net_load16 m (p + k) := by
  simp [net_load16, load8_drop, Nat.add_assoc]

theorem net_load16_take (m : List Nat) (n k : Nat) (h : k + 1 < n) :
    net_load16 (m.take n) k = net_load16 m k := by
  simp [net_load16, load8_take _ _ _ h, load8_take _ _ _ (show k < n by omega)]

/-! ## Allocation lemmas -/

theorem length_block_memory_alloc (s : State) (size : Nat) :
    size ≤ (block_memory s (s.pool.alloc size).2 size).length := by
  unfold PoolMemoryAllocator.alloc
  split_ifs with h1 h2
  · simp [block_memory]
  · simp [block_memory]
  · cases hfc : first_clear s.pool.used_bits with
    | none => simp [block_memory]
    | some i =>
      simp only [block_memory, List.length_map, List.length_range]
      omega

theorem alloc_raw_state (s : State) (dst_phy log_size : Nat) (ovl_type : OverlayProtoType) :
    (alloc_raw_logical_ptr s dst_phy log_size ovl_type).1
      = { s with pool := (alloc_raw_logical_ptr s dst_phy log_size ovl_type).1.pool } := by
  unfold alloc_raw_logical_ptr
  split_ifs <;> rfl

theorem alloc_raw_size (s : State) (dst_phy log_size : Nat) (ovl_type : OverlayProtoType) :
    (alloc_raw_logical_ptr s dst_phy log_size ovl_type).2.size = log_size := by
  unfold alloc_raw_logical_ptr
  split_ifs <;> rfl

theorem alloc_raw_ptr (s : State) (dst_phy log_size : Nat) (ovl_type : OverlayProtoType) :
    (alloc_raw_logical_ptr s dst_phy log_size ovl_type).2.ptr
      = if s.self_addr = dst_phy then 0 else OverlayPacket.get_packet_size ovl_type := by
  unfold alloc_raw_logical_ptr
  split_ifs
  · rfl
  · cases ovl_type <;> rfl

theorem alloc_raw_ovl (s : State) (dst_phy log_size : Nat) (ovl_type : OverlayProtoType) :
    (alloc_raw_logical_ptr s dst_phy log_size ovl_type).2.ovl
      = if s.self_addr = dst_phy then none
        else some { dst_phy := dst_phy
                    stream_size := log_size + OverlayPacket.get_packet_size ovl_type } := by
  unfold alloc_raw_logical_ptr
  split_ifs <;> rfl

theorem alloc_raw_length (s : State) (dst_phy log_size : Nat) (ovl_type : OverlayProtoType) :
    (alloc_raw_logical_ptr s dst_phy log_size ovl_type).2.ptr + log_size
      ≤ (alloc_raw_logical_ptr s dst_phy log_size ovl_type).2.mem.length := by
  unfold alloc_raw_logical_ptr
  split_ifs
  · simpa using length_block_memory_alloc s log_size
  · have h := length_block_memory_alloc s (log_size + OverlayPacket.get_packet_size ovl_type)
    simp only [length_net_store8]
    cases ovl_type <;> simp only [overlay_data_offset, OverlayPacket.get_packet_size] at h ⊢ <;> omega

theorem alloc_raw_overlay_byte (s : State) (dst_phy log_size : Nat) (ovl_type : OverlayProtoType)
    (hphy : s.self_addr ≠ dst_phy) (hpos : 0 < log_size + OverlayPacket.get_packet_size ovl_type) :
    load8 (alloc_raw_logical_ptr s dst_phy log_size ovl_type).2.mem 0 = ovl_type.toNat := by
  unfold alloc_raw_logical_ptr
  rw [if_neg hphy]
  have h := length_block_memory_alloc s (log_size + OverlayPacket.get_packet_size ovl_type)
  rw [load8_net_store8, if_pos ⟨rfl, by omega⟩]
  cases ovl_type <;> rfl

theorem alloc_logical_state (s : State) (dst : LogicalAddress) (src_port size : Nat)
    (ovl_type : OverlayProtoType) (log_type : LogicalPacketType) :
    (alloc_logical_packet_ptr s dst src_port size ovl_type log_type).1
      = { s with pool := (alloc_logical_packet_ptr s dst src_port size ovl_type log_type).1.pool } := by
  unfold alloc_logical_packet_ptr
  exact alloc_raw_state _ _ _ _

theorem alloc_logical_size (s : State) (dst : LogicalAddress) (src_port size : Nat)
    (ovl_type : OverlayProtoType) (log_type : LogicalPacketType) :
    (alloc_logical_packet_ptr s dst src_port size ovl_type log_type).2.size
      = size + get_packet_size log_type := by
  unfold alloc_logical_packet_ptr
  exact alloc_raw_size _ _ _ _

theorem alloc_logical_ptr (s : State) (dst : LogicalAddress) (src_port size : Nat)
    (ovl_type : OverlayProtoType) (log_type : LogicalPacketType) :
    (alloc_logical_packet_ptr s dst src_port size ovl_type log_type).2.ptr
      = if s.self_addr = dst.phy then 0 else OverlayPacket.get_packet_size ovl_type := by
  unfold alloc_logical_packet_ptr
  exact alloc_raw_ptr _ _ _ _

theorem alloc_logical_ovl (s : State) (dst : LogicalAddress) (src_port size : Nat)
    (ovl_type : OverlayProtoType) (log_type : LogicalPacketType) :
    (alloc_logical_packet_ptr s dst src_port size ovl_type log_type).2.ovl
      = if s.self_addr = dst.phy then none
        else some { dst_phy := dst.phy
                    stream_size := size + get_packet_size log_type
                      + OverlayPacket.get_packet_size ovl_type } := by
  unfold alloc_logical_packet_ptr
  exact alloc_raw_ovl _ _ _ _

theorem alloc_logical_length (s : State) (dst : LogicalAddress) (src_port size : Nat)
    (ovl_type : OverlayProtoType) (log_type : LogicalPacketType) :
    (alloc_logical_packet_ptr s dst src_port size ovl_type log_type).2.ptr
        + (size + get_packet_size log_type)
      ≤ (alloc_logical_packet_ptr s dst src_port size ovl_type log_type).2.mem.length := by
  unfold alloc_logical_packet_ptr
  simp only [length_net_store16, length_net_store8]
  exact alloc_raw_length _ _ _ _

theorem toNat_lt_256 (t : LogicalPacketType) : t.toNat % 256 = t.toNat := by
  cases t <;> rfl

theorem ofNat?_toNat (t : LogicalPacketType) : LogicalPacketType.ofNat? t.toNat = some t := by
  cases t <;> rfl

/-- The header `alloc_logical_packet_ptr` writes can be read back. -/
theorem alloc_logical_header (s : State) (dst : LogicalAddress) (src_port size : Nat)
    (ovl_type : OverlayProtoType) (log_type : LogicalPacketType)
    (h5 : 5 ≤ size + get_packet_size log_type) :
    load8 (alloc_logical_packet_ptr s dst src_port size ovl_type log_type).2.mem
        (alloc_logical_packet_ptr s dst src_port size ovl_type log_type).2.ptr = log_type.toNat
    ∧ net_load16 (alloc_logical_packet_ptr s dst src_port size ovl_type log_type).2.mem
        ((alloc_logical_packet_ptr s dst src_port size ovl_type log_type).2.ptr + 1)
        = src_port % 65536
    ∧ net_load16 (alloc_logical_packet_ptr s dst src_port size ovl_type log_type).2.mem
        ((alloc_logical_packet_ptr s dst src_port size ovl_type log_type).2.ptr + 3)
        = dst.log % 65536 := by
  have hlen := alloc_raw_length s dst.phy (size + get_packet_size log_type) ovl_type
  unfold alloc_logical_packet_ptr
  simp only []
  generalize alloc_raw_logical_ptr s dst.phy (size + get_packet_size log_type) ovl_type = r at hlen ⊢
  refine ⟨?_, ?_, ?_⟩
  · rw [load8_net_store16_other _ _ _ _ (Or.inl (by omega)),
      load8_net_store16_other _ _ _ _ (Or.inl (by omega)), load8_net_store8,
      if_pos ⟨rfl, by omega⟩, toNat_lt_256]
  · apply Eq.trans (net_load16_congr _ _ _
      (load8_net_store16_other _ _ _ _ (Or.inl (by omega)))
      (load8_net_store16_other _ _ _ _ (Or.inl (by omega))))
    exact net_load16_net_store16 _ _ _ (by rw [length_net_store8]; omega)
  · exact net_load16_net_store16 _ _ _ (by rw [length_net_store16, length_net_store8]; omega)

theorem alloc_logical_overlay_byte (s : State) (dst : LogicalAddress) (src_port size : Nat)
    (log_type : LogicalPacketType) (hphy : s.self_addr ≠ dst.phy) :
    load8 (alloc_logical_packet_ptr s dst src_port size OverlayProtoType.UNRELIABLE log_type).2.mem 0
      = 2 := by
  have hb := alloc_raw_overlay_byte s dst.phy (size + get_packet_size log_type)
    OverlayProtoType.UNRELIABLE hphy (by simp [OverlayPacket.get_packet_size])
  have hp := alloc_raw_ptr s dst.phy (size + get_packet_size log_type) OverlayProtoType.UNRELIABLE
  rw [if_neg hphy] at hp
  unfold alloc_logical_packet_ptr
  simp only []
  rw [load8_net_store16_other _ _ _ _ (Or.inl (by omega)),
    load8_net_store16_other _ _ _ _ (Or.inl (by omega)), load8_net_store8,
    if_neg (by rw [hp]; simp [OverlayPacket.get_packet_size]), hb]
  rfl

/-! ## Trace steps -/

theorem traceStep_refl (P : Event → Prop) (s : State) : TraceStep P s s :=
  ⟨rfl, rfl, [], by simp, by simp⟩

theorem traceStep_trans {P : Event → Prop} {s t u : State} (h1 : TraceStep P s t)
    (h2 : TraceStep P t u) : TraceStep P s u := by
  obtain ⟨a1, d1, e1, t1, p1⟩ := h1
  obtain ⟨a2, d2, e2, t2, p2⟩ := h2
  refine ⟨a2.trans a1, d2.trans d1, e1 ++ e2, by rw [t2, t1, List.append_assoc], ?_⟩
  intro e he
  rcases List.mem_append.mp he with h | h
  · exact p1 e h
  · exact p2 e h

theorem traceStep_log {P : Event → Prop} (s : State) {e : Event} (h : P e) :
    TraceStep P s (s.log e) :=
  ⟨rfl, rfl, [e], rfl, by simpa using h⟩

theorem traceStep_mono {P Q : Event → Prop} {s t : State} (hPQ : ∀ e, P e → Q e)
    (h : TraceStep P s t) : TraceStep Q s t := by
  obtain ⟨a, d, evs, ht, hp⟩ := h
  exact ⟨a, d, evs, ht, fun e he => hPQ e (hp e he)⟩

theorem traceStep_of_fields {P : Event → Prop} {s t : State} (h1 : t.self_addr = s.self_addr)
    (h2 : t.devices = s.devices) (h3 : t.trace = s.trace) : TraceStep P s t :=
  ⟨h1, h2, [], by simpa using h3, by simp⟩

theorem traceStep_release (P : Event → Prop) (fuel : Nat) (p : LogicalPacketPtr) (s : State) :
    TraceStep P s (release fuel p s) := by
  unfold release
  cases s.pool.free fuel p.block with
  | none => exact traceStep_of_fields rfl rfl rfl
  | some pool =>
    cases p.block with
    | slot i => exact traceStep_of_fields rfl rfl rfl
    | heap => exact traceStep_of_fields rfl rfl rfl

theorem traceStep_unless_stuck (P : Event → Prop) (fuel : Nat) (p : LogicalPacketPtr)
    (s : State) : TraceStep P s (if s.stuck then s else release fuel p s) := by
  split_ifs
  · exact traceStep_refl P s
  · exact traceStep_release P fuel p s

theorem traceStep_alloc (P : Event → Prop) (s : State) (dst : LogicalAddress)
    (src_port size : Nat) (ovl_type : OverlayProtoType) (log_type : LogicalPacketType) :
    TraceStep P s (alloc_logical_packet_ptr s dst src_port size ovl_type log_type).1 := by
  rw [alloc_logical_state]
  exact traceStep_of_fields rfl rfl rfl

/-- The trace of `finish_ptr`: the emission first, then the mesh write if the packet has
an overlay builder, then whatever the local dispatch appends. -/
theorem finish_ptr_shape (P : Event → Prop) (fuel : Nat)
    (dispatch : List Nat → Nat → Nat → State → State) (p : LogicalPacketPtr) (s : State)
    (hd : ∀ st, st.self_addr = s.self_addr → st.devices = s.devices →
      TraceStep P st (dispatch (p.mem.drop p.ptr) (p.size % 65536) st.self_addr st)) :
    (finish_ptr fuel dispatch p s).self_addr = s.self_addr
    ∧ (finish_ptr fuel dispatch p s).devices = s.devices
    ∧ ∃ tail, (finish_ptr fuel dispatch p s).trace
          = s.trace ++ Event.finish_ptr ((p.mem.drop p.ptr).take p.size) p.size
              (p.ovl.map (fun o => o.dst_phy)) :: tail
        ∧ ((∀ ovl, p.ovl = some ovl → ∃ tail2,
              tail = Event.mesh_write ovl.dst_phy (p.mem.take ovl.stream_size) :: tail2
              ∧ ∀ e ∈ tail2, P e)
          ∧ (p.ovl = none → ∀ e ∈ tail, P e)) := by
  unfold finish_ptr
  cases hovl : p.ovl with
  | none =>
    simp only []
    obtain ⟨a, d, evs, ht, hp⟩ := traceStep_trans (hd (s.log (Event.finish_ptr
      ((p.mem.drop p.ptr).take p.size) p.size
      (Option.map (fun (o : OverlayPacketBuilder) => o.dst_phy) none))) rfl rfl)
      (traceStep_unless_stuck P fuel p _)
    refine ⟨a, d, evs, ?_, ?_, fun _ => hp⟩
    · rw [ht]; simp [State.log]
    · intro ovl h; cases h
  | some ovl =>
    simp only []
    have hstep : TraceStep P
        ((s.log (Event.finish_ptr ((p.mem.drop p.ptr).take p.size) p.size
            (Option.map (fun (o : OverlayPacketBuilder) => o.dst_phy) (some ovl)))).log
          (Event.mesh_write ovl.dst_phy (p.mem.take ovl.stream_size)))
        (if net_load16 (p.mem.drop p.ptr) 3 = BROADCAST_PORT then
          dispatch (p.mem.drop p.ptr) (p.size % 65536)
            ((s.log (Event.finish_ptr ((p.mem.drop p.ptr).take p.size) p.size
              (Option.map (fun (o : OverlayPacketBuilder) => o.dst_phy) (some ovl)))).log
              (Event.mesh_write ovl.dst_phy (p.mem.take ovl.stream_size))).self_addr
            ((s.log (Event.finish_ptr ((p.mem.drop p.ptr).take p.size) p.size
              (Option.map (fun (o : OverlayPacketBuilder) => o.dst_phy) (some ovl)))).log
              (Event.mesh_write ovl.dst_phy (p.mem.take ovl.stream_size)))
         else (s.log (Event.finish_ptr ((p.mem.drop p.ptr).take p.size) p.size
              (Option.map (fun (o : OverlayPacketBuilder) => o.dst_phy) (some ovl)))).log
              (Event.mesh_write ovl.dst_phy (p.mem.take ovl.stream_size))) := by
      split_ifs
      · exact hd _ rfl rfl
      · exact traceStep_refl P _
    obtain ⟨a, d, evs, ht, hp⟩ := traceStep_trans hstep (traceStep_unless_stuck P fuel p _)
    refine ⟨a, d, Event.mesh_write ovl.dst_phy (p.mem.take ovl.stream_size) :: evs, ?_, ?_, ?_⟩
    · rw [ht]; simp [State.log]
    · intro ovl2 h
      cases h
      exact ⟨evs, rfl, hp⟩
    · intro h; cases h

/-- The body of `dispatch_packet` appends only `P` events if its entry event is one and
`handle_packet` appends only such events for this packet. -/
theorem dispatch_body_step (P : Event → Prop) (fuel : Nat)
    (dispatch : List Nat → Nat → Nat → State → State) (packet : List Nat) (size src_phy : Nat)
    (hentry : P (Event.dispatch_packet (packet.take size) size src_phy))
    (s : State)
    (hh : ∀ key st, st.self_addr = s.self_addr → st.devices = s.devices →
      TraceStep P st (handle_packet fuel dispatch key packet size src_phy st)) :
    TraceStep P s (dispatch_packet_body fuel dispatch packet size src_phy s) := by
  have hfold : ∀ (l : List (Nat × Device)) (st : State),
      st.self_addr = s.self_addr → st.devices = s.devices →
      TraceStep P st (l.foldl (fun st e =>
        if st.stuck then st else handle_packet fuel dispatch e.1 packet size src_phy st) st) := by
    intro l
    induction l with
    | nil => intro st _ _; exact traceStep_refl P st
    | cons e rest ih =>
      intro st ha hd
      simp only [List.foldl_cons]
      have hstep : TraceStep P st
          (if st.stuck then st else handle_packet fuel dispatch e.1 packet size src_phy st) := by
        split_ifs
        · exact traceStep_refl P st
        · exact hh _ _ ha hd
      exact traceStep_trans hstep (ih _ (hstep.1.trans ha) (hstep.2.1.trans hd))
  unfold dispatch_packet_body
  simp only []
  refine traceStep_trans (traceStep_log s hentry) ?_
  split_ifs
  · exact traceStep_refl P _
  · exact hfold _ _ rfl rfl
  · cases lookup_device (s.log (Event.dispatch_packet (packet.take size) size src_phy))
        (net_load16 packet 3) with
    | none => exact traceStep_refl P _
    | some _ => exact hh _ _ rfl rfl

/-- A packet of type `ACTION_EXECUTE_RESULT` is handled by the acceptance question
alone. -/
theorem handle_packet_action_execute_result (fuel : Nat)
    (dispatch : List Nat → Nat → Nat → State → State) (packet : List Nat) (size src_phy : Nat)
    (htype : load8 packet 0 = LogicalPacketType.ACTION_EXECUTE_RESULT.toNat) (key : Nat)
    (st : State) :
    TraceStep (fun e => e.is_delivery = true) st
      (handle_packet fuel dispatch key packet size src_phy st) := by
  unfold handle_packet
  cases lookup_device st key with
  | none => exact traceStep_refl _ st
  | some device =>
    simp only [htype, ofNat?_toNat]
    split_ifs
    · exact traceStep_log st rfl
    · exact traceStep_log st rfl

/-- A packet of type `HELLO_WORLD_RESPONSE` is handled by hook calls alone. -/
theorem handle_packet_hello_world_response (fuel : Nat)
    (dispatch : List Nat → Nat → Nat → State → State) (packet : List Nat) (size src_phy : Nat)
    (htype : load8 packet 0 = LogicalPacketType.HELLO_WORLD_RESPONSE.toNat) (key : Nat)
    (st : State) :
    TraceStep (fun e => e.is_passive = true) st
      (handle_packet fuel dispatch key packet size src_phy st) := by
  unfold handle_packet
  cases lookup_device st key with
  | none => exact traceStep_refl _ st
  | some device =>
    simp only [htype, ofNat?_toNat]
    split_ifs
    · exact traceStep_log st rfl
    · refine traceStep_trans (traceStep_log st ?_) (traceStep_log _ ?_) <;> rfl

theorem take_succ_of_ne_nil (m : List Nat) (n : Nat) (h : 0 < m.length) :
    m.take (n + 1) = load8 m 0 :: (m.drop 1).take n := by
  cases m with
  | nil => simp at h
  | cons a l => simp [load8]

theorem dispatch_packet_action_execute_result (fuel : Nat) (packet : List Nat)
    (size src_phy : Nat) (htype : load8 packet 0 = LogicalPacketType.ACTION_EXECUTE_RESULT.toNat)
    (st : State) :
    TraceStep (fun e => e.is_delivery = true) st
      (dispatch_packet (fuel + 1) packet size src_phy st) := by
  show TraceStep _ st (dispatch_packet_body fuel (dispatch_packet fuel) packet size src_phy st)
  exact dispatch_body_step (fun e => e.is_delivery = true) fuel (dispatch_packet fuel) packet
    size src_phy rfl st
    (fun key st2 _ _ =>
      handle_packet_action_execute_result fuel _ packet size src_phy htype key st2)

/-- The reply of the `ACTION_EXECUTE` branch: what `finish_ptr` appends to the trace for
the `ACTION_EXECUTE_RESULT` built for `src`. -/
theorem action_execute_reply (fuel : Nat) (s1 : State) (src : LogicalAddress)
    (self_port status reqid : Nat) :
    ∃ pk tail,
      (finish_ptr (fuel + 1) (dispatch_packet (fuel + 1))
          { (alloc_logical_packet_ptr s1 src self_port 0 OverlayProtoType.UNRELIABLE
              LogicalPacketType.ACTION_EXECUTE_RESULT).2 with
            mem := net_store8 (net_store8
              (alloc_logical_packet_ptr s1 src self_port 0 OverlayProtoType.UNRELIABLE
                LogicalPacketType.ACTION_EXECUTE_RESULT).2.mem
              ((alloc_logical_packet_ptr s1 src self_port 0 OverlayProtoType.UNRELIABLE
                LogicalPacketType.ACTION_EXECUTE_RESULT).2.ptr + 8) status)
              ((alloc_logical_packet_ptr s1 src self_port 0 OverlayProtoType.UNRELIABLE
                LogicalPacketType.ACTION_EXECUTE_RESULT).2.ptr + 7) reqid }
          (alloc_logical_packet_ptr s1 src self_port 0 OverlayProtoType.UNRELIABLE
            LogicalPacketType.ACTION_EXECUTE_RESULT).1).trace
        = s1.trace ++ Event.finish_ptr pk 9
            (if s1.self_addr = src.phy then none else some src.phy) :: tail
      ∧ load8 pk 0 = LogicalPacketType.ACTION_EXECUTE_RESULT.toNat
      ∧ net_load16 pk 1 = self_port % 65536
      ∧ net_load16 pk 3 = src.log % 65536
      ∧ load8 pk 7 = reqid % 256
      ∧ load8 pk 8 = status % 256
      ∧ (s1.self_addr ≠ src.phy → ∃ tail2,
          tail = Event.mesh_write src.phy (OverlayProtoType.UNRELIABLE.toNat :: pk) :: tail2
          ∧ ∀ e ∈ tail2, e.is_delivery = true)
      ∧ (∀ e ∈ tail, e.is_delivery = true) := by
  have hlen := alloc_logical_length s1 src self_port 0 OverlayProtoType.UNRELIABLE
    LogicalPacketType.ACTION_EXECUTE_RESULT
  have hhdr := alloc_logical_header s1 src self_port 0 OverlayProtoType.UNRELIABLE
    LogicalPacketType.ACTION_EXECUTE_RESULT (by decide)
  have hsz := alloc_logical_size s1 src self_port 0 OverlayProtoType.UNRELIABLE
    LogicalPacketType.ACTION_EXECUTE_RESULT
  have hptr := alloc_logical_ptr s1 src self_port 0 OverlayProtoType.UNRELIABLE
    LogicalPacketType.ACTION_EXECUTE_RESULT
  have hovl := alloc_logical_ovl s1 src self_port 0 OverlayProtoType.UNRELIABLE
    LogicalPacketType.ACTION_EXECUTE_RESULT
  have hbyte := alloc_logical_overlay_byte s1 src self_port 0
    LogicalPacketType.ACTION_EXECUTE_RESULT
  have hst := alloc_logical_state s1 src self_port 0 OverlayProtoType.UNRELIABLE
    LogicalPacketType.ACTION_EXECUTE_RESULT
  generalize alloc_logical_packet_ptr s1 src self_port 0 OverlayProtoType.UNRELIABLE
    LogicalPacketType.ACTION_EXECUTE_RESULT = r at *
  obtain ⟨h0, h1, h3⟩ := hhdr
  have hgps : (0 : Nat) + get_packet_size LogicalPacketType.ACTION_EXECUTE_RESULT = 9 := rfl
  rw [hgps] at hlen hsz hovl
  -- the final memory and its bytes
  have hm : ∀ j, load8 (net_store8 (net_store8 r.2.mem (r.2.ptr + 8) status) (r.2.ptr + 7) reqid) j
      = if j = r.2.ptr + 7 then reqid % 256
        else if j = r.2.ptr + 8 then status % 256 else load8 r.2.mem j := by
    intro j
    rw [load8_net_store8, load8_net_store8, length_net_store8]
    by_cases h7 : j = r.2.ptr + 7
    · rw [if_pos ⟨h7.symm, by omega⟩, if_pos h7]
    · rw [if_neg (fun h => h7 h.1.symm), if_neg h7]
      by_cases h8 : j = r.2.ptr + 8
      · rw [if_pos ⟨h8.symm, by omega⟩, if_pos h8]
      · rw [if_neg (fun h => h8 h.1.symm), if_neg h8]
  have hraw0 : load8 ((net_store8 (net_store8 r.2.mem (r.2.ptr + 8) status) (r.2.ptr + 7)
      reqid).drop r.2.ptr) 0 = LogicalPacketType.ACTION_EXECUTE_RESULT.toNat := by
    rw [load8_drop, hm, if_neg (by omega), if_neg (by omega)]
    exact h0
  obtain ⟨_, _, tail, htr, hmesh, hloop⟩ := finish_ptr_shape (fun e => e.is_delivery = true)
    (fuel + 1) (dispatch_packet (fuel + 1))
    { r.2 with mem := net_store8 (net_store8 r.2.mem (r.2.ptr + 8) status) (r.2.ptr + 7) reqid }
    r.1
    (fun st _ _ => dispatch_packet_action_execute_result fuel _ _ _ hraw0 st)
  refine ⟨((net_store8 (net_store8 r.2.mem (r.2.ptr + 8) status) (r.2.ptr + 7) reqid).drop
    r.2.ptr).take 9, tail, ?_, ?_, ?_, ?_, ?_, ?_, ?_, ?_⟩
  · rw [htr]
    have htrace : r.1.trace = s1.trace := by rw [hst]
    rw [htrace]
    simp only [hsz, hovl]
    congr 2
    split_ifs <;> rfl
  · rw [load8_take _ _ _ (by omega)]
    exact hraw0
  · rw [net_load16_take _ _ _ (by omega), net_load16_drop, ← h1]
    apply net_load16_congr
    · rw [hm, if_neg (by omega), if_neg (by omega)]
    · rw [hm, if_neg (by omega), if_neg (by omega)]
  · rw [net_load16_take _ _ _ (by omega), net_load16_drop, ← h3]
    apply net_load16_congr
    · rw [hm, if_neg (by omega), if_neg (by omega)]
    · rw [hm, if_neg (by omega), if_neg (by omega)]
  · rw [load8_take _ _ _ (by omega), load8_drop, hm, if_pos rfl]
  · rw [load8_take _ _ _ (by omega), load8_drop, hm, if_neg (by omega), if_pos rfl]
  · intro hphy
    rw [if_neg hphy] at hptr hovl
    obtain ⟨tail2, ht2, hp2⟩ := hmesh _ hovl
    refine ⟨tail2, ?_, hp2⟩
    rw [ht2]
    simp only [OverlayPacket.get_packet_size] at hptr ⊢
    have hlen2 : 0 < (net_store8 (net_store8 r.2.mem (r.2.ptr + 8) status) (r.2.ptr + 7)
        reqid).length := by
      rw [length_net_store8, length_net_store8]; omega
    rw [take_succ_of_ne_nil _ 9 hlen2, hm, if_neg (by omega), if_neg (by omega), hbyte hphy, hptr]
    rfl
  · by_cases hphy : s1.self_addr = src.phy
    · rw [if_pos hphy] at hovl
      exact hloop hovl
    · rw [if_neg hphy] at hovl
      obtain ⟨tail2, ht2, hp2⟩ := hmesh _ hovl
      intro e he
      rw [ht2] at he
      rcases List.mem_cons.mp he with rfl | h
      · rfl
      · exact hp2 e h

/-! ## The `HELLO_WORLD` builder keeps the header -/

theorem write_attribs_below (l : List DeviceAttrib) : ∀ (m : List Nat) (off j : Nat), j < off →
    load8 (write_attribs m off l).1 j = load8 m j := by
  induction l with
  | nil => intro m off j _; rfl
  | cons a rest ih =>
    intro m off j hj
    simp only [write_attribs]
    rw [ih _ _ _ (by omega), load8_net_memcpy_below _ _ _ _ (by omega),
      load8_net_memcpy_below _ _ _ _ (by omega), load8_net_store8, if_neg (by omega),
      load8_net_store8, if_neg (by omega)]

theorem write_attribs_offset (l : List DeviceAttrib) : ∀ (m : List Nat) (off : Nat),
    off ≤ (write_attribs m off l).2 := by
  induction l with
  | nil => intro m off; exact Nat.le_refl _
  | cons a rest ih =>
    intro m off
    simp only [write_attribs]
    exact Nat.le_trans (by omega) (ih _ _)

theorem write_actions_below (l : List DeviceApiAction) : ∀ (m : List Nat) (off j : Nat), j < off →
    load8 (write_actions m off l).1 j = load8 m j := by
  induction l with
  | nil => intro m off j _; rfl
  | cons a rest ih =>
    intro m off j hj
    simp only [write_actions]
    rw [ih _ _ _ (by omega), load8_net_memcpy_below _ _ _ _ (by omega), load8_net_store8,
      if_neg (by omega), load8_net_store8, if_neg (by omega)]

/-- The payload writes of `send_hello_world` leave the five header bytes alone. -/
theorem hello_body_below (m : List Nat) (base nl ac cls acn : Nat) (name : List Nat)
    (attribs : List DeviceAttrib) (actions : List DeviceApiAction) (j : Nat)
    (hj : j < base + 5) :
    load8 (write_actions
        (write_attribs (net_memcpy (net_store8 (net_store32 (net_store8 (net_store8 m (base + 9)
          nl) (base + 10) ac) (base + 5) cls) (base + 11) acn) (base + 12) name)
          (base + 12 + name.length) attribs).1
        (write_attribs (net_memcpy (net_store8 (net_store32 (net_store8 (net_store8 m (base + 9)
          nl) (base + 10) ac) (base + 5) cls) (base + 11) acn) (base + 12) name)
          (base + 12 + name.length) attribs).2 actions).1 j
      = load8 m j := by
  have hoff := write_attribs_offset attribs (net_memcpy (net_store8 (net_store32 (net_store8
    (net_store8 m (base + 9) nl) (base + 10) ac) (base + 5) cls) (base + 11) acn) (base + 12) name)
    (base + 12 + name.length)
  rw [write_actions_below _ _ _ _ (by omega), write_attribs_below _ _ _ _ (by omega),
    load8_net_memcpy_below _ _ _ _ (by omega), load8_net_store8, if_neg (by omega)]
  unfold net_store32
  rw [load8_net_memcpy_below _ _ _ _ (by omega), load8_net_store8, if_neg (by omega),
    load8_net_store8, if_neg (by omega)]

theorem lookup_mem (l : List (Nat × Device)) (k : Nat) (d : Device)
    (h : l.lookup k = some d) : (k, d) ∈ l := by
  induction l with
  | nil => simp at h
  | cons e rest ih =>
    obtain ⟨k2, d2⟩ := e
    by_cases hk : k = k2
    · subst hk
      simp at h
      subst h
      simp
    · have hne : (k == k2) = false := by simpa using hk
      simp only [List.lookup_cons, hne] at h
      exact List.mem_cons_of_mem _ (ih h)

theorem mem_map_assign (key : Nat) (d : Device) (l : List (Nat × Device)) (e : Nat × Device)
    (h : e ∈ map_assign key d l) : e = (key, d) ∨ e ∈ l := by
  induction l with
  | nil => simpa [map_assign] using h
  | cons x rest ih =>
    simp only [map_assign] at h
    split_ifs at h
    · rcases List.mem_cons.mp h with h1 | h1
      · exact Or.inl h1
      · exact Or.inr (List.mem_cons_of_mem _ h1)
    · rcases List.mem_cons.mp h with h1 | h1
      · exact Or.inr (h1 ▸ List.mem_cons_self _ _)
      · rcases ih h1 with h2 | h2
        · exact Or.inl h2
        · exact Or.inr (List.mem_cons_of_mem _ h2)

/-- What `send_hello_world` appends to the trace: the emission of a packet with the
given type, the device's port as source and `dst_port` as destination, then events of
the mesh write and of the local dispatch. -/
theorem send_hello_world_shape (P : Event → Prop) (fuel : Nat)
    (dispatch : List Nat → Nat → Nat → State → State) (device : Device)
    (type : LogicalPacketType) (dst_phy dst_port : Nat) (s : State)
    (htype : 5 ≤ get_packet_size type)
    (hmw : ∀ d b, P (Event.mesh_write d b))
    (hd : ∀ raw size st, st.self_addr = s.self_addr → st.devices = s.devices →
      load8 raw 0 = type.toNat → net_load16 raw 1 = device.self_port % 65536 →
      net_load16 raw 3 = dst_port % 65536 → TraceStep P st (dispatch raw size st.self_addr st)) :
    (send_hello_world fuel dispatch device type dst_phy dst_port s).self_addr = s.self_addr
    ∧ (send_hello_world fuel dispatch device type dst_phy dst_port s).devices = s.devices
    ∧ ∃ pk size ovl tail,
        (send_hello_world fuel dispatch device type dst_phy dst_port s).trace
          = s.trace ++ Event.finish_ptr pk size ovl :: tail
        ∧ (5 ≤ size → (load8 pk 0 = type.toNat ∧ net_load16 pk 1 = device.self_port % 65536
            ∧ net_load16 pk 3 = dst_port % 65536))
        ∧ 5 ≤ size
        ∧ ∀ e ∈ tail, P e := by
  unfold send_hello_world
  simp only []
  have hhdr := alloc_logical_header s { phy := dst_phy, log := dst_port } device.self_port
    (device.name.length + 2 * (device.attribs.length % 256) + 2 * (device.api_actions.length % 256)
      + (List.map (fun a => a.name_len + a.value_len)
          (List.take (device.attribs.length % 256) device.attribs)).sum
      + (List.map (fun a => a.length)
          (List.take (device.api_actions.length % 256) device.api_actions)).sum)
    OverlayProtoType.UNRELIABLE type (by omega)
  have hsz := alloc_logical_size s { phy := dst_phy, log := dst_port } device.self_port
    (device.name.length + 2 * (device.attribs.length % 256) + 2 * (device.api_actions.length % 256)
      + (List.map (fun a => a.name_len + a.value_len)
          (List.take (device.attribs.length % 256) device.attribs)).sum
      + (List.map (fun a => a.length)
          (List.take (device.api_actions.length % 256) device.api_actions)).sum)
    OverlayProtoType.UNRELIABLE type
  have hst := alloc_logical_state s { phy := dst_phy, log := dst_port } device.self_port
    (device.name.length + 2 * (device.attribs.length % 256) + 2 * (device.api_actions.length % 256)
      + (List.map (fun a => a.name_len + a.value_len)
          (List.take (device.attribs.length % 256) device.attribs)).sum
      + (List.map (fun a => a.length)
          (List.take (device.api_actions.length % 256) device.api_actions)).sum)
    OverlayProtoType.UNRELIABLE type
  generalize alloc_logical_packet_ptr s { phy := dst_phy, log := dst_port } device.self_port
    (device.name.length + 2 * (device.attribs.length % 256) + 2 * (device.api_actions.length % 256)
      + (List.map (fun a => a.name_len + a.value_len)
          (List.take (device.attribs.length % 256) device.attribs)).sum
      + (List.map (fun a => a.length)
          (List.take (device.api_actions.length % 256) device.api_actions)).sum)
    OverlayProtoType.UNRELIABLE type = r at *
  generalize hsize : device.name.length + 2 * (device.attribs.length % 256)
      + 2 * (device.api_actions.length % 256)
      + (List.map (fun a => a.name_len + a.value_len)
          (List.take (device.attribs.length % 256) device.attribs)).sum
      + (List.map (fun a => a.length)
          (List.take (device.api_actions.length % 256) device.api_actions)).sum = extra at *
  obtain ⟨h0, h1, h3⟩ := hhdr
  have hbelow := hello_body_below r.2.mem r.2.ptr device.name.length (device.attribs.length % 256)
    device.device_class (device.api_actions.length % 256) device.name
    (List.take (device.attribs.length % 256) device.attribs)
    (List.take (device.api_actions.length % 256) device.api_actions)
  generalize (write_actions
      (write_attribs (net_memcpy (net_store8 (net_store32 (net_store8 (net_store8 r.2.mem
        (r.2.ptr + 9) device.name.length) (r.2.ptr + 10) (device.attribs.length % 256))
        (r.2.ptr + 5) device.device_class) (r.2.ptr + 11) (device.api_actions.length % 256))
        (r.2.ptr + 12) device.name) (r.2.ptr + 12 + device.name.length)
        (List.take (device.attribs.length % 256) device.attribs)).1
      (write_attribs (net_memcpy (net_store8 (net_store32 (net_store8 (net_store8 r.2.mem
        (r.2.ptr + 9) device.name.length) (r.2.ptr + 10) (device.attribs.length % 256))
        (r.2.ptr + 5) device.device_class) (r.2.ptr + 11) (device.api_actions.length % 256))
        (r.2.ptr + 12) device.name) (r.2.ptr + 12 + device.name.length)
        (List.take (device.attribs.length % 256) device.attribs)).2
      (List.take (device.api_actions.length % 256) device.api_actions)).1 = mem at *
  have hr0 : load8 (mem.drop r.2.ptr) 0 = type.toNat := by
    rw [load8_drop, hbelow _ (by omega)]; exact h0
  have hr1 : net_load16 (mem.drop r.2.ptr) 1 = device.self_port % 65536 := by
    rw [net_load16_drop, ← h1]
    exact net_load16_congr _ _ _ (hbelow _ (by omega)) (hbelow _ (by omega))
  have hr3 : net_load16 (mem.drop r.2.ptr) 3 = dst_port % 65536 := by
    rw [net_load16_drop, ← h3]
    exact net_load16_congr _ _ _ (hbelow _ (by omega)) (hbelow _ (by omega))
  have hr1s : r.1.self_addr = s.self_addr := by rw [hst]
  have hr1d : r.1.devices = s.devices := by rw [hst]
  have hr1t : r.1.trace = s.trace := by rw [hst]
  obtain ⟨ha, hdv, tail, htr, hmesh, hloop⟩ := finish_ptr_shape P fuel dispatch
    { r.2 with mem := mem } r.1
    (fun st hsa hsd => hd _ _ st (hsa.trans hr1s) (hsd.trans hr1d) hr0 hr1 hr3)
  refine ⟨ha.trans hr1s, hdv.trans hr1d, _, _, _, tail, by rw [htr, hr1t], ?_, ?_, ?_⟩
  · intro _
    simp only [hsz]
    refine ⟨?_, ?_, ?_⟩
    · rw [load8_take _ _ _ (by omega)]; exact hr0
    · rw [net_load16_take _ _ _ (by omega)]; exact hr1
    · rw [net_load16_take _ _ _ (by omega)]; exact hr3
  · simp only [hsz]; omega
  · cases hovl : r.2.ovl with
    | none => exact hloop hovl
    | some ovl =>
      obtain ⟨tail2, ht2, hp2⟩ := hmesh ovl hovl
      intro e he
      rw [ht2] at he
      rcases List.mem_cons.mp he with rfl | h
      · exact hmw _ _
      · exact hp2 e h

theorem dispatch_packet_hello_world_response (fuel : Nat) (packet : List Nat)
    (size src_phy : Nat) (htype : load8 packet 0 = LogicalPacketType.HELLO_WORLD_RESPONSE.toNat)
    (st : State) :
    TraceStep (fun e => e.is_passive = true) st
      (dispatch_packet (fuel + 1) packet size src_phy st) := by
  show TraceStep _ st (dispatch_packet_body fuel (dispatch_packet fuel) packet size src_phy st)
  exact dispatch_body_step (fun e => e.is_passive = true) fuel (dispatch_packet fuel) packet
    size src_phy rfl st
    (fun key st2 _ _ =>
      handle_packet_hello_world_response fuel _ packet size src_phy htype key st2)

theorem passive_not_hello_response (port : Nat) (e : Event) (h : e.is_passive = true) :
    ¬ e.is_hello_response_from port := by
  cases e <;> simp [Event.is_passive, Event.is_hello_response_from] at *

/-- A device handling the `HELLO_WORLD` that came from port `p0` of this node never
emits a `HELLO_WORLD_RESPONSE` with source port `p0`: either it is the device on `p0`
and skips the packet, or its reply carries its own, different port. -/
theorem handle_packet_own_hello_world_step (fuel : Nat) (packet : List Nat) (size p0 : Nat)
    (htype : load8 packet 0 = LogicalPacketType.HELLO_WORLD.toNat)
    (hsrc : net_load16 packet 1 = p0) (key : Nat) (st : State)
    (hports : ∀ e ∈ st.devices, e.2.self_port < 65536) :
    TraceStep (fun e => ¬ e.is_hello_response_from p0) st
      (handle_packet (fuel + 1) (dispatch_packet (fuel + 1)) key packet size st.self_addr st) := by
  unfold handle_packet
  cases hl : lookup_device st key with
  | none => exact traceStep_refl _ st
  | some dev =>
    have hbound : dev.self_port < 65536 := hports _ (lookup_mem _ _ _ hl)
    simp only [htype, ofNat?_toNat]
    have hacc : TraceStep (fun e => ¬ e.is_hello_response_from p0) st
        (st.log (Event.on_general_packet_accept key (packet.take size) size st.self_addr)) :=
      traceStep_log st (by simp [Event.is_hello_response_from])
    split_ifs with h1 h2 h3
    · exact hacc
    · exact hacc
    all_goals
      have hne : dev.self_port ≠ p0 := by
        intro h
        exact h2 ⟨by rw [hsrc, h], rfl⟩
      obtain ⟨ha, hdv, pk, sz, ovl, tail, htr, hhdr, h5, htail⟩ := send_hello_world_shape
        (fun e => ¬ e.is_hello_response_from p0) (fuel + 1) (dispatch_packet (fuel + 1)) dev
        LogicalPacketType.HELLO_WORLD_RESPONSE st.self_addr (net_load16 packet 1)
        (st.log (Event.on_general_packet_accept key (packet.take size) size st.self_addr))
        (by decide) (fun _ _ => by simp [Event.is_hello_response_from])
        (fun raw size2 st2 _ _ h0 _ _ => traceStep_mono (passive_not_hello_response p0)
          (dispatch_packet_hello_world_response fuel raw size2 st2.self_addr h0 st2))
      have hsend : TraceStep (fun e => ¬ e.is_hello_response_from p0)
          (st.log (Event.on_general_packet_accept key (packet.take size) size st.self_addr))
          (send_hello_world (fuel + 1) (dispatch_packet (fuel + 1)) dev
            LogicalPacketType.HELLO_WORLD_RESPONSE st.self_addr (net_load16 packet 1)
            (st.log (Event.on_general_packet_accept key (packet.take size) size st.self_addr))) := by
        refine ⟨ha, hdv, Event.finish_ptr pk sz ovl :: tail, htr, ?_⟩
        intro e he
        rcases List.mem_cons.mp he with rfl | h
        · intro hresp
          have hsrc2 := (hhdr h5).2.1
          rw [Nat.mod_eq_of_lt hbound] at hsrc2
          exact hne (hsrc2.symm.trans hresp.2)
        · exact htail e h
      first
        | exact traceStep_trans hacc hsend
        | exact traceStep_trans hacc (traceStep_trans hsend
            (traceStep_log _ (by simp [Event.is_hello_response_from])))

/-! ## Dispatcher: claims -/

/-- C3: a valid `ACTION_EXECUTE` packet (at least 9 bytes) that the device accepts causes
exactly one `on_action_set` call; an `ACTION_EXECUTE_RESULT` is emitted exactly when bit 0
of the flags byte is set, addressed to `(src_phy, src_port)` with the device's port as
source, carrying the request id and the returned status; with bit 0 clear nothing is
emitted. -/
theorem C3_action_execute_result_iff_flag (fuel : Nat) (s : State) (port : Nat)
    (device : Device) (packet : List Nat) (size src_phy : Nat)
    (hdev : lookup_device s port = some device)
    (hacc : device.on_general_packet_accept packet size src_phy = true)
    (htype : load8 packet 0 = LogicalPacketType.ACTION_EXECUTE.toNat)
    (hsize : 9 ≤ size) :
    ∃ rest,
      (handle_packet (fuel + 1) (dispatch_packet (fuel + 1)) port packet size src_phy s).trace
        = s.trace ++ [Event.on_general_packet_accept port (packet.take size) size src_phy,
            Event.on_action_set port (net_load16 packet 5) ((packet.drop 9).take (size - 9))
              (size - 9) { phy := src_phy, log := net_load16 packet 1 }] ++ rest
      ∧ (load8 packet 8 % 2 = 0 → rest = [])
      ∧ (load8 packet 8 % 2 = 1 →
          ∃ pk tail,
            rest = Event.finish_ptr pk 9 (if s.self_addr = src_phy then none else some src_phy)
              :: tail
            ∧ load8 pk 0 = LogicalPacketType.ACTION_EXECUTE_RESULT.toNat
            ∧ net_load16 pk 1 = device.self_port % 65536
            ∧ net_load16 pk 3 = net_load16 packet 1 % 65536
            ∧ load8 pk 7 = load8 packet 7 % 256
            ∧ load8 pk 8 = device.on_action_set (net_load16 packet 5)
                ((packet.drop 9).take (size - 9)) (size - 9)
                { phy := src_phy, log := net_load16 packet 1 } % 256
            ∧ (s.self_addr ≠ src_phy → ∃ tail2,
                tail = Event.mesh_write src_phy (OverlayProtoType.UNRELIABLE.toNat :: pk) :: tail2
                ∧ ∀ e ∈ tail2, e.is_delivery = true)
            ∧ (∀ e ∈ tail, e.is_delivery = true)) := by
  have hflag : (load8 packet 8 &&& REQUIRE_STATUS_RESPONSE ≠ 0) ↔ load8 packet 8 % 2 = 1 := by
    simp only [REQUIRE_STATUS_RESPONSE, Nat.and_one_is_mod]
    omega
  unfold handle_packet
  simp only [hdev, hacc, htype, ofNat?_toNat, Bool.not_true]
  rw [if_neg (by simp), if_neg (by omega : ¬ 9 > size)]
  by_cases hf : load8 packet 8 % 2 = 1
  · rw [if_pos (hflag.mpr hf)]
    obtain ⟨pk, tail, htr, h0, h1, h3, h7, h8, hmesh, hdel⟩ := action_execute_reply fuel
      ((s.log (Event.on_general_packet_accept port (packet.take size) size src_phy)).log
        (Event.on_action_set port (net_load16 packet 5) ((packet.drop 9).take (size - 9))
          (size - 9) { phy := src_phy, log := net_load16 packet 1 }))
      { phy := src_phy, log := net_load16 packet 1 } device.self_port
      (device.on_action_set (net_load16 packet 5) ((packet.drop 9).take (size - 9)) (size - 9)
        { phy := src_phy, log := net_load16 packet 1 })
      (load8 packet 7)
    refine ⟨Event.finish_ptr pk 9 (if s.self_addr = src_phy then none else some src_phy) :: tail,
      ?_, ?_, ?_⟩
    · rw [htr]
      simp [State.log]
    · intro h0'; omega
    · intro _
      exact ⟨pk, tail, rfl, h0, h1, h3, h7, h8, hmesh, hdel⟩
  · rw [if_neg (fun h => hf (hflag.mp h))]
    refine ⟨[], ?_, fun _ => rfl, fun h => absurd h hf⟩
    simp [State.log]

/-- C3 at scenario S2: the button on port 100 of node 1 gets the `ACTION_EXECUTE` with
flags 1 from node 2, port 200. -/
theorem C3_action_execute_result_iff_flag_witness :
    (lookup_device (sample_node true [sample_button]) 100 = some sample_button
      ∧ sample_button.on_general_packet_accept sample_execute 10 2 = true
      ∧ load8 sample_execute 0 = LogicalPacketType.ACTION_EXECUTE.toNat
      ∧ 9 ≤ 10)
    ∧ ∃ rest,
      (handle_packet (1 + 1) (dispatch_packet (1 + 1)) 100 sample_execute 10 2
          (sample_node true [sample_button])).trace
        = (sample_node true [sample_button]).trace
          ++ [Event.on_general_packet_accept 100 (sample_execute.take 10) 10 2,
            Event.on_action_set 100 (net_load16 sample_execute 5)
              ((sample_execute.drop 9).take (10 - 9)) (10 - 9)
              { phy := 2, log := net_load16 sample_execute 1 }] ++ rest
      ∧ (load8 sample_execute 8 % 2 = 0 → rest = [])
      ∧ (load8 sample_execute 8 % 2 = 1 →
          ∃ pk tail,
            rest = Event.finish_ptr pk 9
                (if (sample_node true [sample_button]).self_addr = 2 then none else some 2)
              :: tail
            ∧ load8 pk 0 = LogicalPacketType.ACTION_EXECUTE_RESULT.toNat
            ∧ net_load16 pk 1 = sample_button.self_port % 65536
            ∧ net_load16 pk 3 = net_load16 sample_execute 1 % 65536
            ∧ load8 pk 7 = load8 sample_execute 7 % 256
            ∧ load8 pk 8 = sample_button.on_action_set (net_load16 sample_execute 5)
                ((sample_execute.drop 9).take (10 - 9)) (10 - 9)
                { phy := 2, log := net_load16 sample_execute 1 } % 256
            ∧ ((sample_node true [sample_button]).self_addr ≠ 2 → ∃ tail2,
                tail = Event.mesh_write 2 (OverlayProtoType.UNRELIABLE.toNat :: pk) :: tail2
                ∧ ∀ e ∈ tail2, e.is_delivery = true)
            ∧ (∀ e ∈ tail, e.is_delivery = true)) :=
  ⟨⟨rfl, rfl, rfl, by decide⟩,
   C3_action_execute_result_iff_flag 1 (sample_node true [sample_button]) 100 sample_button
     sample_execute 10 2 rfl rfl rfl (by decide)⟩

/-- C4: a device that handles a `HELLO_WORLD` whose source port is its own port and whose
source node is this node only gets the acceptance question: no `HELLO_WORLD_RESPONSE` is
emitted and `on_device_discover` is not called.  Consequently `add_device d` emits the
`HELLO_WORLD` broadcast of `d`, and nothing that follows in the trace is a
`HELLO_WORLD_RESPONSE` with source port `d.self_port`. -/
theorem C4_own_hello_world_ignored (fuel : Nat) (s s1 : State) (port : Nat) (d : Device)
    (packet : List Nat) (size : Nat)
    (hdev : lookup_device s1 port = some d)
    (htype : load8 packet 0 = LogicalPacketType.HELLO_WORLD.toNat)
    (hsrc : net_load16 packet 1 = d.self_port)
    (hport : d.self_port < 65536)
    (hports : ∀ e ∈ s.devices, e.2.self_port < 65536) :
    (∀ dispatch, handle_packet fuel dispatch port packet size s1.self_addr s1
        = s1.log (Event.on_general_packet_accept port (packet.take size) size s1.self_addr))
    ∧ ∃ pk sz ovl tail,
        (add_device (fuel + 2) d s).trace = s.trace ++ Event.finish_ptr pk sz ovl :: tail
        ∧ load8 pk 0 = LogicalPacketType.HELLO_WORLD.toNat
        ∧ net_load16 pk 1 = d.self_port
        ∧ net_load16 pk 3 = BROADCAST_PORT
        ∧ ∀ e ∈ tail, ¬ e.is_hello_response_from d.self_port := by
  refine ⟨?_, ?_⟩
  · intro dispatch
    unfold handle_packet
    simp only [hdev, htype, ofNat?_toNat, hsrc]
    split_ifs with h1 h2 h3
    · rfl
    · rfl
    · exact absurd ⟨trivial, rfl⟩ h2
    · exact absurd ⟨trivial, rfl⟩ h2
  · unfold add_device
    simp only []
    have hports2 : ∀ e ∈ map_assign d.self_port d s.devices, e.2.self_port < 65536 := by
      intro e he
      rcases mem_map_assign _ _ _ _ he with h | h
      · rw [h]; exact hport
      · exact hports e h
    obtain ⟨_, _, pk, sz, ovl, tail, htr, hhdr, h5, htail⟩ := send_hello_world_shape
      (fun e => ¬ e.is_hello_response_from d.self_port) (fuel + 2) (dispatch_packet (fuel + 2)) d
      LogicalPacketType.HELLO_WORLD s.BROADCAST_FAR_ADDR BROADCAST_PORT
      { s with devices := map_assign d.self_port d s.devices }
      (by decide) (fun _ _ => by simp [Event.is_hello_response_from])
      (fun raw size2 st _ hsd h0 h1 _ => by
        show TraceStep _ st (dispatch_packet_body (fuel + 1) (dispatch_packet (fuel + 1)) raw size2
          st.self_addr st)
        refine dispatch_body_step _ (fuel + 1) (dispatch_packet (fuel + 1)) raw size2 st.self_addr
          (by simp [Event.is_hello_response_from]) st ?_
        intro key st2 hsa2 hsd2
        rw [← hsa2]
        refine handle_packet_own_hello_world_step fuel raw size2 d.self_port h0
          (by rw [h1, Nat.mod_eq_of_lt hport]) key st2 ?_
        rw [hsd2, hsd]
        exact hports2)
    refine ⟨pk, sz, ovl, tail, htr, (hhdr h5).1, ?_, ?_, htail⟩
    · rw [(hhdr h5).2.1, Nat.mod_eq_of_lt hport]
    · rw [(hhdr h5).2.2]; rfl

/-- C4 at scenario S1: the button is added to a node that already hosts the peer on port
200.  The whole trace of `add_device` is shown: the peer replies, the button does not. -/
theorem C4_own_hello_world_ignored_witness :
    (lookup_device (sample_node true [sample_button, sample_peer]) 100 = some sample_button
      ∧ load8 sample_hello 0 = LogicalPacketType.HELLO_WORLD.toNat
      ∧ net_load16 sample_hello 1 = sample_button.self_port
      ∧ sample_button.self_port < 65536
      ∧ ∀ e ∈ (sample_node true [sample_peer]).devices, e.2.self_port < 65536)
    ∧ ((∀ dispatch, handle_packet 1 dispatch 100 sample_hello 15
            (sample_node true [sample_button, sample_peer]).self_addr
            (sample_node true [sample_button, sample_peer])
          = (sample_node true [sample_button, sample_peer]).log
              (Event.on_general_packet_accept 100 (sample_hello.take 15) 15
                (sample_node true [sample_button, sample_peer]).self_addr))
      ∧ ∃ pk sz ovl tail,
          (add_device (1 + 2) sample_button (sample_node true [sample_peer])).trace
            = (sample_node true [sample_peer]).trace ++ Event.finish_ptr pk sz ovl :: tail
          ∧ load8 pk 0 = LogicalPacketType.HELLO_WORLD.toNat
          ∧ net_load16 pk 1 = sample_button.self_port
          ∧ net_load16 pk 3 = BROADCAST_PORT
          ∧ ∀ e ∈ tail, ¬ e.is_hello_response_from sample_button.self_port)
    ∧ (add_device 3 sample_button (sample_node true [sample_peer])).trace =
        [Event.finish_ptr sample_hello 15 (some 4294967295),
         Event.mesh_write 4294967295 (2 :: sample_hello),
         Event.dispatch_packet sample_hello 15 1,
         Event.on_general_packet_accept 200 sample_hello 15 1,
         Event.finish_ptr [2, 0, 200, 0, 100, 0, 0, 0, 2, 1, 0, 0, 99] 13 none,
         Event.dispatch_packet [2, 0, 200, 0, 100, 0, 0, 0, 2, 1, 0, 0, 99] 13 1,
         Event.on_general_packet_accept 100 [2, 0, 200, 0, 100, 0, 0, 0, 2, 1, 0, 0, 99] 13 1,
         Event.on_device_discover 100 [2, 0, 200, 0, 100, 0, 0, 0, 2, 1, 0, 0, 99] 13 1,
         Event.on_device_discover 200 sample_hello 15 1,
         Event.on_general_packet_accept 100 sample_hello 15 1] :=
  ⟨⟨rfl, rfl, rfl, by decide, by decide⟩,
   C4_own_hello_world_ignored 1 (sample_node true [sample_peer])
     (sample_node true [sample_button, sample_peer]) 100 sample_button sample_hello 15
     rfl rfl rfl (by decide) (by decide),
   by decide⟩

/-! ## Packet pool: claims -/

theorem first_clear_spec (l : List Bool) (i : Nat) (h : first_clear l = some i) :
    i < l.length ∧ l.getD i true = false ∧ ∀ j < i, l.getD j false = true := by
  induction l generalizing i with
  | nil => simp [first_clear] at h
  | cons b rest ih =>
    simp only [first_clear] at h
    cases b with
    | false =>
      simp at h
      subst h
      simp
    | true =>
      simp only [Bool.not_true, Bool.false_eq_true, if_false, Option.map_eq_some'] at h
      obtain ⟨k, hk, rfl⟩ := h
      obtain ⟨h1, h2, h3⟩ := ih k hk
      refine ⟨by simp; omega, by simpa using h2, ?_⟩
      intro j hj
      cases j with
      | zero => simp
      | succ j => simpa using h3 j (by omega)

theorem first_clear_none (l : List Bool) (h : first_clear l = none) : ∀ b ∈ l, b = true := by
  induction l with
  | nil => simp
  | cons b rest ih =>
    simp only [first_clear] at h
    cases b with
    | false => simp at h
    | true =>
      simp only [Bool.not_true, Bool.false_eq_true, if_false, Option.map_eq_none'] at h
      intro c hc
      rcases List.mem_cons.mp hc with rfl | hc
      · rfl
      · exact ih h c hc

theorem getD_set_self (l : List Bool) (i : Nat) (v d : Bool) (h : i < l.length) :
    (l.set i v).getD i d = v := by
  simp [List.getD_eq_getElem?_getD, List.getElem?_set, h]

theorem getD_set_other (l : List Bool) (i j : Nat) (v d : Bool) (h : j ≠ i) :
    (l.set i v).getD j d = l.getD j d := by
  simp [List.getD_eq_getElem?_getD, List.getElem?_set, Ne.symm h]

theorem set_set_restore (l : List Bool) (i : Nat) (v : Bool) (h : l.getD i true = false) :
    (l.set i v).set i false = l := by
  induction l generalizing i with
  | nil => rfl
  | cons b rest ih =>
    cases i with
    | zero => simp at h; simp [h]
    | succ i => simp at h; simp [ih i (by simpa using h)]

/-- C13 (code evaluated at the failing input): a request larger than a slot is answered
with a heap pointer, and `free` of a heap pointer yields no result, whatever the fuel:
the `free(ptr)` in its first branch is the method itself. -/
theorem C13_free_of_heap_pointer_never_returns (fuel : Nat) (a : PoolMemoryAllocator) :
    (a.alloc (a.piece_size + 1)).2 = Ptr.heap ∧ a.free fuel Ptr.heap = none := by
  refine ⟨?_, ?_⟩
  · simp [PoolMemoryAllocator.alloc]
  · induction fuel with
    | zero => rfl
    | succ n ih => simpa [PoolMemoryAllocator.free] using ih

/-- C14: `alloc` returns a heap pointer and leaves the pool as it is when the size
exceeds a slot or all bits are set; otherwise it returns the slot of the lowest clear
bit, sets exactly that bit and changes nothing else. -/
theorem C14_alloc_lowest_clear_slot (a : PoolMemoryAllocator) (size : Nat) :
    ((size > a.piece_size ∨ (∀ b ∈ a.used_bits, b = true)) → a.alloc size = (a, Ptr.heap))
    ∧ (¬ (size > a.piece_size ∨ (∀ b ∈ a.used_bits, b = true)) →
        ∃ i, i < a.used_bits.length
          ∧ a.used_bits.getD i true = false
          ∧ (∀ j < i, a.used_bits.getD j false = true)
          ∧ (a.alloc size).2 = Ptr.slot i
          ∧ (a.alloc size).1.piece_size = a.piece_size
          ∧ (a.alloc size).1.packets = a.packets
          ∧ (a.alloc size).1.used_bits.length = a.used_bits.length
          ∧ (a.alloc size).1.used_bits.getD i false = true
          ∧ ∀ j, j ≠ i → (a.alloc size).1.used_bits.getD j false = a.used_bits.getD j false) := by
  refine ⟨?_, ?_⟩
  · intro h
    unfold PoolMemoryAllocator.alloc
    rcases h with h | h
    · rw [if_pos h]
    · split_ifs
      · rfl
      · rfl
      · rename_i _ hall
        exact absurd (List.all_eq_true.mpr (fun b hb => by simpa using h b hb)) hall
  · intro h
    have h1 : ¬ size > a.piece_size := fun hh => h (Or.inl hh)
    have h2 : ¬ (a.used_bits.all (fun b => b) = true) := by
      intro hall
      exact h (Or.inr (fun b hb => by simpa using List.all_eq_true.mp hall b hb))
    cases hfc : first_clear a.used_bits with
    | none => exact absurd (Or.inr (first_clear_none _ hfc)) h
    | some i =>
      obtain ⟨hi, hclear, hlow⟩ := first_clear_spec _ _ hfc
      refine ⟨i, hi, hclear, hlow, ?_, ?_, ?_, ?_, ?_, ?_⟩
      all_goals simp only [PoolMemoryAllocator.alloc, if_neg h1, if_neg h2, hfc]
      · simp
      · exact getD_set_self _ _ _ _ hi
      · intro j hj
        exact getD_set_other _ _ _ _ _ hj

/-- C14 on a pool of two slots: with both bits set a 10-byte request goes to the heap;
with slot 0 used and slot 1 free it gets slot 1. -/
theorem C14_alloc_lowest_clear_slot_witness :
    ((10 > (sample_pool [true, true]).piece_size
        ∨ (∀ b ∈ (sample_pool [true, true]).used_bits, b = true))
      ∧ ¬ (10 > (sample_pool [true, false]).piece_size
        ∨ (∀ b ∈ (sample_pool [true, false]).used_bits, b = true)))
    ∧ (sample_pool [true, true]).alloc 10 = (sample_pool [true, true], Ptr.heap)
    ∧ ∃ i, i < (sample_pool [true, false]).used_bits.length
        ∧ (sample_pool [true, false]).used_bits.getD i true = false
        ∧ (∀ j < i, (sample_pool [true, false]).used_bits.getD j false = true)
        ∧ ((sample_pool [true, false]).alloc 10).2 = Ptr.slot i
        ∧ ((sample_pool [true, false]).alloc 10).1.piece_size
            = (sample_pool [true, false]).piece_size
        ∧ ((sample_pool [true, false]).alloc 10).1.packets = (sample_pool [true, false]).packets
        ∧ ((sample_pool [true, false]).alloc 10).1.used_bits.length
            = (sample_pool [true, false]).used_bits.length
        ∧ ((sample_pool [true, false]).alloc 10).1.used_bits.getD i false = true
        ∧ ∀ j, j ≠ i → ((sample_pool [true, false]).alloc 10).1.used_bits.getD j false
            = (sample_pool [true, false]).used_bits.getD j false :=
  ⟨⟨by decide, by decide⟩,
   (C14_alloc_lowest_clear_slot (sample_pool [true, true]) 10).1 (by decide),
   (C14_alloc_lowest_clear_slot (sample_pool [true, false]) 10).2 (by decide)⟩

/-! ## Subscription manager: further claims -/

/-- C19: after `stop_subscription` no subscriber with the given id and address is left;
what is left is a sublist of the old list (same rows, same order), and every row that
does not match occurs as often as before.  The self-update timer is untouched. -/
theorem C19_stop_subscription_removes_exactly_matching (m : SubscriptionManager)
    (packet : List Nat) (addr : LogicalAddress) :
    (∀ r ∈ (m.stop_subscription packet addr).subscribers,
        ¬ (r.subscription_id = net_load32 packet 0 ∧ r.addr = addr))
    ∧ (m.stop_subscription packet addr).subscribers.Sublist m.subscribers
    ∧ (∀ r : Subscriber, ¬ (r.subscription_id = net_load32 packet 0 ∧ r.addr = addr) →
        (m.stop_subscription packet addr).subscribers.count r = m.subscribers.count r)
    ∧ (m.stop_subscription packet addr).self_update_period = m.self_update_period
    ∧ (m.stop_subscription packet addr).self_update_next = m.self_update_next := by
  refine ⟨?_, ?_, ?_, rfl, rfl⟩
  · intro r hr
    simp only [SubscriptionManager.stop_subscription, List.mem_filter] at hr
    intro hmatch
    simp [hmatch.1, hmatch.2] at hr
  · simp only [SubscriptionManager.stop_subscription]
    exact List.filter_sublist _
  · intro r hr
    simp only [SubscriptionManager.stop_subscription]
    exact List.count_filter (by simp only [Bool.not_eq_true', decide_eq_false_iff_not]; exact hr)

/-- C19 on a list of three rows: the two rows of `(9, (2, 200))` go, the row of id 8
stays. -/
theorem C19_stop_subscription_removes_exactly_matching_witness :
    ((sample_manager [sample_subscriber, { sample_subscriber with subscription_id := 8 },
        sample_subscriber]).stop_subscription sample_start { phy := 2, log := 200 }).subscribers
      = [{ sample_subscriber with subscription_id := 8 }]
    ∧ ¬ ((8 : Nat) = net_load32 sample_start 0 ∧ sample_subscriber.addr = { phy := 2, log := 200 })
    ∧ ((sample_manager [sample_subscriber, { sample_subscriber with subscription_id := 8 },
        sample_subscriber]).stop_subscription sample_start
          { phy := 2, log := 200 }).subscribers.count
        { sample_subscriber with subscription_id := 8 }
      = (sample_manager [sample_subscriber, { sample_subscriber with subscription_id := 8 },
        sample_subscriber]).subscribers.count { sample_subscriber with subscription_id := 8 } :=
  ⟨by decide, by decide,
   (C19_stop_subscription_removes_exactly_matching
     (sample_manager [sample_subscriber, { sample_subscriber with subscription_id := 8 },
        sample_subscriber]) sample_start { phy := 2, log := 200 }).2.2.1
     { sample_subscriber with subscription_id := 8 } (by decide)⟩

/-- A subscriber that has not expired, anywhere in the list: one tick leaves the rows
before and behind it to themselves, and either advances its next update time by the
32-bit product `period * 1000` (modulo `2 ^ 64`) with one call for it, or leaves it as it
is with no call. -/
theorem update_periodic_walk_live (port now : Nat) (front back : List Subscriber)
    (sub : Subscriber) (hlive : now < sub.end_time) :
    update_periodic_walk port now (front ++ sub :: back)
      = if sub.next_periodic_update_time ≤ now then
          ((update_periodic_walk port now front).1
              ++ { sub with next_periodic_update_time :=
                    (sub.next_periodic_update_time + sub.period * 1000 % 2 ^ 32) % 2 ^ 64 }
                :: (update_periodic_walk port now back).1,
            (update_periodic_walk port now front).2
              ++ Event.on_subscription_timer_update port sub.addr sub.subscription_id
                  sub.action_id :: (update_periodic_walk port now back).2)
        else
          ((update_periodic_walk port now front).1 ++ sub :: (update_periodic_walk port now back).1,
            (update_periodic_walk port now front).2 ++ (update_periodic_walk port now back).2) := by
  have hne : ¬ now ≥ sub.end_time := by omega
  rw [update_periodic_walk_append]
  simp only [update_periodic_walk, hne, if_false]
  split_ifs <;> rfl

/-- C17 (code evaluated at the failing input): a `SUBSCRIPTION_START` with period
5_000_000 ms at clock 1_000_000.  The row is appended with the id, action, period and
address of the packet, but its next update time is `1_000_000 + 705_032_704 - 1`: the
product `5_000_000 * 1000` has wrapped at 32 bits. -/
theorem C17_period_product_wraps :
    ((sample_manager []).add_subscriber sample_start_long_period 0 { phy := 2, log := 200 }
        1000000).subscribers
      = [{ sample_subscriber with
            end_time := 2001000000, next_periodic_update_time := 706032703,
            period := 5000000 }]
    ∧ net_load32 sample_start_long_period 8 = 5000000
    ∧ 706032703 ≠ 1000000 + 5000000 * 1000 - 1 := by
  decide

/-- C18 (code evaluated at the failing input): duration 3000 s at clock 1_800_000, once
inserting a row and once refreshing the row of scenario S3.  Both store
`1_800_000 - 1_294_967_296` modulo `2 ^ 64` instead of `1_800_000 + 3_000_000_000`. -/
theorem C18_duration_product_wraps :
    (new_subscriber sample_start_long { phy := 2, log := 200 } 1800000).end_time
      = 18446744072416384320
    ∧ ((sample_manager [sample_subscriber]).add_subscriber sample_start_long 0
        { phy := 2, log := 200 } 1800000).subscribers
      = [{ sample_subscriber with end_time := 18446744072416384320 }]
    ∧ net_load16 sample_start_long 6 = 3000
    ∧ 18446744072416384320 ≠ 1800000 + 3000 * 1000000 := by
  decide

/-- C20 (code evaluated at the failing input): the subscriber with period 5_000_000 ms
is due at 706_032_703 and has not expired.  The tick calls the hook once, and the next
update time moves to 1_411_065_407, an increase of 705_032_704 and not of
`5_000_000 * 1000`. -/
theorem C20_period_increment_wraps :
    (((sample_manager []).add_subscriber sample_start_long_period 0 { phy := 2, log := 200 }
        1000000).update_periodic 100 706032703)
      = (sample_manager [{ sample_subscriber with
            end_time := 2001000000, next_periodic_update_time := 1411065407,
            period := 5000000 }],
         [Event.on_subscription_timer_update 100 { phy := 2, log := 200 } 9 7])
    ∧ 1411065407 - 706032703 ≠ 5000000 * 1000 := by
  decide

/-! ## Wire format: runs at concrete inputs -/

/-- C11 (code evaluated at the failing input): on a little-endian host the button with
three fields answers a `FIELD_DICTIONARY_REQUEST` from node 2.  The ports of the header
go out most significant byte first (`00 64`, `00 C8`), but `field_count` goes out as
`03 00`. -/
theorem C11_field_count_in_host_order_on_the_wire :
    (dispatch_packet 2 sample_dictionary_request 6 2 (sample_node true [sample_button])).trace =
      [Event.dispatch_packet sample_dictionary_request 6 2,
       Event.on_general_packet_accept 100 sample_dictionary_request 6 2,
       Event.finish_ptr
         [4, 0, 100, 0, 200, 3, 0, 2, 111, 110, 3, 111, 102, 102, 5, 115, 116, 97, 116, 101]
         20 (some 2),
       Event.mesh_write 2
         [2, 4, 0, 100, 0, 200, 3, 0, 2, 111, 110, 3, 111, 102, 102, 5, 115, 116, 97, 116, 101]]
    ∧ sample_button.api_fields.length = 3
    ∧ ([4, 0, 100, 0, 200, 3, 0, 2, 111, 110, 3, 111, 102, 102, 5, 115, 116, 97, 116,
          101].drop 5).take 2 = [3, 0] := by
  decide

/-! ## Pool balance over `finish_ptr` -/

theorem alloc_slot_bits (a : PoolMemoryAllocator) (size i : Nat)
    (h : (a.alloc size).2 = Ptr.slot i) :
    (a.alloc size).1.used_bits = a.used_bits.set i true
    ∧ a.used_bits.getD i true = false
    ∧ (a.alloc size).1.piece_size = a.piece_size
    ∧ (a.alloc size).1.packets = a.packets
    ∧ size ≤ a.piece_size := by
  unfold PoolMemoryAllocator.alloc at h ⊢
  by_cases h1 : size > a.piece_size
  · rw [if_pos h1] at h
    exact absurd h (by simp)
  · rw [if_neg h1] at h ⊢
    by_cases h2 : a.used_bits.all (fun b => b) = true
    · rw [if_pos h2] at h
      exact absurd h (by simp)
    · rw [if_neg h2] at h ⊢
      cases hfc : first_clear a.used_bits with
      | none =>
        rw [hfc] at h
        exact absurd h (by simp)
      | some k =>
        rw [hfc] at h
        simp only [Ptr.slot.injEq] at h
        subst h
        exact ⟨rfl, (first_clear_spec _ _ hfc).2.1, rfl, rfl, by omega⟩

theorem alloc_raw_pool (s : State) (dst_phy log_size : Nat) (ovl_type : OverlayProtoType) :
    ∃ total, (alloc_raw_logical_ptr s dst_phy log_size ovl_type).1.pool = (s.pool.alloc total).1
      ∧ (alloc_raw_logical_ptr s dst_phy log_size ovl_type).2.block = (s.pool.alloc total).2
      ∧ total = log_size
          + (if s.self_addr = dst_phy then 0 else OverlayPacket.get_packet_size ovl_type) := by
  unfold alloc_raw_logical_ptr
  split_ifs
  · exact ⟨log_size, rfl, rfl, rfl⟩
  · exact ⟨log_size + OverlayPacket.get_packet_size ovl_type, rfl, rfl, rfl⟩

theorem alloc_logical_pool (s : State) (dst : LogicalAddress) (src_port size : Nat)
    (ovl_type : OverlayProtoType) (log_type : LogicalPacketType) :
    ∃ total, (alloc_logical_packet_ptr s dst src_port size ovl_type log_type).1.pool
        = (s.pool.alloc total).1
      ∧ (alloc_logical_packet_ptr s dst src_port size ovl_type log_type).2.block
        = (s.pool.alloc total).2
      ∧ total = size + get_packet_size log_type
          + (if s.self_addr = dst.phy then 0 else OverlayPacket.get_packet_size ovl_type) := by
  unfold alloc_logical_packet_ptr
  exact alloc_raw_pool _ _ _ _

theorem alloc_logical_stuck (s : State) (dst : LogicalAddress) (src_port size : Nat)
    (ovl_type : OverlayProtoType) (log_type : LogicalPacketType) :
    (alloc_logical_packet_ptr s dst src_port size ovl_type log_type).1.stuck = s.stuck := by
  rw [alloc_logical_state]

/-- Releasing a slot with fuel left returns, clears the bit of the slot and keeps the
slot size. -/
theorem release_slot (fuel : Nat) (p : LogicalPacketPtr) (st : State) (j : Nat)
    (hblock : p.block = Ptr.slot j) :
    (release (fuel + 1) p st).stuck = st.stuck
    ∧ (release (fuel + 1) p st).pool.used_bits = st.pool.used_bits.set j false
    ∧ (release (fuel + 1) p st).pool.piece_size = st.pool.piece_size
    ∧ (release (fuel + 1) p st).devices = st.devices := by
  unfold release
  rw [hblock]
  exact ⟨rfl, rfl, rfl, rfl⟩

/-- What `finish_ptr` leaves of the pool when the block is a slot and the local
dispatch returns with the bits it found. -/
theorem finish_ptr_slot (fuel : Nat) (dispatch : List Nat → Nat → Nat → State → State)
    (p : LogicalPacketPtr) (s : State) (j : Nat) (hblock : p.block = Ptr.slot j)
    (hs : s.stuck = false)
    (hbal : ∀ st, st.stuck = false → st.self_addr = s.self_addr → st.devices = s.devices →
      st.pool = s.pool →
      (dispatch (p.mem.drop p.ptr) (p.size % 65536) st.self_addr st).stuck = false
      ∧ (dispatch (p.mem.drop p.ptr) (p.size % 65536) st.self_addr st).pool.used_bits
          = st.pool.used_bits) :
    (finish_ptr (fuel + 1) dispatch p s).stuck = false
    ∧ (finish_ptr (fuel + 1) dispatch p s).pool.used_bits = s.pool.used_bits.set j false := by
  unfold finish_ptr
  cases p.ovl with
  | none =>
    simp only []
    obtain ⟨h1, h2⟩ := hbal (s.log (Event.finish_ptr ((p.mem.drop p.ptr).take p.size) p.size
      (Option.map (fun (o : OverlayPacketBuilder) => o.dst_phy) none))) hs rfl rfl rfl
    obtain ⟨r1, r2, _, _⟩ := release_slot fuel p (dispatch (p.mem.drop p.ptr) (p.size % 65536)
      (s.log (Event.finish_ptr ((p.mem.drop p.ptr).take p.size) p.size
        (Option.map (fun (o : OverlayPacketBuilder) => o.dst_phy) none))).self_addr
      (s.log (Event.finish_ptr ((p.mem.drop p.ptr).take p.size) p.size
        (Option.map (fun (o : OverlayPacketBuilder) => o.dst_phy) none)))) j hblock
    rw [if_neg (by rw [h1]; simp)]
    exact ⟨r1.trans h1, r2.trans (by rw [h2]; rfl)⟩
  | some ovl =>
    simp only []
    split_ifs with hb hst hst
    · exfalso
      have h := (hbal ((s.log (Event.finish_ptr ((p.mem.drop p.ptr).take p.size) p.size
        (Option.map (fun (o : OverlayPacketBuilder) => o.dst_phy) (some ovl)))).log
        (Event.mesh_write ovl.dst_phy (p.mem.take ovl.stream_size))) hs rfl rfl rfl).1
      rw [h] at hst
      cases hst
    · obtain ⟨h1, h2⟩ := hbal ((s.log (Event.finish_ptr ((p.mem.drop p.ptr).take p.size)
        p.size (Option.map (fun (o : OverlayPacketBuilder) => o.dst_phy) (some ovl)))).log
        (Event.mesh_write ovl.dst_phy (p.mem.take ovl.stream_size))) hs rfl rfl rfl
      obtain ⟨r1, r2, _, _⟩ := release_slot fuel p (dispatch (p.mem.drop p.ptr)
        (p.size % 65536)
        ((s.log (Event.finish_ptr ((p.mem.drop p.ptr).take p.size) p.size
          (Option.map (fun (o : OverlayPacketBuilder) => o.dst_phy) (some ovl)))).log
          (Event.mesh_write ovl.dst_phy (p.mem.take ovl.stream_size))).self_addr
        ((s.log (Event.finish_ptr ((p.mem.drop p.ptr).take p.size) p.size
          (Option.map (fun (o : OverlayPacketBuilder) => o.dst_phy) (some ovl)))).log
          (Event.mesh_write ovl.dst_phy (p.mem.take ovl.stream_size)))) j hblock
      exact ⟨r1.trans h1, r2.trans (by rw [h2]; rfl)⟩
    · exfalso
      simp [State.log, hs] at hst
    · obtain ⟨r1, r2, _, _⟩ := release_slot fuel p
        ((s.log (Event.finish_ptr ((p.mem.drop p.ptr).take p.size) p.size
          (Option.map (fun (o : OverlayPacketBuilder) => o.dst_phy) (some ovl)))).log
          (Event.mesh_write ovl.dst_phy (p.mem.take ovl.stream_size))) j hblock
      exact ⟨r1.trans hs, r2⟩

/-! ## Handlers that build no packet -/

theorem ofNat?_eq_some (n : Nat) (t : LogicalPacketType)
    (h : LogicalPacketType.ofNat? n = some t) : n = t.toNat := by
  by_cases hn : n < 20
  · have key : ∀ k, k < 20 →
        (LogicalPacketType.ofNat? k).map LogicalPacketType.toNat = some k := by decide
    have hk := key n hn
    rw [h] at hk
    simpa using hk.symm
  · exfalso
    unfold LogicalPacketType.ofNat? at h
    repeat rw [if_neg (by omega)] at h
    cases h

theorem map_fst_set_device (s : State) (port : Nat) (d : Device) :
    (set_device s port d).devices.map Prod.fst = s.devices.map Prod.fst := by
  unfold set_device
  simp only [List.map_map]
  apply List.map_congr_left
  intro e _
  simp only [Function.comp]
  split_ifs <;> rfl

theorem quietStep_self (s : State) (e : Event) : QuietStep e s (s.log e) :=
  ⟨rfl, rfl, rfl, rfl, [], rfl, by simp⟩

theorem quietStep_log (s : State) (e h : Event) (hh : h.is_hook_call = true) :
    QuietStep e s ((s.log e).log h) :=
  ⟨rfl, rfl, rfl, rfl, [h], by simp [State.log], by simpa using hh⟩

theorem quietStep_set_device (s : State) (e : Event) (port : Nat) (d : Device) :
    QuietStep e s (set_device (s.log e) port d) :=
  ⟨rfl, map_fst_set_device _ _ _, rfl, rfl, [], rfl, by simp⟩

/-- A packet whose type is none of `HELLO_WORLD`, `FIELD_DICTIONARY_REQUEST` and
`ACTION_EXECUTE` is handled by the acceptance question and hook calls alone. -/
theorem handle_packet_quiet (fuel : Nat) (dispatch : List Nat → Nat → Nat → State → State)
    (key : Nat) (packet : List Nat) (size src_phy : Nat) (st : State) (dev : Device)
    (hl : lookup_device st key = some dev) (hq : builds_reply (load8 packet 0) = false) :
    QuietStep (Event.on_general_packet_accept key (packet.take size) size src_phy) st
      (handle_packet fuel dispatch key packet size src_phy st) := by
  unfold handle_packet
  rw [hl]
  simp only []
  cases hty : LogicalPacketType.ofNat? (load8 packet 0) with
  | none =>
    simp only []
    split_ifs <;> exact quietStep_self _ _
  | some ty =>
    have hb := ofNat?_eq_some _ _ hty
    cases ty <;> simp only [] <;>
      first
        | (exfalso; rw [hb] at hq; revert hq; decide)
        | (split_ifs <;>
            first
              | exact quietStep_self _ _
              | exact quietStep_log _ _ _ rfl
              | exact quietStep_set_device _ _ _ _)

/-- Such a handler leaves the device map as it is, unless the packet is a
`SUBSCRIPTION_START` or a `SUBSCRIPTION_STOP`. -/
theorem handle_packet_quiet_devices (fuel : Nat)
    (dispatch : List Nat → Nat → Nat → State → State)
    (key : Nat) (packet : List Nat) (size src_phy : Nat) (st : State)
    (hq : builds_reply (load8 packet 0) = false)
    (h16 : load8 packet 0 ≠ LogicalPacketType.SUBSCRIPTION_START.toNat)
    (h19 : load8 packet 0 ≠ LogicalPacketType.SUBSCRIPTION_STOP.toNat) :
    (handle_packet fuel dispatch key packet size src_phy st).devices = st.devices := by
  unfold handle_packet
  cases lookup_device st key with
  | none => rfl
  | some dev =>
    simp only []
    cases hty : LogicalPacketType.ofNat? (load8 packet 0) with
    | none =>
      simp only []
      split_ifs <;> rfl
    | some ty =>
      have hb := ofNat?_eq_some _ _ hty
      cases ty <;> simp only [] <;>
        first
          | (exfalso; rw [hb] at hq; revert hq; decide)
          | (exfalso; exact h16 hb)
          | (exfalso; exact h19 hb)
          | (split_ifs <;> rfl)

theorem handle_packet_unbound (fuel : Nat) (dispatch : List Nat → Nat → Nat → State → State)
    (key : Nat) (packet : List Nat) (size src_phy : Nat) (st : State)
    (hl : lookup_device st key = none) :
    handle_packet fuel dispatch key packet size src_phy st = st := by
  unfold handle_packet
  rw [hl]

theorem portStep_refl (P : Event → Prop) (s : State) : PortStep P s s :=
  ⟨rfl, rfl, [], by simp, by simp⟩

theorem portStep_trans {P : Event → Prop} {s t u : State} (h1 : PortStep P s t)
    (h2 : PortStep P t u) : PortStep P s u := by
  obtain ⟨a1, d1, e1, t1, p1⟩ := h1
  obtain ⟨a2, d2, e2, t2, p2⟩ := h2
  refine ⟨a2.trans a1, d2.trans d1, e1 ++ e2, by rw [t2, t1, List.append_assoc], ?_⟩
  intro e he
  rcases List.mem_append.mp he with h | h
  · exact p1 e h
  · exact p2 e h

theorem portStep_of_traceStep {P : Event → Prop} {s t : State} (h : TraceStep P s t) :
    PortStep P s t := by
  obtain ⟨a, d, evs, ht, hp⟩ := h
  exact ⟨a, by rw [d], evs, ht, hp⟩

theorem traceStep_of_portStep {P : Event → Prop} {s t : State} (h : PortStep P s t)
    (hd : t.devices = s.devices) : TraceStep P s t := by
  obtain ⟨a, _, evs, ht, hp⟩ := h
  exact ⟨a, hd, evs, ht, hp⟩

theorem portStep_log {P : Event → Prop} (s : State) {e : Event} (h : P e) :
    PortStep P s (s.log e) :=
  ⟨rfl, rfl, [e], rfl, by simpa using h⟩

theorem portStep_of_quietStep {P : Event → Prop} {first : Event} {s t : State}
    (h : QuietStep first s t) (hfirst : P first) (hhook : ∀ e, e.is_hook_call = true → P e) :
    PortStep P s t := by
  obtain ⟨a, d, _, _, rest, ht, hp⟩ := h
  refine ⟨a, d, first :: rest, ht, ?_⟩
  intro e he
  rcases List.mem_cons.mp he with rfl | h
  · exact hfirst
  · exact hhook e (hp e h)

/-- One step of the broadcast loop for a packet whose handler builds no packet. -/
theorem quiet_loop_step (P : Event → Prop) (fuel : Nat)
    (dispatch : List Nat → Nat → Nat → State → State) (packet : List Nat) (size src_phy : Nat)
    (hq : builds_reply (load8 packet 0) = false)
    (haccept : ∀ key, P (Event.on_general_packet_accept key (packet.take size) size src_phy))
    (hhook : ∀ e, e.is_hook_call = true → P e) (key : Nat) (st : State) :
    PortStep P st (handle_packet fuel dispatch key packet size src_phy st)
    ∧ (handle_packet fuel dispatch key packet size src_phy st).pool = st.pool
    ∧ (handle_packet fuel dispatch key packet size src_phy st).stuck = st.stuck := by
  cases hl : lookup_device st key with
  | none =>
    rw [handle_packet_unbound _ _ _ _ _ _ _ hl]
    exact ⟨portStep_refl P st, rfl, rfl⟩
  | some dev =>
    have h := handle_packet_quiet fuel dispatch key packet size src_phy st dev hl hq
    exact ⟨portStep_of_quietStep h (haccept key) hhook, h.2.2.1, h.2.2.2.1⟩

/-- The local dispatch of a packet whose handler builds no packet: it returns, leaves
the pool alone and appends the entry event, acceptance questions and hook calls. -/
theorem dispatch_packet_quiet (P : Event → Prop) (fuel : Nat) (packet : List Nat)
    (size src_phy : Nat) (hq : builds_reply (load8 packet 0) = false)
    (hentry : P (Event.dispatch_packet (packet.take size) size src_phy))
    (haccept : ∀ key, P (Event.on_general_packet_accept key (packet.take size) size src_phy))
    (hhook : ∀ e, e.is_hook_call = true → P e) (s : State) :
    PortStep P s (dispatch_packet (fuel + 1) packet size src_phy s)
    ∧ (dispatch_packet (fuel + 1) packet size src_phy s).pool = s.pool
    ∧ (dispatch_packet (fuel + 1) packet size src_phy s).stuck = s.stuck := by
  have hfold : ∀ (l : List (Nat × Device)) (st : State),
      PortStep P st (l.foldl (fun st e =>
        if st.stuck then st
        else handle_packet fuel (dispatch_packet fuel) e.1 packet size src_phy st) st)
      ∧ (l.foldl (fun st e =>
        if st.stuck then st
        else handle_packet fuel (dispatch_packet fuel) e.1 packet size src_phy st) st).pool
          = st.pool
      ∧ (l.foldl (fun st e =>
        if st.stuck then st
        else handle_packet fuel (dispatch_packet fuel) e.1 packet size src_phy st) st).stuck
          = st.stuck := by
    intro l
    induction l with
    | nil => intro st; exact ⟨portStep_refl P st, rfl, rfl⟩
    | cons e rest ih =>
      intro st
      simp only [List.foldl_cons]
      have hstep : PortStep P st
          (if st.stuck then st
           else handle_packet fuel (dispatch_packet fuel) e.1 packet size src_phy st)
          ∧ (if st.stuck then st
             else handle_packet fuel (dispatch_packet fuel) e.1 packet size src_phy st).pool
              = st.pool
          ∧ (if st.stuck then st
             else handle_packet fuel (dispatch_packet fuel) e.1 packet size src_phy st).stuck
              = st.stuck := by
        split_ifs
        · exact ⟨portStep_refl P st, rfl, rfl⟩
        · exact quiet_loop_step P fuel _ packet size src_phy hq haccept hhook e.1 st
      obtain ⟨i1, i2, i3⟩ := ih (if st.stuck then st
        else handle_packet fuel (dispatch_packet fuel) e.1 packet size src_phy st)
      exact ⟨portStep_trans hstep.1 i1, i2.trans hstep.2.1, i3.trans hstep.2.2⟩
  show PortStep P s (dispatch_packet_body fuel (dispatch_packet fuel) packet size src_phy s)
    ∧ (dispatch_packet_body fuel (dispatch_packet fuel) packet size src_phy s).pool = s.pool
    ∧ (dispatch_packet_body fuel (dispatch_packet fuel) packet size src_phy s).stuck = s.stuck
  unfold dispatch_packet_body
  simp only []
  have hlog : PortStep P s (s.log (Event.dispatch_packet (packet.take size) size src_phy)) :=
    portStep_log s hentry
  split_ifs
  · exact ⟨hlog, rfl, rfl⟩
  · obtain ⟨i1, i2, i3⟩ := hfold (s.log (Event.dispatch_packet (packet.take size) size
      src_phy)).devices (s.log (Event.dispatch_packet (packet.take size) size src_phy))
    exact ⟨portStep_trans hlog i1, i2, i3⟩
  · cases lookup_device (s.log (Event.dispatch_packet (packet.take size) size src_phy))
        (net_load16 packet 3) with
    | none => exact ⟨hlog, rfl, rfl⟩
    | some _ =>
      obtain ⟨i1, i2, i3⟩ := quiet_loop_step P fuel (dispatch_packet fuel) packet size src_phy
        hq haccept hhook (net_load16 packet 3)
        (s.log (Event.dispatch_packet (packet.take size) size src_phy))
      exact ⟨portStep_trans hlog i1, i2, i3⟩

/-! ## Packet pool: balance -/

/-- C12: when `alloc` serves a request from slot `i`, `free` of that pointer returns and
the used bits are those before the allocation.  Hence for a packet whose block is a pool
slot, built by `alloc_logical_packet_ptr` and filled in any way, `finish_ptr` returns
with the used bits (and so the used count) the pool had before the build, provided the
local dispatch of this packet returns and leaves the used bits as it found them.  The
destination is arbitrary: with `dst.phy` the node itself this is the loopback path,
otherwise the overlay path. -/
theorem C12_used_bits_restored_by_finish (fuel : Nat)
    (dispatch : List Nat → Nat → Nat → State → State) (a : PoolMemoryAllocator) (size i : Nat)
    (s : State) (dst : LogicalAddress) (src_port psize : Nat) (ovl_type : OverlayProtoType)
    (log_type : LogicalPacketType) (mem : List Nat) (j : Nat)
    (hslot : (a.alloc size).2 = Ptr.slot i)
    (hblock : (alloc_logical_packet_ptr s dst src_port psize ovl_type log_type).2.block
      = Ptr.slot j)
    (hs : s.stuck = false)
    (hbal : ∀ st, st.stuck = false →
      (dispatch
          (mem.drop (alloc_logical_packet_ptr s dst src_port psize ovl_type log_type).2.ptr)
          ((alloc_logical_packet_ptr s dst src_port psize ovl_type log_type).2.size % 65536)
          st.self_addr st).stuck = false
      ∧ (dispatch
          (mem.drop (alloc_logical_packet_ptr s dst src_port psize ovl_type log_type).2.ptr)
          ((alloc_logical_packet_ptr s dst src_port psize ovl_type log_type).2.size % 65536)
          st.self_addr st).pool.used_bits = st.pool.used_bits) :
    (∃ b, (a.alloc size).1.free (fuel + 1) (a.alloc size).2 = some b
        ∧ b.used_bits = a.used_bits)
    ∧ (alloc_logical_packet_ptr s dst src_port psize ovl_type log_type).2.ovl
        = (if s.self_addr = dst.phy then none
           else some { dst_phy := dst.phy
                       stream_size := psize + get_packet_size log_type
                         + OverlayPacket.get_packet_size ovl_type })
    ∧ (finish_ptr (fuel + 1) dispatch
        { (alloc_logical_packet_ptr s dst src_port psize ovl_type log_type).2 with mem := mem }
        (alloc_logical_packet_ptr s dst src_port psize ovl_type log_type).1).stuck = false
    ∧ (finish_ptr (fuel + 1) dispatch
        { (alloc_logical_packet_ptr s dst src_port psize ovl_type log_type).2 with mem := mem }
        (alloc_logical_packet_ptr s dst src_port psize ovl_type log_type).1).pool.used_bits
        = s.pool.used_bits
    ∧ (finish_ptr (fuel + 1) dispatch
        { (alloc_logical_packet_ptr s dst src_port psize ovl_type log_type).2 with mem := mem }
        (alloc_logical_packet_ptr s dst src_port psize ovl_type log_type).1).pool.used_bits.count
          true
        = s.pool.used_bits.count true := by
  have hfree : ∃ b, (a.alloc size).1.free (fuel + 1) (a.alloc size).2 = some b
      ∧ b.used_bits = a.used_bits := by
    obtain ⟨hbits, hclear, _, _, _⟩ := alloc_slot_bits a size i hslot
    rw [hslot]
    refine ⟨_, rfl, ?_⟩
    show ((a.alloc size).1.used_bits).set i false = a.used_bits
    rw [hbits]
    exact set_set_restore _ _ _ hclear
  obtain ⟨total, hpool, hblk, _⟩ := alloc_logical_pool s dst src_port psize ovl_type log_type
  have hstuck := alloc_logical_stuck s dst src_port psize ovl_type log_type
  have hovl := alloc_logical_ovl s dst src_port psize ovl_type log_type
  generalize alloc_logical_packet_ptr s dst src_port psize ovl_type log_type = r at *
  rw [hblk] at hblock
  obtain ⟨hbits, hclear, _, _, _⟩ := alloc_slot_bits s.pool total j hblock
  obtain ⟨f1, f2⟩ := finish_ptr_slot fuel dispatch { r.2 with mem := mem } r.1 j
    (hblk.trans hblock) (hstuck.trans hs) (fun st h _ _ _ => hbal st h)
  have hrestored : (finish_ptr (fuel + 1) dispatch { r.2 with mem := mem } r.1).pool.used_bits
      = s.pool.used_bits := by
    rw [f2, hpool, hbits]
    exact set_set_restore _ _ _ hclear
  exact ⟨hfree, hovl, f1, hrestored, by rw [hrestored]⟩

/-- C12 on the sample node with the button registered: an `ACTION_EXECUTE_RESULT` built
for port 100 of the node itself (loopback) and one built for the broadcast port of node
2 (overlay, with local dispatch) both get slot 0, and after `finish_ptr` both bits of
the pool are clear again. -/
theorem C12_used_bits_restored_by_finish_witness :
    ((sample_pool [true, false]).alloc 10).2 = Ptr.slot 1
    ∧ (alloc_logical_packet_ptr (sample_node true [sample_button]) { phy := 1, log := 100 } 200 0
        OverlayProtoType.UNRELIABLE LogicalPacketType.ACTION_EXECUTE_RESULT).2.block = Ptr.slot 0
    ∧ (alloc_logical_packet_ptr (sample_node true [sample_button]) { phy := 2, log := 65535 } 100
        0 OverlayProtoType.UNRELIABLE LogicalPacketType.ACTION_EXECUTE_RESULT).2.block
        = Ptr.slot 0
    ∧ (finish_ptr 2 (dispatch_packet 2)
        (alloc_logical_packet_ptr (sample_node true [sample_button]) { phy := 1, log := 100 } 200
          0 OverlayProtoType.UNRELIABLE LogicalPacketType.ACTION_EXECUTE_RESULT).2
        (alloc_logical_packet_ptr (sample_node true [sample_button]) { phy := 1, log := 100 } 200
          0 OverlayProtoType.UNRELIABLE LogicalPacketType.ACTION_EXECUTE_RESULT).1).pool.used_bits
        = [false, false]
    ∧ (finish_ptr 2 (dispatch_packet 2)
        (alloc_logical_packet_ptr (sample_node true [sample_button]) { phy := 2, log := 65535 }
          100 0 OverlayProtoType.UNRELIABLE LogicalPacketType.ACTION_EXECUTE_RESULT).2
        (alloc_logical_packet_ptr (sample_node true [sample_button]) { phy := 2, log := 65535 }
          100 0 OverlayProtoType.UNRELIABLE
          LogicalPacketType.ACTION_EXECUTE_RESULT).1).pool.used_bits
        = [false, false] :=
  ⟨by decide, by decide, by decide,
   (C12_used_bits_restored_by_finish 1 (dispatch_packet 2) (sample_pool [true, false]) 10 1
      (sample_node true [sample_button]) { phy := 1, log := 100 } 200 0
      OverlayProtoType.UNRELIABLE LogicalPacketType.ACTION_EXECUTE_RESULT
      (alloc_logical_packet_ptr (sample_node true [sample_button]) { phy := 1, log := 100 } 200 0
        OverlayProtoType.UNRELIABLE LogicalPacketType.ACTION_EXECUTE_RESULT).2.mem 0
      (by decide) (by decide) rfl
      (fun st hst =>
        have h := dispatch_packet_quiet (fun _ => True) 1 _ _ st.self_addr (by decide) trivial
          (fun _ => trivial) (fun _ _ => trivial) st
        ⟨h.2.2.trans hst, by rw [h.2.1]⟩)).2.2.2.1,
   (C12_used_bits_restored_by_finish 1 (dispatch_packet 2) (sample_pool [true, false]) 10 1
      (sample_node true [sample_button]) { phy := 2, log := 65535 } 100 0
      OverlayProtoType.UNRELIABLE LogicalPacketType.ACTION_EXECUTE_RESULT
      (alloc_logical_packet_ptr (sample_node true [sample_button]) { phy := 2, log := 65535 } 100
        0 OverlayProtoType.UNRELIABLE LogicalPacketType.ACTION_EXECUTE_RESULT).2.mem 0
      (by decide) (by decide) rfl
      (fun st hst =>
        have h := dispatch_packet_quiet (fun _ => True) 1 _ _ st.self_addr (by decide) trivial
          (fun _ => trivial) (fun _ _ => trivial) st
        ⟨h.2.2.trans hst, by rw [h.2.1]⟩)).2.2.2.1⟩

/-! ## Replies on the loopback path -/

theorem load8_take_zero (m : List Nat) (n : Nat) :
    load8 (m.take n) 0 = load8 m 0 ∨ load8 (m.take n) 0 = 0 := by
  cases n with
  | zero => right; rfl
  | succ k => left; exact load8_take m (k + 1) 0 (by omega)

theorem hook_is_aftermath (t : Nat) (e : Event) (h : e.is_hook_call = true) :
    e.is_aftermath t = true := by
  cases e <;> simp [Event.is_hook_call, Event.is_aftermath] at *

theorem aftermath_of_type (t0 : Nat) (packet : List Nat) (size : Nat) (h0 : t0 ≠ 0)
    (hne : load8 packet 0 ≠ t0) : load8 (packet.take size) 0 ≠ t0 := by
  rcases load8_take_zero packet size with h | h
  · rw [h]; exact hne
  · rw [h]; exact fun h2 => h0 h2.symm

theorem handle_packet_quiet_traceStep (P : Event → Prop) (fuel : Nat)
    (dispatch : List Nat → Nat → Nat → State → State) (packet : List Nat) (size src_phy : Nat)
    (hq : builds_reply (load8 packet 0) = false)
    (h16 : load8 packet 0 ≠ LogicalPacketType.SUBSCRIPTION_START.toNat)
    (h19 : load8 packet 0 ≠ LogicalPacketType.SUBSCRIPTION_STOP.toNat)
    (haccept : ∀ key, P (Event.on_general_packet_accept key (packet.take size) size src_phy))
    (hhook : ∀ e, e.is_hook_call = true → P e) (key : Nat) (st : State) :
    TraceStep P st (handle_packet fuel dispatch key packet size src_phy st) :=
  traceStep_of_portStep
    (quiet_loop_step P fuel dispatch packet size src_phy hq haccept hhook key st).1
    (handle_packet_quiet_devices fuel dispatch key packet size src_phy st hq h16 h19)

/-- The dispatch of a packet whose handler builds no packet and keeps the device map,
with any fuel: it appends the entry event, acceptance questions and hook calls. -/
theorem dispatch_packet_quiet_traceStep (P : Event → Prop) (fuel : Nat) (packet : List Nat)
    (size src_phy : Nat) (hq : builds_reply (load8 packet 0) = false)
    (h16 : load8 packet 0 ≠ LogicalPacketType.SUBSCRIPTION_START.toNat)
    (h19 : load8 packet 0 ≠ LogicalPacketType.SUBSCRIPTION_STOP.toNat)
    (hentry : P (Event.dispatch_packet (packet.take size) size src_phy))
    (haccept : ∀ key, P (Event.on_general_packet_accept key (packet.take size) size src_phy))
    (hhook : ∀ e, e.is_hook_call = true → P e) (st : State) :
    TraceStep P st (dispatch_packet fuel packet size src_phy st) := by
  cases fuel with
  | zero => exact traceStep_of_fields rfl rfl rfl
  | succ n =>
    show TraceStep P st (dispatch_packet_body n (dispatch_packet n) packet size src_phy st)
    exact dispatch_body_step P n (dispatch_packet n) packet size src_phy hentry st
      (fun key st2 _ _ => handle_packet_quiet_traceStep P n _ packet size src_phy hq h16 h19
        haccept hhook key st2)

/-- A packet without an overlay builder whose type is no request: what `finish_ptr`
appends is no mesh write and no hand-over of a packet of another type `t0`. -/
theorem finish_ptr_loopback_reply (fuel t0 : Nat) (p : LogicalPacketPtr) (s : State)
    (hovl : p.ovl = none) (hq : builds_reply (load8 (p.mem.drop p.ptr) 0) = false)
    (h16 : load8 (p.mem.drop p.ptr) 0 ≠ LogicalPacketType.SUBSCRIPTION_START.toNat)
    (h19 : load8 (p.mem.drop p.ptr) 0 ≠ LogicalPacketType.SUBSCRIPTION_STOP.toNat)
    (h0 : t0 ≠ 0) (hne : load8 (p.mem.drop p.ptr) 0 ≠ t0) :
    TraceStep (fun e => e.is_aftermath t0 = true) s
      (finish_ptr fuel (dispatch_packet fuel) p s) := by
  have hty := aftermath_of_type t0 (p.mem.drop p.ptr) (p.size % 65536) h0 hne
  obtain ⟨ha, hd, tail, htr, _, hloop⟩ := finish_ptr_shape (fun e => e.is_aftermath t0 = true)
    fuel (dispatch_packet fuel) p s
    (fun st _ _ => dispatch_packet_quiet_traceStep _ fuel _ _ st.self_addr hq h16 h19
      (by simpa [Event.is_aftermath] using hty)
      (fun _ => by simpa [Event.is_aftermath] using hty)
      (hook_is_aftermath t0) st)
  refine ⟨ha, hd, _ :: tail, htr, ?_⟩
  intro e he
  rcases List.mem_cons.mp he with rfl | h
  · rfl
  · exact hloop hovl e h

/-- The same for a packet built by `alloc_logical_packet_ptr` for the node itself and
filled without touching the type byte. -/
theorem finish_alloc_loopback_reply (fuel t0 : Nat) (s : State) (dst_port src_port extra : Nat)
    (ovl_type : OverlayProtoType) (type : LogicalPacketType) (mem : List Nat)
    (h5 : 5 ≤ get_packet_size type) (hq : builds_reply type.toNat = false)
    (h16 : type.toNat ≠ LogicalPacketType.SUBSCRIPTION_START.toNat)
    (h19 : type.toNat ≠ LogicalPacketType.SUBSCRIPTION_STOP.toNat)
    (h0 : t0 ≠ 0) (hne : type.toNat ≠ t0)
    (hmem : load8 mem (alloc_logical_packet_ptr s { phy := s.self_addr, log := dst_port }
        src_port extra ovl_type type).2.ptr
      = load8 (alloc_logical_packet_ptr s { phy := s.self_addr, log := dst_port } src_port extra
          ovl_type type).2.mem
        (alloc_logical_packet_ptr s { phy := s.self_addr, log := dst_port } src_port extra
          ovl_type type).2.ptr) :
    TraceStep (fun e => e.is_aftermath t0 = true) s
      (finish_ptr fuel (dispatch_packet fuel)
        { (alloc_logical_packet_ptr s { phy := s.self_addr, log := dst_port } src_port extra
            ovl_type type).2 with mem := mem }
        (alloc_logical_packet_ptr s { phy := s.self_addr, log := dst_port } src_port extra
          ovl_type type).1) := by
  have hhdr := (alloc_logical_header s { phy := s.self_addr, log := dst_port } src_port extra
    ovl_type type (by omega)).1
  have hovl := alloc_logical_ovl s { phy := s.self_addr, log := dst_port } src_port extra
    ovl_type type
  have hst := traceStep_alloc (fun e => e.is_aftermath t0 = true) s
    { phy := s.self_addr, log := dst_port } src_port extra ovl_type type
  generalize alloc_logical_packet_ptr s { phy := s.self_addr, log := dst_port } src_port extra
    ovl_type type = r at *
  rw [if_pos rfl] at hovl
  have hbyte : load8 (mem.drop r.2.ptr) 0 = type.toNat := by
    rw [load8_drop, Nat.add_zero, hmem, hhdr]
  exact traceStep_trans hst (finish_ptr_loopback_reply fuel t0 { r.2 with mem := mem } r.1
    hovl (hbyte.symm ▸ hq) (hbyte.symm ▸ h16) (hbyte.symm ▸ h19) h0 (hbyte.symm ▸ hne))

theorem write_fields_below (l : List DeviceApiField) : ∀ (m : List Nat) (off j : Nat), j < off →
    load8 (write_fields m off l) j = load8 m j := by
  induction l with
  | nil => intro m off j _; rfl
  | cons f rest ih =>
    intro m off j hj
    simp only [write_fields]
    rw [ih _ _ _ (by omega), load8_net_memcpy_below _ _ _ _ (by omega), load8_net_store8,
      if_neg (by omega)]

theorem load8_host_store16_below (little : Bool) (m : List Nat) (pos v j : Nat) (h : j < pos) :
    load8 (host_store16 little m pos v) j = load8 m j := by
  unfold host_store16
  split_ifs <;> exact load8_net_memcpy_below _ _ _ _ h

theorem handledStep_self (t0 : Nat) (s : State) (e : Event) : HandledStep t0 e s (s.log e) :=
  ⟨rfl, rfl, [], rfl, by simp⟩

theorem handledStep_of_traceStep {t0 : Nat} {first : Event} {s t : State}
    (h : TraceStep (fun e => e.is_aftermath t0 = true) (s.log first) t) :
    HandledStep t0 first s t := by
  obtain ⟨a, d, evs, ht, hp⟩ := h
  exact ⟨a, by rw [d]; rfl, evs, by rw [ht]; simp [State.log], hp⟩

theorem handledStep_of_quietStep (t0 : Nat) {first : Event} {s t : State}
    (h : QuietStep first s t) : HandledStep t0 first s t := by
  obtain ⟨a, d, _, _, rest, ht, hp⟩ := h
  exact ⟨a, d, rest, ht, fun e he => hook_is_aftermath t0 e (hp e he)⟩

/-- A `HELLO_WORLD_RESPONSE` sent to the node itself. -/
theorem send_hello_world_loopback (fuel t0 : Nat) (device : Device) (dst_port : Nat) (s : State)
    (h0 : t0 ≠ 0) (hne : LogicalPacketType.HELLO_WORLD_RESPONSE.toNat ≠ t0) :
    TraceStep (fun e => e.is_aftermath t0 = true) s
      (send_hello_world fuel (dispatch_packet fuel) device LogicalPacketType.HELLO_WORLD_RESPONSE
        s.self_addr dst_port s) := by
  unfold send_hello_world
  simp only []
  exact finish_alloc_loopback_reply fuel t0 s dst_port device.self_port _
    OverlayProtoType.UNRELIABLE LogicalPacketType.HELLO_WORLD_RESPONSE _ (by decide) (by decide)
    (by decide) (by decide) h0 hne (hello_body_below _ _ _ _ _ _ _ _ _ _ (by omega))

/-- A `FIELD_DICTIONARY_RESPONSE` sent to the node itself. -/
theorem send_field_dictionary_loopback (fuel t0 : Nat) (device : Device) (dst_port : Nat)
    (s : State) (h0 : t0 ≠ 0) (hne : LogicalPacketType.FIELD_DICTIONARY_RESPONSE.toNat ≠ t0) :
    TraceStep (fun e => e.is_aftermath t0 = true) s
      (send_field_dictionary fuel (dispatch_packet fuel) device
        { phy := s.self_addr, log := dst_port } s) := by
  unfold send_field_dictionary
  simp only []
  refine finish_alloc_loopback_reply fuel t0 s dst_port device.self_port _
    OverlayProtoType.UNRELIABLE LogicalPacketType.FIELD_DICTIONARY_RESPONSE _ (by decide)
    (by decide) (by decide) (by decide) h0 hne ?_
  rw [write_fields_below _ _ _ _ (by omega), load8_host_store16_below _ _ _ _ _ (by omega)]

/-- An `ACTION_EXECUTE_RESULT` sent to the node itself. -/
theorem action_execute_reply_loopback (fuel t0 : Nat) (self_port dst_port status reqid : Nat)
    (s : State) (h0 : t0 ≠ 0) (hne : LogicalPacketType.ACTION_EXECUTE_RESULT.toNat ≠ t0) :
    TraceStep (fun e => e.is_aftermath t0 = true) s
      (finish_ptr fuel (dispatch_packet fuel)
        { (alloc_logical_packet_ptr s { phy := s.self_addr, log := dst_port } self_port 0
            OverlayProtoType.UNRELIABLE LogicalPacketType.ACTION_EXECUTE_RESULT).2 with
          mem := net_store8 (net_store8
            (alloc_logical_packet_ptr s { phy := s.self_addr, log := dst_port } self_port 0
              OverlayProtoType.UNRELIABLE LogicalPacketType.ACTION_EXECUTE_RESULT).2.mem
            ((alloc_logical_packet_ptr s { phy := s.self_addr, log := dst_port } self_port 0
              OverlayProtoType.UNRELIABLE LogicalPacketType.ACTION_EXECUTE_RESULT).2.ptr + 8)
            status)
            ((alloc_logical_packet_ptr s { phy := s.self_addr, log := dst_port } self_port 0
              OverlayProtoType.UNRELIABLE LogicalPacketType.ACTION_EXECUTE_RESULT).2.ptr + 7)
            reqid }
        (alloc_logical_packet_ptr s { phy := s.self_addr, log := dst_port } self_port 0
          OverlayProtoType.UNRELIABLE LogicalPacketType.ACTION_EXECUTE_RESULT).1) := by
  refine finish_alloc_loopback_reply fuel t0 s dst_port self_port 0
    OverlayProtoType.UNRELIABLE LogicalPacketType.ACTION_EXECUTE_RESULT _ (by decide)
    (by decide) (by decide) (by decide) h0 hne ?_
  rw [load8_net_store8, if_neg (by omega), load8_net_store8, if_neg (by omega)]

/-- A request that came from the node itself, handed to a bound device: after the
acceptance question the handler keeps the device map and appends events that are no
mesh write and no hand-over of a packet of this type. -/
theorem handle_packet_reply_local (fuel key : Nat) (packet : List Nat) (size : Nat) (st : State)
    (dev : Device) (hl : lookup_device st key = some dev)
    (hb : builds_reply (load8 packet 0) = true) :
    TraceStep (fun e => e.is_aftermath (load8 packet 0) = true)
      (st.log (Event.on_general_packet_accept key (packet.take size) size st.self_addr))
      (handle_packet fuel (dispatch_packet fuel) key packet size st.self_addr st) := by
  have hcases : load8 packet 0 = LogicalPacketType.HELLO_WORLD.toNat
      ∨ load8 packet 0 = LogicalPacketType.FIELD_DICTIONARY_REQUEST.toNat
      ∨ load8 packet 0 = LogicalPacketType.ACTION_EXECUTE.toNat := by
    unfold builds_reply at hb
    exact of_decide_eq_true hb
  unfold handle_packet
  rw [hl]
  rcases hcases with h | h | h
  · simp only [h, ofNat?_toNat]
    have hsend := send_hello_world_loopback fuel LogicalPacketType.HELLO_WORLD.toNat dev
      (net_load16 packet 1)
      (st.log (Event.on_general_packet_accept key (packet.take size) size st.self_addr))
      (by decide) (by decide)
    split_ifs
    · exact traceStep_refl _ _
    · exact traceStep_refl _ _
    · exact hsend
    · exact traceStep_trans hsend (traceStep_log _ rfl)
  · simp only [h, ofNat?_toNat]
    have hsend := send_field_dictionary_loopback fuel
      LogicalPacketType.FIELD_DICTIONARY_REQUEST.toNat dev (net_load16 packet 1)
      (st.log (Event.on_general_packet_accept key (packet.take size) size st.self_addr))
      (by decide) (by decide)
    split_ifs
    · exact traceStep_refl _ _
    · exact hsend
  · simp only [h, ofNat?_toNat]
    split_ifs
    · exact traceStep_refl _ _
    · exact traceStep_refl _ _
    · exact traceStep_trans
        (traceStep_log
          (st.log (Event.on_general_packet_accept key (packet.take size) size st.self_addr))
          (show (Event.on_action_set key (net_load16 packet 5)
            ((packet.drop 9).take (size - 9)) (size - 9)
            { phy := st.self_addr, log := net_load16 packet 1 }).is_aftermath
              LogicalPacketType.ACTION_EXECUTE.toNat = true from rfl))
        (action_execute_reply_loopback fuel LogicalPacketType.ACTION_EXECUTE.toNat
          dev.self_port (net_load16 packet 1) _ _
          ((st.log (Event.on_general_packet_accept key (packet.take size) size
            st.self_addr)).log (Event.on_action_set key (net_load16 packet 5)
            ((packet.drop 9).take (size - 9)) (size - 9)
            { phy := st.self_addr, log := net_load16 packet 1 })) (by decide) (by decide))
    · exact traceStep_log
        (st.log (Event.on_general_packet_accept key (packet.take size) size st.self_addr))
        (show (Event.on_action_set key (net_load16 packet 5)
          ((packet.drop 9).take (size - 9)) (size - 9)
          { phy := st.self_addr, log := net_load16 packet 1 }).is_aftermath
            LogicalPacketType.ACTION_EXECUTE.toNat = true from rfl)

/-- A packet that came from the node itself, handed to a bound device: the trace grows
by the acceptance question and then by events that are no mesh write and no hand-over
of a packet of this type. -/
theorem handle_packet_local (fuel key : Nat) (packet : List Nat) (size : Nat) (st : State)
    (dev : Device) (hl : lookup_device st key = some dev) :
    HandledStep (load8 packet 0)
      (Event.on_general_packet_accept key (packet.take size) size st.self_addr) st
      (handle_packet fuel (dispatch_packet fuel) key packet size st.self_addr st) := by
  by_cases hq : builds_reply (load8 packet 0) = false
  · exact handledStep_of_quietStep _
      (handle_packet_quiet fuel _ key packet size st.self_addr st dev hl hq)
  · exact handledStep_of_traceStep
      (handle_packet_reply_local fuel key packet size st dev hl (by simpa using hq))

/-! ## Local dispatch of a packet that came from the node itself -/

theorem lookup_of_mem_keys (l : List (Nat × Device)) (k : Nat) (h : k ∈ l.map Prod.fst) :
    ∃ d, l.lookup k = some d := by
  induction l with
  | nil => simp at h
  | cons e rest ih =>
    obtain ⟨k2, d2⟩ := e
    by_cases hk : k = k2
    · subst hk
      exact ⟨d2, by simp⟩
    · have hne : (k == k2) = false := by simpa using hk
      have h2 : k ∈ rest.map Prod.fst := by
        simp only [List.map_cons, List.mem_cons] at h
        rcases h with h | h
        · exact absurd h hk
        · exact h
      obtain ⟨d, hd⟩ := ih h2
      exact ⟨d, by simp only [List.lookup_cons, hne]; exact hd⟩

theorem aftermath_not_mesh_write (t : Nat) (e : Event) (h : e.is_aftermath t = true) :
    ∀ d b, e ≠ Event.mesh_write d b := by
  intro d b heq
  subst heq
  simp [Event.is_aftermath] at h

theorem accept_not_aftermath (key : Nat) (packet : List Nat) (size src_phy : Nat)
    (hsize : 0 < size) :
    (Event.on_general_packet_accept key (packet.take size) size src_phy).is_aftermath
      (load8 packet 0) = false := by
  simp [Event.is_aftermath, load8_take packet size 0 hsize]

/-- The broadcast loop stops at a stuck state. -/
theorem broadcast_loop_stuck (fuel : Nat) (dispatch : List Nat → Nat → Nat → State → State)
    (packet : List Nat) (size src_phy : Nat) (l : List (Nat × Device)) (st : State)
    (h : st.stuck = true) :
    l.foldl (fun st e =>
      if st.stuck then st else handle_packet fuel dispatch e.1 packet size src_phy st) st
      = st := by
  induction l with
  | nil => rfl
  | cons e rest ih =>
    simp only [List.foldl_cons, h, if_true]
    exact ih

/-- The broadcast loop over the entries `l` for a packet that came from the node itself:
what it appends, apart from events that are no mesh write and no hand-over of a packet
of this type, are the acceptance questions of the first `n` entries, in order; `n` is
the length of `l` unless the state got stuck. -/
theorem broadcast_loop_local (fuel : Nat) (packet : List Nat) (size src_phy : Nat)
    (hsize : 0 < size) :
    ∀ (l : List (Nat × Device)) (st : State), st.self_addr = src_phy →
      (∀ e ∈ l, e.1 ∈ st.devices.map Prod.fst) →
      (l.foldl (fun st e =>
          if st.stuck then st
          else handle_packet fuel (dispatch_packet fuel) e.1 packet size src_phy st)
        st).self_addr = st.self_addr
      ∧ (l.foldl (fun st e =>
          if st.stuck then st
          else handle_packet fuel (dispatch_packet fuel) e.1 packet size src_phy st)
        st).devices.map Prod.fst = st.devices.map Prod.fst
      ∧ ∃ evs n, (l.foldl (fun st e =>
          if st.stuck then st
          else handle_packet fuel (dispatch_packet fuel) e.1 packet size src_phy st)
        st).trace = st.trace ++ evs
        ∧ n ≤ l.length
        ∧ evs.filter (fun e => !e.is_aftermath (load8 packet 0))
            = (l.take n).map (fun e =>
                Event.on_general_packet_accept e.1 (packet.take size) size src_phy)
        ∧ ((l.foldl (fun st e =>
              if st.stuck then st
              else handle_packet fuel (dispatch_packet fuel) e.1 packet size src_phy st)
            st).stuck = false → st.stuck = false ∧ n = l.length) := by
  intro l
  induction l with
  | nil =>
    intro st _ _
    exact ⟨rfl, rfl, [], 0, by simp, by simp, by simp, fun h => ⟨h, rfl⟩⟩
  | cons e rest ih =>
    intro st hself hkeys
    by_cases hst : st.stuck = true
    · rw [broadcast_loop_stuck _ _ _ _ _ _ _ hst]
      refine ⟨rfl, rfl, [], 0, by simp, by simp, by simp, ?_⟩
      intro h
      rw [hst] at h
      cases h
    · simp only [List.foldl_cons, if_neg hst]
      obtain ⟨dev, hl⟩ := lookup_of_mem_keys st.devices e.1 (hkeys e (List.mem_cons_self _ _))
      have hstep := handle_packet_local fuel e.1 packet size st dev hl
      rw [hself] at hstep
      obtain ⟨ha, hd, r1, htr, hp⟩ := hstep
      obtain ⟨ia, id, evs, n, itr, ilen, ifil, istuck⟩ := ih
        (handle_packet fuel (dispatch_packet fuel) e.1 packet size src_phy st)
        (ha.trans hself)
        (fun x hx => by rw [hd]; exact hkeys x (List.mem_cons_of_mem _ hx))
      refine ⟨ia.trans ha, id.trans hd,
        Event.on_general_packet_accept e.1 (packet.take size) size src_phy :: r1 ++ evs, n + 1,
        ?_, ?_, ?_, ?_⟩
      · rw [itr, htr]
        simp
      · simp only [List.length_cons]
        omega
      · have hr1 : r1.filter (fun e => !e.is_aftermath (load8 packet 0)) = [] := by
          rw [List.filter_eq_nil_iff]
          intro x hx
          simp [hp x hx]
        rw [List.cons_append, List.filter_cons,
          if_pos (by rw [accept_not_aftermath _ _ _ _ hsize]; rfl), List.filter_append, hr1,
          List.nil_append, ifil]
        rfl
      · intro h
        obtain ⟨_, hn⟩ := istuck h
        exact ⟨by simpa using hst, by simp only [List.length_cons]; omega⟩

/-- The local dispatch of a packet that came from the node itself.  After the entry
event the trace holds acceptance questions for this packet and events that are no mesh
write and no hand-over of a packet of this type: nothing for a packet shorter than the
header or for an unbound unicast port, one acceptance question first for a bound unicast
port, and for the broadcast port the acceptance questions of the first `n` ports of the
map, all of them unless the state got stuck. -/
theorem dispatch_packet_local (fuel : Nat) (packet : List Nat) (size : Nat) (s : State) :
    (dispatch_packet (fuel + 1) packet size s.self_addr s).self_addr = s.self_addr
    ∧ (dispatch_packet (fuel + 1) packet size s.self_addr s).devices.map Prod.fst
        = s.devices.map Prod.fst
    ∧ ∃ rest, (dispatch_packet (fuel + 1) packet size s.self_addr s).trace
        = s.trace ++ Event.dispatch_packet (packet.take size) size s.self_addr :: rest
      ∧ (∀ e ∈ rest, e.is_aftermath (load8 packet 0) = true
          ∨ ∃ key, e = Event.on_general_packet_accept key (packet.take size) size s.self_addr)
      ∧ (size < 5 → rest = [])
      ∧ (5 ≤ size → net_load16 packet 3 ≠ BROADCAST_PORT →
          lookup_device s (net_load16 packet 3) = none → rest = [])
      ∧ (5 ≤ size → net_load16 packet 3 ≠ BROADCAST_PORT →
          ∀ dev, lookup_device s (net_load16 packet 3) = some dev →
          ∃ rest2, rest = Event.on_general_packet_accept (net_load16 packet 3)
              (packet.take size) size s.self_addr :: rest2
            ∧ ∀ e ∈ rest2, e.is_aftermath (load8 packet 0) = true)
      ∧ (5 ≤ size → net_load16 packet 3 = BROADCAST_PORT →
          ∃ n, n ≤ s.devices.length
            ∧ rest.filter (fun e => !e.is_aftermath (load8 packet 0))
                = ((s.devices.map Prod.fst).take n).map (fun key =>
                    Event.on_general_packet_accept key (packet.take size) size s.self_addr)
            ∧ ((dispatch_packet (fuel + 1) packet size s.self_addr s).stuck = false →
                n = s.devices.length)) := by
  show (dispatch_packet_body fuel (dispatch_packet fuel) packet size s.self_addr s).self_addr
      = s.self_addr
    ∧ (dispatch_packet_body fuel (dispatch_packet fuel) packet size s.self_addr s).devices.map
        Prod.fst = s.devices.map Prod.fst
    ∧ ∃ rest, (dispatch_packet_body fuel (dispatch_packet fuel) packet size s.self_addr s).trace
        = s.trace ++ Event.dispatch_packet (packet.take size) size s.self_addr :: rest
      ∧ (∀ e ∈ rest, e.is_aftermath (load8 packet 0) = true
          ∨ ∃ key, e = Event.on_general_packet_accept key (packet.take size) size s.self_addr)
      ∧ (size < 5 → rest = [])
      ∧ (5 ≤ size → net_load16 packet 3 ≠ BROADCAST_PORT →
          lookup_device s (net_load16 packet 3) = none → rest = [])
      ∧ (5 ≤ size → net_load16 packet 3 ≠ BROADCAST_PORT →
          ∀ dev, lookup_device s (net_load16 packet 3) = some dev →
          ∃ rest2, rest = Event.on_general_packet_accept (net_load16 packet 3)
              (packet.take size) size s.self_addr :: rest2
            ∧ ∀ e ∈ rest2, e.is_aftermath (load8 packet 0) = true)
      ∧ (5 ≤ size → net_load16 packet 3 = BROADCAST_PORT →
          ∃ n, n ≤ s.devices.length
            ∧ rest.filter (fun e => !e.is_aftermath (load8 packet 0))
                = ((s.devices.map Prod.fst).take n).map (fun key =>
                    Event.on_general_packet_accept key (packet.take size) size s.self_addr)
            ∧ ((dispatch_packet_body fuel (dispatch_packet fuel) packet size s.self_addr
                s).stuck = false → n = s.devices.length))
  unfold dispatch_packet_body
  simp only [LOG_PACKET_SIZE_dst_addr]
  by_cases h5 : 5 > size
  · rw [if_pos h5]
    refine ⟨rfl, rfl, [], rfl, by simp, fun _ => rfl, fun h => ?_, fun h => ?_, fun h => ?_⟩
    all_goals omega
  · rw [if_neg h5]
    by_cases hb : net_load16 packet 3 = BROADCAST_PORT
    · rw [if_pos hb]
      obtain ⟨ha, hd, evs, n, htr, hlen, hfil, hstuck⟩ := broadcast_loop_local fuel packet size
        s.self_addr (by omega)
        (s.log (Event.dispatch_packet (packet.take size) size s.self_addr)).devices
        (s.log (Event.dispatch_packet (packet.take size) size s.self_addr)) rfl
        (fun e he => List.mem_map_of_mem Prod.fst he)
      have hfil2 : evs.filter (fun e => !e.is_aftermath (load8 packet 0))
          = ((s.devices.map Prod.fst).take n).map (fun key =>
              Event.on_general_packet_accept key (packet.take size) size s.self_addr) := by
        rw [hfil, ← List.map_take, List.map_map]
        rfl
      refine ⟨ha, hd, evs, by rw [htr]; simp [State.log], ?_, fun h => by omega,
        fun _ h => absurd hb h, fun _ h => absurd hb h, fun _ _ => ⟨n, hlen, hfil2, ?_⟩⟩
      · intro e he
        by_cases haft : e.is_aftermath (load8 packet 0) = true
        · exact Or.inl haft
        · right
          have hmem : e ∈ evs.filter (fun e => !e.is_aftermath (load8 packet 0)) := by
            rw [List.mem_filter]
            exact ⟨he, by simpa using haft⟩
          rw [hfil2] at hmem
          obtain ⟨key, _, hkey⟩ := List.mem_map.mp hmem
          exact ⟨key, hkey.symm⟩
      · intro h
        exact (hstuck h).2
    · rw [if_neg hb]
      cases hl : lookup_device (s.log (Event.dispatch_packet (packet.take size) size
          s.self_addr)) (net_load16 packet 3) with
      | none =>
        refine ⟨rfl, rfl, [], rfl, by simp, fun _ => rfl, fun _ _ _ => rfl, ?_,
          fun _ h => absurd h hb⟩
        intro _ _ dev hdev
        have hl2 : lookup_device s (net_load16 packet 3) = none := hl
        rw [hl2] at hdev
        cases hdev
      | some dev =>
        simp only []
        have hstep : HandledStep (load8 packet 0)
            (Event.on_general_packet_accept (net_load16 packet 3) (packet.take size) size
              s.self_addr)
            (s.log (Event.dispatch_packet (packet.take size) size s.self_addr))
            (handle_packet fuel (dispatch_packet fuel) (net_load16 packet 3) packet size
              s.self_addr (s.log (Event.dispatch_packet (packet.take size) size s.self_addr))) :=
          handle_packet_local fuel (net_load16 packet 3) packet size
            (s.log (Event.dispatch_packet (packet.take size) size s.self_addr)) dev hl
        obtain ⟨ha, hd, rest2, htr, hp⟩ := hstep
        refine ⟨ha, hd, _ :: rest2, by rw [htr]; simp [State.log], ?_, fun h => by omega, ?_,
          fun _ _ _ _ => ⟨rest2, rfl, hp⟩, fun _ h => absurd h hb⟩
        · intro e he
          rcases List.mem_cons.mp he with rfl | h
          · exact Or.inr ⟨_, rfl⟩
          · exact Or.inl (hp e h)
        · intro _ _ hnone
          have hl2 : lookup_device s (net_load16 packet 3) = some dev := hl
          rw [hl2] at hnone
          cases hnone

theorem release_trace (fuel : Nat) (p : LogicalPacketPtr) (st : State) :
    (release fuel p st).trace = st.trace := by
  unfold release
  cases st.pool.free fuel p.block with
  | none => rfl
  | some pool =>
    cases p.block with
    | slot i => rfl
    | heap => rfl

theorem trace_unless_stuck (fuel : Nat) (p : LogicalPacketPtr) (st : State) :
    (if st.stuck then st else release fuel p st).trace = st.trace := by
  split_ifs
  · rfl
  · exact release_trace fuel p st

/-! ## Loopback: claim -/

/-- C15: a packet built for the node's own physical address has no overlay builder, so
`finish_ptr` calls the local dispatch once, with the node's address as source, and
releases the block afterwards (if the dispatch returned); it does not call the mesh
send.  In the trace the emission is followed by one entry of `dispatch_packet` for these
bytes, and everything after it is an acceptance question for this packet or an event
that is no mesh write and no hand-over of a packet of this type.  For a unicast port
with a device bound to it, the acceptance question of that device comes next and no
second hand-over follows; for an unbound unicast port nothing follows.  A packet from
`alloc_logical_packet_ptr` is of this form, `mem` being the block after the builder's
writes. -/
theorem C15_loopback_packet_dispatched_once (fuel : Nat) (s : State) (log_size : Nat)
    (ovl_type : OverlayProtoType) (mem : List Nat) (hsize : log_size < 65536) :
    (alloc_raw_logical_ptr s s.self_addr log_size ovl_type).2.ovl = none
    ∧ finish_ptr (fuel + 1) (dispatch_packet (fuel + 1))
        { (alloc_raw_logical_ptr s s.self_addr log_size ovl_type).2 with mem := mem }
        (alloc_raw_logical_ptr s s.self_addr log_size ovl_type).1
      = (if (dispatch_packet (fuel + 1) mem log_size s.self_addr
              ((alloc_raw_logical_ptr s s.self_addr log_size ovl_type).1.log
                (Event.finish_ptr (mem.take log_size) log_size none))).stuck
         then dispatch_packet (fuel + 1) mem log_size s.self_addr
              ((alloc_raw_logical_ptr s s.self_addr log_size ovl_type).1.log
                (Event.finish_ptr (mem.take log_size) log_size none))
         else release (fuel + 1)
              { (alloc_raw_logical_ptr s s.self_addr log_size ovl_type).2 with mem := mem }
              (dispatch_packet (fuel + 1) mem log_size s.self_addr
                ((alloc_raw_logical_ptr s s.self_addr log_size ovl_type).1.log
                  (Event.finish_ptr (mem.take log_size) log_size none))))
    ∧ ∃ rest, (finish_ptr (fuel + 1) (dispatch_packet (fuel + 1))
          { (alloc_raw_logical_ptr s s.self_addr log_size ovl_type).2 with mem := mem }
          (alloc_raw_logical_ptr s s.self_addr log_size ovl_type).1).trace
        = s.trace ++ Event.finish_ptr (mem.take log_size) log_size none
            :: Event.dispatch_packet (mem.take log_size) log_size s.self_addr :: rest
      ∧ (∀ e ∈ rest, e.is_aftermath (load8 mem 0) = true
          ∨ ∃ key, e = Event.on_general_packet_accept key (mem.take log_size) log_size
              s.self_addr)
      ∧ (5 ≤ log_size → net_load16 mem 3 ≠ BROADCAST_PORT →
          lookup_device s (net_load16 mem 3) = none → rest = [])
      ∧ (5 ≤ log_size → net_load16 mem 3 ≠ BROADCAST_PORT →
          ∀ dev, lookup_device s (net_load16 mem 3) = some dev →
          ∃ rest2, rest = Event.on_general_packet_accept (net_load16 mem 3)
              (mem.take log_size) log_size s.self_addr :: rest2
            ∧ ∀ e ∈ rest2, e.is_aftermath (load8 mem 0) = true) := by
  have hovl := alloc_raw_ovl s s.self_addr log_size ovl_type
  have hptr := alloc_raw_ptr s s.self_addr log_size ovl_type
  have hsz := alloc_raw_size s s.self_addr log_size ovl_type
  have hst := alloc_raw_state s s.self_addr log_size ovl_type
  generalize alloc_raw_logical_ptr s s.self_addr log_size ovl_type = r at *
  rw [if_pos rfl] at hovl hptr
  have hself : r.1.self_addr = s.self_addr := by rw [hst]
  have hdev : r.1.devices = s.devices := by rw [hst]
  have htrace : r.1.trace = s.trace := by rw [hst]
  have heq : finish_ptr (fuel + 1) (dispatch_packet (fuel + 1)) { r.2 with mem := mem } r.1
      = (if (dispatch_packet (fuel + 1) mem log_size s.self_addr
              (r.1.log (Event.finish_ptr (mem.take log_size) log_size none))).stuck
         then dispatch_packet (fuel + 1) mem log_size s.self_addr
              (r.1.log (Event.finish_ptr (mem.take log_size) log_size none))
         else release (fuel + 1) { r.2 with mem := mem }
              (dispatch_packet (fuel + 1) mem log_size s.self_addr
                (r.1.log (Event.finish_ptr (mem.take log_size) log_size none)))) := by
    unfold finish_ptr
    simp only [hovl, hptr, hsz, List.drop_zero, Nat.mod_eq_of_lt hsize, Option.map_none']
    rw [show (r.1.log (Event.finish_ptr (mem.take log_size) log_size none)).self_addr
      = s.self_addr from hself]
  refine ⟨hovl, heq, ?_⟩
  rw [heq, trace_unless_stuck]
  obtain ⟨_, _, rest, htr, hall, _, hnone, hsome, _⟩ := dispatch_packet_local fuel mem log_size
    (r.1.log (Event.finish_ptr (mem.take log_size) log_size none))
  have hs0 : (r.1.log (Event.finish_ptr (mem.take log_size) log_size none)).self_addr
      = s.self_addr := hself
  have hl0 : ∀ k, lookup_device (r.1.log (Event.finish_ptr (mem.take log_size) log_size none)) k
      = lookup_device s k := by
    intro k
    show r.1.devices.lookup k = s.devices.lookup k
    rw [hdev]
  rw [hs0] at htr hall hsome
  refine ⟨rest, ?_, hall, ?_, ?_⟩
  · rw [htr]
    show (r.1.trace ++ [Event.finish_ptr (mem.take log_size) log_size none]) ++ _ = _
    rw [htrace]
    simp
  · intro h5 hb hl
    exact hnone h5 hb ((hl0 _).trans hl)
  · intro h5 hb dev hl
    exact hsome h5 hb dev ((hl0 _).trans hl)

/-- C15 on the sample node hosting the button (port 100) and the peer (port 200): the
`ACTION_EXECUTE` of scenario S2, built for the node itself.  The whole trace is shown:
no mesh write, one dispatch of the request, one acceptance question to port 100, then
the reply of the button, itself on the loopback path. -/
theorem C15_loopback_packet_dispatched_once_witness :
    (10 : Nat) < 65536
    ∧ (∃ rest, (finish_ptr (1 + 1) (dispatch_packet (1 + 1))
          { (alloc_raw_logical_ptr (sample_node true [sample_button, sample_peer])
              (sample_node true [sample_button, sample_peer]).self_addr 10
              OverlayProtoType.UNRELIABLE).2 with mem := sample_execute }
          (alloc_raw_logical_ptr (sample_node true [sample_button, sample_peer])
            (sample_node true [sample_button, sample_peer]).self_addr 10
            OverlayProtoType.UNRELIABLE).1).trace
        = (sample_node true [sample_button, sample_peer]).trace
            ++ Event.finish_ptr (sample_execute.take 10) 10 none
            :: Event.dispatch_packet (sample_execute.take 10) 10
                (sample_node true [sample_button, sample_peer]).self_addr :: rest
      ∧ (∀ e ∈ rest, e.is_aftermath (load8 sample_execute 0) = true
          ∨ ∃ key, e = Event.on_general_packet_accept key (sample_execute.take 10) 10
              (sample_node true [sample_button, sample_peer]).self_addr)
      ∧ (5 ≤ 10 → net_load16 sample_execute 3 ≠ BROADCAST_PORT →
          lookup_device (sample_node true [sample_button, sample_peer])
            (net_load16 sample_execute 3) = none → rest = [])
      ∧ (5 ≤ 10 → net_load16 sample_execute 3 ≠ BROADCAST_PORT →
          ∀ dev, lookup_device (sample_node true [sample_button, sample_peer])
            (net_load16 sample_execute 3) = some dev →
          ∃ rest2, rest = Event.on_general_packet_accept (net_load16 sample_execute 3)
              (sample_execute.take 10) 10
              (sample_node true [sample_button, sample_peer]).self_addr :: rest2
            ∧ ∀ e ∈ rest2, e.is_aftermath (load8 sample_execute 0) = true))
    ∧ (finish_ptr 2 (dispatch_packet 2)
          { (alloc_raw_logical_ptr (sample_node true [sample_button, sample_peer]) 1 10
              OverlayProtoType.UNRELIABLE).2 with mem := sample_execute }
          (alloc_raw_logical_ptr (sample_node true [sample_button, sample_peer]) 1 10
            OverlayProtoType.UNRELIABLE).1).trace =
        [Event.finish_ptr sample_execute 10 none,
         Event.dispatch_packet sample_execute 10 1,
         Event.on_general_packet_accept 100 sample_execute 10 1,
         Event.on_action_set 100 7 [171] 1 { phy := 1, log := 200 },
         Event.finish_ptr [13, 0, 100, 0, 200, 0, 0, 42, 1] 9 none,
         Event.dispatch_packet [13, 0, 100, 0, 200, 0, 0, 42, 1] 9 1,
         Event.on_general_packet_accept 200 [13, 0, 100, 0, 200, 0, 0, 42, 1] 9 1] :=
  ⟨by decide,
   (C15_loopback_packet_dispatched_once 1 (sample_node true [sample_button, sample_peer]) 10
      OverlayProtoType.UNRELIABLE sample_execute (by decide)).2.2,
   by decide⟩

/-! ## Replies return when the pool has room -/

theorem alloc_slot_of_room (a : PoolMemoryAllocator) (size : Nat) (hfit : size ≤ a.piece_size)
    (hbit : ¬ ∀ b ∈ a.used_bits, b = true) : ∃ i, (a.alloc size).2 = Ptr.slot i := by
  have hall : ¬ (a.used_bits.all (fun b => b) = true) := by
    intro h
    exact hbit (fun b hb => by simpa using List.all_eq_true.mp h b hb)
  unfold PoolMemoryAllocator.alloc
  rw [if_neg (by omega), if_neg hall]
  cases hfc : first_clear a.used_bits with
  | none => exact absurd (first_clear_none _ hfc) hbit
  | some i => exact ⟨i, rfl⟩

theorem free_piece_size (fuel : Nat) (a b : PoolMemoryAllocator) (ptr : Ptr)
    (h : a.free fuel ptr = some b) : b.piece_size = a.piece_size := by
  induction fuel with
  | zero => simp [PoolMemoryAllocator.free] at h
  | succ n ih =>
    cases ptr with
    | slot i =>
      simp only [PoolMemoryAllocator.free, Option.some.injEq] at h
      subst h
      rfl
    | heap =>
      simp only [PoolMemoryAllocator.free] at h
      exact ih h

theorem release_piece_size (fuel : Nat) (p : LogicalPacketPtr) (st : State) :
    (release fuel p st).pool.piece_size = st.pool.piece_size := by
  unfold release
  cases hb : p.block with
  | slot i =>
    cases h : st.pool.free fuel (Ptr.slot i) with
    | none => rfl
    | some pool =>
      show pool.piece_size = st.pool.piece_size
      exact free_piece_size _ _ _ _ h
  | heap =>
    cases h : st.pool.free fuel Ptr.heap with
    | none => rfl
    | some pool =>
      show pool.piece_size = st.pool.piece_size
      exact free_piece_size _ _ _ _ h

theorem finish_ptr_piece_size (fuel : Nat) (dispatch : List Nat → Nat → Nat → State → State)
    (p : LogicalPacketPtr) (s : State)
    (hd : ∀ st, (dispatch (p.mem.drop p.ptr) (p.size % 65536) st.self_addr st).pool.piece_size
      = st.pool.piece_size) :
    (finish_ptr fuel dispatch p s).pool.piece_size = s.pool.piece_size := by
  unfold finish_ptr
  cases p.ovl with
  | none =>
    simp only []
    split_ifs
    · exact hd _
    · exact (release_piece_size _ _ _).trans (hd _)
  | some ovl =>
    simp only []
    split_ifs
    · exact hd _
    · exact (release_piece_size _ _ _).trans (hd _)
    · rfl
    · exact release_piece_size _ _ _

theorem reply_size_quiet (t : Nat) (device : Device) (hq : builds_reply t = false) :
    reply_size t device = 0 := by
  unfold builds_reply at hq
  have h := of_decide_eq_false hq
  unfold reply_size
  rw [if_neg (fun h1 => h (Or.inl h1)), if_neg (fun h1 => h (Or.inr (Or.inl h1))),
    if_neg (fun h1 => h (Or.inr (Or.inr h1)))]

/-- A reply built for the node itself, with fuel left, a clear bit in the pool and a
slot large enough: `finish_ptr` returns and the pool has the used bits it had before. -/
theorem finish_alloc_returns (fuel : Nat) (s : State) (dst_port src_port extra : Nat)
    (ovl_type : OverlayProtoType) (type : LogicalPacketType) (mem : List Nat)
    (h5 : 5 ≤ get_packet_size type) (hq : builds_reply type.toNat = false)
    (hmem : load8 mem (alloc_logical_packet_ptr s { phy := s.self_addr, log := dst_port }
        src_port extra ovl_type type).2.ptr
      = load8 (alloc_logical_packet_ptr s { phy := s.self_addr, log := dst_port } src_port extra
          ovl_type type).2.mem
        (alloc_logical_packet_ptr s { phy := s.self_addr, log := dst_port } src_port extra
          ovl_type type).2.ptr)
    (hs : s.stuck = false) (hfit : extra + get_packet_size type ≤ s.pool.piece_size)
    (hbit : ¬ ∀ b ∈ s.pool.used_bits, b = true) :
    (finish_ptr (fuel + 1) (dispatch_packet (fuel + 1))
        { (alloc_logical_packet_ptr s { phy := s.self_addr, log := dst_port } src_port extra
            ovl_type type).2 with mem := mem }
        (alloc_logical_packet_ptr s { phy := s.self_addr, log := dst_port } src_port extra
          ovl_type type).1).stuck = false
    ∧ (finish_ptr (fuel + 1) (dispatch_packet (fuel + 1))
        { (alloc_logical_packet_ptr s { phy := s.self_addr, log := dst_port } src_port extra
            ovl_type type).2 with mem := mem }
        (alloc_logical_packet_ptr s { phy := s.self_addr, log := dst_port } src_port extra
          ovl_type type).1).pool.used_bits = s.pool.used_bits
    ∧ (finish_ptr (fuel + 1) (dispatch_packet (fuel + 1))
        { (alloc_logical_packet_ptr s { phy := s.self_addr, log := dst_port } src_port extra
            ovl_type type).2 with mem := mem }
        (alloc_logical_packet_ptr s { phy := s.self_addr, log := dst_port } src_port extra
          ovl_type type).1).pool.piece_size = s.pool.piece_size := by
  have hhdr := (alloc_logical_header s { phy := s.self_addr, log := dst_port } src_port extra
    ovl_type type (by omega)).1
  obtain ⟨total, hpool, hblk, htot⟩ := alloc_logical_pool s
    { phy := s.self_addr, log := dst_port } src_port extra ovl_type type
  have hstuck := alloc_logical_stuck s { phy := s.self_addr, log := dst_port } src_port extra
    ovl_type type
  generalize alloc_logical_packet_ptr s { phy := s.self_addr, log := dst_port } src_port extra
    ovl_type type = r at *
  rw [if_pos rfl] at htot
  obtain ⟨i, hi⟩ := alloc_slot_of_room s.pool total (by omega) hbit
  obtain ⟨hbits, hclear, hps, _, _⟩ := alloc_slot_bits s.pool total i hi
  have hbyte : load8 (mem.drop r.2.ptr) 0 = type.toNat := by
    rw [load8_drop, Nat.add_zero, hmem, hhdr]
  have hquiet : ∀ st, (dispatch_packet (fuel + 1) (mem.drop r.2.ptr) (r.2.size % 65536)
        st.self_addr st).pool = st.pool
      ∧ (dispatch_packet (fuel + 1) (mem.drop r.2.ptr) (r.2.size % 65536)
        st.self_addr st).stuck = st.stuck := fun st =>
    (dispatch_packet_quiet (fun _ => True) fuel _ _ st.self_addr (hbyte.symm ▸ hq) trivial
      (fun _ => trivial) (fun _ _ => trivial) st).2
  obtain ⟨f1, f2⟩ := finish_ptr_slot fuel (dispatch_packet (fuel + 1)) { r.2 with mem := mem }
    r.1 i (hblk.trans hi) (hstuck.trans hs)
    (fun st hst _ _ _ => ⟨(hquiet st).2.trans hst, by rw [(hquiet st).1]⟩)
  have f3 := finish_ptr_piece_size (fuel + 1) (dispatch_packet (fuel + 1))
    { r.2 with mem := mem } r.1 (fun st => by rw [(hquiet st).1])
  refine ⟨f1, ?_, ?_⟩
  · rw [f2, hpool, hbits]
    exact set_set_restore _ _ _ hclear
  · rw [f3, hpool, hps]

theorem send_hello_world_returns (fuel : Nat) (device : Device) (dst_port : Nat) (s : State)
    (hs : s.stuck = false) (hfit : hello_world_size device ≤ s.pool.piece_size)
    (hbit : ¬ ∀ b ∈ s.pool.used_bits, b = true) :
    (send_hello_world (fuel + 1) (dispatch_packet (fuel + 1)) device
        LogicalPacketType.HELLO_WORLD_RESPONSE s.self_addr dst_port s).stuck = false
    ∧ (send_hello_world (fuel + 1) (dispatch_packet (fuel + 1)) device
        LogicalPacketType.HELLO_WORLD_RESPONSE s.self_addr dst_port s).pool.used_bits
        = s.pool.used_bits
    ∧ (send_hello_world (fuel + 1) (dispatch_packet (fuel + 1)) device
        LogicalPacketType.HELLO_WORLD_RESPONSE s.self_addr dst_port s).pool.piece_size
        = s.pool.piece_size := by
  unfold send_hello_world
  simp only []
  exact finish_alloc_returns fuel s dst_port device.self_port _
    OverlayProtoType.UNRELIABLE LogicalPacketType.HELLO_WORLD_RESPONSE _ (by decide) (by decide)
    (hello_body_below _ _ _ _ _ _ _ _ _ _ (by omega)) hs hfit hbit

theorem send_field_dictionary_returns (fuel : Nat) (device : Device) (dst_port : Nat)
    (s : State) (hs : s.stuck = false) (hfit : field_dictionary_size device ≤ s.pool.piece_size)
    (hbit : ¬ ∀ b ∈ s.pool.used_bits, b = true) :
    (send_field_dictionary (fuel + 1) (dispatch_packet (fuel + 1)) device
        { phy := s.self_addr, log := dst_port } s).stuck = false
    ∧ (send_field_dictionary (fuel + 1) (dispatch_packet (fuel + 1)) device
        { phy := s.self_addr, log := dst_port } s).pool.used_bits = s.pool.used_bits
    ∧ (send_field_dictionary (fuel + 1) (dispatch_packet (fuel + 1)) device
        { phy := s.self_addr, log := dst_port } s).pool.piece_size = s.pool.piece_size := by
  unfold send_field_dictionary
  simp only []
  refine finish_alloc_returns fuel s dst_port device.self_port _
    OverlayProtoType.UNRELIABLE LogicalPacketType.FIELD_DICTIONARY_RESPONSE _ (by decide)
    (by decide) ?_ hs hfit hbit
  rw [write_fields_below _ _ _ _ (by omega), load8_host_store16_below _ _ _ _ _ (by omega)]

theorem action_execute_reply_returns (fuel : Nat) (self_port dst_port status reqid : Nat)
    (s : State) (hs : s.stuck = false)
    (hfit : 0 + get_packet_size LogicalPacketType.ACTION_EXECUTE_RESULT ≤ s.pool.piece_size)
    (hbit : ¬ ∀ b ∈ s.pool.used_bits, b = true) :
    (finish_ptr (fuel + 1) (dispatch_packet (fuel + 1))
        { (alloc_logical_packet_ptr s { phy := s.self_addr, log := dst_port } self_port 0
            OverlayProtoType.UNRELIABLE LogicalPacketType.ACTION_EXECUTE_RESULT).2 with
          mem := net_store8 (net_store8
            (alloc_logical_packet_ptr s { phy := s.self_addr, log := dst_port } self_port 0
              OverlayProtoType.UNRELIABLE LogicalPacketType.ACTION_EXECUTE_RESULT).2.mem
            ((alloc_logical_packet_ptr s { phy := s.self_addr, log := dst_port } self_port 0
              OverlayProtoType.UNRELIABLE LogicalPacketType.ACTION_EXECUTE_RESULT).2.ptr + 8)
            status)
            ((alloc_logical_packet_ptr s { phy := s.self_addr, log := dst_port } self_port 0
              OverlayProtoType.UNRELIABLE LogicalPacketType.ACTION_EXECUTE_RESULT).2.ptr + 7)
            reqid }
        (alloc_logical_packet_ptr s { phy := s.self_addr, log := dst_port } self_port 0
          OverlayProtoType.UNRELIABLE LogicalPacketType.ACTION_EXECUTE_RESULT).1).stuck = false
    ∧ (finish_ptr (fuel + 1) (dispatch_packet (fuel + 1))
        { (alloc_logical_packet_ptr s { phy := s.self_addr, log := dst_port } self_port 0
            OverlayProtoType.UNRELIABLE LogicalPacketType.ACTION_EXECUTE_RESULT).2 with
          mem := net_store8 (net_store8
            (alloc_logical_packet_ptr s { phy := s.self_addr, log := dst_port } self_port 0
              OverlayProtoType.UNRELIABLE LogicalPacketType.ACTION_EXECUTE_RESULT).2.mem
            ((alloc_logical_packet_ptr s { phy := s.self_addr, log := dst_port } self_port 0
              OverlayProtoType.UNRELIABLE LogicalPacketType.ACTION_EXECUTE_RESULT).2.ptr + 8)
            status)
            ((alloc_logical_packet_ptr s { phy := s.self_addr, log := dst_port } self_port 0
              OverlayProtoType.UNRELIABLE LogicalPacketType.ACTION_EXECUTE_RESULT).2.ptr + 7)
            reqid }
        (alloc_logical_packet_ptr s { phy := s.self_addr, log := dst_port } self_port 0
          OverlayProtoType.UNRELIABLE LogicalPacketType.ACTION_EXECUTE_RESULT).1).pool.used_bits
        = s.pool.used_bits
    ∧ (finish_ptr (fuel + 1) (dispatch_packet (fuel + 1))
        { (alloc_logical_packet_ptr s { phy := s.self_addr, log := dst_port } self_port 0
            OverlayProtoType.UNRELIABLE LogicalPacketType.ACTION_EXECUTE_RESULT).2 with
          mem := net_store8 (net_store8
            (alloc_logical_packet_ptr s { phy := s.self_addr, log := dst_port } self_port 0
              OverlayProtoType.UNRELIABLE LogicalPacketType.ACTION_EXECUTE_RESULT).2.mem
            ((alloc_logical_packet_ptr s { phy := s.self_addr, log := dst_port } self_port 0
              OverlayProtoType.UNRELIABLE LogicalPacketType.ACTION_EXECUTE_RESULT).2.ptr + 8)
            status)
            ((alloc_logical_packet_ptr s { phy := s.self_addr, log := dst_port } self_port 0
              OverlayProtoType.UNRELIABLE LogicalPacketType.ACTION_EXECUTE_RESULT).2.ptr + 7)
            reqid }
        (alloc_logical_packet_ptr s { phy := s.self_addr, log := dst_port } self_port 0
          OverlayProtoType.UNRELIABLE LogicalPacketType.ACTION_EXECUTE_RESULT).1).pool.piece_size
        = s.pool.piece_size := by
  refine finish_alloc_returns fuel s dst_port self_port 0 OverlayProtoType.UNRELIABLE
    LogicalPacketType.ACTION_EXECUTE_RESULT _ (by decide) (by decide) ?_ hs hfit hbit
  rw [load8_net_store8, if_neg (by omega), load8_net_store8, if_neg (by omega)]

/-- A packet that came from the node itself, handed to a bound device with fuel left:
the handler returns and the pool has the used bits it had before, if the pool has a
clear bit and a slot holds the reply of the device. -/
theorem handle_packet_returns (fuel key : Nat) (packet : List Nat) (size : Nat) (st : State)
    (dev : Device) (hl : lookup_device st key = some dev) (hs : st.stuck = false)
    (hfit : reply_size (load8 packet 0) dev ≤ st.pool.piece_size)
    (hbit : ¬ ∀ b ∈ st.pool.used_bits, b = true) :
    (handle_packet (fuel + 1) (dispatch_packet (fuel + 1)) key packet size st.self_addr
        st).stuck = false
    ∧ (handle_packet (fuel + 1) (dispatch_packet (fuel + 1)) key packet size st.self_addr
        st).pool.used_bits = st.pool.used_bits
    ∧ (handle_packet (fuel + 1) (dispatch_packet (fuel + 1)) key packet size st.self_addr
        st).pool.piece_size = st.pool.piece_size := by
  by_cases hq : builds_reply (load8 packet 0) = false
  · obtain ⟨_, _, hpool, hstuck, _⟩ := handle_packet_quiet (fuel + 1)
      (dispatch_packet (fuel + 1)) key packet size st.self_addr st dev hl hq
    exact ⟨hstuck.trans hs, by rw [hpool], by rw [hpool]⟩
  · have hcases : load8 packet 0 = LogicalPacketType.HELLO_WORLD.toNat
        ∨ load8 packet 0 = LogicalPacketType.FIELD_DICTIONARY_REQUEST.toNat
        ∨ load8 packet 0 = LogicalPacketType.ACTION_EXECUTE.toNat := by
      have hb : builds_reply (load8 packet 0) = true := by simpa using hq
      unfold builds_reply at hb
      exact of_decide_eq_true hb
    unfold handle_packet
    rw [hl]
    rcases hcases with h | h | h
    · rw [h] at hfit
      have hfit2 : hello_world_size dev ≤ st.pool.piece_size := hfit
      simp only [h, ofNat?_toNat]
      have hsend := send_hello_world_returns fuel dev (net_load16 packet 1)
        (st.log (Event.on_general_packet_accept key (packet.take size) size st.self_addr))
        hs hfit2 hbit
      split_ifs with h1 h2 h3
      · exact ⟨hs, rfl, rfl⟩
      · exact ⟨hs, rfl, rfl⟩
      · exact hsend
      · exact hsend
    · rw [h] at hfit
      have hfit2 : field_dictionary_size dev ≤ st.pool.piece_size := hfit
      simp only [h, ofNat?_toNat]
      have hsend := send_field_dictionary_returns fuel dev (net_load16 packet 1)
        (st.log (Event.on_general_packet_accept key (packet.take size) size st.self_addr))
        hs hfit2 hbit
      split_ifs
      · exact ⟨hs, rfl, rfl⟩
      · exact hsend
    · rw [h] at hfit
      have hfit2 : 0 + get_packet_size LogicalPacketType.ACTION_EXECUTE_RESULT
          ≤ st.pool.piece_size := hfit
      simp only [h, ofNat?_toNat]
      split_ifs
      · exact ⟨hs, rfl, rfl⟩
      · exact ⟨hs, rfl, rfl⟩
      · exact action_execute_reply_returns fuel dev.self_port (net_load16 packet 1) _ _
          ((st.log (Event.on_general_packet_accept key (packet.take size) size
            st.self_addr)).log (Event.on_action_set key (net_load16 packet 5)
            ((packet.drop 9).take (size - 9)) (size - 9)
            { phy := st.self_addr, log := net_load16 packet 1 })) hs hfit2 hbit
      · exact ⟨hs, rfl, rfl⟩

/-- The broadcast loop returns under the same conditions, for every device of the map. -/
theorem broadcast_loop_returns (fuel : Nat) (packet : List Nat) (size src_phy : Nat) :
    ∀ (l : List (Nat × Device)) (st : State), st.self_addr = src_phy → st.stuck = false →
      (∀ e ∈ l, e.1 ∈ st.devices.map Prod.fst) →
      (∀ e ∈ st.devices, reply_size (load8 packet 0) e.2 ≤ st.pool.piece_size) →
      (¬ ∀ b ∈ st.pool.used_bits, b = true) →
      (l.foldl (fun st e =>
          if st.stuck then st
          else handle_packet (fuel + 1) (dispatch_packet (fuel + 1)) e.1 packet size src_phy st)
        st).stuck = false
      ∧ (l.foldl (fun st e =>
          if st.stuck then st
          else handle_packet (fuel + 1) (dispatch_packet (fuel + 1)) e.1 packet size src_phy st)
        st).pool.used_bits = st.pool.used_bits
      ∧ (l.foldl (fun st e =>
          if st.stuck then st
          else handle_packet (fuel + 1) (dispatch_packet (fuel + 1)) e.1 packet size src_phy st)
        st).pool.piece_size = st.pool.piece_size := by
  intro l
  induction l with
  | nil => intro st _ hs _ _ _; exact ⟨hs, rfl, rfl⟩
  | cons e rest ih =>
    intro st hself hs hkeys hfit hbit
    simp only [List.foldl_cons, hs, Bool.false_eq_true, if_false]
    obtain ⟨dev, hl⟩ := lookup_of_mem_keys st.devices e.1 (hkeys e (List.mem_cons_self _ _))
    have hret := handle_packet_returns fuel e.1 packet size st dev hl hs
      (hfit (e.1, dev) (lookup_mem _ _ _ hl)) hbit
    have hloc := handle_packet_local (fuel + 1) e.1 packet size st dev hl
    rw [hself] at hret hloc
    obtain ⟨r1, r2, r3⟩ := hret
    obtain ⟨ha, hd, _⟩ := hloc
    have hfit2 : ∀ x ∈ (handle_packet (fuel + 1) (dispatch_packet (fuel + 1)) e.1 packet size
        src_phy st).devices, reply_size (load8 packet 0) x.2
          ≤ (handle_packet (fuel + 1) (dispatch_packet (fuel + 1)) e.1 packet size src_phy
              st).pool.piece_size := by
      intro x hx
      by_cases hq : builds_reply (load8 packet 0) = false
      · rw [reply_size_quiet _ _ hq]
        exact Nat.zero_le _
      · have hdev := (handle_packet_reply_local (fuel + 1) e.1 packet size st dev hl
          (by simpa using hq)).2.1
        rw [hself] at hdev
        rw [hdev] at hx
        rw [r3]
        exact hfit x hx
    obtain ⟨i1, i2, i3⟩ := ih
      (handle_packet (fuel + 1) (dispatch_packet (fuel + 1)) e.1 packet size src_phy st)
      (ha.trans hself) r1
      (fun x hx => by rw [hd]; exact hkeys x (List.mem_cons_of_mem _ hx))
      hfit2 (by rw [r2]; exact hbit)
    exact ⟨i1, i2.trans r2, i3.trans r3⟩

/-- The local dispatch of a packet that came from the node itself returns, with the used
bits it found, when two calls deep of fuel are left, the pool has a clear bit and a slot
holds the reply of every device. -/
theorem dispatch_packet_local_returns (fuel : Nat) (packet : List Nat) (size : Nat) (st : State)
    (hs : st.stuck = false)
    (hfit : ∀ e ∈ st.devices, reply_size (load8 packet 0) e.2 ≤ st.pool.piece_size)
    (hbit : ¬ ∀ b ∈ st.pool.used_bits, b = true) :
    (dispatch_packet (fuel + 2) packet size st.self_addr st).stuck = false
    ∧ (dispatch_packet (fuel + 2) packet size st.self_addr st).pool.used_bits
        = st.pool.used_bits
    ∧ (dispatch_packet (fuel + 2) packet size st.self_addr st).pool.piece_size
        = st.pool.piece_size := by
  show (dispatch_packet_body (fuel + 1) (dispatch_packet (fuel + 1)) packet size st.self_addr
        st).stuck = false
    ∧ (dispatch_packet_body (fuel + 1) (dispatch_packet (fuel + 1)) packet size st.self_addr
        st).pool.used_bits = st.pool.used_bits
    ∧ (dispatch_packet_body (fuel + 1) (dispatch_packet (fuel + 1)) packet size st.self_addr
        st).pool.piece_size = st.pool.piece_size
  unfold dispatch_packet_body
  simp only []
  split_ifs
  · exact ⟨hs, rfl, rfl⟩
  · exact broadcast_loop_returns fuel packet size st.self_addr
      (st.log (Event.dispatch_packet (packet.take size) size st.self_addr)).devices
      (st.log (Event.dispatch_packet (packet.take size) size st.self_addr)) rfl hs
      (fun e he => List.mem_map_of_mem Prod.fst he) hfit hbit
  · cases hl : lookup_device (st.log (Event.dispatch_packet (packet.take size) size
        st.self_addr)) (net_load16 packet 3) with
    | none => exact ⟨hs, rfl, rfl⟩
    | some dev =>
      exact handle_packet_returns fuel (net_load16 packet 3) packet size
        (st.log (Event.dispatch_packet (packet.take size) size st.self_addr)) dev hl hs
        (hfit (net_load16 packet 3, dev) (lookup_mem _ _ _ hl)) hbit

/-! ## Broadcast: claim -/

theorem accept_injective (packet : List Nat) (size src_phy : Nat) :
    Function.Injective (fun key => Event.on_general_packet_accept key packet size src_phy) := by
  intro a b h
  simp only [Event.on_general_packet_accept.injEq, and_true] at h
  exact h

/-- C16 (counterexample): the button's `HELLO_WORLD` built for the broadcast port of the
node itself (node 1 hosts the button and the peer).  Both devices get the packet, but
there is no mesh write in the trace: a packet for the node's own address is built
without an overlay builder. -/
theorem C16_counterexample_own_broadcast_not_sent :
    (send_hello_world 2 (dispatch_packet 2) sample_button LogicalPacketType.HELLO_WORLD 1
        BROADCAST_PORT (sample_node true [sample_button, sample_peer])).trace =
      [Event.finish_ptr sample_hello 15 none,
       Event.dispatch_packet sample_hello 15 1,
       Event.on_general_packet_accept 100 sample_hello 15 1,
       Event.on_general_packet_accept 200 sample_hello 15 1,
       Event.finish_ptr [2, 0, 200, 0, 100, 0, 0, 0, 2, 1, 0, 0, 99] 13 none,
       Event.dispatch_packet [2, 0, 200, 0, 100, 0, 0, 0, 2, 1, 0, 0, 99] 13 1,
       Event.on_general_packet_accept 100 [2, 0, 200, 0, 100, 0, 0, 0, 2, 1, 0, 0, 99] 13 1,
       Event.on_device_discover 100 [2, 0, 200, 0, 100, 0, 0, 0, 2, 1, 0, 0, 99] 13 1,
       Event.on_device_discover 200 sample_hello 15 1]
    ∧ ((send_hello_world 2 (dispatch_packet 2) sample_button LogicalPacketType.HELLO_WORLD 1
        BROADCAST_PORT (sample_node true [sample_button, sample_peer])).trace.filter
          Event.is_mesh_write).length = 0
    ∧ (send_hello_world 2 (dispatch_packet 2) sample_button LogicalPacketType.HELLO_WORLD 1
        BROADCAST_PORT (sample_node true [sample_button, sample_peer])).stuck = false
    ∧ net_load16 sample_hello 3 = BROADCAST_PORT := by
  decide

theorem stuck_unless_stuck (fuel : Nat) (p : LogicalPacketPtr) (st : State)
    (h : (if st.stuck then st else release fuel p st).stuck = false) : st.stuck = false := by
  by_cases hst : st.stuck = true
  · rw [if_pos hst] at h
    exact h
  · simpa using hst

theorem filter_mesh_write_of_handed (t : Nat) (f : Nat → Event) (keys : List Nat)
    (hf : ∀ key, (f key).is_mesh_write = false) (rest : List Event)
    (h : rest.filter (fun e => !e.is_aftermath t) = keys.map f) :
    rest.filter Event.is_mesh_write = [] := by
  rw [List.filter_eq_nil_iff]
  intro e he hmw
  by_cases haft : e.is_aftermath t = true
  · cases e <;> simp [Event.is_aftermath, Event.is_mesh_write] at haft hmw
  · have hmem : e ∈ rest.filter (fun e => !e.is_aftermath t) := by
      rw [List.mem_filter]
      exact ⟨he, by simpa using haft⟩
    rw [h] at hmem
    obtain ⟨key, _, hkey⟩ := List.mem_map.mp hmem
    rw [← hkey, hf key] at hmw
    cases hmw

/-- C16 (as the code has it): a packet built through `alloc_logical_packet_ptr` for the
broadcast port of another physical address (`BROADCAST_FAR_ADDR` in `add_device`), with
the overlay byte and the logical header left as built.  `finish_ptr` passes it to the
mesh send once, right after the emission, and then to the local dispatch with the node's
address as source.  Nothing after the dispatch entry is a mesh write or another dispatch
of a packet of this type, and the acceptance questions for this packet go to the first
`n` ports of the device map, in map order; `n` is the number of devices whenever
`finish_ptr` returns, so that with distinct ports every device is asked exactly once.
`finish_ptr` does return, with the used bits the pool had before, if the state is not
stuck, the block of the packet is a pool slot, the pool then still has a clear bit, and
a slot holds the reply of every device. -/
theorem C16_foreign_broadcast_sent_once_handed_to_all (fuel : Nat) (s : State)
    (dst_phy src_port psize : Nat) (ovl_type : OverlayProtoType) (log_type : LogicalPacketType)
    (mem : List Nat) (hphy : s.self_addr ≠ dst_phy)
    (h5 : 5 ≤ psize + get_packet_size log_type)
    (hsize : psize + get_packet_size log_type < 65536)
    (hmem : ∀ j, j < OverlayPacket.get_packet_size ovl_type + 5 →
      load8 mem j = load8 (alloc_logical_packet_ptr s { phy := dst_phy, log := BROADCAST_PORT }
        src_port psize ovl_type log_type).2.mem j) :
    ∃ rest n,
      (finish_ptr (fuel + 2) (dispatch_packet (fuel + 2))
          { (alloc_logical_packet_ptr s { phy := dst_phy, log := BROADCAST_PORT } src_port psize
              ovl_type log_type).2 with mem := mem }
          (alloc_logical_packet_ptr s { phy := dst_phy, log := BROADCAST_PORT } src_port psize
            ovl_type log_type).1).trace
        = s.trace
          ++ Event.finish_ptr ((mem.drop (OverlayPacket.get_packet_size ovl_type)).take
                (psize + get_packet_size log_type)) (psize + get_packet_size log_type)
              (some dst_phy)
          :: Event.mesh_write dst_phy (mem.take (psize + get_packet_size log_type
                + OverlayPacket.get_packet_size ovl_type))
          :: Event.dispatch_packet ((mem.drop (OverlayPacket.get_packet_size ovl_type)).take
                (psize + get_packet_size log_type)) (psize + get_packet_size log_type)
              s.self_addr
          :: rest
      ∧ rest.filter Event.is_mesh_write = []
      ∧ n ≤ s.devices.length
      ∧ rest.filter (fun e => !e.is_aftermath log_type.toNat)
          = ((s.devices.map Prod.fst).take n).map (fun key =>
              Event.on_general_packet_accept key
                ((mem.drop (OverlayPacket.get_packet_size ovl_type)).take
                  (psize + get_packet_size log_type)) (psize + get_packet_size log_type)
                s.self_addr)
      ∧ ((finish_ptr (fuel + 2) (dispatch_packet (fuel + 2))
          { (alloc_logical_packet_ptr s { phy := dst_phy, log := BROADCAST_PORT } src_port psize
              ovl_type log_type).2 with mem := mem }
          (alloc_logical_packet_ptr s { phy := dst_phy, log := BROADCAST_PORT } src_port psize
            ovl_type log_type).1).stuck = false →
          n = s.devices.length
          ∧ ((s.devices.map Prod.fst).Nodup → ∀ key ∈ s.devices.map Prod.fst,
              rest.count (Event.on_general_packet_accept key
                ((mem.drop (OverlayPacket.get_packet_size ovl_type)).take
                  (psize + get_packet_size log_type)) (psize + get_packet_size log_type)
                s.self_addr) = 1))
      ∧ (s.stuck = false →
          (∃ j, (alloc_logical_packet_ptr s { phy := dst_phy, log := BROADCAST_PORT } src_port
            psize ovl_type log_type).2.block = Ptr.slot j) →
          (¬ ∀ b ∈ (alloc_logical_packet_ptr s { phy := dst_phy, log := BROADCAST_PORT }
            src_port psize ovl_type log_type).1.pool.used_bits, b = true) →
          (∀ e ∈ s.devices, reply_size log_type.toNat e.2 ≤ s.pool.piece_size) →
          (finish_ptr (fuel + 2) (dispatch_packet (fuel + 2))
            { (alloc_logical_packet_ptr s { phy := dst_phy, log := BROADCAST_PORT } src_port
                psize ovl_type log_type).2 with mem := mem }
            (alloc_logical_packet_ptr s { phy := dst_phy, log := BROADCAST_PORT } src_port psize
              ovl_type log_type).1).stuck = false
          ∧ (finish_ptr (fuel + 2) (dispatch_packet (fuel + 2))
            { (alloc_logical_packet_ptr s { phy := dst_phy, log := BROADCAST_PORT } src_port
                psize ovl_type log_type).2 with mem := mem }
            (alloc_logical_packet_ptr s { phy := dst_phy, log := BROADCAST_PORT } src_port psize
              ovl_type log_type).1).pool.used_bits = s.pool.used_bits) := by
  have hptr := alloc_logical_ptr s { phy := dst_phy, log := BROADCAST_PORT } src_port psize
    ovl_type log_type
  have hovl := alloc_logical_ovl s { phy := dst_phy, log := BROADCAST_PORT } src_port psize
    ovl_type log_type
  have hsz := alloc_logical_size s { phy := dst_phy, log := BROADCAST_PORT } src_port psize
    ovl_type log_type
  have hst := alloc_logical_state s { phy := dst_phy, log := BROADCAST_PORT } src_port psize
    ovl_type log_type
  have hhdr := alloc_logical_header s { phy := dst_phy, log := BROADCAST_PORT } src_port psize
    ovl_type log_type h5
  have hstuck := alloc_logical_stuck s { phy := dst_phy, log := BROADCAST_PORT } src_port psize
    ovl_type log_type
  obtain ⟨total, hpool, hblk, _⟩ := alloc_logical_pool s
    { phy := dst_phy, log := BROADCAST_PORT } src_port psize ovl_type log_type
  generalize alloc_logical_packet_ptr s { phy := dst_phy, log := BROADCAST_PORT } src_port psize
    ovl_type log_type = r at *
  simp only [if_neg hphy] at hptr hovl
  obtain ⟨h0, _, h3⟩ := hhdr
  rw [hptr] at h0 h3
  have hself : r.1.self_addr = s.self_addr := by rw [hst]
  have hdev : r.1.devices = s.devices := by rw [hst]
  have htrace : r.1.trace = s.trace := by rw [hst]
  have hr0 : load8 (mem.drop (OverlayPacket.get_packet_size ovl_type)) 0 = log_type.toNat := by
    rw [load8_drop, Nat.add_zero, hmem _ (by omega), h0]
  have hr3 : net_load16 (mem.drop (OverlayPacket.get_packet_size ovl_type)) 3
      = BROADCAST_PORT := by
    rw [net_load16_drop]
    exact (net_load16_congr _ _ _ (hmem _ (by omega)) (hmem _ (by omega))).trans h3
  obtain ⟨S1, hS1, hS1a, hS1d, hS1t, hS1s, hS1p⟩ : ∃ S1 : State,
      S1 = (r.1.log (Event.finish_ptr ((mem.drop (OverlayPacket.get_packet_size ovl_type)).take
            (psize + get_packet_size log_type)) (psize + get_packet_size log_type)
            (some dst_phy))).log
          (Event.mesh_write dst_phy (mem.take (psize + get_packet_size log_type
            + OverlayPacket.get_packet_size ovl_type)))
      ∧ S1.self_addr = s.self_addr ∧ S1.devices = s.devices
      ∧ S1.trace = s.trace
          ++ [Event.finish_ptr ((mem.drop (OverlayPacket.get_packet_size ovl_type)).take
                (psize + get_packet_size log_type)) (psize + get_packet_size log_type)
                (some dst_phy),
              Event.mesh_write dst_phy (mem.take (psize + get_packet_size log_type
                + OverlayPacket.get_packet_size ovl_type))]
      ∧ S1.stuck = r.1.stuck ∧ S1.pool = r.1.pool :=
    ⟨_, rfl, hself, hdev, by simp [State.log, htrace], rfl, rfl⟩
  have heq : finish_ptr (fuel + 2) (dispatch_packet (fuel + 2)) { r.2 with mem := mem } r.1
      = (if (dispatch_packet (fuel + 2) (mem.drop (OverlayPacket.get_packet_size ovl_type))
              (psize + get_packet_size log_type) S1.self_addr S1).stuck
         then dispatch_packet (fuel + 2) (mem.drop (OverlayPacket.get_packet_size ovl_type))
              (psize + get_packet_size log_type) S1.self_addr S1
         else release (fuel + 2) { r.2 with mem := mem }
              (dispatch_packet (fuel + 2) (mem.drop (OverlayPacket.get_packet_size ovl_type))
                (psize + get_packet_size log_type) S1.self_addr S1)) := by
    rw [hS1]
    unfold finish_ptr
    simp only [hovl, hptr, hsz, hr3, if_true, Nat.mod_eq_of_lt hsize, Option.map_some']
  obtain ⟨_, _, rest, htr, _, _, _, _, hbc⟩ := dispatch_packet_local (fuel + 1)
    (mem.drop (OverlayPacket.get_packet_size ovl_type)) (psize + get_packet_size log_type) S1
  obtain ⟨n, hlen, hfil, hstk⟩ := hbc h5 hr3
  rw [hS1a, hr0] at hfil
  rw [hS1d] at hlen hfil hstk
  rw [hS1a, hS1t] at htr
  refine ⟨rest, n, ?_, ?_, hlen, hfil, ?_, ?_⟩
  · rw [heq, trace_unless_stuck, hS1a, htr]
    simp
  · exact filter_mesh_write_of_handed log_type.toNat
      (fun key => Event.on_general_packet_accept key
        ((mem.drop (OverlayPacket.get_packet_size ovl_type)).take
          (psize + get_packet_size log_type)) (psize + get_packet_size log_type) s.self_addr)
      _ (fun _ => rfl) rest hfil
  · intro hfin
    rw [heq] at hfin
    have hn := hstk (stuck_unless_stuck _ _ _ hfin)
    refine ⟨hn, ?_⟩
    intro hnodup key hkey
    have hlenmap : n = (s.devices.map Prod.fst).length := by
      rw [List.length_map]; exact hn
    rw [hlenmap, List.take_length] at hfil
    have hacc := accept_not_aftermath key (mem.drop (OverlayPacket.get_packet_size ovl_type))
      (psize + get_packet_size log_type) s.self_addr (by omega)
    rw [hr0] at hacc
    have hcount := @List.count_filter Event _ _ (fun e => !e.is_aftermath log_type.toNat)
      (Event.on_general_packet_accept key
        ((mem.drop (OverlayPacket.get_packet_size ovl_type)).take
          (psize + get_packet_size log_type)) (psize + get_packet_size log_type) s.self_addr)
      rest (by simp only [hacc]; rfl)
    rw [← hcount, hfil]
    exact (List.count_map_of_injective _ _ (accept_injective _ _ _) key).trans
      (List.count_eq_one_of_mem hnodup hkey)
  · intro hs hslot hbit hfit
    obtain ⟨j, hj⟩ := hslot
    rw [hblk] at hj
    obtain ⟨hbits, hclear, hps, _, _⟩ := alloc_slot_bits s.pool total j hj
    obtain ⟨f1, f2⟩ := finish_ptr_slot (fuel + 1) (dispatch_packet (fuel + 2))
      { r.2 with mem := mem } r.1 j (hblk.trans hj) (hstuck.trans hs)
      (fun st hst2 hsa hsd hsp => by
        have hret := dispatch_packet_local_returns fuel
          (mem.drop (OverlayPacket.get_packet_size ovl_type))
          (psize + get_packet_size log_type) st hst2
          (fun e he => by
            rw [hr0, hsp, hpool, hps]
            rw [hsd, hdev] at he
            exact hfit e he)
          (by rw [hsp]; exact hbit)
        show (dispatch_packet (fuel + 2) (mem.drop r.2.ptr) (r.2.size % 65536) st.self_addr
            st).stuck = false
          ∧ (dispatch_packet (fuel + 2) (mem.drop r.2.ptr) (r.2.size % 65536) st.self_addr
            st).pool.used_bits = st.pool.used_bits
        rw [hptr, hsz, Nat.mod_eq_of_lt hsize]
        exact ⟨hret.1, hret.2.1⟩)
    refine ⟨f1, ?_⟩
    rw [f2, hpool, hbits]
    exact set_set_restore _ _ _ hclear

/-- C16 at scenario S1 on a node that hosts the button and the peer: the `HELLO_WORLD`
of the button, built for the broadcast port of `BROADCAST_FAR_ADDR`.  The pool has two
free slots of 32 bytes, so the run returns; the whole trace is shown: one mesh write,
one dispatch, one acceptance question per device. -/
theorem C16_foreign_broadcast_sent_once_handed_to_all_witness :
    ((sample_node true [sample_button, sample_peer]).self_addr ≠ 4294967295
      ∧ 5 ≤ 3 + get_packet_size LogicalPacketType.HELLO_WORLD
      ∧ 3 + get_packet_size LogicalPacketType.HELLO_WORLD < 65536
      ∧ (∀ j, j < OverlayPacket.get_packet_size OverlayProtoType.UNRELIABLE + 5 →
          load8 sample_hello_block j
            = load8 (alloc_logical_packet_ptr (sample_node true [sample_button, sample_peer])
                { phy := 4294967295, log := BROADCAST_PORT } 100 3 OverlayProtoType.UNRELIABLE
                LogicalPacketType.HELLO_WORLD).2.mem j))
    ∧ (∃ rest n,
      (finish_ptr (0 + 2) (dispatch_packet (0 + 2))
          { (alloc_logical_packet_ptr (sample_node true [sample_button, sample_peer])
              { phy := 4294967295, log := BROADCAST_PORT } 100 3 OverlayProtoType.UNRELIABLE
              LogicalPacketType.HELLO_WORLD).2 with mem := sample_hello_block }
          (alloc_logical_packet_ptr (sample_node true [sample_button, sample_peer])
            { phy := 4294967295, log := BROADCAST_PORT } 100 3 OverlayProtoType.UNRELIABLE
            LogicalPacketType.HELLO_WORLD).1).trace
        = (sample_node true [sample_button, sample_peer]).trace
          ++ Event.finish_ptr
              ((sample_hello_block.drop
                  (OverlayPacket.get_packet_size OverlayProtoType.UNRELIABLE)).take
                (3 + get_packet_size LogicalPacketType.HELLO_WORLD))
              (3 + get_packet_size LogicalPacketType.HELLO_WORLD) (some 4294967295)
          :: Event.mesh_write 4294967295
              (sample_hello_block.take (3 + get_packet_size LogicalPacketType.HELLO_WORLD
                + OverlayPacket.get_packet_size OverlayProtoType.UNRELIABLE))
          :: Event.dispatch_packet
              ((sample_hello_block.drop
                  (OverlayPacket.get_packet_size OverlayProtoType.UNRELIABLE)).take
                (3 + get_packet_size LogicalPacketType.HELLO_WORLD))
              (3 + get_packet_size LogicalPacketType.HELLO_WORLD)
              (sample_node true [sample_button, sample_peer]).self_addr
          :: rest
      ∧ rest.filter Event.is_mesh_write = []
      ∧ n ≤ (sample_node true [sample_button, sample_peer]).devices.length
      ∧ rest.filter (fun e => !e.is_aftermath LogicalPacketType.HELLO_WORLD.toNat)
          = (((sample_node true [sample_button, sample_peer]).devices.map Prod.fst).take n).map
              (fun key => Event.on_general_packet_accept key
                ((sample_hello_block.drop
                    (OverlayPacket.get_packet_size OverlayProtoType.UNRELIABLE)).take
                  (3 + get_packet_size LogicalPacketType.HELLO_WORLD))
                (3 + get_packet_size LogicalPacketType.HELLO_WORLD)
                (sample_node true [sample_button, sample_peer]).self_addr)
      ∧ ((finish_ptr (0 + 2) (dispatch_packet (0 + 2))
          { (alloc_logical_packet_ptr (sample_node true [sample_button, sample_peer])
              { phy := 4294967295, log := BROADCAST_PORT } 100 3 OverlayProtoType.UNRELIABLE
              LogicalPacketType.HELLO_WORLD).2 with mem := sample_hello_block }
          (alloc_logical_packet_ptr (sample_node true [sample_button, sample_peer])
            { phy := 4294967295, log := BROADCAST_PORT } 100 3 OverlayProtoType.UNRELIABLE
            LogicalPacketType.HELLO_WORLD).1).stuck = false →
          n = (sample_node true [sample_button, sample_peer]).devices.length
          ∧ (((sample_node true [sample_button, sample_peer]).devices.map Prod.fst).Nodup →
              ∀ key ∈ (sample_node true [sample_button, sample_peer]).devices.map Prod.fst,
              rest.count (Event.on_general_packet_accept key
                ((sample_hello_block.drop
                    (OverlayPacket.get_packet_size OverlayProtoType.UNRELIABLE)).take
                  (3 + get_packet_size LogicalPacketType.HELLO_WORLD))
                (3 + get_packet_size LogicalPacketType.HELLO_WORLD)
                (sample_node true [sample_button, sample_peer]).self_addr) = 1))
      ∧ ((sample_node true [sample_button, sample_peer]).stuck = false →
          (∃ j, (alloc_logical_packet_ptr (sample_node true [sample_button, sample_peer])
            { phy := 4294967295, log := BROADCAST_PORT } 100 3 OverlayProtoType.UNRELIABLE
            LogicalPacketType.HELLO_WORLD).2.block = Ptr.slot j) →
          (¬ ∀ b ∈ (alloc_logical_packet_ptr (sample_node true [sample_button, sample_peer])
            { phy := 4294967295, log := BROADCAST_PORT } 100 3 OverlayProtoType.UNRELIABLE
            LogicalPacketType.HELLO_WORLD).1.pool.used_bits, b = true) →
          (∀ e ∈ (sample_node true [sample_button, sample_peer]).devices,
            reply_size LogicalPacketType.HELLO_WORLD.toNat e.2
              ≤ (sample_node true [sample_button, sample_peer]).pool.piece_size) →
          (finish_ptr (0 + 2) (dispatch_packet (0 + 2))
            { (alloc_logical_packet_ptr (sample_node true [sample_button, sample_peer])
                { phy := 4294967295, log := BROADCAST_PORT } 100 3 OverlayProtoType.UNRELIABLE
                LogicalPacketType.HELLO_WORLD).2 with mem := sample_hello_block }
            (alloc_logical_packet_ptr (sample_node true [sample_button, sample_peer])
              { phy := 4294967295, log := BROADCAST_PORT } 100 3 OverlayProtoType.UNRELIABLE
              LogicalPacketType.HELLO_WORLD).1).stuck = false
          ∧ (finish_ptr (0 + 2) (dispatch_packet (0 + 2))
            { (alloc_logical_packet_ptr (sample_node true [sample_button, sample_peer])
                { phy := 4294967295, log := BROADCAST_PORT } 100 3 OverlayProtoType.UNRELIABLE
                LogicalPacketType.HELLO_WORLD).2 with mem := sample_hello_block }
            (alloc_logical_packet_ptr (sample_node true [sample_button, sample_peer])
              { phy := 4294967295, log := BROADCAST_PORT } 100 3 OverlayProtoType.UNRELIABLE
              LogicalPacketType.HELLO_WORLD).1).pool.used_bits
            = (sample_node true [sample_button, sample_peer]).pool.used_bits))
    ∧ ((sample_node true [sample_button, sample_peer]).stuck = false
      ∧ (alloc_logical_packet_ptr (sample_node true [sample_button, sample_peer])
          { phy := 4294967295, log := BROADCAST_PORT } 100 3 OverlayProtoType.UNRELIABLE
          LogicalPacketType.HELLO_WORLD).2.block = Ptr.slot 0
      ∧ (¬ ∀ b ∈ (alloc_logical_packet_ptr (sample_node true [sample_button, sample_peer])
          { phy := 4294967295, log := BROADCAST_PORT } 100 3 OverlayProtoType.UNRELIABLE
          LogicalPacketType.HELLO_WORLD).1.pool.used_bits, b = true)
      ∧ (∀ e ∈ (sample_node true [sample_button, sample_peer]).devices,
          reply_size LogicalPacketType.HELLO_WORLD.toNat e.2
            ≤ (sample_node true [sample_button, sample_peer]).pool.piece_size))
    ∧ (finish_ptr 2 (dispatch_packet 2)
          { (alloc_logical_packet_ptr (sample_node true [sample_button, sample_peer])
              { phy := 4294967295, log := BROADCAST_PORT } 100 3 OverlayProtoType.UNRELIABLE
              LogicalPacketType.HELLO_WORLD).2 with mem := sample_hello_block }
          (alloc_logical_packet_ptr (sample_node true [sample_button, sample_peer])
            { phy := 4294967295, log := BROADCAST_PORT } 100 3 OverlayProtoType.UNRELIABLE
            LogicalPacketType.HELLO_WORLD).1).trace =
        [Event.finish_ptr sample_hello 15 (some 4294967295),
         Event.mesh_write 4294967295 (2 :: sample_hello),
         Event.dispatch_packet sample_hello 15 1,
         Event.on_general_packet_accept 100 sample_hello 15 1,
         Event.on_general_packet_accept 200 sample_hello 15 1,
         Event.finish_ptr [2, 0, 200, 0, 100, 0, 0, 0, 2, 1, 0, 0, 99] 13 none,
         Event.dispatch_packet [2, 0, 200, 0, 100, 0, 0, 0, 2, 1, 0, 0, 99] 13 1,
         Event.on_general_packet_accept 100 [2, 0, 200, 0, 100, 0, 0, 0, 2, 1, 0, 0, 99] 13 1,
         Event.on_device_discover 100 [2, 0, 200, 0, 100, 0, 0, 0, 2, 1, 0, 0, 99] 13 1,
         Event.on_device_discover 200 sample_hello 15 1] :=
  ⟨⟨by decide, by decide, by decide, by decide⟩,
   C16_foreign_broadcast_sent_once_handed_to_all 0
     (sample_node true [sample_button, sample_peer]) 4294967295 100 3
     OverlayProtoType.UNRELIABLE LogicalPacketType.HELLO_WORLD sample_hello_block
     (by decide) (by decide) (by decide) (by decide),
   ⟨rfl, by decide, by decide, by decide⟩,
   by decide⟩

/-! ## Dispatcher: packets that are dropped -/

/-- C26: a packet of fewer than 5 bytes.  `dispatch_packet` returns at its first test:
the state after the call is the state before it with the entry of `dispatch_packet`
recorded, so no device hook is called, not even `on_general_packet_accept`, no packet is
built, no subscriber is touched. -/
theorem C26_truncated_header_is_dropped (fuel : Nat) (packet : List Nat) (size src_phy : Nat)
    (s : State) (hsize : size < 5) :
    dispatch_packet (fuel + 1) packet size src_phy s
      = s.log (Event.dispatch_packet (packet.take size) size src_phy) := by
  show dispatch_packet_body fuel (dispatch_packet fuel) packet size src_phy s = _
  unfold dispatch_packet_body
  simp only [LOG_PACKET_SIZE_dst_addr]
  rw [if_pos (by omega)]

/-- C26 on the node hosting the button: four bytes with type `ACTION_EXECUTE` for port
100, from node 2. -/
theorem C26_truncated_header_is_dropped_witness :
    (4 : Nat) < 5
    ∧ dispatch_packet (1 + 1) [12, 0, 200, 0] 4 2 (sample_node true [sample_button])
        = (sample_node true [sample_button]).log
            (Event.dispatch_packet ([12, 0, 200, 0].take 4) 4 2) :=
  ⟨by decide,
   C26_truncated_header_is_dropped 1 [12, 0, 200, 0] 4 2 (sample_node true [sample_button])
     (by decide)⟩

theorem ofNat?_none_of_ge (t : Nat) (h : 20 ≤ t) : LogicalPacketType.ofNat? t = none := by
  unfold LogicalPacketType.ofNat?
  repeat rw [if_neg (by omega)]

/-- C28: a packet whose type byte is `UNKNOWN`, one of the `GROUPS_*` opcodes (5..11),
`SUBSCRIPTION_DONE` (17) or no opcode at all (20 and above), handed to the device bound
to `port`.  The state after `handle_packet` is the state before it with the acceptance
question recorded: no other hook is called, no packet is built, the device map with its
subscriber lists is the same. -/
theorem C28_reserved_opcodes_are_dropped (fuel : Nat)
    (dispatch : List Nat → Nat → Nat → State → State) (port : Nat) (packet : List Nat)
    (size src_phy : Nat) (s : State) (d : Device) (hl : lookup_device s port = some d)
    (htype : load8 packet 0 = 0 ∨ (5 ≤ load8 packet 0 ∧ load8 packet 0 ≤ 11)
      ∨ load8 packet 0 = 17 ∨ 20 ≤ load8 packet 0) :
    handle_packet fuel dispatch port packet size src_phy s
      = s.log (Event.on_general_packet_accept port (packet.take size) size src_phy) := by
  unfold handle_packet
  rw [hl]
  simp only []
  cases hty : LogicalPacketType.ofNat? (load8 packet 0) with
  | none =>
    simp only []
    split_ifs <;> rfl
  | some ty =>
    have hb := ofNat?_eq_some _ _ hty
    rw [hb] at htype
    cases ty <;> simp only [] <;>
      first
        | (split_ifs <;> rfl)
        | (exfalso; revert htype; decide)

/-- C28 on the node hosting the button: a `GROUPS_ADD` packet and a packet with type
byte 200, both for port 100. -/
theorem C28_reserved_opcodes_are_dropped_witness :
    (lookup_device (sample_node true [sample_button]) 100 = some sample_button
      ∧ (load8 [7, 0, 200, 0, 100, 0] 0 = 0
          ∨ (5 ≤ load8 [7, 0, 200, 0, 100, 0] 0 ∧ load8 [7, 0, 200, 0, 100, 0] 0 ≤ 11)
          ∨ load8 [7, 0, 200, 0, 100, 0] 0 = 17 ∨ 20 ≤ load8 [7, 0, 200, 0, 100, 0] 0)
      ∧ (load8 [200, 0, 200, 0, 100, 0] 0 = 0
          ∨ (5 ≤ load8 [200, 0, 200, 0, 100, 0] 0 ∧ load8 [200, 0, 200, 0, 100, 0] 0 ≤ 11)
          ∨ load8 [200, 0, 200, 0, 100, 0] 0 = 17 ∨ 20 ≤ load8 [200, 0, 200, 0, 100, 0] 0))
    ∧ handle_packet 2 (dispatch_packet 2) 100 [7, 0, 200, 0, 100, 0] 6 2
        (sample_node true [sample_button])
      = (sample_node true [sample_button]).log
          (Event.on_general_packet_accept 100 ([7, 0, 200, 0, 100, 0].take 6) 6 2)
    ∧ handle_packet 2 (dispatch_packet 2) 100 [200, 0, 200, 0, 100, 0] 6 2
        (sample_node true [sample_button])
      = (sample_node true [sample_button]).log
          (Event.on_general_packet_accept 100 ([200, 0, 200, 0, 100, 0].take 6) 6 2) :=
  ⟨⟨rfl, by decide, by decide⟩,
   C28_reserved_opcodes_are_dropped 2 (dispatch_packet 2) 100 [7, 0, 200, 0, 100, 0] 6 2
     (sample_node true [sample_button]) sample_button rfl (by decide),
   C28_reserved_opcodes_are_dropped 2 (dispatch_packet 2) 100 [200, 0, 200, 0, 100, 0] 6 2
     (sample_node true [sample_button]) sample_button rfl (by decide)⟩

/-! ## Self-update timer -/

theorem walk_no_timer_update (port time : Nat) (l : List Subscriber) :
    (update_periodic_walk port time l).2.countP Event.is_timer_update = 0 := by
  induction l with
  | nil => rfl
  | cons sub rest ih =>
    simp only [update_periodic_walk]
    split_ifs
    · exact ih
    · rw [List.countP_cons_of_neg _ _ (by simp [Event.is_timer_update])]
      exact ih
    · exact ih

theorem run_ticks_append (port : Nat) (a b : List Nat) (m : SubscriptionManager) :
    SubscriptionManager.run_ticks port (a ++ b) m
      = ((SubscriptionManager.run_ticks port b (SubscriptionManager.run_ticks port a m).1).1,
         (SubscriptionManager.run_ticks port a m).2
           ++ (SubscriptionManager.run_ticks port b
                (SubscriptionManager.run_ticks port a m).1).2) := by
  induction a generalizing m with
  | nil => simp [SubscriptionManager.run_ticks]
  | cons t rest ih =>
    show SubscriptionManager.run_ticks port (t :: (rest ++ b)) m = _
    simp only [SubscriptionManager.run_ticks]
    rw [ih]
    simp only [List.append_assoc]

/-- One tick that is not after `self_update_next`: no `on_timer_update`, the timer
fields stay. -/
theorem update_periodic_timer_idle (m : SubscriptionManager) (port time : Nat)
    (h : time ≤ m.self_update_next) :
    (m.update_periodic port time).2.countP Event.is_timer_update = 0
    ∧ (m.update_periodic port time).1.self_update_next = m.self_update_next
    ∧ (m.update_periodic port time).1.self_update_period = m.self_update_period := by
  have hn : ¬ time > m.self_update_next := by omega
  simp only [SubscriptionManager.update_periodic, hn, decide_False, Bool.false_eq_true, if_false,
    List.nil_append]
  exact ⟨walk_no_timer_update _ _ _, trivial, trivial⟩

/-- Ticks none of which is after `self_update_next`. -/
theorem run_ticks_timer_idle (port : Nat) (ticks : List Nat) :
    ∀ (m : SubscriptionManager), (∀ t ∈ ticks, t ≤ m.self_update_next) →
      (SubscriptionManager.run_ticks port ticks m).2.countP Event.is_timer_update = 0
      ∧ (SubscriptionManager.run_ticks port ticks m).1.self_update_next = m.self_update_next
      ∧ (SubscriptionManager.run_ticks port ticks m).1.self_update_period
          = m.self_update_period := by
  induction ticks with
  | nil => intro m _; exact ⟨rfl, rfl, rfl⟩
  | cons t rest ih =>
    intro m h
    obtain ⟨h1, h2, h3⟩ := update_periodic_timer_idle m port t (h t (List.mem_cons_self _ _))
    obtain ⟨i1, i2, i3⟩ := ih (m.update_periodic port t).1
      (fun x hx => by rw [h2]; exact h x (List.mem_cons_of_mem _ hx))
    simp only [SubscriptionManager.run_ticks]
    refine ⟨?_, i2.trans h2, i3.trans h3⟩
    rw [List.countP_append, h1, i1]

/-- One tick after `self_update_next`: one `on_timer_update`, first in the tick, and the
period is added to `self_update_next` (a 64-bit sum). -/
theorem update_periodic_timer_fires (m : SubscriptionManager) (port time : Nat)
    (h : time > m.self_update_next) :
    (m.update_periodic port time).2
        = Event.on_timer_update port :: (update_periodic_walk port time m.subscribers).2
    ∧ (m.update_periodic port time).2.countP Event.is_timer_update = 1
    ∧ (m.update_periodic port time).1.self_update_next
        = (m.self_update_next + m.self_update_period) % 2 ^ 64
    ∧ (m.update_periodic port time).1.self_update_period = m.self_update_period := by
  simp only [SubscriptionManager.update_periodic, h, decide_True, if_true, List.singleton_append]
  refine ⟨trivial, ?_, trivial, trivial⟩
  rw [List.countP_cons_of_pos _ _ (by rfl), walk_no_timer_update]

/-- C21: `update_periodic` calls `on_timer_update` once, before the subscriber walk, when
the clock is after `self_update_next` (strictly), and then adds `self_update_period` to
`self_update_next` (a 64-bit sum); it does not call it and leaves the timer alone when
the clock is not after it.  With `self_update_next = 2^64 - 1`, which is the state after
construction and after `stop_self_update`, no sequence of ticks calls it.  After
`set_self_update_period p` at time `t0` (with `t0 + p` a 64-bit value), ticks up to
`t0 + p` do not call it and the first tick after `t0 + p` calls it once. -/
theorem C21_self_update_timer (m : SubscriptionManager) (port : Nat) :
    (∀ time, time > m.self_update_next →
        (m.update_periodic port time).2
            = Event.on_timer_update port :: (update_periodic_walk port time m.subscribers).2
        ∧ (m.update_periodic port time).2.countP Event.is_timer_update = 1
        ∧ (m.update_periodic port time).1.self_update_next
            = (m.self_update_next + m.self_update_period) % 2 ^ 64
        ∧ (m.update_periodic port time).1.self_update_period = m.self_update_period)
    ∧ (∀ time, time ≤ m.self_update_next →
        (m.update_periodic port time).2.countP Event.is_timer_update = 0
        ∧ (m.update_periodic port time).1.self_update_next = m.self_update_next
        ∧ (m.update_periodic port time).1.self_update_period = m.self_update_period)
    ∧ (∀ period0 ticks, (∀ t ∈ ticks, t < 2 ^ 64) →
        (SubscriptionManager.run_ticks port ticks
            (SubscriptionManager.init period0)).2.countP Event.is_timer_update = 0
        ∧ (SubscriptionManager.run_ticks port ticks
            m.stop_self_update).2.countP Event.is_timer_update = 0)
    ∧ (∀ p t0 early now, t0 + p < 2 ^ 64 → (∀ t ∈ early, t ≤ t0 + p) → now > t0 + p →
        (m.set_self_update_period p t0).self_update_next = t0 + p
        ∧ (SubscriptionManager.run_ticks port early
            (m.set_self_update_period p t0)).2.countP Event.is_timer_update = 0
        ∧ (SubscriptionManager.run_ticks port (early ++ [now])
            (m.set_self_update_period p t0)).2.countP Event.is_timer_update = 1
        ∧ (SubscriptionManager.run_ticks port (early ++ [now])
            (m.set_self_update_period p t0)).1.self_update_next = (t0 + p + p) % 2 ^ 64) := by
  refine ⟨fun time h => update_periodic_timer_fires m port time h,
    fun time h => update_periodic_timer_idle m port time h, ?_, ?_⟩
  · intro period0 ticks hticks
    have hmax : ∀ t ∈ ticks, t ≤ U64_MAX := by
      intro t ht
      have := hticks t ht
      unfold U64_MAX
      omega
    exact ⟨(run_ticks_timer_idle port ticks (SubscriptionManager.init period0) hmax).1,
      (run_ticks_timer_idle port ticks m.stop_self_update hmax).1⟩
  · intro p t0 early now hsum hearly hnow
    have hnext : (m.set_self_update_period p t0).self_update_next = t0 + p := by
      show (t0 + p) % 2 ^ 64 = t0 + p
      exact Nat.mod_eq_of_lt hsum
    obtain ⟨e1, e2, e3⟩ := run_ticks_timer_idle port early (m.set_self_update_period p t0)
      (fun t ht => by rw [hnext]; exact hearly t ht)
    have hfire := update_periodic_timer_fires
      (SubscriptionManager.run_ticks port early (m.set_self_update_period p t0)).1 port now
      (by rw [e2, hnext]; exact hnow)
    refine ⟨hnext, e1, ?_, ?_⟩
    · rw [run_ticks_append]
      simp only [SubscriptionManager.run_ticks, List.append_nil]
      rw [List.countP_append, e1, hfire.2.1]
    · rw [run_ticks_append]
      simp only [SubscriptionManager.run_ticks]
      rw [hfire.2.2.1, e2, e3, hnext]
      rfl

/-- C21 at a manager with the subscriber of scenario S3 and the timer armed at
`t0 = 1_000_000` with a period of 250_000 µs: ticks at 1_100_000 and 1_250_000 do not
call `on_timer_update`, the tick at 1_250_001 does, once. -/
theorem C21_self_update_timer_witness :
    (1000000 + 250000 < 2 ^ 64 ∧ (∀ t ∈ [1100000, 1250000], t ≤ 1000000 + 250000)
      ∧ 1250001 > 1000000 + 250000)
    ∧ (((sample_manager [sample_subscriber]).set_self_update_period 250000
          1000000).self_update_next = 1000000 + 250000
      ∧ (SubscriptionManager.run_ticks 100 [1100000, 1250000]
          ((sample_manager [sample_subscriber]).set_self_update_period 250000
            1000000)).2.countP Event.is_timer_update = 0
      ∧ (SubscriptionManager.run_ticks 100 ([1100000, 1250000] ++ [1250001])
          ((sample_manager [sample_subscriber]).set_self_update_period 250000
            1000000)).2.countP Event.is_timer_update = 1
      ∧ (SubscriptionManager.run_ticks 100 ([1100000, 1250000] ++ [1250001])
          ((sample_manager [sample_subscriber]).set_self_update_period 250000
            1000000)).1.self_update_next = (1000000 + 250000 + 250000) % 2 ^ 64)
    ∧ (SubscriptionManager.run_ticks 100 [1100000, 1250000, 1250001]
          ((sample_manager [sample_subscriber]).set_self_update_period 250000 1000000)).2
        = [Event.on_timer_update 100] :=
  ⟨⟨by norm_num, by decide, by decide⟩,
   (C21_self_update_timer (sample_manager [sample_subscriber]) 100).2.2.2 250000 1000000
     [1100000, 1250000] 1250001 (by norm_num) (by decide) (by decide),
   by decide⟩

/-! ## Dispatcher: a device that turns the packet down -/

/-- C29: the device `d` bound to `port` answers `false` to the acceptance question.  Then
the state after `handle_packet` is the state before it with the acceptance question
recorded, whatever the type byte and the size: no other hook of `d`, no packet, the same
device map and subscribers.  In the broadcast loop the entry of `d`, reached in the state
`s`, costs just this step, and the loop goes on with the entries behind it; so a
broadcast to a map in which `d` stands between `front` and `back` handles `front`, asks
`d`, and handles `back`. -/
theorem C29_refused_packet_is_not_handled (fuel : Nat) (port : Nat) (packet : List Nat)
    (size src_phy : Nat) (s : State) (d : Device) (hl : lookup_device s port = some d)
    (hrefuse : d.on_general_packet_accept packet size src_phy = false) :
    (∀ fuel2 dispatch, handle_packet fuel2 dispatch port packet size src_phy s
      = s.log (Event.on_general_packet_accept port (packet.take size) size src_phy))
    ∧ (∀ (x : Device) (back : List (Nat × Device)), s.stuck = false →
        ((port, x) :: back).foldl (fun st e =>
          if st.stuck then st
          else handle_packet fuel (dispatch_packet fuel) e.1 packet size src_phy st) s
        = back.foldl (fun st e =>
          if st.stuck then st
          else handle_packet fuel (dispatch_packet fuel) e.1 packet size src_phy st)
            (s.log (Event.on_general_packet_accept port (packet.take size) size src_phy)))
    ∧ (∀ (t : State) (x : Device) (front back : List (Nat × Device)),
        t.devices = front ++ (port, x) :: back → 5 ≤ size →
        net_load16 packet 3 = BROADCAST_PORT → s.stuck = false →
        s = front.foldl (fun st e =>
              if st.stuck then st
              else handle_packet fuel (dispatch_packet fuel) e.1 packet size src_phy st)
            (t.log (Event.dispatch_packet (packet.take size) size src_phy)) →
        dispatch_packet (fuel + 1) packet size src_phy t
          = back.foldl (fun st e =>
              if st.stuck then st
              else handle_packet fuel (dispatch_packet fuel) e.1 packet size src_phy st)
            (s.log (Event.on_general_packet_accept port (packet.take size) size src_phy))) := by
  have hone : ∀ fuel2 dispatch, handle_packet fuel2 dispatch port packet size src_phy s
      = s.log (Event.on_general_packet_accept port (packet.take size) size src_phy) := by
    intro fuel2 dispatch
    unfold handle_packet
    rw [hl]
    simp only [hrefuse, Bool.not_false, if_true]
  have hloop : ∀ (x : Device) (back : List (Nat × Device)), s.stuck = false →
      ((port, x) :: back).foldl (fun st e =>
        if st.stuck then st
        else handle_packet fuel (dispatch_packet fuel) e.1 packet size src_phy st) s
      = back.foldl (fun st e =>
        if st.stuck then st
        else handle_packet fuel (dispatch_packet fuel) e.1 packet size src_phy st)
          (s.log (Event.on_general_packet_accept port (packet.take size) size src_phy)) := by
    intro x back hs
    simp only [List.foldl_cons, hs, Bool.false_eq_true, if_false]
    rw [hone]
  refine ⟨hone, hloop, ?_⟩
  intro t x front back hdev h5 hb hs hfront
  show dispatch_packet_body fuel (dispatch_packet fuel) packet size src_phy t = _
  unfold dispatch_packet_body
  simp only [LOG_PACKET_SIZE_dst_addr]
  rw [if_neg (by omega), if_pos hb]
  have hd0 : (t.log (Event.dispatch_packet (packet.take size) size src_phy)).devices
      = front ++ (port, x) :: back := hdev
  rw [hd0, List.foldl_append, ← hfront]
  exact hloop x back hs

/-- C29 on a node that hosts the refusing device (port 50) in front of the button (port
100): a `HELLO_WORLD_RESPONSE` for the broadcast port.  The refusing device is asked and
nothing else happens for it; the button behind it is asked and gets its
`on_device_discover`. -/
theorem C29_refused_packet_is_not_handled_witness :
    (lookup_device ((sample_node true [sample_mute, sample_button]).log
        (Event.dispatch_packet (sample_response.take 13) 13 2)) 50 = some sample_mute
      ∧ sample_mute.on_general_packet_accept sample_response 13 2 = false)
    ∧ dispatch_packet (1 + 1) sample_response 13 2 (sample_node true [sample_mute, sample_button])
        = [(100, sample_button)].foldl (fun st e =>
              if st.stuck then st
              else handle_packet 1 (dispatch_packet 1) e.1 sample_response 13 2 st)
            (((sample_node true [sample_mute, sample_button]).log
                (Event.dispatch_packet (sample_response.take 13) 13 2)).log
              (Event.on_general_packet_accept 50 (sample_response.take 13) 13 2))
    ∧ (dispatch_packet 2 sample_response 13 2
          (sample_node true [sample_mute, sample_button])).trace =
        [Event.dispatch_packet sample_response 13 2,
         Event.on_general_packet_accept 50 sample_response 13 2,
         Event.on_general_packet_accept 100 sample_response 13 2,
         Event.on_device_discover 100 sample_response 13 2] :=
  ⟨⟨rfl, rfl⟩,
   (C29_refused_packet_is_not_handled 1 50 sample_response 13 2
      ((sample_node true [sample_mute, sample_button]).log
        (Event.dispatch_packet (sample_response.take 13) 13 2)) sample_mute rfl rfl).2.2
      (sample_node true [sample_mute, sample_button]) sample_mute [] [(100, sample_button)]
      rfl (by decide) (by decide) rfl rfl,
   by decide⟩

/-! ## Replies to any source -/

theorem reply_type_take (packet : List Nat) (size : Nat)
    (h : is_reply_type (load8 packet 0) = true) :
    is_reply_type (load8 (packet.take size) 0) = true := by
  rcases load8_take_zero packet size with h1 | h1
  · rw [h1]; exact h
  · rw [h1]; rfl

/-- The dispatch of a reply packet appends only events of a reply-closed predicate and
keeps the device map. -/
theorem dispatch_packet_reply (P : Event → Prop) (hP : ReplyClosed P) (fuel : Nat)
    (packet : List Nat) (size src_phy : Nat) (type : LogicalPacketType)
    (hbyte : load8 packet 0 = type.toNat)
    (hty : type = LogicalPacketType.HELLO_WORLD_RESPONSE
      ∨ type = LogicalPacketType.FIELD_DICTIONARY_RESPONSE
      ∨ type = LogicalPacketType.ACTION_EXECUTE_RESULT) (st : State) :
    TraceStep P st (dispatch_packet fuel packet size src_phy st) := by
  obtain ⟨_, _, hhook, hdisp, hacc⟩ := hP
  have hr : is_reply_type (load8 packet 0) = true := by
    rw [hbyte]
    rcases hty with h | h | h <;> subst h <;> rfl
  have hq : builds_reply (load8 packet 0) = false := by
    rw [hbyte]
    rcases hty with h | h | h <;> subst h <;> rfl
  have h16 : load8 packet 0 ≠ LogicalPacketType.SUBSCRIPTION_START.toNat := by
    rw [hbyte]
    rcases hty with h | h | h <;> subst h <;> decide
  have h19 : load8 packet 0 ≠ LogicalPacketType.SUBSCRIPTION_STOP.toNat := by
    rw [hbyte]
    rcases hty with h | h | h <;> subst h <;> decide
  exact dispatch_packet_quiet_traceStep P fuel packet size src_phy hq h16 h19
    (hdisp _ _ _ (reply_type_take _ _ hr)) (fun key => hacc key _ _ _ (reply_type_take _ _ hr))
    hhook st

/-- A reply built by `alloc_logical_packet_ptr` for any address and filled without
touching the type byte: `finish_ptr` appends only events of a reply-closed predicate
and keeps the device map. -/
theorem finish_alloc_reply (P : Event → Prop) (hP : ReplyClosed P) (fuel : Nat) (s : State)
    (dst : LogicalAddress) (src_port extra : Nat) (ovl_type : OverlayProtoType)
    (type : LogicalPacketType) (mem : List Nat)
    (hty : type = LogicalPacketType.HELLO_WORLD_RESPONSE
      ∨ type = LogicalPacketType.FIELD_DICTIONARY_RESPONSE
      ∨ type = LogicalPacketType.ACTION_EXECUTE_RESULT)
    (hmem : load8 mem (alloc_logical_packet_ptr s dst src_port extra ovl_type type).2.ptr
      = load8 (alloc_logical_packet_ptr s dst src_port extra ovl_type type).2.mem
          (alloc_logical_packet_ptr s dst src_port extra ovl_type type).2.ptr) :
    TraceStep P s
      (finish_ptr fuel (dispatch_packet fuel)
        { (alloc_logical_packet_ptr s dst src_port extra ovl_type type).2 with mem := mem }
        (alloc_logical_packet_ptr s dst src_port extra ovl_type type).1) := by
  have h5 : 5 ≤ extra + get_packet_size type := by
    rcases hty with h | h | h <;> subst h <;> simp only [get_packet_size] <;> omega
  have hhdr := (alloc_logical_header s dst src_port extra ovl_type type h5).1
  have hst := traceStep_alloc P s dst src_port extra ovl_type type
  generalize alloc_logical_packet_ptr s dst src_port extra ovl_type type = r at *
  have hbyte : load8 (mem.drop r.2.ptr) 0 = type.toNat := by
    rw [load8_drop, Nat.add_zero, hmem, hhdr]
  obtain ⟨ha, hd, tail, htr, hmesh, hloop⟩ := finish_ptr_shape P fuel (dispatch_packet fuel)
    { r.2 with mem := mem } r.1
    (fun st _ _ => dispatch_packet_reply P hP fuel _ _ st.self_addr type hbyte hty st)
  refine traceStep_trans hst ⟨ha, hd, _ :: tail, htr, ?_⟩
  intro e he
  rcases List.mem_cons.mp he with rfl | h
  · exact hP.1 _ _ _
  · cases hovl : r.2.ovl with
    | none => exact hloop hovl e h
    | some ovl =>
      obtain ⟨tail2, ht2, hp2⟩ := hmesh ovl hovl
      rw [ht2] at h
      rcases List.mem_cons.mp h with rfl | h2
      · exact hP.2.1 _ _
      · exact hp2 e h2

theorem send_hello_world_reply (P : Event → Prop) (hP : ReplyClosed P) (fuel : Nat)
    (device : Device) (dst_phy dst_port : Nat) (s : State) :
    TraceStep P s
      (send_hello_world fuel (dispatch_packet fuel) device LogicalPacketType.HELLO_WORLD_RESPONSE
        dst_phy dst_port s) := by
  unfold send_hello_world
  simp only []
  exact finish_alloc_reply P hP fuel s { phy := dst_phy, log := dst_port } device.self_port _
    OverlayProtoType.UNRELIABLE LogicalPacketType.HELLO_WORLD_RESPONSE _ (Or.inl rfl)
    (hello_body_below _ _ _ _ _ _ _ _ _ _ (by omega))

theorem send_field_dictionary_reply (P : Event → Prop) (hP : ReplyClosed P) (fuel : Nat)
    (device : Device) (dst : LogicalAddress) (s : State) :
    TraceStep P s (send_field_dictionary fuel (dispatch_packet fuel) device dst s) := by
  unfold send_field_dictionary
  simp only []
  refine finish_alloc_reply P hP fuel s dst device.self_port _
    OverlayProtoType.UNRELIABLE LogicalPacketType.FIELD_DICTIONARY_RESPONSE _
    (Or.inr (Or.inl rfl)) ?_
  rw [write_fields_below _ _ _ _ (by omega), load8_host_store16_below _ _ _ _ _ (by omega)]

theorem action_execute_reply_step (P : Event → Prop) (hP : ReplyClosed P) (fuel : Nat)
    (self_port status reqid : Nat) (dst : LogicalAddress) (s : State) :
    TraceStep P s
      (finish_ptr fuel (dispatch_packet fuel)
        { (alloc_logical_packet_ptr s dst self_port 0 OverlayProtoType.UNRELIABLE
            LogicalPacketType.ACTION_EXECUTE_RESULT).2 with
          mem := net_store8 (net_store8
            (alloc_logical_packet_ptr s dst self_port 0 OverlayProtoType.UNRELIABLE
              LogicalPacketType.ACTION_EXECUTE_RESULT).2.mem
            ((alloc_logical_packet_ptr s dst self_port 0 OverlayProtoType.UNRELIABLE
              LogicalPacketType.ACTION_EXECUTE_RESULT).2.ptr + 8) status)
            ((alloc_logical_packet_ptr s dst self_port 0 OverlayProtoType.UNRELIABLE
              LogicalPacketType.ACTION_EXECUTE_RESULT).2.ptr + 7) reqid }
        (alloc_logical_packet_ptr s dst self_port 0 OverlayProtoType.UNRELIABLE
          LogicalPacketType.ACTION_EXECUTE_RESULT).1) := by
  refine finish_alloc_reply P hP fuel s dst self_port 0 OverlayProtoType.UNRELIABLE
    LogicalPacketType.ACTION_EXECUTE_RESULT _ (Or.inr (Or.inr rfl)) ?_
  rw [load8_net_store8, if_neg (by omega), load8_net_store8, if_neg (by omega)]

/-- A request (`HELLO_WORLD`, `FIELD_DICTIONARY_REQUEST`, `ACTION_EXECUTE`) from any
source, handed to a bound device: after the acceptance question the handler keeps the
device map and appends only events of a reply-closed predicate. -/
theorem handle_packet_request (P : Event → Prop) (hP : ReplyClosed P) (fuel key : Nat)
    (packet : List Nat) (size src_phy : Nat) (st : State) (dev : Device)
    (hl : lookup_device st key = some dev) (hb : builds_reply (load8 packet 0) = true) :
    TraceStep P
      (st.log (Event.on_general_packet_accept key (packet.take size) size src_phy))
      (handle_packet fuel (dispatch_packet fuel) key packet size src_phy st) := by
  have hcases : load8 packet 0 = LogicalPacketType.HELLO_WORLD.toNat
      ∨ load8 packet 0 = LogicalPacketType.FIELD_DICTIONARY_REQUEST.toNat
      ∨ load8 packet 0 = LogicalPacketType.ACTION_EXECUTE.toNat := by
    unfold builds_reply at hb
    exact of_decide_eq_true hb
  unfold handle_packet
  rw [hl]
  rcases hcases with h | h | h
  · simp only [h, ofNat?_toNat]
    have hsend := send_hello_world_reply P hP fuel dev src_phy (net_load16 packet 1)
      (st.log (Event.on_general_packet_accept key (packet.take size) size src_phy))
    split_ifs
    · exact traceStep_refl _ _
    · exact traceStep_refl _ _
    · exact hsend
    · exact traceStep_trans hsend (traceStep_log _ (hP.2.2.1 _ rfl))
  · simp only [h, ofNat?_toNat]
    have hsend := send_field_dictionary_reply P hP fuel dev
      { phy := src_phy, log := net_load16 packet 1 }
      (st.log (Event.on_general_packet_accept key (packet.take size) size src_phy))
    split_ifs
    · exact traceStep_refl _ _
    · exact hsend
  · simp only [h, ofNat?_toNat]
    have hset : P (Event.on_action_set key (net_load16 packet 5)
        ((packet.drop 9).take (size - 9)) (size - 9)
        { phy := src_phy, log := net_load16 packet 1 }) := hP.2.2.1 _ rfl
    split_ifs
    · exact traceStep_refl _ _
    · exact traceStep_refl _ _
    · exact traceStep_trans
        (traceStep_log
          (st.log (Event.on_general_packet_accept key (packet.take size) size src_phy)) hset)
        (action_execute_reply_step P hP fuel dev.self_port _ _
          { phy := src_phy, log := net_load16 packet 1 }
          ((st.log (Event.on_general_packet_accept key (packet.take size) size
            src_phy)).log (Event.on_action_set key (net_load16 packet 5)
            ((packet.drop 9).take (size - 9)) (size - 9)
            { phy := src_phy, log := net_load16 packet 1 })))
    · exact traceStep_log
        (st.log (Event.on_general_packet_accept key (packet.take size) size src_phy)) hset

theorem portStep_mono {P Q : Event → Prop} {s t : State} (hPQ : ∀ e, P e → Q e)
    (h : PortStep P s t) : PortStep Q s t := by
  obtain ⟨a, d, evs, ht, hp⟩ := h
  exact ⟨a, d, evs, ht, fun e he => hPQ e (hp e he)⟩

/-- Any packet from any source, handed to a bound device: after the acceptance question
the handler keeps the ports of the device map and appends only events of a reply-closed
predicate. -/
theorem handle_packet_any (P : Event → Prop) (hP : ReplyClosed P) (fuel key : Nat)
    (packet : List Nat) (size src_phy : Nat) (st : State) (dev : Device)
    (hl : lookup_device st key = some dev) :
    PortStep P
      (st.log (Event.on_general_packet_accept key (packet.take size) size src_phy))
      (handle_packet fuel (dispatch_packet fuel) key packet size src_phy st) := by
  by_cases hq : builds_reply (load8 packet 0) = false
  · obtain ⟨a, d, _, _, rest, ht, hp⟩ := handle_packet_quiet fuel (dispatch_packet fuel) key
      packet size src_phy st dev hl hq
    exact ⟨a, d, rest, by rw [ht]; simp [State.log], fun e he => hP.2.2.1 e (hp e he)⟩
  · exact portStep_of_traceStep
      (handle_packet_request P hP fuel key packet size src_phy st dev hl (by simpa using hq))

theorem not_handover_closed (t0 : Nat) (h : is_reply_type t0 = false) :
    ReplyClosed (fun e => e.is_handover t0 = false) := by
  refine ⟨fun _ _ _ => rfl, fun _ _ => rfl, ?_, ?_, ?_⟩
  · intro e he
    cases e <;> simp [Event.is_hook_call, Event.is_handover] at *
  · intro pk sz src hr
    simp only [Event.is_handover, decide_eq_false_iff_not]
    intro heq
    rw [heq, h] at hr
    cases hr
  · intro key pk sz src hr
    simp only [Event.is_handover, decide_eq_false_iff_not]
    intro heq
    rw [heq, h] at hr
    cases hr

theorem true_closed : ReplyClosed (fun _ => True) :=
  ⟨fun _ _ _ => trivial, fun _ _ => trivial, fun _ _ => trivial, fun _ _ _ _ => trivial,
    fun _ _ _ _ _ => trivial⟩

theorem request_not_reply_type (t : Nat) (hb : builds_reply t = true) :
    is_reply_type t = false := by
  unfold builds_reply at hb
  rcases of_decide_eq_true hb with h | h | h <;> subst h <;> rfl

/-! ## Dispatcher: unicast packets -/

/-- Claim C27. A packet of at least 5 bytes whose destination port is not `0xFFFF`, from
any source: when no device is bound to the destination port, `dispatch_packet` only
records its own entry (no device method, no emission, state otherwise unchanged); when
device `d` is bound to it, the packet goes to `handle_packet` for that port alone, the
acceptance question of that port follows the entry, and no later event hands a packet
of this type to the dispatcher or to any device again. -/
theorem C27_unicast_reaches_only_the_bound_device (fuel : Nat) (packet : List Nat)
    (size src_phy : Nat) (s : State) (h5 : 5 ≤ size)
    (hport : net_load16 packet 3 ≠ BROADCAST_PORT) :
    (lookup_device s (net_load16 packet 3) = none →
      dispatch_packet (fuel + 1) packet size src_phy s
        = s.log (Event.dispatch_packet (packet.take size) size src_phy))
    ∧ (∀ d, lookup_device s (net_load16 packet 3) = some d →
        dispatch_packet (fuel + 1) packet size src_phy s
          = handle_packet fuel (dispatch_packet fuel) (net_load16 packet 3) packet size src_phy
              (s.log (Event.dispatch_packet (packet.take size) size src_phy))
        ∧ ∃ rest, (dispatch_packet (fuel + 1) packet size src_phy s).trace
            = s.trace ++ Event.dispatch_packet (packet.take size) size src_phy
                :: Event.on_general_packet_accept (net_load16 packet 3) (packet.take size) size
                    src_phy :: rest
          ∧ ∀ e ∈ rest, e.is_handover (load8 packet 0) = false) := by
  have hbody : dispatch_packet (fuel + 1) packet size src_phy s
      = match lookup_device (s.log (Event.dispatch_packet (packet.take size) size src_phy))
          (net_load16 packet 3) with
        | none => s.log (Event.dispatch_packet (packet.take size) size src_phy)
        | some _ => handle_packet fuel (dispatch_packet fuel) (net_load16 packet 3) packet size
            src_phy (s.log (Event.dispatch_packet (packet.take size) size src_phy)) := by
    show dispatch_packet_body fuel (dispatch_packet fuel) packet size src_phy s = _
    unfold dispatch_packet_body
    simp only [LOG_PACKET_SIZE_dst_addr]
    exact (if_neg (by omega)).trans ((if_neg hport).trans rfl)
  have hlog : lookup_device (s.log (Event.dispatch_packet (packet.take size) size src_phy))
      (net_load16 packet 3) = lookup_device s (net_load16 packet 3) := rfl
  refine ⟨fun hl => ?_, fun d hl => ?_⟩
  · rw [hbody, hlog, hl]
  · have heq : dispatch_packet (fuel + 1) packet size src_phy s
        = handle_packet fuel (dispatch_packet fuel) (net_load16 packet 3) packet size src_phy
            (s.log (Event.dispatch_packet (packet.take size) size src_phy)) := by
      rw [hbody, hlog, hl]
    refine ⟨heq, ?_⟩
    rw [heq]
    by_cases hq : builds_reply (load8 packet 0) = false
    · obtain ⟨_, _, _, _, rest, ht, hp⟩ := handle_packet_quiet fuel (dispatch_packet fuel)
        (net_load16 packet 3) packet size src_phy
        (s.log (Event.dispatch_packet (packet.take size) size src_phy)) d (hlog.trans hl) hq
      refine ⟨rest, ?_, ?_⟩
      · rw [ht]; simp [State.log]
      · intro e he
        have hh := hp e he
        cases e <;> simp [Event.is_hook_call, Event.is_handover] at *
    · have hb : builds_reply (load8 packet 0) = true := by simpa using hq
      obtain ⟨_, _, rest, ht, hp⟩ := handle_packet_request
        (fun e => e.is_handover (load8 packet 0) = false)
        (not_handover_closed _ (request_not_reply_type _ hb)) fuel (net_load16 packet 3) packet
        size src_phy (s.log (Event.dispatch_packet (packet.take size) size src_phy)) d
        (hlog.trans hl) hb
      exact ⟨rest, by rw [ht]; simp [State.log], hp⟩

/-- Claim C27 on the sample node with a second device on port 101: the `ACTION_EXECUTE`
of scenario S2 from node 2 for port 100, and the same packet readdressed to the unbound
port 300. -/
theorem C27_unicast_reaches_only_the_bound_device_witness :
    5 ≤ 10 ∧ net_load16 sample_execute 3 ≠ BROADCAST_PORT
    ∧ net_load16 [12, 0, 200, 1, 44, 0, 7, 42, 1, 171] 3 ≠ BROADCAST_PORT
    ∧ (dispatch_packet 3 sample_execute 10 2
        (sample_node true [sample_button, sample_device 101 [108] 2 [] 0])).trace
      = [Event.dispatch_packet sample_execute 10 2,
         Event.on_general_packet_accept 100 sample_execute 10 2,
         Event.on_action_set 100 7 [171] 1 { phy := 2, log := 200 },
         Event.finish_ptr [13, 0, 100, 0, 200, 0, 0, 42, 1] 9 (some 2),
         Event.mesh_write 2 [2, 13, 0, 100, 0, 200, 0, 0, 42, 1]]
    ∧ dispatch_packet 3 [12, 0, 200, 1, 44, 0, 7, 42, 1, 171] 10 2
        (sample_node true [sample_button, sample_device 101 [108] 2 [] 0])
      = (sample_node true [sample_button, sample_device 101 [108] 2 [] 0]).log
          (Event.dispatch_packet [12, 0, 200, 1, 44, 0, 7, 42, 1, 171] 10 2) :=
  ⟨by decide, by decide, by decide,
    by
      have h := ((C27_unicast_reaches_only_the_bound_device 2 sample_execute 10 2
        (sample_node true [sample_button, sample_device 101 [108] 2 [] 0]) (by decide)
        (by decide)).2 sample_button rfl).1
      rw [h]
      rfl,
    (C27_unicast_reaches_only_the_bound_device 2 [12, 0, 200, 1, 44, 0, 7, 42, 1, 171] 10 2
      (sample_node true [sample_button, sample_device 101 [108] 2 [] 0]) (by decide)
      (by decide)).1 rfl⟩

/-! ## Port map -/

theorem lookup_map_assign_self (key : Nat) (d : Device) (l : List (Nat × Device)) :
    (map_assign key d l).lookup key = some d := by
  induction l with
  | nil => simp [map_assign, List.lookup]
  | cons e rest ih =>
    obtain ⟨k2, d2⟩ := e
    simp only [map_assign]
    by_cases hk : k2 = key
    · rw [if_pos hk]
      simp [List.lookup]
    · rw [if_neg hk]
      have hne : (key == k2) = false := by simpa using fun h => hk h.symm
      simp only [List.lookup, hne]
      exact ih

theorem lookup_map_assign_other (key port : Nat) (d : Device) (l : List (Nat × Device))
    (h : port ≠ key) : (map_assign key d l).lookup port = l.lookup port := by
  induction l with
  | nil =>
    have hne : (port == key) = false := by simpa using h
    simp [map_assign, List.lookup, hne]
  | cons e rest ih =>
    obtain ⟨k2, d2⟩ := e
    simp only [map_assign]
    by_cases hk : k2 = key
    · rw [if_pos hk]
      have hne : (port == key) = false := by simpa using h
      have hne2 : (port == k2) = false := by rw [hk]; exact hne
      simp only [List.lookup, hne, hne2]
    · rw [if_neg hk]
      by_cases hp : port = k2
      · subst hp
        simp [List.lookup]
      · have hne : (port == k2) = false := by simpa using hp
        simp only [List.lookup, hne]
        exact ih

theorem lookup_filter_self (key : Nat) (l : List (Nat × Device)) :
    (l.filter (fun e => !(decide (e.1 = key)))).lookup key = none := by
  induction l with
  | nil => rfl
  | cons e rest ih =>
    obtain ⟨k2, d2⟩ := e
    by_cases hk : k2 = key
    · simp only [List.filter, hk, decide_True, Bool.not_true]
      exact ih
    · have hne : (key == k2) = false := by simpa using fun h => hk h.symm
      simp only [List.filter, hk, decide_False, Bool.not_false, List.lookup, hne]
      exact ih

theorem lookup_filter_other (key port : Nat) (l : List (Nat × Device)) (h : port ≠ key) :
    (l.filter (fun e => !(decide (e.1 = key)))).lookup port = l.lookup port := by
  induction l with
  | nil => rfl
  | cons e rest ih =>
    obtain ⟨k2, d2⟩ := e
    by_cases hk : k2 = key
    · have hne : (port == k2) = false := by rw [hk]; simpa using h
      simp only [List.filter, hk, decide_True, Bool.not_true, List.lookup]
      rw [← hk, hne]
      rw [← hk] at ih
      exact ih
    · simp only [List.filter, hk, decide_False, Bool.not_false]
      by_cases hp : port = k2
      · subst hp
        simp [List.lookup]
      · have hne : (port == k2) = false := by simpa using hp
        simp only [List.lookup, hne]
        exact ih

/-- The ports of the map after `devices[key] = d`: unchanged when `key` was bound, one
more entry otherwise. -/
theorem map_assign_keys (key : Nat) (d : Device) (l : List (Nat × Device)) :
    (map_assign key d l).map Prod.fst
      = if key ∈ l.map Prod.fst then l.map Prod.fst else l.map Prod.fst ++ [key] := by
  induction l with
  | nil => simp [map_assign]
  | cons e rest ih =>
    obtain ⟨k2, d2⟩ := e
    simp only [map_assign]
    by_cases hk : k2 = key
    · rw [if_pos hk]
      simp [hk]
    · rw [if_neg hk]
      have hk2 : ¬ key = k2 := fun h => hk h.symm
      simp only [List.map_cons, List.mem_cons, hk2, false_or, ih]
      split_ifs <;> simp

theorem map_assign_nodup (key : Nat) (d : Device) (l : List (Nat × Device))
    (h : (l.map Prod.fst).Nodup) : ((map_assign key d l).map Prod.fst).Nodup := by
  rw [map_assign_keys]
  split_ifs with hk
  · exact h
  · rw [List.nodup_append]
    refine ⟨h, List.nodup_singleton _, ?_⟩
    intro a ha hb
    rw [List.mem_singleton] at hb
    subst hb
    exact hk ha

theorem filter_keys_nodup (key : Nat) (l : List (Nat × Device))
    (h : (l.map Prod.fst).Nodup) :
    ((l.filter (fun e => !(decide (e.1 = key)))).map Prod.fst).Nodup := by
  have hsub : ((l.filter (fun e => !(decide (e.1 = key)))).map Prod.fst).Sublist
      (l.map Prod.fst) := List.Sublist.map _ (List.filter_sublist l)
  exact List.Nodup.sublist hsub h

theorem set_device_keys (s : State) (port : Nat) (d : Device) :
    (set_device s port d).devices.map Prod.fst = s.devices.map Prod.fst := by
  unfold set_device
  simp only [List.map_map]
  apply List.map_congr_left
  intro e _
  simp only [Function.comp]
  split_ifs <;> rfl

/-- Handing any packet to the device of any port keeps the ports of the map. -/
theorem handle_packet_ports (fuel key : Nat) (packet : List Nat) (size src_phy : Nat)
    (st : State) :
    PortStep (fun _ => True) st
      (handle_packet fuel (dispatch_packet fuel) key packet size src_phy st) := by
  cases hl : lookup_device st key with
  | none =>
    rw [handle_packet_unbound fuel _ key packet size src_phy st hl]
    exact portStep_refl _ st
  | some dev =>
    exact portStep_trans (portStep_log st trivial)
      (handle_packet_any (fun _ => True) true_closed fuel key packet size src_phy st dev hl)

/-- The dispatcher keeps the ports of the map, for any packet from any source. -/
theorem dispatch_packet_ports (fuel : Nat) (packet : List Nat) (size src_phy : Nat)
    (s : State) :
    PortStep (fun _ => True) s (dispatch_packet fuel packet size src_phy s) := by
  cases fuel with
  | zero => exact ⟨rfl, rfl, [], by simp [dispatch_packet], by simp⟩
  | succ n =>
    show PortStep _ s (dispatch_packet_body n (dispatch_packet n) packet size src_phy s)
    have hfold : ∀ (l : List (Nat × Device)) (st : State),
        PortStep (fun _ => True) st (l.foldl (fun st e =>
          if st.stuck then st
          else handle_packet n (dispatch_packet n) e.1 packet size src_phy st) st) := by
      intro l
      induction l with
      | nil => intro st; exact portStep_refl _ st
      | cons e rest ih =>
        intro st
        simp only [List.foldl_cons]
        refine portStep_trans ?_ (ih _)
        split_ifs
        · exact portStep_refl _ st
        · exact handle_packet_ports n e.1 packet size src_phy st
    unfold dispatch_packet_body
    simp only []
    have h0 : PortStep (fun _ => True) s
        (s.log (Event.dispatch_packet (packet.take size) size src_phy)) :=
      portStep_log s trivial
    refine portStep_trans h0 ?_
    split_ifs
    · exact portStep_refl _ _
    · exact hfold _ _
    · cases hl : lookup_device
          (s.log (Event.dispatch_packet (packet.take size) size src_phy))
          (net_load16 packet 3) with
      | none => exact portStep_refl _ _
      | some dev => exact handle_packet_ports n _ packet size src_phy _

/-- Finishing any packet keeps the ports of the map. -/
theorem finish_ptr_ports (fuel : Nat) (p : LogicalPacketPtr) (s : State) :
    PortStep (fun _ => True) s (finish_ptr fuel (dispatch_packet fuel) p s) := by
  unfold finish_ptr
  simp only []
  generalize Event.finish_ptr ((p.mem.drop p.ptr).take p.size) p.size
    (p.ovl.map (fun o => o.dst_phy)) = fin
  have h0 : PortStep (fun _ => True) s (s.log fin) := portStep_log s trivial
  cases p.ovl with
  | none =>
    simp only []
    exact portStep_trans h0
      (portStep_trans (dispatch_packet_ports fuel _ _ _ _)
        (portStep_of_traceStep (traceStep_unless_stuck _ fuel p _)))
  | some ovl =>
    simp only []
    have h1 : PortStep (fun _ => True) (s.log fin)
        ((s.log fin).log (Event.mesh_write ovl.dst_phy (p.mem.take ovl.stream_size))) :=
      portStep_log _ trivial
    refine portStep_trans h0
      (portStep_trans h1
        (portStep_trans ?_ (portStep_of_traceStep (traceStep_unless_stuck _ fuel p _))))
    split_ifs
    · exact dispatch_packet_ports fuel _ _ _ _
    · exact portStep_refl _ _

theorem send_immediate_callback_data_ports (fuel port action_id : Nat) (data : List Nat)
    (size : Nat) (s : State) :
    PortStep (fun _ => True) s (send_immediate_callback_data fuel port action_id data size s) := by
  unfold send_immediate_callback_data
  cases lookup_device s port with
  | none => exact portStep_refl _ s
  | some device =>
    simp only []
    generalize device.subscriptions.subscribers = l
    induction l generalizing s with
    | nil => exact portStep_refl _ s
    | cons sub rest ih =>
      simp only [List.foldl_cons]
      refine portStep_trans ?_ (ih _)
      split_ifs
      · exact portStep_refl _ s
      · exact portStep_refl _ s
      · exact portStep_trans (portStep_of_traceStep (traceStep_alloc _ s _ _ _ _ _))
          (finish_ptr_ports fuel _ _)

theorem update_periodic_ports (port : Nat) (s : State) :
    (update_periodic port s).devices.map Prod.fst = s.devices.map Prod.fst := by
  unfold update_periodic
  cases lookup_device s port with
  | none => rfl
  | some device => exact set_device_keys s port _

/-- A request handed to the dispatcher: the device map is the same afterwards. -/
theorem dispatch_packet_request (P : Event → Prop) (hP : ReplyClosed P) (fuel : Nat)
    (packet : List Nat) (size src_phy : Nat)
    (hb : builds_reply (load8 packet 0) = true)
    (hentry : P (Event.dispatch_packet (packet.take size) size src_phy))
    (haccept : ∀ key, P (Event.on_general_packet_accept key (packet.take size) size src_phy))
    (st : State) :
    TraceStep P st (dispatch_packet fuel packet size src_phy st) := by
  cases fuel with
  | zero => exact traceStep_of_fields rfl rfl rfl
  | succ n =>
    show TraceStep P st (dispatch_packet_body n (dispatch_packet n) packet size src_phy st)
    refine dispatch_body_step P n (dispatch_packet n) packet size src_phy hentry st ?_
    intro key st2 _ _
    cases hl : lookup_device st2 key with
    | none =>
      rw [handle_packet_unbound n _ key packet size src_phy st2 hl]
      exact traceStep_refl P st2
    | some dev =>
      exact traceStep_trans (traceStep_log st2 (haccept key))
        (handle_packet_request P hP n key packet size src_phy st2 dev hl hb)

/-- The device map after `add_device` is the map with the assignment made. -/
theorem add_device_devices (fuel : Nat) (d : Device) (s : State) :
    (add_device fuel d s).devices = map_assign d.self_port d s.devices := by
  unfold add_device
  simp only []
  exact (send_hello_world_shape (fun _ => True) fuel (dispatch_packet fuel) d
    LogicalPacketType.HELLO_WORLD _ _ _ (by decide) (fun _ _ => trivial)
    (fun raw size st _ _ hty _ _ =>
      dispatch_packet_request (fun _ => True) true_closed fuel raw size st.self_addr
        (by rw [hty]; rfl) trivial (fun _ => trivial) st)).2.1

theorem reachable_ports_nodup (t : State) (h : Reachable t) :
    (t.devices.map Prod.fst).Nodup := by
  induction h with
  | init s h => rw [h]; exact List.nodup_nil
  | add_device fuel d s _ ih =>
    rw [add_device_devices]
    exact map_assign_nodup _ _ _ ih
  | remove_device d s _ ih => exact filter_keys_nodup _ _ ih
  | dispatch_packet fuel packet size src_phy s _ ih =>
    rw [(dispatch_packet_ports fuel packet size src_phy s).2.1]
    exact ih
  | clock time s _ ih => exact ih
  | update_periodic port s _ ih =>
    rw [update_periodic_ports]
    exact ih
  | send_immediate_callback_data fuel port action_id data size s _ ih =>
    rw [(send_immediate_callback_data_ports fuel port action_id data size s).2.1]
    exact ih

/-- Claim C30. After `add_device(d)` the lookup of `d`'s port returns `d` and the lookup
of every other port is unchanged; on a port that was bound the set of bound ports stays
the same (the earlier binding is replaced); after `remove_device(d)` the lookup of
`d`'s port returns none and the lookup of every other port is unchanged; and in every
reachable state no port occurs twice in the map. -/
theorem C30_port_map_binds_each_port_once (fuel : Nat) (d : Device) (s : State) :
    lookup_device (add_device fuel d s) d.self_port = some d
    ∧ (∀ port, port ≠ d.self_port →
        lookup_device (add_device fuel d s) port = lookup_device s port)
    ∧ (∀ d0, lookup_device s d.self_port = some d0 →
        (add_device fuel d s).devices.map Prod.fst = s.devices.map Prod.fst)
    ∧ lookup_device (remove_device d s) d.self_port = none
    ∧ (∀ port, port ≠ d.self_port →
        lookup_device (remove_device d s) port = lookup_device s port)
    ∧ (∀ t, Reachable t → (t.devices.map Prod.fst).Nodup) := by
  refine ⟨?_, ?_, ?_, ?_, ?_, reachable_ports_nodup⟩
  · unfold lookup_device
    rw [add_device_devices]
    exact lookup_map_assign_self _ _ _
  · intro port hp
    unfold lookup_device
    rw [add_device_devices]
    exact lookup_map_assign_other _ _ _ _ hp
  · intro d0 hl
    rw [add_device_devices, map_assign_keys, if_pos]
    have hm := lookup_mem _ _ _ hl
    exact List.mem_map.mpr ⟨_, hm, rfl⟩
  · exact lookup_filter_self _ _
  · intro port hp
    exact lookup_filter_other _ _ _ hp

/-- Claim C30 on the sample node: a relay registered on the bound port 100 replaces the
button, port 200 is untouched, and the map reached by two registrations on port 100 and
one on port 200 from the empty map holds each port once. -/
theorem C30_port_map_binds_each_port_once_witness :
    lookup_device (add_device 3 (sample_device 100 [114] 2 [] 0)
      (sample_node true [sample_button, sample_peer])) 100 = some (sample_device 100 [114] 2 [] 0)
    ∧ lookup_device (add_device 3 (sample_device 100 [114] 2 [] 0)
        (sample_node true [sample_button, sample_peer])) 200
      = lookup_device (sample_node true [sample_button, sample_peer]) 200
    ∧ (add_device 3 (sample_device 100 [114] 2 [] 0)
        (sample_node true [sample_button, sample_peer])).devices.map Prod.fst = [100, 200]
    ∧ lookup_device (remove_device sample_button
        (sample_node true [sample_button, sample_peer])) 100 = none
    ∧ ((add_device 3 (sample_device 100 [114] 2 [] 0)
        (add_device 3 sample_peer (add_device 3 sample_button
          (sample_node true [])))).devices.map Prod.fst).Nodup :=
  ⟨(C30_port_map_binds_each_port_once 3 (sample_device 100 [114] 2 [] 0)
      (sample_node true [sample_button, sample_peer])).1,
    (C30_port_map_binds_each_port_once 3 (sample_device 100 [114] 2 [] 0)
      (sample_node true [sample_button, sample_peer])).2.1 200 (by decide),
    (C30_port_map_binds_each_port_once 3 (sample_device 100 [114] 2 [] 0)
      (sample_node true [sample_button, sample_peer])).2.2.1 sample_button rfl,
    (C30_port_map_binds_each_port_once 3 sample_button
      (sample_node true [sample_button, sample_peer])).2.2.2.1,
    (C30_port_map_binds_each_port_once 3 sample_button (sample_node true [])).2.2.2.2.2 _
      (Reachable.add_device _ _ _ (Reachable.add_device _ _ _ (Reachable.add_device _ _ _
        (Reachable.init _ rfl))))⟩

/-! ## Overlay builder: the header of a reliable packet -/

/-- Claim C23, failing input. On the sample node after the button was registered (its
`HELLO_WORLD` went through pool slot 0 and the slot was released), a builder constructed
with overlay type `RELIABLE` for node 2 gets slot 0 again, writes the type byte and
nothing else: the `sequence_num` bytes are the bytes `01 00` the slot held, and the
buffer sent for an `ACTION_EXECUTE_RESULT` starts `01 01 00`. The same buffer on a fresh
pool starts `01 00 00`, and with `UNRELIABLE` the type byte `02` is followed directly by
the logical packet. -/
theorem C23_reliable_sequence_num_not_written :
    (alloc_raw_logical_ptr (add_device 2 sample_button (sample_node true [])) 2 9
      OverlayProtoType.RELIABLE).2.mem.take 3 = [1, 1, 0]
    ∧ (alloc_raw_logical_ptr (add_device 2 sample_button (sample_node true [])) 2 9
        OverlayProtoType.RELIABLE).2.ptr = 3
    ∧ ((finish_ptr 2 (dispatch_packet 2)
        (alloc_logical_packet_ptr (add_device 2 sample_button (sample_node true []))
          { phy := 2, log := 200 } 100 0 OverlayProtoType.RELIABLE
          LogicalPacketType.ACTION_EXECUTE_RESULT).2
        (alloc_logical_packet_ptr (add_device 2 sample_button (sample_node true []))
          { phy := 2, log := 200 } 100 0 OverlayProtoType.RELIABLE
          LogicalPacketType.ACTION_EXECUTE_RESULT).1).trace.filter Event.is_mesh_write).drop 1
      = [Event.mesh_write 2 [1, 1, 0, 13, 0, 100, 0, 200, 0, 1, 3, 0]]
    ∧ (finish_ptr 2 (dispatch_packet 2)
        (alloc_logical_packet_ptr (sample_node true [sample_button])
          { phy := 2, log := 200 } 100 0 OverlayProtoType.RELIABLE
          LogicalPacketType.ACTION_EXECUTE_RESULT).2
        (alloc_logical_packet_ptr (sample_node true [sample_button])
          { phy := 2, log := 200 } 100 0 OverlayProtoType.RELIABLE
          LogicalPacketType.ACTION_EXECUTE_RESULT).1).trace
      = [Event.finish_ptr [13, 0, 100, 0, 200, 0, 0, 0, 0] 9 (some 2),
         Event.mesh_write 2 [1, 0, 0, 13, 0, 100, 0, 200, 0, 0, 0, 0]]
    ∧ (finish_ptr 2 (dispatch_packet 2)
        (alloc_logical_packet_ptr (sample_node true [sample_button])
          { phy := 2, log := 200 } 100 0 OverlayProtoType.UNRELIABLE
          LogicalPacketType.ACTION_EXECUTE_RESULT).2
        (alloc_logical_packet_ptr (sample_node true [sample_button])
          { phy := 2, log := 200 } 100 0 OverlayProtoType.UNRELIABLE
          LogicalPacketType.ACTION_EXECUTE_RESULT).1).trace
      = [Event.finish_ptr [13, 0, 100, 0, 200, 0, 0, 0, 0] 9 (some 2),
         Event.mesh_write 2 [2, 13, 0, 100, 0, 200, 0, 0, 0, 0]] := by
  refine ⟨?_, ?_, ?_, ?_, ?_⟩ <;> rfl

/-! ## Packets whose block comes from the heap -/

theorem free_heap_none (fuel : Nat) (a : PoolMemoryAllocator) : a.free fuel Ptr.heap = none := by
  induction fuel with
  | zero => rfl
  | succ n ih => simpa [PoolMemoryAllocator.free] using ih

/-- Releasing a heap block never returns, whatever the fuel. -/
theorem release_heap (fuel : Nat) (p : LogicalPacketPtr) (s : State) (h : p.block = Ptr.heap) :
    release fuel p s = { s with stuck := true } := by
  unfold release
  rw [h, free_heap_none]

/-- A unicast packet for another node whose block is a heap block: `finish_ptr` records
the emission, writes to the mesh and does not return from the release. -/
theorem finish_ptr_heap_unicast (fuel : Nat) (dispatch : List Nat → Nat → Nat → State → State)
    (p : LogicalPacketPtr) (s : State) (ovl : OverlayPacketBuilder)
    (hb : p.block = Ptr.heap) (ho : p.ovl = some ovl)
    (hport : net_load16 (p.mem.drop p.ptr) 3 ≠ BROADCAST_PORT) (hs : s.stuck = false) :
    finish_ptr fuel dispatch p s
      = { s with
          trace := s.trace ++ [Event.finish_ptr ((p.mem.drop p.ptr).take p.size) p.size
              (some ovl.dst_phy),
            Event.mesh_write ovl.dst_phy (p.mem.take ovl.stream_size)]
          stuck := true } := by
  unfold finish_ptr
  simp only [ho, if_neg hport, State.log, hs, release_heap fuel p _ hb, Option.map_some']
  simp

/-- Claim C25, failing input. The device with the 20-byte name on the sample node (slots
of 32 bytes) handles the `HELLO_WORLD` of port 200 of node 2: the response needs 33
bytes, its block comes from the heap, and after the response went to the mesh the
release never returns, whatever the fuel: `on_device_discover` is not called. The button
of scenario S1, whose response fits a slot, is called once after its response; a
`HELLO_WORLD_RESPONSE` leads to the call alone. -/
theorem C25_discover_not_called_after_heap_response (fuel : Nat) :
    (handle_packet fuel (dispatch_packet fuel) 100 sample_foreign_hello 13 2
      (sample_node true [sample_long_name])).stuck = true
    ∧ (handle_packet fuel (dispatch_packet fuel) 100 sample_foreign_hello 13 2
        (sample_node true [sample_long_name])).trace
      = [Event.on_general_packet_accept 100 sample_foreign_hello 13 2,
         Event.finish_ptr ([2, 0, 100, 0, 200, 0, 0, 0, 1, 20, 0, 0] ++ List.replicate 20 97) 32
           (some 2),
         Event.mesh_write 2 ([2, 2, 0, 100, 0, 200, 0, 0, 0, 1, 20, 0, 0] ++ List.replicate 20 97)]
    ∧ (handle_packet 3 (dispatch_packet 3) 100 sample_foreign_hello 13 2
        (sample_node true [sample_button])).trace
      = [Event.on_general_packet_accept 100 sample_foreign_hello 13 2,
         Event.finish_ptr [2, 0, 100, 0, 200, 0, 0, 0, 1, 3, 0, 0, 98, 116, 110] 15 (some 2),
         Event.mesh_write 2 [2, 2, 0, 100, 0, 200, 0, 0, 0, 1, 3, 0, 0, 98, 116, 110],
         Event.on_device_discover 100 sample_foreign_hello 13 2]
    ∧ (handle_packet 3 (dispatch_packet 3) 100 sample_response 13 2
        (sample_node true [sample_button])).trace
      = [Event.on_general_packet_accept 100 sample_response 13 2,
         Event.on_device_discover 100 sample_response 13 2] := by
  have h : handle_packet fuel (dispatch_packet fuel) 100 sample_foreign_hello 13 2
      (sample_node true [sample_long_name])
      = (if (finish_ptr fuel (dispatch_packet fuel)
            { mem := [2, 2, 0, 100, 0, 200, 0, 0, 0, 1, 20, 0, 0] ++ List.replicate 20 97
              block := Ptr.heap
              ptr := 1
              ovl := some { dst_phy := 2, stream_size := 33 }
              size := 32 }
            ((sample_node true [sample_long_name]).log
              (Event.on_general_packet_accept 100 sample_foreign_hello 13 2))).stuck
        then finish_ptr fuel (dispatch_packet fuel)
            { mem := [2, 2, 0, 100, 0, 200, 0, 0, 0, 1, 20, 0, 0] ++ List.replicate 20 97
              block := Ptr.heap
              ptr := 1
              ovl := some { dst_phy := 2, stream_size := 33 }
              size := 32 }
            ((sample_node true [sample_long_name]).log
              (Event.on_general_packet_accept 100 sample_foreign_hello 13 2))
        else (finish_ptr fuel (dispatch_packet fuel)
            { mem := [2, 2, 0, 100, 0, 200, 0, 0, 0, 1, 20, 0, 0] ++ List.replicate 20 97
              block := Ptr.heap
              ptr := 1
              ovl := some { dst_phy := 2, stream_size := 33 }
              size := 32 }
            ((sample_node true [sample_long_name]).log
              (Event.on_general_packet_accept 100 sample_foreign_hello 13 2))).log
          (Event.on_device_discover 100 sample_foreign_hello 13 2)) := rfl
  rw [h, finish_ptr_heap_unicast fuel _ _ _ { dst_phy := 2, stream_size := 33 } rfl rfl
    (by decide) rfl]
  exact ⟨rfl, rfl, rfl, rfl⟩

/-- Claim C22, failing input. The button with subscribers for action 7, action 8 and
action 7 on the sample node (slots of 32 bytes). With a 2-byte payload each subscriber
of action 7 gets one `SUBSCRIPTION_CALLBACK`, in list order, and the subscriber of
action 8 none. With a 23-byte payload the packet needs 33 bytes with the overlay type
byte, its block comes from the heap, and after the first callback went to the mesh the
release never returns, whatever the fuel: the second subscriber of action 7 gets
nothing. -/
theorem C22_callback_stops_after_heap_block (fuel : Nat) :
    (send_immediate_callback_data fuel 100 7 (List.replicate 23 171) 23
      (sample_node true [sample_feed])).stuck = true
    ∧ (send_immediate_callback_data fuel 100 7 (List.replicate 23 171) 23
        (sample_node true [sample_feed])).trace
      = [Event.finish_ptr ([18, 0, 100, 0, 200, 0, 0, 0, 9] ++ List.replicate 23 171) 32 (some 2),
         Event.mesh_write 2 ([2, 18, 0, 100, 0, 200, 0, 0, 0, 9] ++ List.replicate 23 171)]
    ∧ (send_immediate_callback_data 3 100 7 [171, 205] 2 (sample_node true [sample_feed])).trace
      = [Event.finish_ptr [18, 0, 100, 0, 200, 0, 0, 0, 9, 171, 205] 11 (some 2),
         Event.mesh_write 2 [2, 18, 0, 100, 0, 200, 0, 0, 0, 9, 171, 205],
         Event.finish_ptr [18, 0, 100, 1, 44, 0, 0, 0, 10, 171, 205] 11 (some 3),
         Event.mesh_write 3 [2, 18, 0, 100, 1, 44, 0, 0, 0, 10, 171, 205]]
    ∧ (send_immediate_callback_data 3 100 7 [171, 205] 2 (sample_node true [sample_feed])).devices
      = (sample_node true [sample_feed]).devices := by
  have h : send_immediate_callback_data fuel 100 7 (List.replicate 23 171) 23
      (sample_node true [sample_feed])
      = (sample_feed.subscriptions.subscribers.drop 1).foldl
          (fun st sub =>
            if st.stuck then st
            else if sub.action_id ≠ 7 then st
            else
              finish_ptr fuel (dispatch_packet fuel)
                { (alloc_logical_packet_ptr st sub.addr sample_feed.self_port 23
                    OverlayProtoType.UNRELIABLE LogicalPacketType.SUBSCRIPTION_CALLBACK).2 with
                  mem := net_memcpy
                    (net_store32
                      (alloc_logical_packet_ptr st sub.addr sample_feed.self_port 23
                        OverlayProtoType.UNRELIABLE
                        LogicalPacketType.SUBSCRIPTION_CALLBACK).2.mem
                      ((alloc_logical_packet_ptr st sub.addr sample_feed.self_port 23
                        OverlayProtoType.UNRELIABLE
                        LogicalPacketType.SUBSCRIPTION_CALLBACK).2.ptr + 5)
                      sub.subscription_id)
                    ((alloc_logical_packet_ptr st sub.addr sample_feed.self_port 23
                      OverlayProtoType.UNRELIABLE
                      LogicalPacketType.SUBSCRIPTION_CALLBACK).2.ptr + 9)
                    ((List.replicate 23 171).take 23) }
                (alloc_logical_packet_ptr st sub.addr sample_feed.self_port 23
                  OverlayProtoType.UNRELIABLE LogicalPacketType.SUBSCRIPTION_CALLBACK).1)
          (finish_ptr fuel (dispatch_packet fuel)
            { mem := [2, 18, 0, 100, 0, 200, 0, 0, 0, 9] ++ List.replicate 23 171
              block := Ptr.heap
              ptr := 1
              ovl := some { dst_phy := 2, stream_size := 33 }
              size := 32 }
            (sample_node true [sample_feed])) := rfl
  rw [h, finish_ptr_heap_unicast fuel _ _ _ { dst_phy := 2, stream_size := 33 } rfl rfl
    (by decide) rfl]
  exact ⟨rfl, rfl, rfl, rfl⟩

/-! ## The bytes of `HELLO_WORLD` -/

theorem take_succ_set (m : List Nat) (k b : Nat) (h : k < m.length) :
    (m.set k b).take (k + 1) = m.take k ++ [b] := by
  induction m generalizing k with
  | nil => simp at h
  | cons x rest ih =>
    cases k with
    | zero => simp
    | succ j =>
      simp only [List.length_cons] at h
      simp [ih j (by omega)]

/-- Copying `bs` to the end of a written prefix extends the prefix by `bs`. -/
theorem take_net_memcpy (bs : List Nat) : ∀ (m pre : List Nat) (k n : Nat),
    m.take k = pre → n = k + bs.length → n ≤ m.length →
    (net_memcpy m k bs).take n = pre ++ bs := by
  induction bs with
  | nil =>
    intro m pre k n hpre hn _
    subst hn
    simpa [net_memcpy] using hpre
  | cons b rest ih =>
    intro m pre k n hpre hn hlen
    simp only [List.length_cons] at hn
    simp only [net_memcpy]
    rw [ih (m.set k b) (pre ++ [b]) (k + 1) n
      (by rw [take_succ_set m k b (by omega), hpre]) (by omega)
      (by rw [List.length_set]; exact hlen)]
    simp

theorem take_net_store8 (m pre : List Nat) (k n v : Nat) (hpre : m.take k = pre)
    (hn : n = k + 1) (hlen : n ≤ m.length) : (net_store8 m k v).take n = pre ++ [v % 256] := by
  subst hn
  unfold net_store8
  rw [take_succ_set m k _ (by omega), hpre]

theorem sum_map_add_two {α : Type} (f : α → Nat) (l : List α) :
    (l.map (fun a => 2 + f a)).sum = 2 * l.length + (l.map f).sum := by
  induction l with
  | nil => rfl
  | cons a rest ih =>
    simp only [List.map_cons, List.sum_cons, List.length_cons, ih]
    omega

theorem length_take_mod (l : List Nat) : (l.take (l.length % 256)).length = l.length % 256 := by
  rw [List.length_take]
  exact Nat.min_eq_left (Nat.mod_le _ _)

/-- The attribute loop extends the written prefix by the records of the attributes. -/
theorem take_write_attribs (l : List DeviceAttrib) : ∀ (m pre : List Nat) (off : Nat),
    m.take off = pre →
    off + (l.map (fun a => 2 + (a.name_len + a.value_len))).sum ≤ m.length →
    (write_attribs m off l).2 = off + (l.map (fun a => 2 + (a.name_len + a.value_len))).sum
    ∧ (write_attribs m off l).1.length = m.length
    ∧ (write_attribs m off l).1.take (write_attribs m off l).2
        = pre ++ (l.map (fun a =>
            [a.name_len, a.value_len] ++ a.name.take a.name_len
              ++ a.value.take a.value_len)).flatten := by
  induction l with
  | nil =>
    intro m pre off hpre _
    simp [write_attribs, hpre]
  | cons a rest ih =>
    intro m pre off hpre hlen
    simp only [List.map_cons, List.sum_cons] at hlen
    have hn : (a.name.take a.name_len).length = a.name_len := length_take_mod a.name
    have hv : (a.value.take a.value_len).length = a.value_len := length_take_mod a.value
    have hnm : a.name_len % 256 = a.name_len := Nat.mod_mod _ _
    have hvm : a.value_len % 256 = a.value_len := Nat.mod_mod _ _
    have t1 := take_net_store8 m pre off (off + 1) a.name_len hpre rfl (by omega)
    have t2 := take_net_store8 (net_store8 m off a.name_len) _ (off + 1) (off + 2)
      a.value_len t1 rfl (by rw [length_net_store8]; omega)
    have t3 := take_net_memcpy (a.name.take a.name_len)
      (net_store8 (net_store8 m off a.name_len) (off + 1) a.value_len) _ (off + 2)
      (off + 2 + a.name_len) t2 (by rw [hn])
      (by rw [length_net_store8, length_net_store8]; omega)
    have t4 := take_net_memcpy (a.value.take a.value_len)
      (net_memcpy (net_store8 (net_store8 m off a.name_len) (off + 1) a.value_len) (off + 2)
        (a.name.take a.name_len)) _ (off + 2 + a.name_len)
      (off + 2 + a.name_len + a.value_len) t3 (by rw [hv])
      (by rw [length_net_memcpy, length_net_store8, length_net_store8]; omega)
    obtain ⟨i1, i2, i3⟩ := ih _ _ (off + 2 + a.name_len + a.value_len) t4
      (by rw [length_net_memcpy, length_net_memcpy, length_net_store8, length_net_store8]; omega)
    simp only [write_attribs]
    refine ⟨?_, ?_, ?_⟩
    · rw [i1]
      simp only [List.map_cons, List.sum_cons]
      omega
    · rw [i2, length_net_memcpy, length_net_memcpy, length_net_store8, length_net_store8]
    · rw [i3, hnm, hvm]
      simp [List.append_assoc]

/-- The action loop extends the written prefix by the records of the actions. -/
theorem take_write_actions (l : List DeviceApiAction) : ∀ (m pre : List Nat) (off : Nat),
    m.take off = pre →
    off + (l.map (fun a => 2 + a.length)).sum ≤ m.length →
    (write_actions m off l).2 = off + (l.map (fun a => 2 + a.length)).sum
    ∧ (write_actions m off l).1.length = m.length
    ∧ (write_actions m off l).1.take (write_actions m off l).2
        = pre ++ (l.map (fun a => [a.type % 256, a.length] ++ a.name.take a.length)).flatten := by
  induction l with
  | nil =>
    intro m pre off hpre _
    simp [write_actions, hpre]
  | cons a rest ih =>
    intro m pre off hpre hlen
    simp only [List.map_cons, List.sum_cons] at hlen
    have hn : (a.name.take a.length).length = a.length := length_take_mod a.name
    have hnm : a.length % 256 = a.length := Nat.mod_mod _ _
    have t1 := take_net_store8 m pre off (off + 1) a.type hpre rfl (by omega)
    have t2 := take_net_store8 (net_store8 m off a.type) _ (off + 1) (off + 2)
      a.length t1 rfl (by rw [length_net_store8]; omega)
    have t3 := take_net_memcpy (a.name.take a.length)
      (net_store8 (net_store8 m off a.type) (off + 1) a.length) _ (off + 2)
      (off + 2 + a.length) t2 (by rw [hn])
      (by rw [length_net_store8, length_net_store8]; omega)
    obtain ⟨i1, i2, i3⟩ := ih _ _ (off + 2 + a.length) t3
      (by rw [length_net_memcpy, length_net_store8, length_net_store8]; omega)
    simp only [write_actions]
    refine ⟨?_, ?_, ?_⟩
    · rw [i1]
      simp only [List.map_cons, List.sum_cons]
      omega
    · rw [i2, length_net_memcpy, length_net_store8, length_net_store8]
    · rw [i3, hnm]
      simp [List.append_assoc]

/-- The fixed part of a `HELLO_WORLD` on the overlay path: the overlay type byte, the
header written by `alloc_logical_packet_ptr` and the four fixed fields written by
`send_hello_world`, in the order of the code. -/
theorem take_hello_header (m : List Nat) (ovl type port dst nl ac cls acn : Nat)
    (h : 13 ≤ m.length) :
    (net_store8 (net_store32 (net_store8 (net_store8
      (net_store16 (net_store16 (net_store8 (net_store8 m 0 ovl) 1 type) (1 + 1) port) (1 + 3) dst)
      (1 + 9) nl) (1 + 10) ac) (1 + 5) cls) (1 + 11) acn).take 13
      = [ovl % 256, type % 256, port / 256 % 256, port % 256, dst / 256 % 256, dst % 256,
          cls / 16777216 % 256, cls / 65536 % 256, cls / 256 % 256, cls % 256,
          nl % 256, ac % 256, acn % 256] := by
  rcases m with _ | ⟨b0, m⟩
  · simp at h
  rcases m with _ | ⟨b1, m⟩
  · simp at h
  rcases m with _ | ⟨b2, m⟩
  · simp at h
  rcases m with _ | ⟨b3, m⟩
  · simp at h
  rcases m with _ | ⟨b4, m⟩
  · simp at h
  rcases m with _ | ⟨b5, m⟩
  · simp at h
  rcases m with _ | ⟨b6, m⟩
  · simp at h
  rcases m with _ | ⟨b7, m⟩
  · simp at h
  rcases m with _ | ⟨b8, m⟩
  · simp at h
  rcases m with _ | ⟨b9, m⟩
  · simp at h
  rcases m with _ | ⟨b10, m⟩
  · simp at h
  rcases m with _ | ⟨b11, m⟩
  · simp at h
  rcases m with _ | ⟨b12, m⟩
  · simp at h
  simp [net_store8, net_store16, net_store32, net_memcpy]

theorem length_attrib_records (l : List DeviceAttrib) :
    ((l.map (fun a =>
      [a.name_len, a.value_len] ++ a.name.take a.name_len ++ a.value.take a.value_len)).flatten).length
      = (l.map (fun a => 2 + (a.name_len + a.value_len))).sum := by
  induction l with
  | nil => rfl
  | cons a rest ih =>
    have hn : (a.name.take a.name_len).length = a.name_len := length_take_mod a.name
    have hv : (a.value.take a.value_len).length = a.value_len := length_take_mod a.value
    simp only [List.map_cons, List.flatten_cons, List.length_append, List.sum_cons, ih, hn, hv,
      List.length_cons, List.length_nil]
    omega

theorem length_action_records (l : List DeviceApiAction) :
    ((l.map (fun a => [a.type % 256, a.length] ++ a.name.take a.length)).flatten).length
      = (l.map (fun a => 2 + a.length)).sum := by
  induction l with
  | nil => rfl
  | cons a rest ih =>
    have hn : (a.name.take a.length).length = a.length := length_take_mod a.name
    simp only [List.map_cons, List.flatten_cons, List.length_append, List.sum_cons, ih, hn,
      List.length_cons, List.length_nil]

theorem length_hello_world_encoding (d : Device) :
    (hello_world_encoding d).length
      = 12 + d.name.length + (d.attribs.map (fun a => 2 + (a.name_len + a.value_len))).sum
        + (d.api_actions.map (fun a => 2 + a.length)).sum := by
  unfold hello_world_encoding
  simp only [List.length_append, length_attrib_records, length_action_records, List.length_cons,
    List.length_nil]

/-- The block of a packet for another node, as `alloc_logical_packet_ptr` returns it:
the overlay type byte and the logical header written into the memory of the block, which
is long enough for the packet. -/
theorem alloc_logical_mem_overlay (s : State) (dst : LogicalAddress) (src_port size : Nat)
    (type : LogicalPacketType) (hphy : s.self_addr ≠ dst.phy) :
    ∃ B, size + get_packet_size type + 1 ≤ B.length
      ∧ (alloc_logical_packet_ptr s dst src_port size OverlayProtoType.UNRELIABLE type).2.mem
        = net_store16 (net_store16 (net_store8 (net_store8 B 0 2) 1 type.toNat) (1 + 1) src_port)
            (1 + 3) dst.log := by
  unfold alloc_logical_packet_ptr alloc_raw_logical_ptr
  rw [if_neg hphy]
  exact ⟨_, length_block_memory_alloc s _, rfl⟩

/-- The block `send_hello_world` hands to `finish_ptr` for a destination on another node
starts with the overlay type byte `UNRELIABLE`, followed by the encoding of the device. -/
theorem send_hello_world_block (d : Device) (s : State) (dst_phy : Nat)
    (hphy : s.self_addr ≠ dst_phy) (hattr : d.attribs.length < 256)
    (hact : d.api_actions.length < 256) :
    ∃ p st, (∀ fuel dispatch,
        send_hello_world fuel dispatch d LogicalPacketType.HELLO_WORLD dst_phy BROADCAST_PORT s
          = finish_ptr fuel dispatch p st)
      ∧ st.self_addr = s.self_addr ∧ st.devices = s.devices ∧ st.trace = s.trace
      ∧ p.ptr = 1 ∧ p.size = (hello_world_encoding d).length
      ∧ p.ovl = some { dst_phy := dst_phy, stream_size := (hello_world_encoding d).length + 1 }
      ∧ p.mem.take ((hello_world_encoding d).length + 1) = 2 :: hello_world_encoding d := by
  have ha : d.attribs.length % 256 = d.attribs.length := Nat.mod_eq_of_lt hattr
  have hc : d.api_actions.length % 256 = d.api_actions.length := Nat.mod_eq_of_lt hact
  have hs1 : (d.attribs.map (fun a => 2 + (a.name_len + a.value_len))).sum
      = 2 * d.attribs.length + (d.attribs.map (fun a => a.name_len + a.value_len)).sum :=
    sum_map_add_two _ _
  have hs2 : (d.api_actions.map (fun a => 2 + a.length)).sum
      = 2 * d.api_actions.length + (d.api_actions.map (fun a => a.length)).sum :=
    sum_map_add_two _ _
  have hlen := length_hello_world_encoding d
  refine ⟨_, _, fun fuel dispatch => rfl, ?_, ?_, ?_, ?_, ?_, ?_, ?_⟩
  · rw [alloc_logical_state]
  · rw [alloc_logical_state]
  · rw [alloc_logical_state]
  · simp only [alloc_logical_ptr, if_neg hphy, OverlayPacket.get_packet_size]
  · dsimp only
    rw [alloc_logical_size, ha, hc, List.take_length, List.take_length]
    simp only [get_packet_size]
    omega
  · dsimp only
    rw [alloc_logical_ovl, if_neg hphy, ha, hc, List.take_length, List.take_length]
    simp only [get_packet_size, OverlayPacket.get_packet_size]
    have he : d.name.length + 2 * d.attribs.length + 2 * d.api_actions.length
        + (d.attribs.map (fun a => a.name_len + a.value_len)).sum
        + (d.api_actions.map (fun a => a.length)).sum + 12 + 1
        = (hello_world_encoding d).length + 1 := by omega
    rw [he]
  · obtain ⟨B, hB, hmem⟩ := alloc_logical_mem_overlay s
      { phy := dst_phy, log := BROADCAST_PORT } d.self_port
      (d.name.length + 2 * (d.attribs.length % 256) + 2 * (d.api_actions.length % 256)
        + (List.map (fun a => a.name_len + a.value_len)
            (List.take (d.attribs.length % 256) d.attribs)).sum
        + (List.map (fun a => a.length)
            (List.take (d.api_actions.length % 256) d.api_actions)).sum)
      LogicalPacketType.HELLO_WORLD hphy
    have hptr := alloc_logical_ptr s { phy := dst_phy, log := BROADCAST_PORT } d.self_port
      (d.name.length + 2 * (d.attribs.length % 256) + 2 * (d.api_actions.length % 256)
        + (List.map (fun a => a.name_len + a.value_len)
            (List.take (d.attribs.length % 256) d.attribs)).sum
        + (List.map (fun a => a.length)
            (List.take (d.api_actions.length % 256) d.api_actions)).sum)
      OverlayProtoType.UNRELIABLE LogicalPacketType.HELLO_WORLD
    rw [if_neg hphy] at hptr
    simp only [OverlayPacket.get_packet_size] at hptr
    simp only [hptr, hmem]
    rw [ha, hc, List.take_length, List.take_length] at hB ⊢
    simp only [get_packet_size] at hB
    have hH := take_hello_header B 2 LogicalPacketType.HELLO_WORLD.toNat d.self_port
      BROADCAST_PORT d.name.length d.attribs.length d.device_class d.api_actions.length
      (by omega)
    have t5 := take_net_memcpy d.name _ _ (1 + 12) (1 + 12 + d.name.length) hH rfl
      (by simp only [length_net_store8, length_net_store16, length_net_store32]; omega)
    obtain ⟨a1, a2, a3⟩ := take_write_attribs d.attribs _ _ (1 + 12 + d.name.length) t5
      (by simp only [length_net_memcpy, length_net_store8, length_net_store16,
            length_net_store32]
          omega)
    obtain ⟨c1, _, c3⟩ := take_write_actions d.api_actions _ _ _ a3
      (by rw [a2, a1]
          simp only [length_net_memcpy, length_net_store8, length_net_store16,
            length_net_store32]
          omega)
    rw [c1, a1] at c3
    have he : (hello_world_encoding d).length + 1
        = 1 + 12 + d.name.length
          + (d.attribs.map (fun a => 2 + (a.name_len + a.value_len))).sum
          + (d.api_actions.map (fun a => 2 + a.length)).sum := by omega
    rw [a1, he, c3]
    simp [hello_world_encoding, BROADCAST_PORT, LogicalPacketType.toNat]

/-- A request the node sent itself, handed to the local dispatcher: the device map stays
and nothing is written to the mesh (every reply is addressed to the node itself). -/
theorem dispatch_packet_request_local (fuel : Nat) (packet : List Nat) (size : Nat)
    (hb : builds_reply (load8 packet 0) = true) (st : State) :
    TraceStep (fun e => e.is_mesh_write = false) st
      (dispatch_packet fuel packet size st.self_addr st) := by
  cases fuel with
  | zero => exact traceStep_of_fields rfl rfl rfl
  | succ n =>
    show TraceStep _ st (dispatch_packet_body n (dispatch_packet n) packet size st.self_addr st)
    refine dispatch_body_step (fun e => e.is_mesh_write = false) n (dispatch_packet n) packet
      size st.self_addr rfl st ?_
    intro key st2 hself _
    cases hl : lookup_device st2 key with
    | none =>
      rw [handle_packet_unbound n _ key packet size st.self_addr st2 hl]
      exact traceStep_refl _ st2
    | some dev =>
      have h := handle_packet_reply_local n key packet size st2 dev hl hb
      rw [hself] at h
      have h0 : TraceStep (fun e => e.is_mesh_write = false) st2
          (st2.log (Event.on_general_packet_accept key (packet.take size) size st.self_addr)) :=
        traceStep_log st2 rfl
      refine traceStep_trans h0 (traceStep_mono ?_ h)
      intro e he
      cases e <;> simp [Event.is_aftermath, Event.is_mesh_write] at *

/-- Claim C24. On a node whose own address is not the broadcast address, for a device
with fewer than 256 attributes and actions (the counts are `ubyte` in the code):
`add_device` emits one packet, the `HELLO_WORLD` encoding of the device, and writes it
to the mesh once, to the broadcast address, as the overlay type byte `UNRELIABLE`
followed by that encoding; no event after that is a mesh write.  The encoding has
`12 + name_len + sum (2 + key_len + value_len) + sum (2 + action_name_len)` bytes. -/
theorem C24_add_device_sends_one_hello_world (fuel : Nat) (d : Device) (s : State)
    (hself : s.self_addr ≠ s.BROADCAST_FAR_ADDR) (hattr : d.attribs.length < 256)
    (hact : d.api_actions.length < 256) :
    (hello_world_encoding d).length
      = 12 + d.name.length + (d.attribs.map (fun a => 2 + a.name_len + a.value_len)).sum
        + (d.api_actions.map (fun a => 2 + a.length)).sum
    ∧ ∃ rest, (add_device fuel d s).trace
        = s.trace
          ++ Event.finish_ptr (hello_world_encoding d) (hello_world_encoding d).length
              (some s.BROADCAST_FAR_ADDR)
            :: Event.mesh_write s.BROADCAST_FAR_ADDR
                (OverlayProtoType.UNRELIABLE.toNat :: hello_world_encoding d)
            :: rest
      ∧ ∀ e ∈ rest, e.is_mesh_write = false := by
  refine ⟨?_, ?_⟩
  · rw [length_hello_world_encoding]
    simp only [Nat.add_assoc]
  · obtain ⟨p, st, hsend, hsa, hsd, hst, hptr, hsize, hovl, hmem⟩ :=
      send_hello_world_block d
        { s with devices := map_assign d.self_port d s.devices } s.BROADCAST_FAR_ADDR hself
        hattr hact
    have hraw : (p.mem.drop p.ptr).take p.size = hello_world_encoding d := by
      rw [hptr, hsize, List.take_drop, Nat.add_comm 1, hmem]
      rfl
    have hbyte : load8 (p.mem.drop p.ptr) 0 = 1 := by
      have h1 : load8 ((p.mem.drop p.ptr).take p.size) 0 = 1 := by
        rw [hraw]
        rfl
      rw [load8_take _ _ _ (by rw [hsize, length_hello_world_encoding]; omega)] at h1
      exact h1
    obtain ⟨_, _, tail, htr, hmesh, _⟩ := finish_ptr_shape (fun e => e.is_mesh_write = false) fuel
      (dispatch_packet fuel) p st
      (fun st2 _ _ => dispatch_packet_request_local fuel _ _ (by rw [hbyte]; rfl) st2)
    obtain ⟨rest, htail, hrest⟩ := hmesh _ hovl
    refine ⟨rest, ?_, hrest⟩
    unfold add_device
    rw [hsend, htr, htail, hst, hraw, hovl, hsize, hmem]
    rfl

/-- Claim C24 on the sample node: the button of scenario S1, registered on the empty
map, goes out as `01 00 64 FF FF 00 00 00 01 03 00 00 62 74 6E` behind the overlay type
byte `02`; the lamp, with one attribute and one action, has 24 bytes. -/
theorem C24_add_device_sends_one_hello_world_witness :
    (sample_node true []).self_addr ≠ (sample_node true []).BROADCAST_FAR_ADDR
    ∧ sample_button.attribs.length < 256 ∧ sample_button.api_actions.length < 256
    ∧ sample_lamp.attribs.length < 256 ∧ sample_lamp.api_actions.length < 256
    ∧ hello_world_encoding sample_button
      = [1, 0, 100, 255, 255, 0, 0, 0, 1, 3, 0, 0, 98, 116, 110]
    ∧ (hello_world_encoding sample_button).length = 15
    ∧ (∃ rest, (add_device 3 sample_button (sample_node true [])).trace
        = (sample_node true []).trace
          ++ Event.finish_ptr (hello_world_encoding sample_button)
              (hello_world_encoding sample_button).length
              (some (sample_node true []).BROADCAST_FAR_ADDR)
            :: Event.mesh_write (sample_node true []).BROADCAST_FAR_ADDR
                (OverlayProtoType.UNRELIABLE.toNat :: hello_world_encoding sample_button)
            :: rest
      ∧ ∀ e ∈ rest, e.is_mesh_write = false)
    ∧ (add_device 3 sample_button (sample_node true [])).trace
      = [Event.finish_ptr sample_hello 15 (some 4294967295),
         Event.mesh_write 4294967295 (2 :: sample_hello),
         Event.dispatch_packet sample_hello 15 1,
         Event.on_general_packet_accept 100 sample_hello 15 1]
    ∧ hello_world_encoding sample_lamp
      = [1, 0, 101, 255, 255, 0, 0, 0, 2, 4, 1, 1, 108, 97, 109, 112, 1, 1, 118, 49, 2, 2, 111, 110]
    ∧ (hello_world_encoding sample_lamp).length = 24 :=
  ⟨by decide, by decide, by decide, by decide, by decide, rfl,
    (C24_add_device_sends_one_hello_world 3 sample_button (sample_node true []) (by decide)
      (by decide) (by decide)).1.trans rfl,
    (C24_add_device_sends_one_hello_world 3 sample_button (sample_node true []) (by decide)
      (by decide) (by decide)).2,
    rfl, rfl,
    (C24_add_device_sends_one_hello_world 3 sample_lamp (sample_node true [sample_button])
      (by decide) (by decide) (by decide)).1.trans rfl⟩

/-! ## Sizes of the packets and the validity of an address -/

/-- Claim C37, failing input. The method `is_valid` answers `phy == NULL_ADDR`: the
default-constructed address (0, 0) is reported valid and the address of port 200 on
node 2 is reported not valid; in general the answer is true exactly when the physical
address is `NULL_ADDR`. -/
theorem C37_is_valid_is_inverted :
    LogicalAddress.default_constructed.is_valid = true
    ∧ LogicalAddress.is_valid { phy := 2, log := 200 } = false
    ∧ ∀ a : LogicalAddress, a.is_valid = true ↔ a.phy = LogicalAddress.NULL_ADDR := by
  refine ⟨rfl, rfl, fun a => ?_⟩
  simp [LogicalAddress.is_valid]

/-- Claim C33, failing input. `get_packet_size(FIELD_DICTIONARY_REQUEST)` is 6, one more
than the 5-byte header: `FieldDictionaryRequestPacket` has no member, and `sizeof` of
such a struct is 1.  A request built with payload size 0 for port 100 of node 2 has 6
logical bytes, the header and one byte that nothing writes: `00` on a fresh pool, `03`
in the slot that held the dictionary response sent before. -/
theorem C33_dictionary_request_has_six_bytes :
    get_packet_size LogicalPacketType.FIELD_DICTIONARY_REQUEST = 6
    ∧ get_header_size + payload_prefix_size LogicalPacketType.FIELD_DICTIONARY_REQUEST = 5
    ∧ (finish_ptr 2 (dispatch_packet 2)
        (alloc_logical_packet_ptr (sample_node true [sample_peer]) { phy := 2, log := 100 } 200 0
          OverlayProtoType.UNRELIABLE LogicalPacketType.FIELD_DICTIONARY_REQUEST).2
        (alloc_logical_packet_ptr (sample_node true [sample_peer]) { phy := 2, log := 100 } 200 0
          OverlayProtoType.UNRELIABLE LogicalPacketType.FIELD_DICTIONARY_REQUEST).1).trace
      = [Event.finish_ptr [3, 0, 200, 0, 100, 0] 6 (some 2),
         Event.mesh_write 2 [2, 3, 0, 200, 0, 100, 0]]
    ∧ ((finish_ptr 2 (dispatch_packet 2)
        (alloc_logical_packet_ptr
          (dispatch_packet 3 sample_dictionary_request 6 2 (sample_node true [sample_button]))
          { phy := 2, log := 100 } 200 0
          OverlayProtoType.UNRELIABLE LogicalPacketType.FIELD_DICTIONARY_REQUEST).2
        (alloc_logical_packet_ptr
          (dispatch_packet 3 sample_dictionary_request 6 2 (sample_node true [sample_button]))
          { phy := 2, log := 100 } 200 0
          OverlayProtoType.UNRELIABLE LogicalPacketType.FIELD_DICTIONARY_REQUEST).1).trace).drop 4
      = [Event.finish_ptr [3, 0, 200, 0, 100, 3] 6 (some 2),
         Event.mesh_write 2 [2, 3, 0, 200, 0, 100, 3]] := by
  refine ⟨rfl, rfl, ?_, ?_⟩ <;> rfl

/-- Claim C32. For the opcodes with a payload contract other than
`FIELD_DICTIONARY_REQUEST`, `get_packet_size` is the 5-byte header plus the fixed payload
prefix of section 4.1, that is 12, 12, 7, 9, 9, 8, 9, 17, 13, 9, 9.  For every state,
destination, source port, payload size, overlay type and opcode,
`alloc_logical_packet_ptr` asks the pool for overlay header + `get_packet_size(opcode)`
+ payload size bytes, where the overlay header is 0 on loopback, 1 for `UNRELIABLE` and
3 for `RELIABLE`; the block is at least that long, the logical size of the packet is
`get_packet_size(opcode)` + payload size, and the mesh stream of a packet for another
node has the total size. -/
theorem C32_packet_size_is_header_plus_prefix (s : State) (dst : LogicalAddress)
    (src_port size : Nat) (ovl_type : OverlayProtoType) (type : LogicalPacketType) :
    [LogicalPacketType.HELLO_WORLD, LogicalPacketType.HELLO_WORLD_RESPONSE,
      LogicalPacketType.FIELD_DICTIONARY_RESPONSE, LogicalPacketType.ACTION_EXECUTE,
      LogicalPacketType.ACTION_EXECUTE_RESULT, LogicalPacketType.ACTION_FETCH,
      LogicalPacketType.ACTION_RESPONSE, LogicalPacketType.SUBSCRIPTION_START,
      LogicalPacketType.SUBSCRIPTION_DONE, LogicalPacketType.SUBSCRIPTION_CALLBACK,
      LogicalPacketType.SUBSCRIPTION_STOP].map get_packet_size
      = [12, 12, 7, 9, 9, 8, 9, 17, 13, 9, 9]
    ∧ [LogicalPacketType.HELLO_WORLD, LogicalPacketType.HELLO_WORLD_RESPONSE,
        LogicalPacketType.FIELD_DICTIONARY_RESPONSE, LogicalPacketType.ACTION_EXECUTE,
        LogicalPacketType.ACTION_EXECUTE_RESULT, LogicalPacketType.ACTION_FETCH,
        LogicalPacketType.ACTION_RESPONSE, LogicalPacketType.SUBSCRIPTION_START,
        LogicalPacketType.SUBSCRIPTION_DONE, LogicalPacketType.SUBSCRIPTION_CALLBACK,
        LogicalPacketType.SUBSCRIPTION_STOP].map get_packet_size
      = [LogicalPacketType.HELLO_WORLD, LogicalPacketType.HELLO_WORLD_RESPONSE,
          LogicalPacketType.FIELD_DICTIONARY_RESPONSE, LogicalPacketType.ACTION_EXECUTE,
          LogicalPacketType.ACTION_EXECUTE_RESULT, LogicalPacketType.ACTION_FETCH,
          LogicalPacketType.ACTION_RESPONSE, LogicalPacketType.SUBSCRIPTION_START,
          LogicalPacketType.SUBSCRIPTION_DONE, LogicalPacketType.SUBSCRIPTION_CALLBACK,
          LogicalPacketType.SUBSCRIPTION_STOP].map
            (fun t => get_header_size + payload_prefix_size t)
    ∧ OverlayPacket.get_packet_size OverlayProtoType.UNRELIABLE = 1
    ∧ OverlayPacket.get_packet_size OverlayProtoType.RELIABLE = 3
    ∧ (alloc_logical_packet_ptr s dst src_port size ovl_type type).1.pool
        = (s.pool.alloc ((if s.self_addr = dst.phy then 0
            else OverlayPacket.get_packet_size ovl_type) + get_packet_size type + size)).1
    ∧ (alloc_logical_packet_ptr s dst src_port size ovl_type type).2.block
        = (s.pool.alloc ((if s.self_addr = dst.phy then 0
            else OverlayPacket.get_packet_size ovl_type) + get_packet_size type + size)).2
    ∧ (if s.self_addr = dst.phy then 0 else OverlayPacket.get_packet_size ovl_type)
          + get_packet_size type + size
        ≤ (alloc_logical_packet_ptr s dst src_port size ovl_type type).2.mem.length
    ∧ (alloc_logical_packet_ptr s dst src_port size ovl_type type).2.size
        = get_packet_size type + size
    ∧ (alloc_logical_packet_ptr s dst src_port size ovl_type type).2.ovl
        = if s.self_addr = dst.phy then none
          else some { dst_phy := dst.phy
                      stream_size := OverlayPacket.get_packet_size ovl_type
                        + get_packet_size type + size } := by
  obtain ⟨total, hpool, hblock, htotal⟩ := alloc_logical_pool s dst src_port size ovl_type type
  have hlen := alloc_logical_length s dst src_port size ovl_type type
  rw [alloc_logical_ptr] at hlen
  have heq : (if s.self_addr = dst.phy then 0 else OverlayPacket.get_packet_size ovl_type)
      + get_packet_size type + size = total := by
    rw [htotal]
    omega
  refine ⟨rfl, rfl, rfl, rfl, ?_, ?_, ?_, ?_, ?_⟩
  · rw [heq, hpool]
  · rw [heq, hblock]
  · omega
  · rw [alloc_logical_size, Nat.add_comm]
  · rw [alloc_logical_ovl]
    split_ifs
    · rfl
    · congr 2
      omega

/-! ## Subscription manager: one row for each subscription -/

theorem refresh_subscriber_keys (id : Nat) (addr : LogicalAddress) (e : Nat) :
    ∀ (l subs : List Subscriber), refresh_subscriber id addr e l = some subs →
      subs.map Subscriber.key = l.map Subscriber.key := by
  intro l
  induction l with
  | nil => intro subs h; simp [refresh_subscriber] at h
  | cons s rest ih =>
    intro subs h
    simp only [refresh_subscriber] at h
    split_ifs at h with hs
    · simp only [Option.some.injEq] at h
      subst h
      rfl
    · cases hr : refresh_subscriber id addr e rest with
      | none => rw [hr] at h; simp at h
      | some r =>
        rw [hr] at h
        simp only [Option.map_some', Option.some.injEq] at h
        subst h
        simp only [List.map_cons, ih r hr]

theorem refresh_subscriber_none_key (id : Nat) (addr : LogicalAddress) (e : Nat) :
    ∀ (l : List Subscriber), refresh_subscriber id addr e l = none →
      (id, addr) ∉ l.map Subscriber.key := by
  intro l
  induction l with
  | nil => intro _; simp
  | cons s rest ih =>
    intro h
    simp only [refresh_subscriber] at h
    split_ifs at h with hs
    cases hr : refresh_subscriber id addr e rest with
    | some r => rw [hr] at h; simp at h
    | none =>
      simp only [List.map_cons, List.mem_cons, not_or]
      refine ⟨?_, ih hr⟩
      intro heq
      apply hs
      simp only [Subscriber.key, Prod.mk.injEq] at heq
      exact ⟨heq.1.symm, heq.2.symm⟩

theorem update_periodic_walk_keys (port time : Nat) (l : List Subscriber) :
    ((update_periodic_walk port time l).1.map Subscriber.key).Sublist
      (l.map Subscriber.key) := by
  induction l with
  | nil => simp [update_periodic_walk]
  | cons s rest ih =>
    simp only [update_periodic_walk]
    split_ifs
    · exact List.Sublist.cons _ ih
    · exact List.Sublist.cons₂ _ ih
    · exact List.Sublist.cons₂ _ ih

/-- Every method of the manager keeps the keys of the subscriber list distinct. -/
theorem reachable_manager_nodup (m : SubscriptionManager) (h : ReachableManager m) :
    (m.subscribers.map Subscriber.key).Nodup := by
  induction h with
  | empty m h => rw [h]; exact List.nodup_nil
  | add_subscriber m packet size addr time _ ih =>
    unfold SubscriptionManager.add_subscriber
    cases hr : refresh_subscriber (net_load32 packet 0) addr
        ((time + duration_us (net_load16 packet 6)) % 2 ^ 64) m.subscribers with
    | some subs =>
      simp only []
      rw [refresh_subscriber_keys _ _ _ _ _ hr]
      exact ih
    | none =>
      simp only [List.map_append, List.map_cons, List.map_nil]
      rw [List.nodup_append]
      refine ⟨ih, List.nodup_singleton _, ?_⟩
      intro a ha hb
      rw [List.mem_singleton] at hb
      subst hb
      exact refresh_subscriber_none_key _ _ _ _ hr ha
  | stop_subscription m packet addr _ ih =>
    exact List.Nodup.sublist (List.Sublist.map _ (List.filter_sublist _)) ih
  | update_periodic m port time _ ih =>
    exact List.Nodup.sublist (update_periodic_walk_keys port time m.subscribers) ih
  | set_self_update_period m us_period time _ ih => exact ih
  | stop_self_update m _ ih => exact ih

theorem countP_key_le_one (id : Nat) (addr : LogicalAddress) (l : List Subscriber)
    (h : (l.map Subscriber.key).Nodup) :
    l.countP (fun sub => decide (sub.subscription_id = id ∧ sub.addr = addr)) ≤ 1 := by
  induction l with
  | nil => simp
  | cons s rest ih =>
    rw [List.map_cons, List.nodup_cons] at h
    by_cases hs : s.subscription_id = id ∧ s.addr = addr
    · have hzero : rest.countP
          (fun sub => decide (sub.subscription_id = id ∧ sub.addr = addr)) = 0 := by
        rw [List.countP_eq_zero]
        intro r hr hm
        have hm2 : r.subscription_id = id ∧ r.addr = addr := by simpa using hm
        apply h.1
        rw [List.mem_map]
        refine ⟨r, hr, ?_⟩
        simp only [Subscriber.key, hm2.1, hm2.2, hs.1, hs.2]
      rw [List.countP_cons_of_pos _ _ (by simpa using hs), hzero]
    · rw [List.countP_cons_of_neg _ _ (by simpa using hs)]
      exact ih h.2

/-- Claim C35. In every manager reached from an empty subscriber list by
`add_subscriber`, `stop_subscription` and `update_periodic` (and by the two methods of
the self-update timer), no two rows have the same subscription id and address: the keys
of the list are distinct, and for each pair (id, address) at most one row matches. -/
theorem C35_one_row_for_each_subscription (m : SubscriptionManager)
    (h : ReachableManager m) :
    (m.subscribers.map Subscriber.key).Nodup
    ∧ ∀ (id : Nat) (addr : LogicalAddress),
        m.subscribers.countP (fun sub => decide (sub.subscription_id = id ∧ sub.addr = addr))
          ≤ 1 :=
  ⟨reachable_manager_nodup m h,
    fun id addr => countP_key_le_one id addr m.subscribers (reachable_manager_nodup m h)⟩

/-- Claim C35 on a sample run: the `SUBSCRIPTION_START` of scenario S3 from port 200 of
node 2 twice, then from port 300 of node 3, then one tick: two rows, one for each
subscriber. -/
theorem C35_one_row_for_each_subscription_witness :
    ReachableManager (sample_three_starts.update_periodic 100 1499999).1
    ∧ (sample_three_starts.update_periodic 100 1499999).1.subscribers.map Subscriber.key
      = [(9, { phy := 2, log := 200 }), (9, { phy := 3, log := 300 })]
    ∧ ((sample_three_starts.update_periodic 100 1499999).1.subscribers.map
        Subscriber.key).Nodup :=
  ⟨ReachableManager.update_periodic _ _ _ (ReachableManager.add_subscriber _ _ _ _ _
      (ReachableManager.add_subscriber _ _ _ _ _ (ReachableManager.add_subscriber _ _ _ _ _
        (ReachableManager.empty _ rfl)))),
    rfl,
    (C35_one_row_for_each_subscription _
      (ReachableManager.update_periodic _ _ _ (ReachableManager.add_subscriber _ _ _ _ _
        (ReachableManager.add_subscriber _ _ _ _ _ (ReachableManager.add_subscriber _ _ _ _ _
          (ReachableManager.empty _ rfl)))))).1⟩

/-! ## Handlers of the opcodes that carry a payload -/

/-- The payload window handed to a hook: the bytes of the packet from the end of the
fixed prefix up to `size`; with `h ≤ size` bytes of prefix and a packet of at least
`size` bytes it has exactly `size - h` bytes. -/
theorem payload_window (packet : List Nat) (h size : Nat) :
    (packet.drop h).take (size - h) = (packet.take size).drop h
    ∧ (h ≤ size → size ≤ packet.length →
        ((packet.drop h).take (size - h)).length = size - h ∧ size - h + h = size) := by
  refine ⟨?_, fun h1 h2 => ⟨?_, by omega⟩⟩
  · by_cases hle : h ≤ size
    · rw [List.drop_take]
    · have h0 : size - h = 0 := by omega
      rw [h0, List.take_zero]
      symm
      rw [List.drop_eq_nil_iff]
      rw [List.length_take]
      omega
  · rw [List.length_take, List.length_drop]
    omega

/-- Claim C34. A bound device that accepts the packet, for each opcode that carries a
payload and every size of at least `get_packet_size(opcode)`: right after the acceptance
question the hook of the opcode is called with the ids read most significant byte first
from the packet (`action_id` and `request_id`, or the subscription id), the source
address (`src_phy`, source port of the packet), and as payload the bytes from the end of
the fixed prefix up to `size`, with the length `size - get_packet_size(opcode)`; for a
packet of `size` bytes the window has exactly that many bytes and the subtraction does
not underflow. -/
theorem C34_hooks_get_ids_source_and_payload (fuel : Nat) (port : Nat) (packet : List Nat)
    (size src_phy : Nat) (s : State) (d : Device) (hl : lookup_device s port = some d)
    (hacc : d.on_general_packet_accept packet size src_phy = true) :
    (load8 packet 0 = LogicalPacketType.ACTION_EXECUTE.toNat →
      get_packet_size LogicalPacketType.ACTION_EXECUTE ≤ size →
      ∃ rest, (handle_packet fuel (dispatch_packet fuel) port packet size src_phy s).trace
        = s.trace ++ Event.on_general_packet_accept port (packet.take size) size src_phy
          :: Event.on_action_set port (net_load16 packet 5)
              ((packet.drop (get_packet_size LogicalPacketType.ACTION_EXECUTE)).take
                (size - get_packet_size LogicalPacketType.ACTION_EXECUTE))
              (size - get_packet_size LogicalPacketType.ACTION_EXECUTE)
              { phy := src_phy, log := net_load16 packet 1 }
          :: rest)
    ∧ (load8 packet 0 = LogicalPacketType.ACTION_FETCH.toNat →
        get_packet_size LogicalPacketType.ACTION_FETCH ≤ size →
        handle_packet fuel (dispatch_packet fuel) port packet size src_phy s
          = (s.log (Event.on_general_packet_accept port (packet.take size) size src_phy)).log
              (Event.on_action_get port (net_load16 packet 5)
                ((packet.drop (get_packet_size LogicalPacketType.ACTION_FETCH)).take
                  (size - get_packet_size LogicalPacketType.ACTION_FETCH))
                (size - get_packet_size LogicalPacketType.ACTION_FETCH)
                { phy := src_phy, log := net_load16 packet 1 } (load8 packet 7)))
    ∧ (load8 packet 0 = LogicalPacketType.ACTION_RESPONSE.toNat →
        get_packet_size LogicalPacketType.ACTION_RESPONSE ≤ size →
        handle_packet fuel (dispatch_packet fuel) port packet size src_phy s
          = (s.log (Event.on_general_packet_accept port (packet.take size) size src_phy)).log
              (Event.on_action_get_response port (net_load16 packet 6)
                ((packet.drop (get_packet_size LogicalPacketType.ACTION_RESPONSE)).take
                  (size - get_packet_size LogicalPacketType.ACTION_RESPONSE))
                (size - get_packet_size LogicalPacketType.ACTION_RESPONSE)
                { phy := src_phy, log := net_load16 packet 1 } (load8 packet 8)))
    ∧ (load8 packet 0 = LogicalPacketType.SUBSCRIPTION_CALLBACK.toNat →
        get_packet_size LogicalPacketType.SUBSCRIPTION_CALLBACK ≤ size →
        handle_packet fuel (dispatch_packet fuel) port packet size src_phy s
          = (s.log (Event.on_general_packet_accept port (packet.take size) size src_phy)).log
              (Event.on_subscription_data port
                ((packet.drop (get_packet_size LogicalPacketType.SUBSCRIPTION_CALLBACK)).take
                  (size - get_packet_size LogicalPacketType.SUBSCRIPTION_CALLBACK))
                (size - get_packet_size LogicalPacketType.SUBSCRIPTION_CALLBACK)
                { phy := src_phy, log := net_load16 packet 1 } (net_load32 packet 5)))
    ∧ (∀ h, h ≤ size → size ≤ packet.length →
        (packet.drop h).take (size - h) = (packet.take size).drop h
        ∧ ((packet.drop h).take (size - h)).length = size - h
        ∧ size - h + h = size) := by
  refine ⟨?_, ?_, ?_, ?_, ?_⟩
  · intro htype hsize
    simp only [get_packet_size] at hsize ⊢
    unfold handle_packet
    simp only [hl, hacc, htype, ofNat?_toNat, Bool.not_true]
    rw [if_neg (by simp), if_neg (by omega : ¬ 9 > size)]
    split_ifs
    · obtain ⟨_, _, evs, htr, _⟩ := action_execute_reply_step (fun _ => True) true_closed fuel
        d.self_port
        (d.on_action_set (net_load16 packet 5) ((packet.drop 9).take (size - 9)) (size - 9)
          { phy := src_phy, log := net_load16 packet 1 })
        (load8 packet 7) { phy := src_phy, log := net_load16 packet 1 }
        ((s.log (Event.on_general_packet_accept port (packet.take size) size src_phy)).log
          (Event.on_action_set port (net_load16 packet 5) ((packet.drop 9).take (size - 9))
            (size - 9) { phy := src_phy, log := net_load16 packet 1 }))
      refine ⟨evs, ?_⟩
      rw [htr]
      simp [State.log]
    · exact ⟨[], by simp [State.log]⟩
  · intro htype hsize
    simp only [get_packet_size] at hsize ⊢
    unfold handle_packet
    simp only [hl, hacc, htype, ofNat?_toNat, Bool.not_true]
    rw [if_neg (by simp), if_neg (by omega : ¬ 8 > size)]
  · intro htype hsize
    simp only [get_packet_size] at hsize ⊢
    unfold handle_packet
    simp only [hl, hacc, htype, ofNat?_toNat, Bool.not_true]
    rw [if_neg (by simp), if_neg (by omega : ¬ 9 > size)]
  · intro htype hsize
    simp only [get_packet_size] at hsize ⊢
    unfold handle_packet
    simp only [hl, hacc, htype, ofNat?_toNat, Bool.not_true]
    rw [if_neg (by simp), if_neg (by omega : ¬ 9 > size)]
  · intro h h1 h2
    obtain ⟨w1, w2⟩ := payload_window packet h size
    exact ⟨w1, (w2 h1 h2).1, (w2 h1 h2).2⟩

/-- Claim C34 on the sample node: the button on port 100 gets, from port 200 of node 2,
the `ACTION_EXECUTE` of scenario S2, an `ACTION_FETCH` and an `ACTION_RESPONSE` for
action 7 with request 42 and payload `AB CD`, and a `SUBSCRIPTION_CALLBACK` with id 265
and the same payload. -/
theorem C34_hooks_get_ids_source_and_payload_witness :
    lookup_device (sample_node true [sample_button]) 100 = some sample_button
    ∧ sample_button.on_general_packet_accept sample_execute 10 2 = true
    ∧ get_packet_size LogicalPacketType.ACTION_EXECUTE ≤ 10
    ∧ get_packet_size LogicalPacketType.ACTION_FETCH ≤ 10
    ∧ get_packet_size LogicalPacketType.ACTION_RESPONSE ≤ 11
    ∧ get_packet_size LogicalPacketType.SUBSCRIPTION_CALLBACK ≤ 11
    ∧ (∃ rest, (handle_packet 2 (dispatch_packet 2) 100 sample_execute 10 2
          (sample_node true [sample_button])).trace
        = Event.on_general_packet_accept 100 sample_execute 10 2
          :: Event.on_action_set 100 7 [171] 1 { phy := 2, log := 200 } :: rest)
    ∧ (handle_packet 2 (dispatch_packet 2) 100 [14, 0, 200, 0, 100, 0, 7, 42, 171, 205] 10 2
        (sample_node true [sample_button])).trace
      = [Event.on_general_packet_accept 100 [14, 0, 200, 0, 100, 0, 7, 42, 171, 205] 10 2,
         Event.on_action_get 100 7 [171, 205] 2 { phy := 2, log := 200 } 42]
    ∧ (handle_packet 2 (dispatch_packet 2) 100 [15, 0, 200, 0, 100, 1, 0, 7, 42, 171, 205] 11 2
        (sample_node true [sample_button])).trace
      = [Event.on_general_packet_accept 100 [15, 0, 200, 0, 100, 1, 0, 7, 42, 171, 205] 11 2,
         Event.on_action_get_response 100 7 [171, 205] 2 { phy := 2, log := 200 } 42]
    ∧ (handle_packet 2 (dispatch_packet 2) 100 [18, 0, 200, 0, 100, 0, 0, 1, 9, 171, 205] 11 2
        (sample_node true [sample_button])).trace
      = [Event.on_general_packet_accept 100 [18, 0, 200, 0, 100, 0, 0, 1, 9, 171, 205] 11 2,
         Event.on_subscription_data 100 [171, 205] 2 { phy := 2, log := 200 } 265] :=
  ⟨rfl, rfl, by decide, by decide, by decide, by decide,
    (C34_hooks_get_ids_source_and_payload 2 100 sample_execute 10 2
      (sample_node true [sample_button]) sample_button rfl rfl).1 rfl (by decide),
    by
      rw [(C34_hooks_get_ids_source_and_payload 2 100 [14, 0, 200, 0, 100, 0, 7, 42, 171, 205]
        10 2 (sample_node true [sample_button]) sample_button rfl rfl).2.1 rfl (by decide)]
      rfl,
    by
      rw [(C34_hooks_get_ids_source_and_payload 2 100
        [15, 0, 200, 0, 100, 1, 0, 7, 42, 171, 205] 11 2 (sample_node true [sample_button])
        sample_button rfl rfl).2.2.1 rfl (by decide)]
      rfl,
    by
      rw [(C34_hooks_get_ids_source_and_payload 2 100
        [18, 0, 200, 0, 100, 0, 0, 1, 9, 171, 205] 11 2 (sample_node true [sample_button])
        sample_button rfl rfl).2.2.2.1 rfl (by decide)]
      rfl⟩

/-! ## Broadcast round and callbacks -/

/-- With hooks that do not call back, the loop with callbacks is the broadcast loop of
`dispatch_packet`. -/
theorem broadcast_loop_no_callback (fuel : Nat) (packet : List Nat) (size src_phy : Nat)
    (s0 : State) :
    broadcast_loop_calling_back fuel (fun _ st => st) packet size src_phy s0
      = s0.devices.foldl
          (fun st e =>
            if st.stuck then st
            else handle_packet fuel (dispatch_packet fuel) e.1 packet size src_phy st)
          s0 := by
  unfold broadcast_loop_calling_back
  congr 1
  funext st e
  split_ifs
  · rfl
  · cases hl : lookup_device st e.1 with
    | none => exact (handle_packet_unbound fuel _ e.1 packet size src_phy st hl).symm
    | some d => rfl

/-- A broadcast handed to `dispatch_packet` on a node whose hooks do not call back runs
the loop with callbacks from the state with the entry recorded. -/
theorem dispatch_packet_broadcast_loop (fuel : Nat) (packet : List Nat) (size src_phy : Nat)
    (s : State) (h5 : 5 ≤ size) (hport : net_load16 packet 3 = BROADCAST_PORT) :
    dispatch_packet (fuel + 1) packet size src_phy s
      = broadcast_loop_calling_back fuel (fun _ st => st) packet size src_phy
          (s.log (Event.dispatch_packet (packet.take size) size src_phy)) := by
  rw [broadcast_loop_no_callback]
  show dispatch_packet_body fuel (dispatch_packet fuel) packet size src_phy s = _
  unfold dispatch_packet_body
  simp only [LOG_PACKET_SIZE_dst_addr]
  exact (if_neg (by omega)).trans ((if_pos hport).trans rfl)

/-- Claim C31, failing input. Node 1 with the button on port 100 and the peer on port
200, whose hooks unregister the other device when they handle a packet; the
`HELLO_WORLD_RESPONSE` broadcast of node 2 arrives.  Both devices are registered when the
round starts, and the loop walks the map itself: the device visited first erases the
other one, which is then not handed the packet, whichever of the two comes first in the
map.  With hooks that do not call back both devices are handed the packet. -/
theorem C31_erased_device_misses_the_round :
    (sample_node true [sample_button, sample_peer]).devices.map Prod.fst = [100, 200]
    ∧ (broadcast_loop_calling_back 2 sample_unregister_other sample_response 13 2
        ((sample_node true [sample_button, sample_peer]).log
          (Event.dispatch_packet sample_response 13 2))).trace
      = [Event.dispatch_packet sample_response 13 2,
         Event.on_general_packet_accept 100 sample_response 13 2,
         Event.on_device_discover 100 sample_response 13 2]
    ∧ (broadcast_loop_calling_back 2 sample_unregister_other sample_response 13 2
        ((sample_node true [sample_peer, sample_button]).log
          (Event.dispatch_packet sample_response 13 2))).trace
      = [Event.dispatch_packet sample_response 13 2,
         Event.on_general_packet_accept 200 sample_response 13 2,
         Event.on_device_discover 200 sample_response 13 2]
    ∧ (broadcast_loop_calling_back 2 (fun _ st => st) sample_response 13 2
        ((sample_node true [sample_button, sample_peer]).log
          (Event.dispatch_packet sample_response 13 2))).trace
      = [Event.dispatch_packet sample_response 13 2,
         Event.on_general_packet_accept 100 sample_response 13 2,
         Event.on_device_discover 100 sample_response 13 2,
         Event.on_general_packet_accept 200 sample_response 13 2,
         Event.on_device_discover 200 sample_response 13 2]
    ∧ dispatch_packet 3 sample_response 13 2 (sample_node true [sample_button, sample_peer])
      = broadcast_loop_calling_back 2 (fun _ st => st) sample_response 13 2
          ((sample_node true [sample_button, sample_peer]).log
            (Event.dispatch_packet sample_response 13 2)) := by
  refine ⟨rfl, rfl, rfl, rfl, ?_⟩
  exact dispatch_packet_broadcast_loop 2 sample_response 13 2 _ (by decide) (by decide)

/-! ## Replies to replies, and returning -/

/-- The packets the dispatcher builds itself (`HELLO_WORLD_RESPONSE`,
`FIELD_DICTIONARY_RESPONSE`, `ACTION_EXECUTE_RESULT`), handed to the dispatcher from any
source with fuel for one call: it returns, the pool is as before, and no event it
appends is an emission or a mesh write. -/
theorem dispatch_packet_reply_passive (fuel : Nat) (packet : List Nat) (size src_phy : Nat)
    (s : State)
    (hty : load8 packet 0 = LogicalPacketType.HELLO_WORLD_RESPONSE.toNat
      ∨ load8 packet 0 = LogicalPacketType.FIELD_DICTIONARY_RESPONSE.toNat
      ∨ load8 packet 0 = LogicalPacketType.ACTION_EXECUTE_RESULT.toNat) :
    (dispatch_packet (fuel + 1) packet size src_phy s).stuck = s.stuck
    ∧ (dispatch_packet (fuel + 1) packet size src_phy s).pool = s.pool
    ∧ ∃ evs, (dispatch_packet (fuel + 1) packet size src_phy s).trace = s.trace ++ evs
      ∧ ∀ e ∈ evs, e.is_passive = true := by
  have hq : builds_reply (load8 packet 0) = false := by
    rcases hty with h | h | h <;> rw [h] <;> rfl
  obtain ⟨⟨_, _, evs, htr, hp⟩, hpool, hstuck⟩ := dispatch_packet_quiet
    (fun e => e.is_passive = true) fuel packet size src_phy hq rfl (fun _ => rfl)
    (fun e he => by cases e <;> simp [Event.is_hook_call, Event.is_passive] at *) s
  exact ⟨hstuck, hpool, evs, htr, hp⟩

/-- Claim C36, failing input. The device with the 20-byte name and the hooks of the base
class on the sample node (slots of 32 bytes), and the `HELLO_WORLD` broadcast of port 200
of node 2: the response needs 33 bytes, its block comes from the heap, and no amount of
fuel makes `dispatch_packet` return.  With the button and the peer, whose responses fit
a slot, the same packet sent by the node itself is answered once, by the button; the
response is dispatched one call deeper, where it leads to `on_device_discover` of the
peer and to no further packet, and two calls of fuel are enough. -/
theorem C36_dispatch_does_not_return_after_heap_reply :
    (∀ fuel, (dispatch_packet fuel sample_foreign_hello 13 2
        (sample_node true [sample_long_name])).stuck = true)
    ∧ (dispatch_packet 2 sample_foreign_hello 13 1
        (sample_node true [sample_button, sample_peer])).stuck = false
    ∧ (dispatch_packet 2 sample_foreign_hello 13 1
        (sample_node true [sample_button, sample_peer])).trace
      = [Event.dispatch_packet sample_foreign_hello 13 1,
         Event.on_general_packet_accept 100 sample_foreign_hello 13 1,
         Event.finish_ptr [2, 0, 100, 0, 200, 0, 0, 0, 1, 3, 0, 0, 98, 116, 110] 15 none,
         Event.dispatch_packet [2, 0, 100, 0, 200, 0, 0, 0, 1, 3, 0, 0, 98, 116, 110] 15 1,
         Event.on_general_packet_accept 200
           [2, 0, 100, 0, 200, 0, 0, 0, 1, 3, 0, 0, 98, 116, 110] 15 1,
         Event.on_device_discover 200 [2, 0, 100, 0, 200, 0, 0, 0, 1, 3, 0, 0, 98, 116, 110] 15 1,
         Event.on_device_discover 100 sample_foreign_hello 13 1,
         Event.on_general_packet_accept 200 sample_foreign_hello 13 1] := by
  refine ⟨fun fuel => ?_, rfl, rfl⟩
  cases fuel with
  | zero => rfl
  | succ n =>
    have h : dispatch_packet (n + 1) sample_foreign_hello 13 2
        (sample_node true [sample_long_name])
        = (if (finish_ptr n (dispatch_packet n)
              { mem := [2, 2, 0, 100, 0, 200, 0, 0, 0, 1, 20, 0, 0] ++ List.replicate 20 97
                block := Ptr.heap
                ptr := 1
                ovl := some { dst_phy := 2, stream_size := 33 }
                size := 32 }
              (((sample_node true [sample_long_name]).log
                (Event.dispatch_packet sample_foreign_hello 13 2)).log
                (Event.on_general_packet_accept 100 sample_foreign_hello 13 2))).stuck
          then finish_ptr n (dispatch_packet n)
              { mem := [2, 2, 0, 100, 0, 200, 0, 0, 0, 1, 20, 0, 0] ++ List.replicate 20 97
                block := Ptr.heap
                ptr := 1
                ovl := some { dst_phy := 2, stream_size := 33 }
                size := 32 }
              (((sample_node true [sample_long_name]).log
                (Event.dispatch_packet sample_foreign_hello 13 2)).log
                (Event.on_general_packet_accept 100 sample_foreign_hello 13 2))
          else (finish_ptr n (dispatch_packet n)
              { mem := [2, 2, 0, 100, 0, 200, 0, 0, 0, 1, 20, 0, 0] ++ List.replicate 20 97
                block := Ptr.heap
                ptr := 1
                ovl := some { dst_phy := 2, stream_size := 33 }
                size := 32 }
              (((sample_node true [sample_long_name]).log
                (Event.dispatch_packet sample_foreign_hello 13 2)).log
                (Event.on_general_packet_accept 100 sample_foreign_hello 13 2))).log
            (Event.on_device_discover 100 sample_foreign_hello 13 2)) := rfl
    rw [h, finish_ptr_heap_unicast n _ _ _ { dst_phy := 2, stream_size := 33 } rfl rfl
      (by decide) rfl]
    rfl

end Khawasu
